import Mathlib

/-!
# SkyPhys: verification development

A shallow embedding of parts of the SkyPhys flight-dynamics plugin and
theorems about it.  The C++ `float` is idealised as the exact rationals `ℚ`
(no rounding, no NaN, no infinities); C++ `int` indices are `Int`.  Loops that
the C++ text does not bound are embedded with an explicit fuel argument and
return `none` when the fuel runs out before the loop condition turns false.
Array accesses (`TArray::operator[]`) are embedded as partial look-ups.
-/

namespace SkyPhys

/-! ## `Public/Common/Utils/Integrator.h` -/

/-- The data members of `class Integrator` with their in-class initialisers
(`X = 0.0f`, `UPrev = 0`, `Y = 0.0f`, `DtMin = 0.01f`); the default value of the
structure is the default constructor `Integrator()`. -/
structure Integrator where
  X : ℚ := 0
  UPrev : ℚ := 0
  Y : ℚ := 0
  DtMin : ℚ := 1 / 100
deriving DecidableEq

namespace Integrator

/-- Constructor `Integrator(float InitialState)`: `X`, `UPrev` and `Y` are all
set to the initial state, `DtMin` keeps its initialiser. -/
def mk1 (InitialState : ℚ) : Integrator :=
  { X := InitialState, UPrev := InitialState, Y := InitialState }

/-- Constructor `Integrator(float InitialState, float DtMin)`. -/
def mk2 (InitialState DtMin : ℚ) : Integrator :=
  { X := InitialState, UPrev := InitialState, Y := InitialState, DtMin := DtMin }

/-- Private method `Run(Dt, U)`: one trapezoidal update.  Returns the value
returned by the C++ method and the object after the call. -/
def Run (s : Integrator) (Dt U : ℚ) : ℚ × Integrator :=
  let Y := s.X + (Dt / 2) * (U + s.UPrev)
  (Y, { s with Y := Y, X := Y, UPrev := U })

/-- The `while (dtCumulative < Dt)` loop of `Integrate`, with the loop
variables `dtCumulative` and `y` as arguments.  One unit of fuel is spent per
iteration of the body. -/
def IntegrateLoop : Nat → Integrator → ℚ → ℚ → ℚ → ℚ → Option (ℚ × Integrator)
  | 0, s, Dt, _, dtCumulative, y =>
    if dtCumulative < Dt then none else some (y, s)
  | fuel + 1, s, Dt, U, dtCumulative, y =>
    if dtCumulative < Dt then
      let tIncrement := if (Dt - dtCumulative) > s.DtMin then s.DtMin else (Dt - dtCumulative)
      let r := s.Run tIncrement U
      IntegrateLoop fuel r.2 Dt U (dtCumulative + tIncrement) r.1
    else some (y, s)

/-- Method `Integrate(Dt, U)`.  `none` means that the sub-step loop did not
exit within `fuel` iterations. -/
def Integrate (fuel : Nat) (s : Integrator) (Dt U : ℚ) : Option (ℚ × Integrator) :=
  if Dt > s.DtMin then
    IntegrateLoop fuel s Dt U 0 0
  else
    some (s.Run Dt U)

/-- A sequence of `Integrate` calls on the same object, one per `(Dt, U)` pair
of the list, in order.  The first component of the result is the value
returned by the last call (`y0` when the list is empty). -/
def IntegrateSeq (fuel : Nat) : List (ℚ × ℚ) → Integrator → ℚ → Option (ℚ × Integrator)
  | [], s, y0 => some (y0, s)
  | (Dt, U) :: rest, s, _ =>
    match Integrate fuel s Dt U with
    | none => none
    | some (y, s') => IntegrateSeq fuel rest s' y

end Integrator

/-! ## Engine routines used by the sources

The Unreal Engine is not part of the repository; the routines below are the
ones the embedded functions call. -/

/-- Modelled from the spec: the engine constant `SMALL_NUMBER` (`1.e-8f`), the
default tolerance of `FMath::IsNearlyZero` and the threshold of
`FMath::FInterpConstantTo`; no source file of the repository declares it. -/
def SMALL_NUMBER : ℚ := 1 / 100000000

/-- Modelled from the spec: the constant `FLT_MAX` of `<cfloat>`, the largest
finite `float`, `(2 - 2^(-23)) * 2^127`. -/
def FLT_MAX : ℚ := 340282346638528859811704183484516925440

/-- Modelled from the spec: the engine routine `FMath::Clamp(X, Min, Max)`, which
limits `X` to the range from `Min` to `Max` ("clamped to table bounds"); it
is evaluated as `X < Min ? Min : (X < Max ? X : Max)`. -/
def Clamp {α : Type} [LinearOrder α] (X Min Max : α) : α :=
  if X < Min then Min else if X < Max then X else Max

/-- Modelled from the spec: the engine routine `FMath::IsNearlyZero(Value)` with
its default tolerance, `|Value| <= SMALL_NUMBER` (the "zero-length-interval
guard" of the table look-up). -/
def IsNearlyZero (Value : ℚ) : Bool := decide (|Value| ≤ SMALL_NUMBER)

/-- Modelled from the spec: the engine routine `Algo::UpperBound(Range, Value)`.
The comment at its call site and the spec describe its result: "the index of
the first value > the value provided" ("first index with breakpoint value
greater than query"), the length of the range when there is none.  The engine
searches by bisection, which gives this index on a sorted range. -/
def UpperBound (Range : List ℚ) (Value : ℚ) : Int :=
  (Range.findIdx (fun x => decide (Value < x)) : Nat)

/-- Modelled from the spec: the engine routine
`FMath::FInterpConstantTo(Current, Target, DeltaTime, InterpSpeed)`: the
target itself when it is within a squared distance of `SMALL_NUMBER`, else a
move from `Current` toward `Target` by at most `InterpSpeed * DeltaTime`. -/
def FInterpConstantTo (Current Target DeltaTime InterpSpeed : ℚ) : ℚ :=
  let Dist := Target - Current
  if Dist * Dist < SMALL_NUMBER then Target
  else
    let Step := InterpSpeed * DeltaTime
    Current + Clamp Dist (-Step) Step

/-- The array length `TArray::Num()`, an `int`. -/
def Num {α : Type} (xs : List α) : Int := (xs.length : Nat)

/-- The array access `TArray::operator[]` with an `int` index: `none` when the
index is out of range (the engine's range check fails there). -/
def At {α : Type} (xs : List α) (i : Int) : Option α :=
  if 0 ≤ i then xs[i.toNat]? else none

/-! ## `Private/Actuation/Propulsion/Propeller/PropellerPropulsion.cpp` -/

/-- Modelled from the spec: `FAerodynamicConstantResults`, declared in the header
`PropellerPropulsion.h`, which is not among the sources: the pair `(CT, CP)`
that `GetAerodynamicConstants` returns. -/
structure FAerodynamicConstantResults where
  CT : ℚ
  CP : ℚ
deriving DecidableEq

/-- Modelled from the spec: `FConstantSpeedPropellerPhysicsParameters`, declared
in the missing header `PropellerPropulsion.h`: one table row, a rotation-speed
breakpoint `n` carrying its own array of `J` breakpoints with parallel `CT` and
`CP` arrays. -/
structure FConstantSpeedPropellerPhysicsParameters where
  n : ℚ
  J : List ℚ
  CT : List ℚ
  CP : List ℚ

/-- Modelled from the spec: the members of
`UPropellerPropulsionStaticMeshComponent` (declared in the missing header) that
the table look-up reads:
`PhysicsParameters.ConstantSpeedPropellerPhysicsParameters` and, from
`PropellerPhysicsCalculationParameters`, `NArray` and
`bPhysicsParametersInitialized`. -/
structure PropellerTable where
  ConstantSpeedPropellerPhysicsParameters : List FConstantSpeedPropellerPhysicsParameters
  NArray : List ℚ := []
  bPhysicsParametersInitialized : Bool := false

/-- Method `InitializePropellerPhysics`: on the first call the rotation-speed
breakpoint of every row is appended to `NArray`. -/
def InitializePropellerPhysics (p : PropellerTable) : PropellerTable :=
  if !p.bPhysicsParametersInitialized then
    { p with
      NArray := p.NArray ++ p.ConstantSpeedPropellerPhysicsParameters.map (fun r => r.n)
      bPhysicsParametersInitialized := true }
  else p

/-- The along-`J` part of `GetAerodynamicConstants` for one row: source lines
272-296 for row `n1i` (and, with the names `jn2`, `j22i`, `j21i`, `j2Frac`,
lines 309-330 for row `n2i`).  Returns the pair `(CT1, CP1)`. -/
def InterpolateAlongJ (row : FConstantSpeedPropellerPhysicsParameters) (J : ℚ) :
    Option (ℚ × ℚ) := do
  let jn1 := row.J
  let CTn1 := row.CT
  let CPn1 := row.CP
  let j12i := Clamp (UpperBound jn1 J) 0 (Num jn1 - 1)
  let j11i := Clamp (j12i - 1) 0 (Num jn1 - 1)
  let CT1 ← At CTn1 j11i
  let CP1 ← At CPn1 j11i
  if j11i ≠ j12i then
    let j11 ← At jn1 j11i
    let j12 ← At jn1 j12i
    let j1Frac := Clamp (if IsNearlyZero (j12 - j11) then 0 else (j12 - J) / (j12 - j11)) 0 1
    let CT12 ← At CTn1 j12i
    let CT11 ← At CTn1 j11i
    let CP12 ← At CPn1 j12i
    let CP11 ← At CPn1 j11i
    pure (CT1 + j1Frac * (CT12 - CT11), CP1 + j1Frac * (CP12 - CP11))
  else
    pure (CT1, CP1)

/-- Method `GetAerodynamicConstants(n, J)` in exact arithmetic.  `none` stands
for an array access out of range.  The quotient `(n - n1) / (n2 - n1)` has a
zero divisor only when two rotation-speed breakpoints coincide (`ℚ` then gives
0 where C++ gives an infinity or a NaN); the properties below are about
strictly increasing breakpoints.  `GetAerodynamicConstantsRounded` follows the
same lines with every operation rounded and with the result that the `float`
division has for a zero divisor. -/
def GetAerodynamicConstants (p : PropellerTable) (n J : ℚ) :
    Option FAerodynamicConstantResults :=
  if Num p.NArray > 0 then do
    let n2i := Clamp (UpperBound p.NArray n) 0 (Num p.NArray - 1)
    let n1i := Clamp (n2i - 1) 0 (Num p.NArray - 1)
    let n1 ← At p.NArray n1i
    let n2 ← At p.NArray n2i
    let row1 ← At p.ConstantSpeedPropellerPhysicsParameters n1i
    let (CT1, CP1) ← InterpolateAlongJ row1 J
    if n1i ≠ n2i then
      let nFrac := Clamp ((n - n1) / (n2 - n1)) 0 1
      let row2 ← At p.ConstantSpeedPropellerPhysicsParameters n2i
      let (CT2, CP2) ← InterpolateAlongJ row2 J
      pure ⟨CT1 + nFrac * (CT2 - CT1), CP1 + nFrac * (CP2 - CP1)⟩
    else
      pure ⟨CT1, CP1⟩
  else
    some ⟨0, 0⟩

/-- A table row with two `J` breakpoints, used to evaluate the look-up. -/
def sampleRow1 : FConstantSpeedPropellerPhysicsParameters :=
  { n := 1000, J := [0, 1], CT := [1 / 10, 1 / 20], CP := [1 / 25, 1 / 50] }

/-- A second table row, at a higher rotation speed. -/
def sampleRow2 : FConstantSpeedPropellerPhysicsParameters :=
  { n := 2000, J := [0, 1], CT := [3 / 25, 3 / 50], CP := [1 / 20, 3 / 100] }

/-- A freshly configured component holding the given rows, after
`InitializePropellerPhysics`. -/
def tableOf (rows : List FConstantSpeedPropellerPhysicsParameters) : PropellerTable :=
  InitializePropellerPhysics { ConstantSpeedPropellerPhysicsParameters := rows }

/-! ## `Actuation/Actuators/ActuatorModel.h`, `Filters/FirstOrderActuator.{h,cpp}` -/

/-- The data members of `UFirstOrderActuator`, those inherited from
`UActuatorModel` first, with their in-class initialisers. -/
structure UFirstOrderActuator where
  RateLimit : ℚ := 0
  UpperSaturation : ℚ := 0
  LowerSaturation : ℚ := 0
  InitialActuatorState : ℚ := 0
  ActuatorState : ℚ := 0
  bActuatorInitialised : Bool := false
  wn : ℚ := 0
  DCGain : ℚ := 1
  integrator : Integrator := {}
deriving DecidableEq

namespace UFirstOrderActuator

/-- Method `UFirstOrderActuator::InitialiseActuator`. -/
def InitialiseActuator (a : UFirstOrderActuator) : UFirstOrderActuator :=
  { a with
    integrator := Integrator.mk1 a.InitialActuatorState
    ActuatorState := a.InitialActuatorState
    bActuatorInitialised := true }

/-- Method `UFirstOrderActuator::ApplyActuatorCommand(Command, DeltaTime)`: the
returned value and the actuator after the call; `none` when the integrator's
sub-step loop does not exit within `fuel` iterations. -/
def ApplyActuatorCommand (fuel : Nat) (a : UFirstOrderActuator) (Command DeltaTime : ℚ) :
    Option (ℚ × UFirstOrderActuator) :=
  let a := if !a.bActuatorInitialised then a.InitialiseActuator else a
  let Input := Command * a.DCGain
  let Feedback := a.integrator.X
  let IntegratorInput := a.wn * (Input - Feedback)
  match a.integrator.Integrate fuel DeltaTime IntegratorInput with
  | none => none
  | some (IntegratorOutputExpected, integrator) =>
    let IntegratorOutput := IntegratorOutputExpected
    let IntegratorOutput :=
      if a.RateLimit ≠ 0 then
        FInterpConstantTo Feedback IntegratorOutputExpected DeltaTime a.RateLimit
      else IntegratorOutput
    let IntegratorOutput :=
      if a.LowerSaturation ≠ 0 then Clamp IntegratorOutput a.LowerSaturation FLT_MAX
      else IntegratorOutput
    let IntegratorOutput :=
      if a.UpperSaturation ≠ 0 then Clamp IntegratorOutput (-FLT_MAX) a.UpperSaturation
      else IntegratorOutput
    some (IntegratorOutput,
      { a with integrator := integrator, ActuatorState := IntegratorOutput })

/-- Method `UFirstOrderActuator::GetActuatorState`. -/
def GetActuatorState (a : UFirstOrderActuator) : ℚ := a.ActuatorState

end UFirstOrderActuator

namespace UFirstOrderActuator

/-- A sequence of `ApplyActuatorCommand` calls on the same first-order actuator,
one per `(Command, DeltaTime)` pair of the list, in order.  The first
component of the result is the value returned by the last call (`y0` when the
list is empty). -/
def ApplySeq (fuel : Nat) :
    List (ℚ × ℚ) → UFirstOrderActuator → ℚ → Option (ℚ × UFirstOrderActuator)
  | [], a, y0 => some (y0, a)
  | (Command, DeltaTime) :: rest, a, _ =>
    match ApplyActuatorCommand fuel a Command DeltaTime with
    | none => none
    | some (y, a') => ApplySeq fuel rest a' y

end UFirstOrderActuator

/-! ## `Private/Actuation/Actuators/Filters/SecondOrderActuator.cpp` -/

/-- Modelled from the spec: the data members of `USecondOrderActuator`.  Its
header `SecondOrderActuator.h` is not among the sources; the members are those
inherited from `UActuatorModel` (with their initialisers) and the ones that
`SecondOrderActuator.cpp` uses: natural frequency `wn`, damping ratio `zeta`,
`DCGain`, and the two cascaded integrators. -/
structure USecondOrderActuator where
  RateLimit : ℚ := 0
  UpperSaturation : ℚ := 0
  LowerSaturation : ℚ := 0
  InitialActuatorState : ℚ := 0
  ActuatorState : ℚ := 0
  bActuatorInitialised : Bool := false
  wn : ℚ
  zeta : ℚ
  DCGain : ℚ
  integrator1 : Integrator := {}
  integrator2 : Integrator := {}
deriving DecidableEq

namespace USecondOrderActuator

/-- Method `USecondOrderActuator::InitialiseActuator`. -/
def InitialiseActuator (a : USecondOrderActuator) : USecondOrderActuator :=
  { a with
    integrator1 := Integrator.mk1 0
    integrator2 := Integrator.mk1 a.InitialActuatorState
    ActuatorState := a.InitialActuatorState
    bActuatorInitialised := true }

/-- Method `USecondOrderActuator::ApplyActuatorCommand(Command, DeltaTime)`: the
returned value and the actuator after the call; `none` when a sub-step loop of
one of the two integrators does not exit within `fuel` iterations.
`pow(wn, 2.0f)` is the square `wn ^ 2`. -/
def ApplyActuatorCommand (fuel : Nat) (a : USecondOrderActuator) (Command DeltaTime : ℚ) :
    Option (ℚ × USecondOrderActuator) :=
  let a := if !a.bActuatorInitialised then a.InitialiseActuator else a
  let Input := Command * a.DCGain * a.wn ^ 2
  let Feedback2 := a.integrator2.X * a.wn ^ 2
  let Feedback1 := a.integrator1.X * 2 * a.zeta * a.wn
  let Integrator1Input := Input - Feedback2 - Feedback1
  match a.integrator1.Integrate fuel DeltaTime Integrator1Input with
  | none => none
  | some (Integrator1Output, integrator1) =>
    let Integrator2Input := Integrator1Output
    let Integrator2Current := a.integrator2.X
    match a.integrator2.Integrate fuel DeltaTime Integrator2Input with
    | none => none
    | some (Integrator2OutputExpected, integrator2) =>
      let Output := Integrator2OutputExpected
      let Output :=
        if a.RateLimit ≠ 0 then
          FInterpConstantTo Integrator2Current Integrator2OutputExpected DeltaTime a.RateLimit
        else Output
      let Output :=
        if a.LowerSaturation ≠ 0 then Clamp Output a.LowerSaturation FLT_MAX else Output
      let Output :=
        if a.UpperSaturation ≠ 0 then Clamp Output (-FLT_MAX) a.UpperSaturation else Output
      some (Output,
        { a with integrator1 := integrator1, integrator2 := integrator2,
                 ActuatorState := Output })

/-- Method `USecondOrderActuator::GetActuatorState`. -/
def GetActuatorState (a : USecondOrderActuator) : ℚ := a.ActuatorState

/-- A sequence of `ApplyActuatorCommand` calls on the same second-order
actuator, one per `(Command, DeltaTime)` pair of the list, in order.  The first
component of the result is the value returned by the last call (`y0` when the
list is empty). -/
def ApplySeq (fuel : Nat) :
    List (ℚ × ℚ) → USecondOrderActuator → ℚ → Option (ℚ × USecondOrderActuator)
  | [], a, y0 => some (y0, a)
  | (Command, DeltaTime) :: rest, a, _ =>
    match ApplyActuatorCommand fuel a Command DeltaTime with
    | none => none
    | some (y, a') => ApplySeq fuel rest a' y

end USecondOrderActuator

/-! ## Invariants of the step responses -/

/-- Invariant of the first-order actuator with `wn = 1`, `DCGain = 1` and no
limits while the command 1 is held with step `dt`: the error `1 - X` is
non-negative, at least half the previous integrator input, and at most
`(1 - dt/2)^n` after `n` calls. -/
def UFirstOrderActuator.StepInvariant (dt : ℚ) (n : Nat) (b : UFirstOrderActuator) : Prop :=
  b.wn = 1 ∧ b.DCGain = 1 ∧ b.RateLimit = 0 ∧ b.LowerSaturation = 0 ∧ b.UpperSaturation = 0 ∧
    b.bActuatorInitialised = true ∧ b.integrator.DtMin = 1 / 100 ∧
    0 ≤ b.integrator.UPrev ∧ b.integrator.UPrev ≤ 2 * (1 - b.integrator.X) ∧
    1 - b.integrator.X ≤ (1 - dt / 2) ^ n

/-- Invariant of the second-order actuator with `zeta = 1`, `DCGain = 1` and no
limits while the command 1 is held with step `dt`.  With
`P = wn^2*(1 - X2) - wn*X1` and `Q = U1 - (wn^2*(1 - X2) - 2*wn*X1)` (`X1`,
`X2` the integrator states, `U1` the previous input of stage 1): `P >= 0`,
`X1 >= 0`, `-2*P - 2*wn*X1 <= Q <= 3*(wn*dt)*P`, and the previous input of
stage 2 is `X1`. -/
def USecondOrderActuator.StepInvariant (dt : ℚ) (b : USecondOrderActuator) : Prop :=
  b.zeta = 1 ∧ b.DCGain = 1 ∧ b.RateLimit = 0 ∧ b.LowerSaturation = 0 ∧ b.UpperSaturation = 0 ∧
    b.bActuatorInitialised = true ∧ b.integrator1.DtMin = 1 / 100 ∧
    b.integrator2.DtMin = 1 / 100 ∧ b.integrator2.UPrev = b.integrator1.X ∧
    0 ≤ b.wn ^ 2 * (1 - b.integrator2.X) - b.wn * b.integrator1.X ∧
    0 ≤ b.integrator1.X ∧
    b.integrator1.UPrev - (b.wn ^ 2 * (1 - b.integrator2.X) - 2 * b.wn * b.integrator1.X)
      ≤ 3 * (b.wn * dt) * (b.wn ^ 2 * (1 - b.integrator2.X) - b.wn * b.integrator1.X) ∧
    -2 * (b.wn ^ 2 * (1 - b.integrator2.X) - b.wn * b.integrator1.X)
        - 2 * (b.wn * b.integrator1.X)
      ≤ b.integrator1.UPrev
        - (b.wn ^ 2 * (1 - b.integrator2.X) - 2 * b.wn * b.integrator1.X)

/-! ## The rate limit in the words of the specification -/

/-- The rate-limited move as the specification words it: from `X0` toward the
unrestricted value `E` by at most `R * dt`, that is `E` itself when
`|E - X0| <= R * dt` and `X0 + sign(E - X0) * R * dt` otherwise. -/
def RateLimitedToward (X0 E R dt : ℚ) : ℚ :=
  if |E - X0| ≤ R * dt then E else X0 + (SignType.sign (E - X0) : ℚ) * (R * dt)

/-- The rate-limited move with the engine's snap: `E` itself when the squared
distance `(E - X0)^2` is below `SMALL_NUMBER`, else the move of
`RateLimitedToward`. -/
def RateLimitedOrSnapped (X0 E R dt : ℚ) : ℚ :=
  if (E - X0) ^ 2 < SMALL_NUMBER then E else RateLimitedToward X0 E R dt

/-! ## `Public/Common/Utils/Helpers.h` -/

/-- A `float` as `RemoveNumericalErrors` may receive it: a finite value (an
exact rational here), a NaN, or one of the two infinities. -/
inductive FloatValue where
  | finite (x : ℚ)
  | nan
  | posInf
  | negInf
deriving DecidableEq

/-- Modelled from the spec: the engine predicate `FMath::IsFinite`: neither a NaN
nor an infinity. -/
def FloatValue.IsFinite : FloatValue → Bool
  | .finite _ => true
  | _ => false

/-- The engine's `FVector` with finite components. -/
structure FVector where
  X : ℚ
  Y : ℚ
  Z : ℚ
deriving DecidableEq

/-- An `FVector` whose components may be NaN or infinite. -/
structure RawFVector where
  X : FloatValue
  Y : FloatValue
  Z : FloatValue
deriving DecidableEq

/-- A finite vector seen as a possibly non-finite one. -/
def FVector.toRaw (v : FVector) : RawFVector :=
  ⟨.finite v.X, .finite v.Y, .finite v.Z⟩

/-- Modelled from the spec: the engine method `FVector::ContainsNaN`, true when
some component is not finite ("NaN or infinite values are never
propagated"). -/
def RawFVector.ContainsNaN (v : RawFVector) : Bool :=
  !v.X.IsFinite || !v.Y.IsFinite || !v.Z.IsFinite

/-- Modelled from the spec: the engine routine
`FMath::IsNearlyZero(Value, ErrorTolerance)` with an explicit tolerance,
`|Value| <= ErrorTolerance`. -/
def IsNearlyZeroTol (Value ErrorTolerance : ℚ) : Bool := decide (|Value| ≤ ErrorTolerance)

/-- Function `SkyPhysHelpers::RemoveNumericalErrors`.  The result has finite
components in both branches: the zero vector `FVector(0.0f)` when the input
contains a non-finite component, else the input with each component within
`ErrorTolerance = 0.0001f` of zero replaced by `0.0f`. -/
def RemoveNumericalErrors (TestVector : RawFVector) : FVector :=
  if TestVector.ContainsNaN then ⟨0, 0, 0⟩
  else
    match TestVector with
    | ⟨.finite X, .finite Y, .finite Z⟩ =>
      let ErrorTolerance : ℚ := 1 / 10000
      { X := if IsNearlyZeroTol X ErrorTolerance then 0 else X
        Y := if IsNearlyZeroTol Y ErrorTolerance then 0 else Y
        Z := if IsNearlyZeroTol Z ErrorTolerance then 0 else Z }
    | _ => ⟨0, 0, 0⟩

/-! ## `Pawns/FlyingPawn.{h,cpp}`: rigid-body kinematics -/

namespace FVector

/-- Vector difference. -/
def sub (a b : FVector) : FVector := ⟨a.X - b.X, a.Y - b.Y, a.Z - b.Z⟩

/-- Product of a vector with a scalar. -/
def smul (c : ℚ) (a : FVector) : FVector := ⟨c * a.X, c * a.Y, c * a.Z⟩

/-- The cross product `a.cross(b)`. -/
def cross (a b : FVector) : FVector :=
  ⟨a.Y * b.Z - a.Z * b.Y, a.Z * b.X - a.X * b.Z, a.X * b.Y - a.Y * b.X⟩

end FVector

/-- The type `Eigen::Matrix3d`, a 3x3 matrix given by its entries (row, then
column). -/
structure Matrix3d where
  m00 : ℚ
  m01 : ℚ
  m02 : ℚ
  m10 : ℚ
  m11 : ℚ
  m12 : ℚ
  m20 : ℚ
  m21 : ℚ
  m22 : ℚ
deriving DecidableEq

namespace Matrix3d

/-- Product of a matrix with a column vector. -/
def mulVec (M : Matrix3d) (v : FVector) : FVector :=
  ⟨M.m00 * v.X + M.m01 * v.Y + M.m02 * v.Z,
   M.m10 * v.X + M.m11 * v.Y + M.m12 * v.Z,
   M.m20 * v.X + M.m21 * v.Y + M.m22 * v.Z⟩

/-- The determinant. -/
def det (M : Matrix3d) : ℚ :=
  M.m00 * (M.m11 * M.m22 - M.m12 * M.m21)
    - M.m01 * (M.m10 * M.m22 - M.m12 * M.m20)
    + M.m02 * (M.m10 * M.m21 - M.m11 * M.m20)

/-- Modelled from the spec: the library routine `Eigen::Matrix3d::inverse()`, the
inverse of the inertia tensor ("precomputed once from configured
principal/cross moments of inertia"), as the transposed cofactors divided by
the determinant.  For a singular matrix the C++ entries are infinities or
NaNs; here the division by 0 gives 0. -/
def inverse (M : Matrix3d) : Matrix3d :=
  let d := M.det
  { m00 := (M.m11 * M.m22 - M.m12 * M.m21) / d
    m01 := (M.m02 * M.m21 - M.m01 * M.m22) / d
    m02 := (M.m01 * M.m12 - M.m02 * M.m11) / d
    m10 := (M.m12 * M.m20 - M.m10 * M.m22) / d
    m11 := (M.m00 * M.m22 - M.m02 * M.m20) / d
    m12 := (M.m02 * M.m10 - M.m00 * M.m12) / d
    m20 := (M.m10 * M.m21 - M.m11 * M.m20) / d
    m21 := (M.m01 * M.m20 - M.m00 * M.m21) / d
    m22 := (M.m00 * M.m11 - M.m01 * M.m10) / d }

end Matrix3d

/-- The struct `FSystemCharacteristics` of `FlyingPawn.h`. -/
structure FSystemCharacteristics where
  Mass : ℚ
  Ixx : ℚ
  Iyy : ℚ
  Izz : ℚ
  Ixz : ℚ
  J : Matrix3d := ⟨0, 0, 0, 0, 0, 0, 0, 0, 0⟩
  JInverse : Matrix3d := ⟨0, 0, 0, 0, 0, 0, 0, 0, 0⟩

/-- Method `AFlyingPawn::PreCalculateSystemCharacteristics`: fills in the
inertia tensor and its inverse. -/
def PreCalculateSystemCharacteristics (c : FSystemCharacteristics) : FSystemCharacteristics :=
  let J : Matrix3d :=
    { m00 := c.Ixx, m01 := 0, m02 := -c.Ixz
      m10 := 0, m11 := c.Iyy, m12 := 0
      m20 := -c.Ixz, m21 := 0, m22 := c.Izz }
  { c with J := J, JInverse := J.inverse }

/-- Method `AFlyingPawn::ApplyKinematics(Forces, Moments, DeltaTime)`, given the
system characteristics and the body-frame angular velocity `SystemState.Omegab`.
The result is the pair `(dVb, dOmegab)` of sanitised body-frame increments that
the method hands (rotated to the world frame, the angular one negated) to the
engine's physics body. -/
def ApplyKinematics (c : FSystemCharacteristics) (Omegab Forces Moments : FVector)
    (DeltaTime : ℚ) : FVector × FVector :=
  let MToCM : ℚ := 100
  let mass := c.Mass
  let dVb : FVector :=
    ⟨DeltaTime * MToCM * Forces.X / mass, DeltaTime * MToCM * Forces.Y / mass,
     DeltaTime * MToCM * Forces.Z / mass⟩
  let dVb := RemoveNumericalErrors dVb.toRaw
  let momentsb := Moments
  let omegab := Omegab
  let domegab :=
    FVector.smul DeltaTime (c.JInverse.mulVec (momentsb.sub (omegab.cross (c.J.mulVec omegab))))
  let dOmegab := RemoveNumericalErrors domegab.toRaw
  (dVb, dOmegab)

/-! ## `Pawns/MultiRotor/MultiRotorPawn.h`, `QuadRotorPawn.cpp`: the mixer -/

/-- The enum `EMultiRotorConfiguration`. -/
inductive EMultiRotorConfiguration where
  | Plus
  | Cross
deriving DecidableEq

/-- The struct `FMultiRotorCommandState`. -/
structure FMultiRotorCommandState where
  PitchCommand : ℚ := 0
  RollCommand : ℚ := 0
  YawCommand : ℚ := 0
  ThrustCommand : ℚ := 0

/-- The type `Eigen::Vector4f`, by its four coefficients. -/
structure Vector4f where
  c0 : ℚ
  c1 : ℚ
  c2 : ℚ
  c3 : ℚ
deriving DecidableEq

/-- The type `Eigen::Matrix4f`, by its four rows. -/
structure Matrix4f where
  r0 : Vector4f
  r1 : Vector4f
  r2 : Vector4f
  r3 : Vector4f

namespace AQuadRotorPawn

/-- The constant `MCross` of `UpdateActuatorState`. -/
def MCross : Matrix4f :=
  { r0 := ⟨1, -1, 1, 1⟩
    r1 := ⟨-1, 1, 1, 1⟩
    r2 := ⟨1, 1, -1, 1⟩
    r3 := ⟨-1, -1, -1, 1⟩ }

/-- The constant `MPlus` of `UpdateActuatorState`. -/
def MPlus : Matrix4f :=
  { r0 := ⟨0, -1, 1, 1⟩
    r1 := ⟨0, 1, 1, 1⟩
    r2 := ⟨-1, 0, -1, 1⟩
    r3 := ⟨1, 0, -1, 1⟩ }

/-- One coefficient of a matrix-vector product: a row times a column. -/
def rowMul (r v : Vector4f) : ℚ := r.c0 * v.c0 + r.c1 * v.c1 + r.c2 * v.c2 + r.c3 * v.c3

/-- The vector `PropellerSpeeds` of `UpdateActuatorState`, before clamping:
`N + 0.25f * M * Commands * (1.0f - ThrustCommandOffset)` with `M` chosen by
the configuration. -/
def PropellerSpeeds (MultiRotorConfiguration : EMultiRotorConfiguration)
    (MultiRotorCommandState : FMultiRotorCommandState) (ThrustCommandOffset : ℚ) : Vector4f :=
  let Commands : Vector4f :=
    ⟨MultiRotorCommandState.PitchCommand, MultiRotorCommandState.RollCommand,
     MultiRotorCommandState.YawCommand, MultiRotorCommandState.ThrustCommand⟩
  let N := ThrustCommandOffset
  let M :=
    match MultiRotorConfiguration with
    | .Cross => MCross
    | .Plus => MPlus
  { c0 := N + (1 / 4) * rowMul M.r0 Commands * (1 - ThrustCommandOffset)
    c1 := N + (1 / 4) * rowMul M.r1 Commands * (1 - ThrustCommandOffset)
    c2 := N + (1 / 4) * rowMul M.r2 Commands * (1 - ThrustCommandOffset)
    c3 := N + (1 / 4) * rowMul M.r3 Commands * (1 - ThrustCommandOffset) }

/-- The four commands that `UpdateActuatorState` passes to
`Propeller1Mesh` ... `Propeller4Mesh`: the propeller speeds clamped to
`[0, 1]`. -/
def PropellerCommands (MultiRotorConfiguration : EMultiRotorConfiguration)
    (MultiRotorCommandState : FMultiRotorCommandState) (ThrustCommandOffset : ℚ) : Vector4f :=
  let PropellerSpeeds :=
    PropellerSpeeds MultiRotorConfiguration MultiRotorCommandState ThrustCommandOffset
  ⟨Clamp PropellerSpeeds.c0 0 1, Clamp PropellerSpeeds.c1 0 1,
   Clamp PropellerSpeeds.c2 0 1, Clamp PropellerSpeeds.c3 0 1⟩

end AQuadRotorPawn


/-! ## `Public/Common/Types.h` -/

/-- Modelled from the spec: the engine constant `PI`, the literal
`3.1415926535897932f`. -/
def PI : ℚ := 31415926535897932 / 10000000000000000

/-- Modelled from the spec: the engine predicate `FMath::IsNaN` on a value that
is a finite number: never true. -/
def IsNaN (_A : ℚ) : Bool := false

namespace FVector

/-- Vector sum, the engine's `operator+` (and `operator+=`). -/
def add (a b : FVector) : FVector := ⟨a.X + b.X, a.Y + b.Y, a.Z + b.Z⟩

/-- Modelled from the spec: the engine method `FVector::Size()`, the square root
of the sum of the squared components; `sqrt` is the square-root routine. -/
def Size (sqrt : ℚ → ℚ) (v : FVector) : ℚ := sqrt (v.X * v.X + v.Y * v.Y + v.Z * v.Z)

end FVector

/-- The struct `FForcesAndMoments`; the default value of the structure is the
value built by the constructor with its default arguments `FVector(0.0f)`. -/
structure FForcesAndMoments where
  Forces : FVector := ⟨0, 0, 0⟩
  Moments : FVector := ⟨0, 0, 0⟩
deriving DecidableEq

namespace FForcesAndMoments

/-- Member `operator+(Sum)`.  The body adds `Sum` to the members of the left
operand and returns a copy of it (`return *this`): the result is the pair of
the returned value and of the left operand after the call. -/
def operatorPlus (self Sum : FForcesAndMoments) : FForcesAndMoments × FForcesAndMoments :=
  let Forces := self.Forces.add Sum.Forces
  let Moments := self.Moments.add Sum.Moments
  let self' : FForcesAndMoments := { Forces := Forces, Moments := Moments }
  (self', self')

/-- Member `operator+=(Sum)`, with the same body as `operator+`: the returned
value and the left operand after the call. -/
def operatorPlusAssign (self Sum : FForcesAndMoments) :
    FForcesAndMoments × FForcesAndMoments :=
  let Forces := self.Forces.add Sum.Forces
  let Moments := self.Moments.add Sum.Moments
  let self' : FForcesAndMoments := { Forces := Forces, Moments := Moments }
  (self', self')

end FForcesAndMoments

/-! ## `PropellerPropulsion.cpp` and `Propulsion.cpp`: state, forces and moments -/

/-- Method `UPropulsionStaticMeshComponent::RPMToRPS`. -/
def RPMToRPS (RPM : ℚ) : ℚ := RPM / 60

/-- Method `UPropulsionStaticMeshComponent::RadPerSToRPM`. -/
def RadPerSToRPM (RadPerS : ℚ) : ℚ := (RadPerS / (2 * PI)) * 60

/-- Modelled from the spec: the members of `PhysicsParameters` (declared in the
missing header `PropellerPropulsion.h`) that the force and moment methods read:
the diameter `D`, the lumped drag coefficient `Cd`, the moment of inertia `Izz`
of the propeller and the `int8` value of the enum `RotationDirection`. -/
structure PhysicsParameters where
  D : ℚ
  Cd : ℚ
  Izz : ℚ
  RotationDirection : Int

/-- Modelled from the spec: the members of `PropellerState` (declared in the
missing header).  The two rotators `Ruw` and `Rwu` are represented by their
action `FRotator::RotateVector`. -/
structure PropellerState where
  omega : ℚ := 0
  Ruw : FVector → FVector := id
  Rwu : FVector → FVector := id
  V : FVector := ⟨0, 0, 0⟩
  Rho : ℚ := 0
  J : ℚ := 0
  AerodynamicConstant : ℚ := 0

namespace PropellerState

/-- Method `TransformFromWorldToBody` of the propeller component. -/
def TransformFromWorldToBody (s : PropellerState) (WorldVector : FVector) : FVector :=
  let UnrealFrame := s.Rwu WorldVector
  ⟨UnrealFrame.X, UnrealFrame.Y, UnrealFrame.Z⟩

/-- Method `TransformFromBodyToWorld` of the propeller component. -/
def TransformFromBodyToWorld (s : PropellerState) (BodyVector : FVector) : FVector :=
  let UnrealFrame : FVector := ⟨BodyVector.X, BodyVector.Y, BodyVector.Z⟩
  s.Ruw UnrealFrame

/-- Method `UpdatePropellerState(Rho, Vw)`.  The engine supplies the rotation
of the component transform (`Ruw`, with inverse `Rwu`) and the component
velocity `GetComponentVelocity()`, in cm/s.  The powers `pow(n, 2.0f)` and
`pow(D, 4.0f)` have whole exponents and are taken exactly. -/
def UpdatePropellerState (sqrt : ℚ → ℚ) (P : PhysicsParameters) (s : PropellerState)
    (Ruw Rwu : FVector → FVector) (ComponentVelocity : FVector) (Rho : ℚ) (Vw : FVector) :
    PropellerState :=
  let s := { s with Ruw := Ruw, Rwu := Rwu }
  let V := FVector.smul (1 / 100) ComponentVelocity
  let Vaw := V.sub Vw
  let Vab := s.TransformFromWorldToBody Vaw
  let Vab := RemoveNumericalErrors Vab.toRaw
  let s := { s with V := Vab, Rho := Rho }
  let n := s.omega / (2 * PI)
  let J : ℚ :=
    if !IsNearlyZero (s.V.Size sqrt) then
      (if IsNearlyZero n then -FLT_MAX else s.V.Size sqrt / (n * P.D))
    else 0
  { s with J := J, AerodynamicConstant := Rho * n ^ 2 * P.D ^ 4 }

/-- Method `CalculateThrustForces(CT)`. -/
def CalculateThrustForces (s : PropellerState) (CT : ℚ) : FVector :=
  let T := CT * s.AerodynamicConstant
  ⟨0, 0, -T⟩

/-- Product of a matrix with a scalar, `T * Kr` in Eigen. -/
def scaleMatrix (c : ℚ) (M : Matrix3d) : Matrix3d :=
  ⟨c * M.m00, c * M.m01, c * M.m02, c * M.m10, c * M.m11, c * M.m12,
   c * M.m20, c * M.m21, c * M.m22⟩

/-- Method `CalculateSideForces(T)`. -/
def CalculateSideForces (sqrt : ℚ → ℚ) (P : PhysicsParameters) (s : PropellerState) (T : ℚ) :
    FVector :=
  if !IsNearlyZero T && !IsNearlyZero (s.V.Size sqrt) then
    let Kr : Matrix3d := ⟨P.Cd, 0, 0, 0, P.Cd, 0, 0, 0, 0⟩
    let V : FVector := ⟨s.V.X, s.V.Y, s.V.Z⟩
    let DEig := (scaleMatrix (-T) Kr).mulVec V
    ⟨DEig.X, DEig.Y, DEig.Z⟩
  else ⟨0, 0, 0⟩

/-- The local `H` of `CalculateForces(CT)`: the side force for the magnitude
`T.Size()` of the thrust vector. -/
def HubForce (sqrt : ℚ → ℚ) (P : PhysicsParameters) (s : PropellerState) (CT : ℚ) : FVector :=
  let T := s.CalculateThrustForces CT
  s.CalculateSideForces sqrt P (T.Size sqrt)

/-- Method `CalculateForces(CT)`: thrust plus side force. -/
def CalculateForces (sqrt : ℚ → ℚ) (P : PhysicsParameters) (s : PropellerState) (CT : ℚ) :
    FVector :=
  let T := s.CalculateThrustForces CT
  let H := s.HubForce sqrt P CT
  T.add H

/-- Method `CalculateAerodynamicMoments(CP)`. -/
def CalculateAerodynamicMoments (P : PhysicsParameters) (s : PropellerState) (CP : ℚ) : FVector :=
  let CQ := CP / (2 * PI)
  let Q := CQ * s.AerodynamicConstant * P.D
  let MomentDirection : Int := -P.RotationDirection
  let Q := Q * MomentDirection
  ⟨0, 0, Q⟩

/-- Method `CalculateGyroscopicMoments(SystemOmega)`; `FVector::ZAxisVector` is
`(0, 0, 1)`. -/
def CalculateGyroscopicMoments (P : PhysicsParameters) (s : PropellerState)
    (SystemOmega : FVector) : FVector :=
  let OMEGA := s.TransformFromWorldToBody SystemOmega
  let MomentDirection : Int := P.RotationDirection
  FVector.smul (MomentDirection * P.Izz * s.omega) (OMEGA.cross ⟨0, 0, 1⟩)

/-- Method `CalculateMoments(CP, RootOmegaw)`. -/
def CalculateMoments (P : PhysicsParameters) (s : PropellerState) (CP : ℚ)
    (RootOmegaw : FVector) : FVector :=
  let Q := s.CalculateAerodynamicMoments P CP
  let G := s.CalculateGyroscopicMoments P RootOmegaw
  Q.add G

end PropellerState

/-- The side force in the words of the specification: `H = -T*Cd*(Vx, Vy, 0)`
with `T = CT*rho*n^2*D^4`. -/
def HubForceSpec (CT rho n D Cd : ℚ) (V : FVector) : FVector :=
  let T := CT * rho * n ^ 2 * D ^ 4
  FVector.smul (-T * Cd) ⟨V.X, V.Y, 0⟩

namespace PropellerState

/-- Method `GetForcesAndMoments(Rho, Vw, SystemOmega)` of the propeller
component, whose members are the physics parameters, the coefficient table and
the propeller state.  `none` stands for an array access out of range in the
table look-up. -/
def GetForcesAndMoments (sqrt : ℚ → ℚ) (P : PhysicsParameters) (p : PropellerTable)
    (s : PropellerState) (Ruw Rwu : FVector → FVector) (ComponentVelocity : FVector)
    (Rho : ℚ) (Vw SystemOmega : FVector) :
    Option (FForcesAndMoments × PropellerTable × PropellerState) := do
  let p := if !p.bPhysicsParametersInitialized then InitializePropellerPhysics p else p
  let s := UpdatePropellerState sqrt P s Ruw Rwu ComponentVelocity Rho Vw
  let AerodynamicConstants ← GetAerodynamicConstants p (RadPerSToRPM s.omega) s.J
  let ForcesBF := s.CalculateForces sqrt P AerodynamicConstants.CT
  let MomentsBF := s.CalculateMoments P AerodynamicConstants.CP SystemOmega
  let ForcesWF := s.TransformFromBodyToWorld ForcesBF
  let MomentsWF := s.TransformFromBodyToWorld MomentsBF
  pure (⟨ForcesWF, MomentsWF⟩, p, s)

end PropellerState

/-! ## Arithmetic on `float` values that may be NaN or infinite

The rules are those of IEEE 754 for NaN and the infinities.  A finite value is
an exact rational: rounding, the overflow of a finite result and the sign of a
zero are not represented (a non-zero value divided by zero is the infinity with
the sign of the dividend). -/

namespace FloatValue

/-- Unary minus. -/
def neg : FloatValue → FloatValue
  | finite x => finite (-x)
  | nan => nan
  | posInf => negInf
  | negInf => posInf

/-- Sum: a NaN operand, or infinities of opposite signs, give NaN. -/
def add : FloatValue → FloatValue → FloatValue
  | finite x, finite y => finite (x + y)
  | nan, _ => nan
  | _, nan => nan
  | posInf, negInf => nan
  | negInf, posInf => nan
  | posInf, _ => posInf
  | negInf, _ => negInf
  | finite _, posInf => posInf
  | finite _, negInf => negInf

/-- Difference. -/
def sub (a b : FloatValue) : FloatValue := a.add b.neg

/-- The infinity with the sign of `x`, NaN when `x` is zero: the product of
`x` with positive infinity. -/
def signedInf (x : ℚ) : FloatValue :=
  if 0 < x then posInf else if x < 0 then negInf else nan

/-- Product: a NaN operand, or zero times an infinity, give NaN. -/
def mul : FloatValue → FloatValue → FloatValue
  | finite x, finite y => finite (x * y)
  | nan, _ => nan
  | _, nan => nan
  | finite x, posInf => signedInf x
  | finite x, negInf => signedInf (-x)
  | posInf, finite y => signedInf y
  | negInf, finite y => signedInf (-y)
  | posInf, posInf => posInf
  | posInf, negInf => negInf
  | negInf, posInf => negInf
  | negInf, negInf => posInf

/-- Quotient: a NaN operand, zero by zero, or an infinity by an infinity, give
NaN. -/
def div : FloatValue → FloatValue → FloatValue
  | finite x, finite y => if y = 0 then signedInf x else finite (x / y)
  | nan, _ => nan
  | _, nan => nan
  | finite _, posInf => finite 0
  | finite _, negInf => finite 0
  | posInf, finite y => if 0 ≤ y then posInf else negInf
  | negInf, finite y => if 0 ≤ y then negInf else posInf
  | posInf, posInf => nan
  | posInf, negInf => nan
  | negInf, posInf => nan
  | negInf, negInf => nan

/-- The comparison `a < b`, false as soon as an operand is NaN. -/
def lt : FloatValue → FloatValue → Bool
  | finite x, finite y => decide (x < y)
  | nan, _ => false
  | _, nan => false
  | negInf, negInf => false
  | negInf, _ => true
  | posInf, _ => false
  | finite _, posInf => true
  | finite _, negInf => false

/-- Modelled from the spec: the engine predicate `FMath::IsNaN`. -/
def IsNaN : FloatValue → Bool
  | nan => true
  | _ => false

/-- Modelled from the spec: the engine routine `FMath::IsNearlyZero(Value)`,
`|Value| <= SMALL_NUMBER`, false for a NaN and for an infinity. -/
def IsNearlyZero : FloatValue → Bool
  | finite x => SkyPhys.IsNearlyZero x
  | _ => false

/-- Modelled from the spec: the engine routine `FMath::Clamp(X, Min, Max)`,
evaluated as `X < Min ? Min : (X < Max ? X : Max)`: a NaN is sent to `Max`. -/
def Clamp (X Min Max : FloatValue) : FloatValue :=
  if X.lt Min then Min else if X.lt Max then X else Max

end FloatValue

/-! ## `Private/Pawns/FlyingPawn.cpp`: the airspeed state -/

/-- The members of `AirspeedState` that `UpdateAirspeedState` assigns. -/
structure FAirspeedState where
  Vwb : RawFVector
  Vab : FVector
  Va : ℚ
  alpha : ℚ
  beta : ℚ

/-- The difference of two vectors whose components may be NaN or infinite. -/
def RawFVector.sub (a b : RawFVector) : RawFVector :=
  ⟨a.X.sub b.X, a.Y.sub b.Y, a.Z.sub b.Z⟩

/-- Method `AFlyingPawn::UpdateAirspeedState`.  The arguments are the library
routines `sqrt` (inside `FVector::Size`), `atan2` and `asin`, the rotation
`TransformFromWorldToBody`, the wind `AtmosphericConditionsState.Vw` and the
body velocity `SystemState.Vb`.  After `RemoveNumericalErrors` the airspeed
vector is finite. -/
def UpdateAirspeedState (sqrt : ℚ → ℚ) (atan2 : ℚ → ℚ → ℚ) (asin : ℚ → ℚ)
    (TransformFromWorldToBody : RawFVector → RawFVector) (Vw Vb : RawFVector) :
    FAirspeedState :=
  let Vwb := TransformFromWorldToBody Vw
  let Vab := Vb.sub Vwb
  let Vab := RemoveNumericalErrors Vab
  let Va := Vab.Size sqrt
  let ab : ℚ × ℚ :=
    if !IsNearlyZero Va && !IsNaN Va then (atan2 Vab.Z Vab.X, asin (Vab.Y / Va))
    else (0, 0)
  { Vwb := Vwb, Vab := Vab, Va := Vab.Size sqrt, alpha := ab.1, beta := ab.2 }

/-! ## `Pawns/FixedWing/FixedWingPawn.{h,cpp}`: the stall model -/

/-- The struct `FAerodynamicStallParameters`, over the type `F` of its `float`
members. -/
structure FAerodynamicStallParameters (F : Type) where
  bEnableStallModel : Bool := false
  Alpha0 : F
  M : F
  Cmfp : F

/-- Modelled from the spec: the engine routine `FMath::Sign`: 1 for a positive
argument, -1 for a negative one, else 0. -/
def Sign {K : Type} [LinearOrderedField K] (A : K) : K :=
  if A > 0 then 1 else if A < 0 then -1 else 0

/-- Method `AFixedWingPawn::CalculateAdjustedCDAlphaCLAlphaForStall`, given
`AirspeedState.alpha` and `AerodynamicStallCalculationParameters.SigmaAlpha`;
`sin` and `cos` are the library routines, over the number type `K` standing
for `float`.  The powers `pow(., 2.0f)` and `pow(., 3.0f)` have whole
exponents and are taken exactly.  The result is the pair of the members `X`
(drag) and `Y` (lift) of the returned `FVector2D`. -/
def CalculateAdjustedCDAlphaCLAlphaForStall {K : Type} [LinearOrderedField K]
    (sin cos : K → K) (AerodynamicStallParameters : FAerodynamicStallParameters K)
    (alpha SigmaAlpha CDAlpha CLAlpha : K) : K × K :=
  if AerodynamicStallParameters.bEnableStallModel then
    let CLAlpha' :=
      (1 - SigmaAlpha) * CLAlpha + SigmaAlpha * 2 * Sign alpha * (sin alpha ^ 2 * cos alpha)
    let CDAlpha' := (1 - SigmaAlpha) * CDAlpha + SigmaAlpha * 2 * Sign alpha * (sin alpha ^ 3)
    (CDAlpha', CLAlpha')
  else (CDAlpha, CLAlpha)

/-- Method `AFixedWingPawn::CalculateAdjustedCmAlphaForStall`. -/
def CalculateAdjustedCmAlphaForStall {K : Type} [LinearOrderedField K]
    (sin : K → K) (AerodynamicStallParameters : FAerodynamicStallParameters K)
    (alpha SigmaAlpha CmAlpha : K) : K :=
  let Cmfp := AerodynamicStallParameters.Cmfp
  if AerodynamicStallParameters.bEnableStallModel then
    (1 - SigmaAlpha) * CmAlpha + SigmaAlpha * (Cmfp * Sign alpha * sin alpha ^ 2)
  else CmAlpha

/-- The adjusted lift term in the words of the specification. -/
def StallLiftSpec {K : Type} [LinearOrderedField K] (sin cos : K → K) (s CL_lin alpha : K) : K :=
  (1 - s) * CL_lin + s * Sign alpha * sin alpha ^ 2 * cos alpha

/-- The adjusted drag term in the words of the specification. -/
def StallDragSpec {K : Type} [LinearOrderedField K] (sin : K → K) (s CD_lin alpha : K) : K :=
  (1 - s) * CD_lin + s * Sign alpha * sin alpha ^ 3

/-- The adjusted pitch term in the words of the specification. -/
def StallPitchSpec {K : Type} [LinearOrderedField K] (sin : K → K) (s Cm_lin Cmfp alpha : K) :
    K :=
  (1 - s) * Cm_lin + s * Cmfp * Sign alpha * sin alpha ^ 2

/-- The values that an exponential routine may return: a finite value that is
not negative, positive infinity (overflow) or a NaN (for a NaN argument). -/
def ExpRange : FloatValue → Prop
  | .finite y => 0 ≤ y
  | .posInf => True
  | .nan => True
  | .negInf => False

/-- The local `Numerator` of `UpdateAerodynamicStallCalculationParameters`
after its clamp. -/
def StallNumerator (exp : FloatValue → FloatValue) (M Alpha0 alpha : FloatValue) : FloatValue :=
  let Numerator :=
    ((FloatValue.finite 1).add (exp (M.neg.mul (alpha.sub Alpha0)))).add
      (exp (M.mul (alpha.add Alpha0)))
  FloatValue.Clamp Numerator (.finite 1) (.finite FLT_MAX)

/-- The local `Denominator` of `UpdateAerodynamicStallCalculationParameters`
after its clamp. -/
def StallDenominator (exp : FloatValue → FloatValue) (M Alpha0 alpha : FloatValue) :
    FloatValue :=
  let Denominator :=
    ((FloatValue.finite 1).add (exp (M.neg.mul (alpha.sub Alpha0)))).mul
      ((FloatValue.finite 1).add (exp (M.mul (alpha.add Alpha0))))
  FloatValue.Clamp Denominator (.finite 1) (.finite FLT_MAX)

/-- Method `AFixedWingPawn::UpdateAerodynamicStallCalculationParameters`, given
`AirspeedState.alpha`; `exp` is the library routine.  The result is the value
stored in `AerodynamicStallCalculationParameters.SigmaAlpha`. -/
def UpdateAerodynamicStallCalculationParameters (exp : FloatValue → FloatValue)
    (AerodynamicStallParameters : FAerodynamicStallParameters FloatValue)
    (alpha : FloatValue) : FloatValue :=
  let M := AerodynamicStallParameters.M
  let Alpha0 := AerodynamicStallParameters.Alpha0
  if AerodynamicStallParameters.bEnableStallModel then
    let Numerator := StallNumerator exp M Alpha0 alpha
    let Denominator := StallDenominator exp M Alpha0 alpha
    let SigmaAlpha := Numerator.div Denominator
    if SigmaAlpha.IsNaN then .finite 1 else SigmaAlpha
  else .finite 0

/-- A stand-in for the exponential routine, used to evaluate the stall model on
sample inputs: the second-order Taylor polynomial on finite arguments, the
limits at the infinities, NaN for a NaN. -/
def sampleExp : FloatValue → FloatValue
  | .finite x => .finite (1 + x + x ^ 2 / 2)
  | .posInf => .posInf
  | .negInf => .finite 0
  | .nan => .nan

/-! ## `Turbulence/TurbulenceModel.{h,cpp}`, `Dryden/TurbulenceModelDryden.{h,cpp}` -/

/-- The engine's vector type over the number type `K` standing for `float`. -/
structure TVector (K : Type) where
  X : K
  Y : K
  Z : K

/-- The macro `M_TO_FT` of `TurbulenceModel.cpp`, `3.28084f`. -/
def M_TO_FT {K : Type} [LinearOrderedField K] : K := 328084 / 100000

/-- Method `UTurbulenceModel::MToFt`. -/
def MToFt {K : Type} [LinearOrderedField K] (M : K) : K := M * M_TO_FT

/-- Method `UTurbulenceModel::FtToM`. -/
def FtToM {K : Type} [LinearOrderedField K] (Ft : K) : K := Ft / M_TO_FT

/-- Method `UTurbulenceModel::FtToM` on a value that may be NaN or infinite. -/
def FloatValue.FtToM (Ft : FloatValue) : FloatValue := Ft.div (.finite M_TO_FT)

/-- Method `UTurbulenceModelDryden::GetTurbulenceScaleLengths(Altitude)` in
exact arithmetic; `pow` is the library routine.  The literals `0.177f`,
`0.000823f` and `1.2f` are taken as the decimal fractions they denote;
`GetTurbulenceScaleLengthsRounded` has them and every operation rounded to
`float`. -/
def GetTurbulenceScaleLengths {K : Type} [LinearOrderedField K] (pow : K → K → K)
    (Altitude : K) : TVector K :=
  if Altitude ≥ 10 then
    let ClampedAltitude := Clamp Altitude 10 1000
    let Lwg := ClampedAltitude
    let LugLvg := ClampedAltitude / pow (177 / 1000 + 823 / 1000000 * ClampedAltitude) (12 / 10)
    ⟨LugLvg, LugLvg, Lwg⟩
  else ⟨0, 0, 0⟩

/-- Method
`UTurbulenceModelDryden::GetTurbulenceRMSIntensities(Altitude, WindSpeed20Ft)`. -/
def GetTurbulenceRMSIntensities {K : Type} [LinearOrderedField K] (pow : K → K → K)
    (Altitude WindSpeed20Ft : K) : TVector K :=
  let AltitudeClamped := Clamp Altitude 0 1000
  let SigmaW := 1 / 10 * WindSpeed20Ft
  let SigmaUSigmaV := SigmaW / pow (177 / 1000 + 823 / 1000000 * AltitudeClamped) (4 / 10)
  ⟨SigmaUSigmaV, SigmaUSigmaV, SigmaW⟩

set_option linter.unusedVariables false in
/-- The local `RMSIntensities` of
`UTurbulenceModelDryden::GetTurbulenceBodyFrame(Dt, Va, Altitude, WindSpeed)`
(source lines 18-24): the altitude is converted to feet; the wind speed is
converted into the local `WindSpeedFtS`, and the unconverted `WindSpeed` is
passed on. -/
def GetTurbulenceBodyFrame.RMSIntensities {K : Type} [LinearOrderedField K] (pow : K → K → K)
    (Altitude WindSpeed : K) : TVector K :=
  let AltitudeFt := MToFt Altitude
  let WindSpeedFtS := MToFt WindSpeed
  GetTurbulenceRMSIntensities pow AltitudeFt WindSpeed

/-- The local `ScaleLengths` of `GetTurbulenceBodyFrame` (source lines 18-23). -/
def GetTurbulenceBodyFrame.ScaleLengths {K : Type} [LinearOrderedField K] (pow : K → K → K)
    (Altitude : K) : TVector K :=
  let AltitudeFt := MToFt Altitude
  GetTurbulenceScaleLengths pow AltitudeFt

/-! ## `Public/Turbulence/Dryden/Dryden.h`: the shaping filters -/

/-- The class `Integrator` of `Integrator.h` with state members that may hold a
NaN or an infinity, as they do after a division by zero in a filter; the step
sizes are finite. -/
structure FloatIntegrator where
  X : FloatValue := .finite 0
  UPrev : FloatValue := .finite 0
  Y : FloatValue := .finite 0
  DtMin : ℚ := 1 / 100

namespace FloatIntegrator

/-- Constructor `Integrator(float InitialState, float DtMin)`. -/
def mk2 (InitialState : FloatValue) (DtMin : ℚ) : FloatIntegrator :=
  { X := InitialState, UPrev := InitialState, Y := InitialState, DtMin := DtMin }

/-- Private method `Run(Dt, U)`. -/
def Run (s : FloatIntegrator) (Dt : ℚ) (U : FloatValue) : FloatValue × FloatIntegrator :=
  let Y := s.X.add ((FloatValue.finite (Dt / 2)).mul (U.add s.UPrev))
  (Y, { s with Y := Y, X := Y, UPrev := U })

/-- The `while (dtCumulative < Dt)` loop of `Integrate`; one unit of fuel is
spent per iteration. -/
def IntegrateLoop :
    Nat → FloatIntegrator → ℚ → FloatValue → ℚ → FloatValue → Option (FloatValue × FloatIntegrator)
  | 0, s, Dt, _, dtCumulative, y =>
    if dtCumulative < Dt then none else some (y, s)
  | fuel + 1, s, Dt, U, dtCumulative, y =>
    if dtCumulative < Dt then
      let tIncrement := if (Dt - dtCumulative) > s.DtMin then s.DtMin else (Dt - dtCumulative)
      let r := s.Run tIncrement U
      IntegrateLoop fuel r.2 Dt U (dtCumulative + tIncrement) r.1
    else some (y, s)

/-- Method `Integrate(Dt, U)`; `none` means that the sub-step loop did not exit
within `fuel` iterations. -/
def Integrate (fuel : Nat) (s : FloatIntegrator) (Dt : ℚ) (U : FloatValue) :
    Option (FloatValue × FloatIntegrator) :=
  if Dt > s.DtMin then
    IntegrateLoop fuel s Dt U 0 (.finite 0)
  else
    some (s.Run Dt U)

end FloatIntegrator

/-- The members of the base class `UDrydenModelTFBase` that the filters read:
the flag `IsInitialized`, the seed and the sample time `Ts`.  The random engine
is represented by the samples it yields, which are arguments of
`GetTurbulence`. -/
structure UDrydenModelTFBase where
  IsInitialized : Bool := false
  Seed : Int := 0
  Ts : ℚ

/-- The class `UDrydenModelTFHu`. -/
structure UDrydenModelTFHu extends UDrydenModelTFBase where
  _Integrator : FloatIntegrator := {}

/-- The class `UDrydenModelTFHv`. -/
structure UDrydenModelTFHv extends UDrydenModelTFBase where
  _Integrator_Vg_P1 : FloatIntegrator := {}
  _Integrator_Vg_P2 : FloatIntegrator := {}

/-- The class `UDrydenModelTFHw`. -/
structure UDrydenModelTFHw extends UDrydenModelTFBase where
  _Integrator_Wg_P1 : FloatIntegrator := {}
  _Integrator_Wg_P2 : FloatIntegrator := {}

namespace UDrydenModelTFHu

/-- Method `Initialize()` with the override `InitialiseIntegrators()`. -/
def Initialize (self : UDrydenModelTFHu) : UDrydenModelTFHu :=
  { self with
    _Integrator := FloatIntegrator.mk2 (.finite 0) self.Ts
    IsInitialized := true }

/-- Method `Filter(Dt, Va, L, Sigma, Noise)`; `sqrtf` is the library routine. -/
def Filter (sqrtf : FloatValue → FloatValue) (fuel : Nat) (self : UDrydenModelTFHu) (Dt : ℚ)
    (Va L Sigma Noise : FloatValue) : Option (FloatValue × UDrydenModelTFHu) := do
  let Lug_over_Va := if !Va.IsNearlyZero then L.div Va else .finite FLT_MAX
  let feedback_input := (sqrtf (Lug_over_Va.mul (.finite (2 / PI)))).mul Noise
  let summing_output := feedback_input.sub self._Integrator.X
  let w := summing_output.div Lug_over_Va
  let (ug_p, i) ← self._Integrator.Integrate fuel Dt w
  pure (Sigma.mul ug_p, { self with _Integrator := i })

/-- Method `GetTurbulence(Va, Dt, L, Sigma)` of the base class, on an object of
class `UDrydenModelTFHu`; `draw` is the sample `WhiteNoise(RNGEngine)`. -/
def GetTurbulence (sqrtf : FloatValue → FloatValue) (fuel : Nat) (self : UDrydenModelTFHu)
    (Va : FloatValue) (Dt : ℚ) (L Sigma draw : FloatValue) :
    Option (FloatValue × UDrydenModelTFHu) := do
  let self := if !self.IsInitialized then self.Initialize else self
  let Va := if Va.IsNaN || Va.IsNearlyZero then .finite 0 else Va
  let noise := (sqrtf ((FloatValue.finite PI).div (.finite self.Ts))).mul draw
  let (turbulenceFts, self) ← self.Filter sqrtf fuel Dt Va L Sigma noise
  let turbulenceFts :=
    if turbulenceFts.IsNaN || turbulenceFts.IsNearlyZero then .finite 0 else turbulenceFts
  pure (turbulenceFts, self)

end UDrydenModelTFHu

namespace UDrydenModelTFHv

/-- Method `Initialize()` with the override `InitialiseIntegrators()`. -/
def Initialize (self : UDrydenModelTFHv) : UDrydenModelTFHv :=
  { self with
    _Integrator_Vg_P1 := FloatIntegrator.mk2 (.finite 0) self.Ts
    _Integrator_Vg_P2 := FloatIntegrator.mk2 (.finite 0) self.Ts
    IsInitialized := true }

/-- Method `Filter(Dt, Va, L, Sigma, Noise)`. -/
def Filter (sqrtf : FloatValue → FloatValue) (fuel : Nat) (self : UDrydenModelTFHv) (Dt : ℚ)
    (Va L Sigma Noise : FloatValue) : Option (FloatValue × UDrydenModelTFHv) := do
  let Lvg_over_Va := if !Va.IsNearlyZero then L.div Va else .finite FLT_MAX
  let feedback_input := (sqrtf (Lvg_over_Va.mul (.finite (1 / PI)))).mul Noise
  let summing1_output := feedback_input.sub self._Integrator_Vg_P1.X
  let w1 := summing1_output.div Lvg_over_Va
  let (vg_p1, i1) ← self._Integrator_Vg_P1.Integrate fuel Dt w1
  let summing2_input_2 := ((sqrtf (.finite 3)).mul Lvg_over_Va).mul w1
  let summing2_output := (vg_p1.add summing2_input_2).sub self._Integrator_Vg_P2.X
  let w2 := summing2_output.div Lvg_over_Va
  let (vg_p2, i2) ← self._Integrator_Vg_P2.Integrate fuel Dt w2
  pure (Sigma.mul vg_p2, { self with _Integrator_Vg_P1 := i1, _Integrator_Vg_P2 := i2 })

/-- Method `GetTurbulence(Va, Dt, L, Sigma)` of the base class, on an object of
class `UDrydenModelTFHv`. -/
def GetTurbulence (sqrtf : FloatValue → FloatValue) (fuel : Nat) (self : UDrydenModelTFHv)
    (Va : FloatValue) (Dt : ℚ) (L Sigma draw : FloatValue) :
    Option (FloatValue × UDrydenModelTFHv) := do
  let self := if !self.IsInitialized then self.Initialize else self
  let Va := if Va.IsNaN || Va.IsNearlyZero then .finite 0 else Va
  let noise := (sqrtf ((FloatValue.finite PI).div (.finite self.Ts))).mul draw
  let (turbulenceFts, self) ← self.Filter sqrtf fuel Dt Va L Sigma noise
  let turbulenceFts :=
    if turbulenceFts.IsNaN || turbulenceFts.IsNearlyZero then .finite 0 else turbulenceFts
  pure (turbulenceFts, self)

end UDrydenModelTFHv

namespace UDrydenModelTFHw

/-- Method `Initialize()` with the override `InitialiseIntegrators()`. -/
def Initialize (self : UDrydenModelTFHw) : UDrydenModelTFHw :=
  { self with
    _Integrator_Wg_P1 := FloatIntegrator.mk2 (.finite 0) self.Ts
    _Integrator_Wg_P2 := FloatIntegrator.mk2 (.finite 0) self.Ts
    IsInitialized := true }

/-- Method `Filter(Dt, Va, L, Sigma, Noise)`. -/
def Filter (sqrtf : FloatValue → FloatValue) (fuel : Nat) (self : UDrydenModelTFHw) (Dt : ℚ)
    (Va L Sigma Noise : FloatValue) : Option (FloatValue × UDrydenModelTFHw) := do
  let Lwg_over_Va := if !Va.IsNearlyZero then L.div Va else .finite FLT_MAX
  let feedback_input := (sqrtf (Lwg_over_Va.mul (.finite (1 / PI)))).mul Noise
  let summing1_output := feedback_input.sub self._Integrator_Wg_P1.X
  let w1 := summing1_output.div Lwg_over_Va
  let (wg_p1, i1) ← self._Integrator_Wg_P1.Integrate fuel Dt w1
  let summing2_input_2 := ((sqrtf (.finite 3)).mul Lwg_over_Va).mul w1
  let summing2_output := (wg_p1.add summing2_input_2).sub self._Integrator_Wg_P2.X
  let w2 := summing2_output.div Lwg_over_Va
  let (wg_p2, i2) ← self._Integrator_Wg_P2.Integrate fuel Dt w2
  pure (Sigma.mul wg_p2, { self with _Integrator_Wg_P1 := i1, _Integrator_Wg_P2 := i2 })

/-- Method `GetTurbulence(Va, Dt, L, Sigma)` of the base class, on an object of
class `UDrydenModelTFHw`. -/
def GetTurbulence (sqrtf : FloatValue → FloatValue) (fuel : Nat) (self : UDrydenModelTFHw)
    (Va : FloatValue) (Dt : ℚ) (L Sigma draw : FloatValue) :
    Option (FloatValue × UDrydenModelTFHw) := do
  let self := if !self.IsInitialized then self.Initialize else self
  let Va := if Va.IsNaN || Va.IsNearlyZero then .finite 0 else Va
  let noise := (sqrtf ((FloatValue.finite PI).div (.finite self.Ts))).mul draw
  let (turbulenceFts, self) ← self.Filter sqrtf fuel Dt Va L Sigma noise
  let turbulenceFts :=
    if turbulenceFts.IsNaN || turbulenceFts.IsNearlyZero then .finite 0 else turbulenceFts
  pure (turbulenceFts, self)

end UDrydenModelTFHw

/-- The class `UTurbulenceModelDryden`: three pointers to filter objects, each of
which may be null. -/
structure UTurbulenceModelDryden where
  DrydenHu : Option UDrydenModelTFHu := none
  DrydenHv : Option UDrydenModelTFHv := none
  DrydenHw : Option UDrydenModelTFHw := none

namespace UTurbulenceModelDryden

/-- Method `GetTurbulenceBodyFrame(Dt, Va, Altitude, WindSpeed)` with finite
arguments; `drawU`, `drawV` and `drawW` are the noise samples of the three
filters.  The result is the returned vector, whose components may be
non-finite, and the object with its updated filters; `none` means that a
sub-step loop did not exit within `fuel` iterations. -/
def GetTurbulenceBodyFrame (pow : ℚ → ℚ → ℚ) (sqrtf : FloatValue → FloatValue) (fuel : Nat)
    (self : UTurbulenceModelDryden) (Dt Va Altitude WindSpeed : ℚ)
    (drawU drawV drawW : FloatValue) : Option (RawFVector × UTurbulenceModelDryden) := do
  let AirspeedFtS : ℚ := MToFt Va
  let ScaleLengths := GetTurbulenceBodyFrame.ScaleLengths pow Altitude
  let RMSIntensities := GetTurbulenceBodyFrame.RMSIntensities pow Altitude WindSpeed
  let (VwgX, hu) ← match self.DrydenHu with
    | some hu => do
      let r ← hu.GetTurbulence sqrtf fuel (.finite AirspeedFtS) Dt (.finite ScaleLengths.X)
        (.finite RMSIntensities.X) drawU
      pure (r.1.FtToM, some r.2)
    | none => pure (FloatValue.finite 0, none)
  let (VwgY, hv) ← match self.DrydenHv with
    | some hv => do
      let r ← hv.GetTurbulence sqrtf fuel (.finite AirspeedFtS) Dt (.finite ScaleLengths.Y)
        (.finite RMSIntensities.Y) drawV
      pure (r.1.FtToM, some r.2)
    | none => pure (FloatValue.finite 0, none)
  let (VwgZ, hw) ← match self.DrydenHw with
    | some hw => do
      let r ← hw.GetTurbulence sqrtf fuel (.finite AirspeedFtS) Dt (.finite ScaleLengths.Z)
        (.finite RMSIntensities.Z) drawW
      pure (r.1.FtToM, some r.2)
    | none => pure (FloatValue.finite 0, none)
  pure (⟨VwgX, VwgY, VwgZ⟩, { DrydenHu := hu, DrydenHv := hv, DrydenHw := hw })

end UTurbulenceModelDryden

/-! ## Well-formed filter objects -/

/-- A filter object with a positive sample time whose integrator, once
initialised, steps by the sample time (as `Initialize` leaves it). -/
def UDrydenModelTFHu.Valid (f : UDrydenModelTFHu) : Prop :=
  0 < f.Ts ∧ (f.IsInitialized = true → f._Integrator.DtMin = f.Ts)

/-- A filter object with a positive sample time whose integrators, once
initialised, step by the sample time. -/
def UDrydenModelTFHv.Valid (f : UDrydenModelTFHv) : Prop :=
  0 < f.Ts ∧ (f.IsInitialized = true →
    f._Integrator_Vg_P1.DtMin = f.Ts ∧ f._Integrator_Vg_P2.DtMin = f.Ts)

/-- A filter object with a positive sample time whose integrators, once
initialised, step by the sample time. -/
def UDrydenModelTFHw.Valid (f : UDrydenModelTFHw) : Prop :=
  0 < f.Ts ∧ (f.IsInitialized = true →
    f._Integrator_Wg_P1.DtMin = f.Ts ∧ f._Integrator_Wg_P2.DtMin = f.Ts)

/-- A turbulence model whose filters are well formed, with enough fuel for the
sub-steps of a frame of length `Dt`. -/
def UTurbulenceModelDryden.Ready (m : UTurbulenceModelDryden) (Dt : ℚ) (fuel : Nat) : Prop :=
  (∀ f, m.DrydenHu = some f → f.Valid ∧ Dt ≤ fuel * f.Ts)
    ∧ (∀ f, m.DrydenHv = some f → f.Valid ∧ Dt ≤ fuel * f.Ts)
    ∧ (∀ f, m.DrydenHw = some f → f.Valid ∧ Dt ≤ fuel * f.Ts)

/-- A stand-in for the square-root routine on values that may be non-finite:
the square root of the rationals (exact on squares) on a finite argument that
is not negative, NaN on a negative one, and the IEEE values at the infinities
and NaN. -/
def sampleSqrtf : FloatValue → FloatValue
  | .finite x => if x < 0 then .nan else .finite (Rat.sqrt x)
  | .posInf => .posInf
  | .negInf => .nan
  | .nan => .nan

/-! ## `Pawns/FixedWing/FixedWingPawn.{h,cpp}`: commands -/

/-- The struct `FFixedWingActuatorState`. -/
structure FFixedWingActuatorState where
  de : ℚ := 0
  da : ℚ := 0
  dr : ℚ := 0
deriving DecidableEq

/-- The struct `FFixedWingActuatorCommandState`. -/
structure FFixedWingActuatorCommandState where
  de : ℚ := 0
  da : ℚ := 0
  dr : ℚ := 0
  dt : ℚ := 0
deriving DecidableEq

namespace AFixedWingPawn

/-- Method `AFixedWingPawn::ApplyThrustCommand(Value)`, on the member
`ActuatorCommandState`: the statement is `ActuatorCommandState.dt = 0.0f;`, the
call of `FMath::Clamp(Value, 0.0f, 1.0f)` stands behind it in a comment. -/
def ApplyThrustCommand (ActuatorCommandState : FFixedWingActuatorCommandState) (_Value : ℚ) :
    FFixedWingActuatorCommandState :=
  { ActuatorCommandState with dt := 0 }

/-- The thrust command in the words of the specification: `Value` clamped to
`[0, 1]` is stored. -/
def ApplyThrustCommandSpec (ActuatorCommandState : FFixedWingActuatorCommandState) (Value : ℚ) :
    FFixedWingActuatorCommandState :=
  { ActuatorCommandState with dt := Clamp Value 0 1 }

end AFixedWingPawn

/-! ## `Private/Pawns/FlyingPawn.cpp`: frame transforms, the sum of forces, the angular increment -/

namespace FVector

/-- Modelled from the spec: the engine method `FVector::SizeSquared()`. -/
def SizeSquared (v : FVector) : ℚ := v.X * v.X + v.Y * v.Y + v.Z * v.Z

end FVector

namespace AFlyingPawn

/-- Method `AFlyingPawn::TransformFromWorldToBody`; `Rwu` is the action
`SystemState.Rwu.RotateVector` of the stored rotator. -/
def TransformFromWorldToBody (Rwu : FVector → FVector) (WorldVector : FVector) : FVector :=
  let UnrealFrame := Rwu WorldVector
  ⟨UnrealFrame.X, UnrealFrame.Y, -UnrealFrame.Z⟩

/-- Method `AFlyingPawn::TransformFromBodyToWorld`; `Ruw` is the action
`SystemState.Ruw.RotateVector` of the stored rotator. -/
def TransformFromBodyToWorld (Ruw : FVector → FVector) (BodyVector : FVector) : FVector :=
  let UnrealFrame : FVector := ⟨BodyVector.X, BodyVector.Y, -BodyVector.Z⟩
  Ruw UnrealFrame

/-- The statement
`TotalForcesAndMoments = AirframeForcesAndMoments + PropulsionForcesAndMoments`
of `SubstepTick`: the three locals after it.  The right operand is passed by
value to `operator+`, which works on its left operand. -/
def SubstepTickSum (AirframeForcesAndMoments PropulsionForcesAndMoments : FForcesAndMoments) :
    FForcesAndMoments × FForcesAndMoments × FForcesAndMoments :=
  let r := AirframeForcesAndMoments.operatorPlus PropulsionForcesAndMoments
  let TotalForcesAndMoments := r.1
  let AirframeForcesAndMoments := r.2
  (TotalForcesAndMoments, AirframeForcesAndMoments, PropulsionForcesAndMoments)

/-- The local `domegab` of `ApplyKinematics`, the angular increment before
`RemoveNumericalErrors`:
`(JInverse * (momentsb - omegab.cross(J * omegab))) * DeltaTime`. -/
def domegab (c : FSystemCharacteristics) (Omegab Moments : FVector) (DeltaTime : ℚ) : FVector :=
  let momentsb := Moments
  let omegab := Omegab
  FVector.smul DeltaTime (c.JInverse.mulVec (momentsb.sub (omegab.cross (c.J.mulVec omegab))))

end AFlyingPawn

/-! ## The table look-up with a checked division -/

/-- The quotient `IsNearlyZero(j12 - j11) ? 0.0f : (j12 - J) / (j12 - j11)` of
the look-up with a fallible division: `none` when the division is evaluated
with a zero divisor. -/
def CheckedQuotient (j11 j12 J : ℚ) : Option ℚ :=
  if IsNearlyZero (j12 - j11) then some 0
  else if j12 - j11 = 0 then none else some ((j12 - J) / (j12 - j11))

/-- The along-`J` part of `GetAerodynamicConstants` (as `InterpolateAlongJ`)
in which the division of `j1Frac` is made fallible: the result is `none` also
when the division `(j12 - J) / (j12 - j11)` is evaluated with a zero
divisor. -/
def InterpolateAlongJChecked (row : FConstantSpeedPropellerPhysicsParameters) (J : ℚ) :
    Option (ℚ × ℚ) := do
  let jn1 := row.J
  let CTn1 := row.CT
  let CPn1 := row.CP
  let j12i := Clamp (UpperBound jn1 J) 0 (Num jn1 - 1)
  let j11i := Clamp (j12i - 1) 0 (Num jn1 - 1)
  let CT1 ← At CTn1 j11i
  let CP1 ← At CPn1 j11i
  if j11i ≠ j12i then
    let j11 ← At jn1 j11i
    let j12 ← At jn1 j12i
    let quotient ← CheckedQuotient j11 j12 J
    let j1Frac := Clamp quotient 0 1
    let CT12 ← At CTn1 j12i
    let CT11 ← At CTn1 j11i
    let CP12 ← At CPn1 j12i
    let CP11 ← At CPn1 j11i
    pure (CT1 + j1Frac * (CT12 - CT11), CP1 + j1Frac * (CP12 - CP11))
  else
    pure (CT1, CP1)



/-! ## `Actuation/ControlSurfaces/ControlSurface.{h,cpp}` -/

namespace UFirstOrderActuator

/-- The first statement of `UFirstOrderActuator::ApplyActuatorCommand`:
`if (!bActuatorInitialised) InitialiseActuator();`. -/
def Seeded (a : UFirstOrderActuator) : UFirstOrderActuator :=
  if a.bActuatorInitialised then a else a.InitialiseActuator

end UFirstOrderActuator

namespace USecondOrderActuator

/-- The first statement of `USecondOrderActuator::ApplyActuatorCommand`:
`if (!bActuatorInitialised) InitialiseActuator();`. -/
def Seeded (a : USecondOrderActuator) : USecondOrderActuator :=
  if a.bActuatorInitialised then a else a.InitialiseActuator

end USecondOrderActuator

/-- The sub-step loop of `Integrator::Integrate` exits within `fuel` iterations
for the step `Dt`: the minimum step is positive, and `Dt` is at most one
minimum step or at most `fuel` of them. -/
def Integrator.Enough (fuel : Nat) (s : Integrator) (Dt : ℚ) : Prop :=
  0 < s.DtMin ∧ (Dt ≤ s.DtMin ∨ Dt ≤ fuel * s.DtMin)

/-- The concrete subclasses of the abstract class `UActuatorModel`: a control
surface holds a `UActuatorModel*` and calls its virtual methods. -/
inductive UActuatorModel where
  | FirstOrder (a : UFirstOrderActuator)
  | SecondOrder (a : USecondOrderActuator)
deriving DecidableEq

namespace UActuatorModel

/-- Virtual method `UActuatorModel::ApplyActuatorCommand(Command, DeltaTime)`,
dispatched on the subclass: the returned value and the actuator afterwards. -/
def ApplyActuatorCommand (fuel : Nat) (m : UActuatorModel) (Command DeltaTime : ℚ) :
    Option (ℚ × UActuatorModel) :=
  match m with
  | FirstOrder a =>
    match a.ApplyActuatorCommand fuel Command DeltaTime with
    | none => none
    | some (y, a') => some (y, FirstOrder a')
  | SecondOrder a =>
    match a.ApplyActuatorCommand fuel Command DeltaTime with
    | none => none
    | some (y, a') => some (y, SecondOrder a')

/-- The integrators of the actuator, as they are after the initialisation
check of a call, have enough fuel for the step `Dt`. -/
def Ready (fuel : Nat) (m : UActuatorModel) (Dt : ℚ) : Prop :=
  match m with
  | FirstOrder a => a.Seeded.integrator.Enough fuel Dt
  | SecondOrder a =>
    a.Seeded.integrator1.Enough fuel Dt ∧ a.Seeded.integrator2.Enough fuel Dt

end UActuatorModel

/-- Struct `FControlSurfaceState`. -/
structure FControlSurfaceState where
  Deflection : ℚ := 0
deriving DecidableEq

/-- The data members of `UCtrlSurfaceStaticMeshComponent`; the pointer
`ActuatorModel` is `none` when null, and otherwise holds the actuator it
points to (each servo of a pawn is associated with one mesh only). -/
structure UCtrlSurfaceStaticMeshComponent where
  ControlSurfaceState : FControlSurfaceState := {}
  ActuatorModel : Option UActuatorModel
  MaxDeflection : ℚ
deriving DecidableEq

namespace UCtrlSurfaceStaticMeshComponent

/-- Method `UCtrlSurfaceStaticMeshComponent::ApplyActuatorCommand(Cmd,
DeltaTime)`: the component after the call. -/
def ApplyActuatorCommand (fuel : Nat) (m : UCtrlSurfaceStaticMeshComponent)
    (Cmd DeltaTime : ℚ) : Option UCtrlSurfaceStaticMeshComponent :=
  match m.ActuatorModel with
  | some a =>
    match a.ApplyActuatorCommand fuel Cmd DeltaTime with
    | none => none
    | some (y, a') =>
      some { m with ControlSurfaceState := { Deflection := y }, ActuatorModel := some a' }
  | none =>
    some { m with
      ControlSurfaceState :=
        { Deflection := Clamp (Cmd * m.MaxDeflection) (-m.MaxDeflection) m.MaxDeflection } }

/-- Method `UCtrlSurfaceStaticMeshComponent::GetMotionState`. -/
def GetMotionState (m : UCtrlSurfaceStaticMeshComponent) : ℚ :=
  m.ControlSurfaceState.Deflection

/-- The actuator of the component, if there is one, is ready for the step. -/
def Ready (fuel : Nat) (m : UCtrlSurfaceStaticMeshComponent) (Dt : ℚ) : Prop :=
  match m.ActuatorModel with
  | some a => a.Ready fuel Dt
  | none => True

end UCtrlSurfaceStaticMeshComponent

/-! ## `Pawns/FixedWing/StandardFixedWingPawn.cpp`, `VTailPawn.cpp`: ailerons -/

/-- The data members of `AStandardFixedWingPawn` that `UpdateAileronAngles`
and `ApplyRollCommand` read or write. -/
structure AStandardFixedWingPawn where
  ActuatorCommandState : FFixedWingActuatorCommandState := {}
  ActuatorState : FFixedWingActuatorState := {}
  LeftAileronMesh : UCtrlSurfaceStaticMeshComponent
  RightAileronMesh : UCtrlSurfaceStaticMeshComponent
deriving DecidableEq

namespace AStandardFixedWingPawn

/-- Method `AStandardFixedWingPawn::UpdateAileronAngles(DeltaTime)`: the pawn
after the call. -/
def UpdateAileronAngles (fuel : Nat) (self : AStandardFixedWingPawn) (DeltaTime : ℚ) :
    Option AStandardFixedWingPawn :=
  match self.LeftAileronMesh.ApplyActuatorCommand fuel
      (1 / 2 * (self.ActuatorCommandState.de - self.ActuatorCommandState.dr)) DeltaTime with
  | none => none
  | some LeftAileronMesh =>
    match self.RightAileronMesh.ApplyActuatorCommand fuel
        (1 / 2 * (self.ActuatorCommandState.de + self.ActuatorCommandState.dr)) DeltaTime with
    | none => none
    | some RightAileronMesh =>
      some { self with
        LeftAileronMesh := LeftAileronMesh
        RightAileronMesh := RightAileronMesh
        ActuatorState :=
          { self.ActuatorState with
            da := 1 / 2 * (LeftAileronMesh.GetMotionState - RightAileronMesh.GetMotionState) } }

/-- Method `AStandardFixedWingPawn::ApplyRollCommand(Value)`. -/
def ApplyRollCommand (self : AStandardFixedWingPawn) (Value : ℚ) : AStandardFixedWingPawn :=
  { self with ActuatorCommandState := { self.ActuatorCommandState with da := Clamp Value (-1) 1 } }

end AStandardFixedWingPawn

/-- The data members of `AVTailPawn` that `UpdateAileronAngles` and
`ApplyRollCommand` read or write. -/
structure AVTailPawn where
  ActuatorCommandState : FFixedWingActuatorCommandState := {}
  ActuatorState : FFixedWingActuatorState := {}
  LeftAileronMesh : UCtrlSurfaceStaticMeshComponent
  RightAileronMesh : UCtrlSurfaceStaticMeshComponent
deriving DecidableEq

namespace AVTailPawn

/-- Method `AVTailPawn::UpdateAileronAngles(DeltaTime)`: the pawn after the
call. -/
def UpdateAileronAngles (fuel : Nat) (self : AVTailPawn) (DeltaTime : ℚ) :
    Option AVTailPawn :=
  match self.LeftAileronMesh.ApplyActuatorCommand fuel
      (1 / 2 * (self.ActuatorCommandState.de - self.ActuatorCommandState.dr)) DeltaTime with
  | none => none
  | some LeftAileronMesh =>
    match self.RightAileronMesh.ApplyActuatorCommand fuel
        (1 / 2 * (self.ActuatorCommandState.de + self.ActuatorCommandState.dr)) DeltaTime with
    | none => none
    | some RightAileronMesh =>
      some { self with
        LeftAileronMesh := LeftAileronMesh
        RightAileronMesh := RightAileronMesh
        ActuatorState :=
          { self.ActuatorState with
            da := 1 / 2 * (LeftAileronMesh.GetMotionState - RightAileronMesh.GetMotionState) } }

/-- Method `AVTailPawn::ApplyRollCommand(Value)`. -/
def ApplyRollCommand (self : AVTailPawn) (Value : ℚ) : AVTailPawn :=
  { self with ActuatorCommandState := { self.ActuatorCommandState with da := Clamp Value (-1) 1 } }

end AVTailPawn

/-- A sample standard fixed-wing pawn: pitch command `1/2`, yaw command `1/4`,
a second-order servo on the left aileron and no actuator on the right one. -/
def sampleStandardPawn : AStandardFixedWingPawn :=
  { ActuatorCommandState := { de := 1 / 2, dr := 1 / 4 }
    LeftAileronMesh :=
      { ActuatorModel := some (UActuatorModel.SecondOrder { wn := 10, zeta := 1, DCGain := 1 })
        MaxDeflection := 1 / 2 }
    RightAileronMesh := { ActuatorModel := none, MaxDeflection := 1 / 2 } }

/-- A sample V-tail pawn: pitch command `1/2`, yaw command `1/4`, a first-order
servo on the left aileron and a second-order servo on the right one. -/
def sampleVTailPawn : AVTailPawn :=
  { ActuatorCommandState := { de := 1 / 2, dr := 1 / 4 }
    LeftAileronMesh :=
      { ActuatorModel := some (UActuatorModel.FirstOrder { wn := 10 })
        MaxDeflection := 1 / 2 }
    RightAileronMesh :=
      { ActuatorModel := some (UActuatorModel.SecondOrder { wn := 10, zeta := 1, DCGain := 1 })
        MaxDeflection := 1 / 2 } }

/-! ## `Pawns/FlyingPawn.{h,cpp}`, `FixedWingPawn.{h,cpp}`: the airframe forces and moments -/

/-- The struct `FCL`. -/
structure FCL where
  CL0 : ℚ := 0
  CLAlpha : ℚ := 0
  CLq : ℚ := 0
deriving DecidableEq

/-- The struct `FCD`. -/
structure FCD where
  CD0 : ℚ := 0
  CDAlpha : ℚ := 0
  CDAlpha2 : ℚ := 0
  CDq : ℚ := 0
  CDBeta : ℚ := 0
  CDBeta2 : ℚ := 0
deriving DecidableEq

/-- The struct `FCY`. -/
structure FCY where
  CY0 : ℚ := 0
  CYBeta : ℚ := 0
  CYp : ℚ := 0
  CYr : ℚ := 0
deriving DecidableEq

/-- The struct `FCI`. -/
structure FCI where
  CI0 : ℚ := 0
  CIBeta : ℚ := 0
  CIp : ℚ := 0
  CIr : ℚ := 0
deriving DecidableEq

/-- The struct `FCm`. -/
structure FCm where
  Cm0 : ℚ := 0
  CmAlpha : ℚ := 0
  Cmq : ℚ := 0
deriving DecidableEq

/-- The struct `FCn`. -/
structure FCn where
  Cn0 : ℚ := 0
  CnBeta : ℚ := 0
  Cnp : ℚ := 0
  Cnr : ℚ := 0
deriving DecidableEq

/-- The struct `FAerodynamicCoefficients`. -/
structure FAerodynamicCoefficients where
  CL : FCL := {}
  CD : FCD := {}
  CY : FCY := {}
  CI : FCI := {}
  Cm : FCm := {}
  Cn : FCn := {}
deriving DecidableEq

/-- The struct `FGeometricCharacteristics`: wing span `b`, mean chord `c` and
the reference areas `A`. -/
structure FGeometricCharacteristics where
  b : ℚ := 0
  c : ℚ := 0
  A : FVector := ⟨0, 0, 0⟩
deriving DecidableEq

/-- The struct `FAerodynamicCalculationParameters`. -/
structure FAerodynamicCalculationParameters where
  DynamicPressure : ℚ := 0
  cOver2Va : ℚ := 0
  bOver2Va : ℚ := 0
deriving DecidableEq

/-- The struct `FCLControlDerivatives`. -/
structure FCLControlDerivatives where
  CLde : ℚ := 0
deriving DecidableEq

/-- The struct `FCDControlDerivatives`. -/
structure FCDControlDerivatives where
  CDde : ℚ := 0
deriving DecidableEq

/-- The struct `FCYControlDerivatives`. -/
structure FCYControlDerivatives where
  CYda : ℚ := 0
  CYdr : ℚ := 0
deriving DecidableEq

/-- The struct `FCIControlDerivatives`. -/
structure FCIControlDerivatives where
  CIda : ℚ := 0
  CIdr : ℚ := 0
deriving DecidableEq

/-- The struct `FCmControlDerivatives`. -/
structure FCmControlDerivatives where
  Cmde : ℚ := 0
deriving DecidableEq

/-- The struct `FCnControlDerivatives`. -/
structure FCnControlDerivatives where
  Cnda : ℚ := 0
  Cndr : ℚ := 0
deriving DecidableEq

/-- The struct `FAerodynamicControlDerivatives`. -/
structure FAerodynamicControlDerivatives where
  CL : FCLControlDerivatives := {}
  CD : FCDControlDerivatives := {}
  CY : FCYControlDerivatives := {}
  CI : FCIControlDerivatives := {}
  Cm : FCmControlDerivatives := {}
  Cn : FCnControlDerivatives := {}
deriving DecidableEq

/-- Modelled from the spec: the engine's `operator*` on two vectors (and
`operator*=`), the product component by component. -/
def FVector.mul (a b : FVector) : FVector := ⟨a.X * b.X, a.Y * b.Y, a.Z * b.Z⟩

/-- Modelled from the spec: the engine routine `FMath::RadiansToDegrees`. -/
def RadiansToDegrees (RadVal : ℚ) : ℚ := RadVal * (180 / PI)

namespace AFlyingPawn

/-- The virtual methods that the airframe calculation of `AFlyingPawn` calls,
as what they compute on the pawn at the time of the call:
`CalculateAdjustedCDAlphaCLAlphaForStall(CDAlpha, CLAlpha)` returns the members
`X` and `Y` of an `FVector2D`. -/
structure VirtualMethods where
  CalculateAdjustedCDAlphaCLAlphaForStall : ℚ → ℚ → ℚ × ℚ
  CalculateAdditionalCDParameters : ℚ
  CalculateAdditionalCLParameters : ℚ
  CalculateAdditionalCYParameters : ℚ
  CalculateAdjustedCmAlphaForStall : ℚ → ℚ
  CalculateAdditionalClParameters : ℚ
  CalculateAdditionalCmParameters : ℚ
  CalculateAdditionalCnParameters : ℚ

/-- The bodies that `FlyingPawn.h` gives these virtual methods. -/
def BaseMethods : VirtualMethods :=
  { CalculateAdjustedCDAlphaCLAlphaForStall := fun CDAlpha CLAlpha => (CDAlpha, CLAlpha)
    CalculateAdditionalCDParameters := 0
    CalculateAdditionalCLParameters := 0
    CalculateAdditionalCYParameters := 0
    CalculateAdjustedCmAlphaForStall := fun CmAlpha => CmAlpha
    CalculateAdditionalClParameters := 0
    CalculateAdditionalCmParameters := 0
    CalculateAdditionalCnParameters := 0 }

/-- Method `AFlyingPawn::UpdateAerodynamicCalculationParameters`, given
`AirspeedState.Va` and `AtmosphericConditionsState.rho`: the value assigned to
`AerodynamicCalculationParameters`.  `pow(Va, 2.0f)` is the square. -/
def UpdateAerodynamicCalculationParameters (GeometricCharacteristics : FGeometricCharacteristics)
    (Va rho : ℚ) : FAerodynamicCalculationParameters :=
  let b := GeometricCharacteristics.b
  let c := GeometricCharacteristics.c
  let bOver2Va := if !IsNearlyZero Va then b / (2 * Va) else 0
  let cOver2Va := if !IsNearlyZero Va then c / (2 * Va) else 0
  { DynamicPressure := 1 / 2 * rho * Va ^ 2, bOver2Va := bOver2Va, cOver2Va := cOver2Va }

/-- Method `AFlyingPawn::CalculateAirframeAerodynamicForces`.  `V` holds the
virtual methods of the pawn, `RotateVector Pitch Yaw Roll` is the engine method
`FRotator(Pitch, Yaw, Roll).RotateVector`, `Omegab` is `SystemState.Omegab`. -/
def CalculateAirframeAerodynamicForces (V : VirtualMethods)
    (RotateVector : ℚ → ℚ → ℚ → FVector → FVector)
    (AerodynamicCoefficients : FAerodynamicCoefficients)
    (GeometricCharacteristics : FGeometricCharacteristics) (Omegab : FVector)
    (AirspeedState : FAirspeedState)
    (AerodynamicCalculationParameters : FAerodynamicCalculationParameters) : FVector :=
  let CD0 := AerodynamicCoefficients.CD.CD0
  let CDAlpha := AerodynamicCoefficients.CD.CDAlpha
  let CDAlpha2 := AerodynamicCoefficients.CD.CDAlpha2
  let CDq := AerodynamicCoefficients.CD.CDq
  let CDBeta := AerodynamicCoefficients.CD.CDBeta
  let CDBeta2 := AerodynamicCoefficients.CD.CDBeta2
  let CY0 := AerodynamicCoefficients.CY.CY0
  let CYBeta := AerodynamicCoefficients.CY.CYBeta
  let CYp := AerodynamicCoefficients.CY.CYp
  let CYr := AerodynamicCoefficients.CY.CYr
  let CL0 := AerodynamicCoefficients.CL.CL0
  let CLAlpha := AerodynamicCoefficients.CL.CLAlpha
  let CLq := AerodynamicCoefficients.CL.CLq
  let p := Omegab.X
  let q := Omegab.Y
  let r := Omegab.Z
  let alpha := AirspeedState.alpha
  let beta := AirspeedState.beta
  let AerodynamicMultiple :=
    FVector.smul AerodynamicCalculationParameters.DynamicPressure GeometricCharacteristics.A
  let bOver2Va := AerodynamicCalculationParameters.bOver2Va
  let cOver2Va := AerodynamicCalculationParameters.cOver2Va
  let CDALPHA := CD0 + CDAlpha * alpha + CDAlpha2 * alpha ^ 2
  let CLALPHA := CL0 + CLAlpha * alpha
  let CDALPHACLALPHA := V.CalculateAdjustedCDAlphaCLAlphaForStall CDALPHA CLALPHA
  let CDALPHA := CDALPHACLALPHA.1
  let CLALPHA := CDALPHACLALPHA.2
  let CDCalc :=
    CDALPHA + CDq * cOver2Va * q + CDBeta * beta + CDBeta2 * beta ^ 2
      + V.CalculateAdditionalCDParameters
  let CLCalc := CLALPHA + CLq * cOver2Va * q + V.CalculateAdditionalCLParameters
  let CY :=
    CY0 + CYBeta * beta + CYp * bOver2Va * p + CYr * bOver2Va * r
      + V.CalculateAdditionalCYParameters
  let Fxyz :=
    (RotateVector (RadiansToDegrees alpha) (RadiansToDegrees beta) 0
      ⟨-CDCalc, CY, -CLCalc⟩).mul AerodynamicMultiple
  Fxyz

/-- Method `AFlyingPawn::CalculateAirframeAerodynamicMoments`. -/
def CalculateAirframeAerodynamicMoments (V : VirtualMethods)
    (AerodynamicCoefficients : FAerodynamicCoefficients)
    (GeometricCharacteristics : FGeometricCharacteristics) (Omegab : FVector)
    (AirspeedState : FAirspeedState)
    (AerodynamicCalculationParameters : FAerodynamicCalculationParameters) : FVector :=
  let b := GeometricCharacteristics.b
  let c := GeometricCharacteristics.c
  let CI0 := AerodynamicCoefficients.CI.CI0
  let CIBeta := AerodynamicCoefficients.CI.CIBeta
  let CIp := AerodynamicCoefficients.CI.CIp
  let CIr := AerodynamicCoefficients.CI.CIr
  let Cm0 := AerodynamicCoefficients.Cm.Cm0
  let CmAlpha := AerodynamicCoefficients.Cm.CmAlpha
  let Cmq := AerodynamicCoefficients.Cm.Cmq
  let Cn0 := AerodynamicCoefficients.Cn.Cn0
  let CnBeta := AerodynamicCoefficients.Cn.CnBeta
  let Cnp := AerodynamicCoefficients.Cn.Cnp
  let Cnr := AerodynamicCoefficients.Cn.Cnr
  let p := Omegab.X
  let q := Omegab.Y
  let r := Omegab.Z
  let alpha := AirspeedState.alpha
  let beta := AirspeedState.beta
  let AerodynamicMultiple :=
    FVector.smul AerodynamicCalculationParameters.DynamicPressure GeometricCharacteristics.A
  let bOver2Va := AerodynamicCalculationParameters.bOver2Va
  let cOver2Va := AerodynamicCalculationParameters.cOver2Va
  let CmALPHA := Cm0 + CmAlpha * alpha
  let CmALPHA := V.CalculateAdjustedCmAlphaForStall CmALPHA
  let CI :=
    CI0 + CIBeta * beta + CIp * bOver2Va * p + CIr * bOver2Va * r
      + V.CalculateAdditionalClParameters
  let Cm := CmALPHA + Cmq * cOver2Va * q + V.CalculateAdditionalCmParameters
  let Cn :=
    Cn0 + CnBeta * beta + Cnp * bOver2Va * p + Cnr * bOver2Va * r
      + V.CalculateAdditionalCnParameters
  let Mxyz : FVector := ⟨CI * b, Cm * c, Cn * b⟩
  let Mxyz := Mxyz.mul AerodynamicMultiple
  Mxyz

/-- Method `AFlyingPawn::CalculateAirframeForcesAndMoments`, given
`AtmosphericConditionsState.rho`: the returned forces and moments. -/
def CalculateAirframeForcesAndMoments (V : VirtualMethods)
    (RotateVector : ℚ → ℚ → ℚ → FVector → FVector)
    (AerodynamicCoefficients : FAerodynamicCoefficients)
    (GeometricCharacteristics : FGeometricCharacteristics) (Omegab : FVector)
    (AirspeedState : FAirspeedState) (rho : ℚ) : FForcesAndMoments :=
  let AerodynamicCalculationParameters :=
    UpdateAerodynamicCalculationParameters GeometricCharacteristics AirspeedState.Va rho
  let Forces :=
    CalculateAirframeAerodynamicForces V RotateVector AerodynamicCoefficients
      GeometricCharacteristics Omegab AirspeedState AerodynamicCalculationParameters
  let Moments :=
    CalculateAirframeAerodynamicMoments V AerodynamicCoefficients GeometricCharacteristics
      Omegab AirspeedState AerodynamicCalculationParameters
  { Forces := Forces, Moments := Moments }

end AFlyingPawn

namespace AFixedWingPawn

/-- The overrides of `AFixedWingPawn` for the virtual methods of the airframe
calculation, given the control derivatives, the actuator state, the stall
parameters, `AirspeedState.alpha` and the stored
`AerodynamicStallCalculationParameters.SigmaAlpha`; `sin` and `cos` are the
library routines. -/
def Overrides (sin cos : ℚ → ℚ)
    (AerodynamicControlDerivatives : FAerodynamicControlDerivatives)
    (ActuatorState : FFixedWingActuatorState)
    (AerodynamicStallParameters : FAerodynamicStallParameters ℚ) (alpha SigmaAlpha : ℚ) :
    AFlyingPawn.VirtualMethods :=
  { CalculateAdjustedCDAlphaCLAlphaForStall := fun CDAlpha CLAlpha =>
      SkyPhys.CalculateAdjustedCDAlphaCLAlphaForStall sin cos AerodynamicStallParameters alpha
        SigmaAlpha CDAlpha CLAlpha
    CalculateAdditionalCDParameters := AerodynamicControlDerivatives.CD.CDde * ActuatorState.de
    CalculateAdditionalCLParameters := AerodynamicControlDerivatives.CL.CLde * ActuatorState.de
    CalculateAdditionalCYParameters :=
      AerodynamicControlDerivatives.CY.CYda * ActuatorState.da
        + AerodynamicControlDerivatives.CY.CYdr * ActuatorState.dr
    CalculateAdjustedCmAlphaForStall := fun CmAlpha =>
      SkyPhys.CalculateAdjustedCmAlphaForStall sin AerodynamicStallParameters alpha SigmaAlpha
        CmAlpha
    CalculateAdditionalClParameters :=
      AerodynamicControlDerivatives.CI.CIda * ActuatorState.da
        + AerodynamicControlDerivatives.CI.CIdr * ActuatorState.dr
    CalculateAdditionalCmParameters := AerodynamicControlDerivatives.Cm.Cmde * ActuatorState.de
    CalculateAdditionalCnParameters :=
      AerodynamicControlDerivatives.Cn.Cnda * ActuatorState.da
        + AerodynamicControlDerivatives.Cn.Cndr * ActuatorState.dr }

/-- Method `AFixedWingPawn::CalculateAirframeForcesAndMoments`: the stall
parameters are updated, then the method of `AFlyingPawn` runs with the
overrides.  `exp`, `sin` and `cos` are the library routines.  The result is
`none` when the mixing factor that the update stores is not a finite value. -/
def CalculateAirframeForcesAndMoments (exp : FloatValue → FloatValue) (sin cos : ℚ → ℚ)
    (RotateVector : ℚ → ℚ → ℚ → FVector → FVector)
    (AerodynamicControlDerivatives : FAerodynamicControlDerivatives)
    (ActuatorState : FFixedWingActuatorState)
    (AerodynamicStallParameters : FAerodynamicStallParameters ℚ)
    (AerodynamicCoefficients : FAerodynamicCoefficients)
    (GeometricCharacteristics : FGeometricCharacteristics) (Omegab : FVector)
    (AirspeedState : FAirspeedState) (rho : ℚ) : Option FForcesAndMoments :=
  match UpdateAerodynamicStallCalculationParameters exp
      ⟨AerodynamicStallParameters.bEnableStallModel, .finite AerodynamicStallParameters.Alpha0,
        .finite AerodynamicStallParameters.M, .finite AerodynamicStallParameters.Cmfp⟩
      (.finite AirspeedState.alpha) with
  | .finite SigmaAlpha =>
    some (AFlyingPawn.CalculateAirframeForcesAndMoments
      (Overrides sin cos AerodynamicControlDerivatives ActuatorState AerodynamicStallParameters
        AirspeedState.alpha SigmaAlpha)
      RotateVector AerodynamicCoefficients GeometricCharacteristics Omegab AirspeedState rho)
  | _ => none

end AFixedWingPawn

/-- Sample stability derivatives of an airframe. -/
def sampleAerodynamicCoefficients : FAerodynamicCoefficients :=
  { CL := { CL0 := 1 / 4, CLAlpha := 5, CLq := 8 }
    CD := { CD0 := 1 / 20, CDAlpha := 1 / 10, CDAlpha2 := 1, CDq := 1, CDBeta := 1 / 10,
            CDBeta2 := 1 / 5 }
    CY := { CY0 := 1 / 100, CYBeta := -1, CYp := 1 / 10, CYr := 1 / 10 }
    CI := { CI0 := 1 / 100, CIBeta := -1 / 10, CIp := -1 / 2, CIr := 1 / 4 }
    Cm := { Cm0 := 1 / 10, CmAlpha := -3, Cmq := -10 }
    Cn := { Cn0 := 1 / 100, CnBeta := 1 / 10, Cnp := -1 / 20, Cnr := -1 / 5 } }

/-- Sample control derivatives of a fixed-wing airframe. -/
def sampleAerodynamicControlDerivatives : FAerodynamicControlDerivatives :=
  { CL := { CLde := 1 / 2 }, CD := { CDde := 1 / 10 }, CY := { CYda := 1 / 10, CYdr := 1 / 5 }
    CI := { CIda := 1 / 5, CIdr := 1 / 100 }, Cm := { Cmde := -1 }
    Cn := { Cnda := 1 / 100, Cndr := -1 / 10 } }

/-- A sample airspeed state at rest in still air, with stored angles that are
not zero. -/
def sampleAirspeedStateAtRest : FAirspeedState :=
  { Vwb := ⟨.finite 0, .finite 0, .finite 0⟩, Vab := ⟨0, 0, 0⟩, Va := 0, alpha := 1 / 10,
    beta := 1 / 20 }

/-! ## Rounded `float` arithmetic

The definitions above take `float` as the exact rationals.  The definitions of
this section follow the same source lines with every arithmetic operation
followed by a rounding `rnd : ℚ → ℚ`: `RoundFloat` for the binary32 type of
the program, the identity for exact arithmetic. -/

/-- The binary logarithm `⌊log2 n⌋` of a natural number `0 < n < 2^256`, by
bisection on the number of bits. -/
def Log2Bits (n : Nat) : Nat :=
  let r0 := if 2 ^ 128 ≤ n then 128 else 0
  let n0 := n >>> r0
  let r1 := if 2 ^ 64 ≤ n0 then 64 else 0
  let n1 := n0 >>> r1
  let r2 := if 2 ^ 32 ≤ n1 then 32 else 0
  let n2 := n1 >>> r2
  let r3 := if 2 ^ 16 ≤ n2 then 16 else 0
  let n3 := n2 >>> r3
  let r4 := if 2 ^ 8 ≤ n3 then 8 else 0
  let n4 := n3 >>> r4
  let r5 := if 2 ^ 4 ≤ n4 then 4 else 0
  let n5 := n4 >>> r5
  let r6 := if 2 ^ 2 ≤ n5 then 2 else 0
  let n6 := n5 >>> r6
  let r7 := if 2 ≤ n6 then 1 else 0
  r0 + r1 + r2 + r3 + r4 + r5 + r6 + r7

/-- The binary exponent `⌊log2 (p / q)⌋` of a positive fraction (numerator and
denominator below `2^256`). -/
def Binade (p q : Nat) : Int :=
  let k : Int := (Log2Bits p : Int) - (Log2Bits q : Int)
  if 0 ≤ k then (if q * 2 ^ k.toNat ≤ p then k else k - 1)
  else (if q ≤ p * 2 ^ (-k).toNat then k else k - 1)

/-- The integer nearest to `N / D`, the even one of the two at a tie. -/
def RoundNearestEven (N D : Nat) : Nat :=
  let f := N / D
  let r := N % D
  if 2 * r < D then f else if D < 2 * r then f + 1 else if f % 2 = 0 then f else f + 1

/-- Modelled from the spec: the rounding of the type `float` (IEEE 754 binary32,
24 significant bits, round to nearest, ties to even) applied to the exact
result of an operation.  The exponent range is not limited: overflow to an
infinity and the subnormal numbers are not modelled. -/
def RoundFloat (x : ℚ) : ℚ :=
  if x = 0 then 0 else
    let p := x.num.natAbs
    let q := x.den
    let s : Int := Binade p q - 23
    let a : ℚ :=
      if 0 ≤ s then ((RoundNearestEven p (q * 2 ^ s.toNat) * 2 ^ s.toNat : Nat) : ℚ)
      else (RoundNearestEven (p * 2 ^ (-s).toNat) q : ℚ) / ((2 ^ (-s).toNat : Nat) : ℚ)
    if x < 0 then -a else a

namespace Integrator

/-- Private method `Run(Dt, U)` in rounded arithmetic:
`Y = X + (Dt / 2.0f) * (U + UPrev)` has four operations. -/
def RunRounded (rnd : ℚ → ℚ) (s : Integrator) (Dt U : ℚ) : ℚ × Integrator :=
  let Y := rnd (s.X + rnd (rnd (Dt / 2) * rnd (U + s.UPrev)))
  (Y, { s with Y := Y, X := Y, UPrev := U })

/-- The `while (dtCumulative < Dt)` loop of `Integrate` in rounded arithmetic. -/
def IntegrateLoopRounded (rnd : ℚ → ℚ) :
    Nat → Integrator → ℚ → ℚ → ℚ → ℚ → Option (ℚ × Integrator)
  | 0, s, Dt, _, dtCumulative, y =>
    if dtCumulative < Dt then none else some (y, s)
  | fuel + 1, s, Dt, U, dtCumulative, y =>
    if dtCumulative < Dt then
      let tIncrement :=
        if rnd (Dt - dtCumulative) > s.DtMin then s.DtMin else rnd (Dt - dtCumulative)
      let r := s.RunRounded rnd tIncrement U
      IntegrateLoopRounded rnd fuel r.2 Dt U (rnd (dtCumulative + tIncrement)) r.1
    else some (y, s)

/-- Method `Integrate(Dt, U)` in rounded arithmetic. -/
def IntegrateRounded (rnd : ℚ → ℚ) (fuel : Nat) (s : Integrator) (Dt U : ℚ) :
    Option (ℚ × Integrator) :=
  if Dt > s.DtMin then
    IntegrateLoopRounded rnd fuel s Dt U 0 0
  else
    some (s.RunRounded rnd Dt U)

end Integrator

/-- Modelled from the spec: the engine routine `FMath::FInterpConstantTo` in
rounded arithmetic; `SMALL_NUMBER` is the literal `1.e-8f`. -/
def FInterpConstantToRounded (rnd : ℚ → ℚ) (Current Target DeltaTime InterpSpeed : ℚ) : ℚ :=
  let Dist := rnd (Target - Current)
  if rnd (Dist * Dist) < rnd SMALL_NUMBER then Target
  else
    let Step := rnd (InterpSpeed * DeltaTime)
    rnd (Current + Clamp Dist (-Step) Step)

namespace UFirstOrderActuator

/-- Method `UFirstOrderActuator::InitialiseActuator` in rounded arithmetic: the
integrator is `Integrator(InitialActuatorState)`, whose `DtMin` is the literal
`0.01f`. -/
def InitialiseActuatorRounded (rnd : ℚ → ℚ) (a : UFirstOrderActuator) : UFirstOrderActuator :=
  { a with
    integrator := Integrator.mk2 a.InitialActuatorState (rnd (1 / 100))
    ActuatorState := a.InitialActuatorState
    bActuatorInitialised := true }

/-- Method `UFirstOrderActuator::ApplyActuatorCommand(Command, DeltaTime)` in
rounded arithmetic, each operation rounded on its own. -/
def ApplyActuatorCommandRounded (rnd : ℚ → ℚ) (fuel : Nat) (a : UFirstOrderActuator)
    (Command DeltaTime : ℚ) : Option (ℚ × UFirstOrderActuator) :=
  let a := if !a.bActuatorInitialised then a.InitialiseActuatorRounded rnd else a
  let Input := rnd (Command * a.DCGain)
  let Feedback := a.integrator.X
  let IntegratorInput := rnd (a.wn * rnd (Input - Feedback))
  match a.integrator.IntegrateRounded rnd fuel DeltaTime IntegratorInput with
  | none => none
  | some (IntegratorOutputExpected, integrator) =>
    let IntegratorOutput := IntegratorOutputExpected
    let IntegratorOutput :=
      if a.RateLimit ≠ 0 then
        FInterpConstantToRounded rnd Feedback IntegratorOutputExpected DeltaTime a.RateLimit
      else IntegratorOutput
    let IntegratorOutput :=
      if a.LowerSaturation ≠ 0 then Clamp IntegratorOutput a.LowerSaturation FLT_MAX
      else IntegratorOutput
    let IntegratorOutput :=
      if a.UpperSaturation ≠ 0 then Clamp IntegratorOutput (-FLT_MAX) a.UpperSaturation
      else IntegratorOutput
    some (IntegratorOutput,
      { a with integrator := integrator, ActuatorState := IntegratorOutput })

/-- The same call `ApplyActuatorCommand(Command, DeltaTime)` made `n` times in a
row in rounded arithmetic: the value returned by the last call (`y0` when
`n = 0`) and the actuator afterwards. -/
def ApplyRepeatedRounded (rnd : ℚ → ℚ) (fuel : Nat) (Command DeltaTime : ℚ) :
    Nat → UFirstOrderActuator → ℚ → Option (ℚ × UFirstOrderActuator)
  | 0, a, y0 => some (y0, a)
  | n + 1, a, _ =>
    match ApplyActuatorCommandRounded rnd fuel a Command DeltaTime with
    | none => none
    | some (y, a') => ApplyRepeatedRounded rnd fuel Command DeltaTime n a' y

end UFirstOrderActuator

/-- The quotient `a / b` of two `float` values followed by
`FMath::Clamp(., 0.0f, 1.0f)`.  With the divisor `+0` the quotient is an
infinity or a NaN; `Clamp`, evaluated as `X < Min ? Min : (X < Max ? X : Max)`,
sends `-inf` to 0 and `+inf` and NaN to 1. -/
def ClampedQuotientRounded (rnd : ℚ → ℚ) (a b : ℚ) : ℚ :=
  if b = 0 then (if a < 0 then 0 else 1) else Clamp (rnd (a / b)) 0 1

/-- The along-`J` part of `GetAerodynamicConstants` for one row in rounded
arithmetic (`InterpolateAlongJ` with every operation rounded). -/
def InterpolateAlongJRounded (rnd : ℚ → ℚ) (row : FConstantSpeedPropellerPhysicsParameters)
    (J : ℚ) : Option (ℚ × ℚ) := do
  let jn1 := row.J
  let CTn1 := row.CT
  let CPn1 := row.CP
  let j12i := Clamp (UpperBound jn1 J) 0 (Num jn1 - 1)
  let j11i := Clamp (j12i - 1) 0 (Num jn1 - 1)
  let CT1 ← At CTn1 j11i
  let CP1 ← At CPn1 j11i
  if j11i ≠ j12i then
    let j11 ← At jn1 j11i
    let j12 ← At jn1 j12i
    let j1Frac :=
      Clamp (if |rnd (j12 - j11)| ≤ rnd SMALL_NUMBER then 0
        else rnd (rnd (j12 - J) / rnd (j12 - j11))) 0 1
    let CT12 ← At CTn1 j12i
    let CT11 ← At CTn1 j11i
    let CP12 ← At CPn1 j12i
    let CP11 ← At CPn1 j11i
    pure (rnd (CT1 + rnd (j1Frac * rnd (CT12 - CT11))),
      rnd (CP1 + rnd (j1Frac * rnd (CP12 - CP11))))
  else
    pure (CT1, CP1)

/-- Method `GetAerodynamicConstants(n, J)` in rounded arithmetic.  `none`
stands for an array access out of range. -/
def GetAerodynamicConstantsRounded (rnd : ℚ → ℚ) (p : PropellerTable) (n J : ℚ) :
    Option FAerodynamicConstantResults :=
  if Num p.NArray > 0 then do
    let n2i := Clamp (UpperBound p.NArray n) 0 (Num p.NArray - 1)
    let n1i := Clamp (n2i - 1) 0 (Num p.NArray - 1)
    let n1 ← At p.NArray n1i
    let n2 ← At p.NArray n2i
    let row1 ← At p.ConstantSpeedPropellerPhysicsParameters n1i
    let (CT1, CP1) ← InterpolateAlongJRounded rnd row1 J
    if n1i ≠ n2i then
      let nFrac := ClampedQuotientRounded rnd (rnd (n - n1)) (rnd (n2 - n1))
      let row2 ← At p.ConstantSpeedPropellerPhysicsParameters n2i
      let (CT2, CP2) ← InterpolateAlongJRounded rnd row2 J
      pure ⟨rnd (CT1 + rnd (nFrac * rnd (CT2 - CT1))), rnd (CP1 + rnd (nFrac * rnd (CP2 - CP1)))⟩
    else
      pure ⟨CT1, CP1⟩
  else
    some ⟨0, 0⟩

/-- A table row at 1000 RPM with one `J` breakpoint and the stored values `0.09f`
and `0.04f`. -/
def sampleFloatRow1 : FConstantSpeedPropellerPhysicsParameters :=
  { n := 1000, J := [0], CT := [RoundFloat (9 / 100)], CP := [RoundFloat (4 / 100)] }

/-- A table row at 2000 RPM with one `J` breakpoint and the stored values
`0.013f` and `0.05f`. -/
def sampleFloatRow2 : FConstantSpeedPropellerPhysicsParameters :=
  { n := 2000, J := [0], CT := [RoundFloat (13 / 1000)], CP := [RoundFloat (5 / 100)] }

/-- Vector sum in rounded arithmetic, the engine's `operator+=` on `FVector`. -/
def FVector.addRounded (rnd : ℚ → ℚ) (a b : FVector) : FVector :=
  ⟨rnd (a.X + b.X), rnd (a.Y + b.Y), rnd (a.Z + b.Z)⟩

/-- Member `FForcesAndMoments::operator+(Sum)` in rounded arithmetic: the
returned value and the left operand after the call. -/
def FForcesAndMoments.operatorPlusRounded (rnd : ℚ → ℚ) (self Sum : FForcesAndMoments) :
    FForcesAndMoments × FForcesAndMoments :=
  let Forces := self.Forces.addRounded rnd Sum.Forces
  let Moments := self.Moments.addRounded rnd Sum.Moments
  let self' : FForcesAndMoments := { Forces := Forces, Moments := Moments }
  (self', self')

/-- Method `UTurbulenceModelDryden::GetTurbulenceScaleLengths(Altitude)` in
rounded arithmetic: the literals `0.177f`, `0.000823f` and `1.2f` are the
`float` values nearest to the decimal fractions; `pow` is the library routine,
and the quotient by its result is rounded once. -/
def GetTurbulenceScaleLengthsRounded (rnd : ℚ → ℚ) (pow : ℚ → ℚ → ℚ) (Altitude : ℚ) :
    TVector ℚ :=
  if Altitude ≥ 10 then
    let ClampedAltitude := Clamp Altitude 10 1000
    let Lwg := ClampedAltitude
    let LugLvg :=
      rnd (ClampedAltitude
        / pow (rnd (rnd (177 / 1000) + rnd (rnd (823 / 1000000) * ClampedAltitude)))
            (rnd (12 / 10)))
    ⟨LugLvg, LugLvg, Lwg⟩
  else ⟨0, 0, 0⟩

/-- A stand-in for the power routine near the base 1: the first-order expansion
`1 + e * (b - 1)` rounded to `float`, which is the `float` nearest to `b ^ e`
for a base within `2^-20` of 1 and an exponent of moderate size. -/
def samplePowNearOne (b e : ℚ) : ℚ := RoundFloat (1 + e * (b - 1))

/-- The first-order actuator of the step response (`wn = 1`, `DCGain = 1`,
initial state 0, no rate limit or saturation, `DtMin = 0.01f`) after a call
that returned `y` with the integrator input `u`. -/
def UFirstOrderActuator.stallState (y u : ℚ) : UFirstOrderActuator :=
  { wn := 1, bActuatorInitialised := true, ActuatorState := y,
    integrator := ⟨y, u, y, 5368709 / 536870912⟩ }



/-- A table row for the propeller at rest: 0 RPM, one `J` breakpoint, both
coefficients 0. -/
def sampleRowAtRest : FConstantSpeedPropellerPhysicsParameters :=
  { n := 0, J := [0], CT := [0], CP := [0] }

/-- A table row for reverse rotation, at -1000 RPM. -/
def sampleRowReverse : FConstantSpeedPropellerPhysicsParameters :=
  { n := -1000, J := [0, 1], CT := [1 / 10, 1 / 20], CP := [1 / 25, 1 / 50] }

/-- A table row at 1000 RPM with the stored values of `sampleRow2`. -/
def sampleRowForward : FConstantSpeedPropellerPhysicsParameters :=
  { n := 1000, J := [0, 1], CT := [3 / 25, 3 / 50], CP := [1 / 20, 3 / 100] }





/-! ## Lemmas on the integrator -/

namespace Integrator

theorem Run_DtMin (s : Integrator) (Dt U : ℚ) : (s.Run Dt U).2.DtMin = s.DtMin := rfl

theorem IntegrateLoop_done (fuel : Nat) (s : Integrator) (Dt U c y : ℚ) (h : ¬ c < Dt) :
    IntegrateLoop fuel s Dt U c y = some (y, s) := by
  cases fuel <;> simp [IntegrateLoop, h]

theorem Integrate_of_le (fuel : Nat) (s : Integrator) (Dt U : ℚ) (h : Dt ≤ s.DtMin) :
    Integrate fuel s Dt U = some (s.Run Dt U) := by
  simp [Integrate, not_lt.mpr h]

/-- More fuel does not change a result already obtained. -/
theorem IntegrateLoop_fuel_mono (n : Nat) :
    ∀ (fuel : Nat) (s : Integrator) (Dt U c y : ℚ) (r : ℚ × Integrator),
      IntegrateLoop fuel s Dt U c y = some r → IntegrateLoop (fuel + n) s Dt U c y = some r := by
  intro fuel
  induction fuel with
  | zero =>
    intro s Dt U c y r h
    by_cases hc : c < Dt
    · simp [IntegrateLoop, hc] at h
    · rw [IntegrateLoop_done _ _ _ _ _ _ hc] at h
      rw [IntegrateLoop_done _ _ _ _ _ _ hc]
      exact h
  | succ fuel ih =>
    intro s Dt U c y r h
    by_cases hc : c < Dt
    · rw [Nat.add_right_comm]
      simp only [IntegrateLoop, hc, if_true] at h ⊢
      exact ih _ _ _ _ _ _ h
    · rw [IntegrateLoop_done _ _ _ _ _ _ hc] at h
      rw [IntegrateLoop_done _ _ _ _ _ _ hc]
      exact h

theorem Integrate_fuel_mono (n fuel : Nat) (s : Integrator) (Dt U : ℚ) (r : ℚ × Integrator)
    (h : Integrate fuel s Dt U = some r) : Integrate (fuel + n) s Dt U = some r := by
  unfold Integrate at h ⊢
  split_ifs at h ⊢ with hd
  · exact IntegrateLoop_fuel_mono n fuel s Dt U 0 0 r h
  · exact h

/-- Two runs of `Integrate` on the same arguments that both return, return the same. -/
theorem Integrate_fuel_unique (f g : Nat) (s : Integrator) (Dt U : ℚ) (r r' : ℚ × Integrator)
    (h : Integrate f s Dt U = some r) (h' : Integrate g s Dt U = some r') : r = r' := by
  have h1 := Integrate_fuel_mono g f s Dt U r h
  have h2 := Integrate_fuel_mono f g s Dt U r' h'
  rw [Nat.add_comm] at h2
  rw [h1] at h2
  exact Option.some.inj h2

/-- With a positive minimum step the sub-step loop exits: `fuel` iterations are
enough as soon as `fuel * DtMin` covers the time still to integrate. -/
theorem IntegrateLoop_isSome :
    ∀ (fuel : Nat) (s : Integrator) (Dt U c y : ℚ), 0 < s.DtMin → Dt - c ≤ fuel * s.DtMin →
      (IntegrateLoop fuel s Dt U c y).isSome = true := by
  intro fuel
  induction fuel with
  | zero =>
    intro s Dt U c y _ h
    have hc : ¬ c < Dt := by
      simp only [Nat.cast_zero, zero_mul] at h
      linarith
    rw [IntegrateLoop_done _ _ _ _ _ _ hc]
    rfl
  | succ fuel ih =>
    intro s Dt U c y hD h
    by_cases hc : c < Dt
    · simp only [IntegrateLoop, hc, if_true]
      apply ih
      · exact hD
      · rw [Run_DtMin]
        push_cast at h
        split_ifs with hgt
        · linarith
        · have : (0 : ℚ) ≤ fuel * s.DtMin := mul_nonneg (Nat.cast_nonneg _) hD.le
          linarith
    · rw [IntegrateLoop_done _ _ _ _ _ _ hc]
      rfl

/-- With a positive minimum step `Integrate` returns, for every `Dt` and `U`. -/
theorem Integrate_terminates_of_pos (s : Integrator) (Dt U : ℚ) (hD : 0 < s.DtMin) :
    ∃ fuel, (Integrate fuel s Dt U).isSome = true := by
  refine ⟨⌈Dt / s.DtMin⌉₊, ?_⟩
  unfold Integrate
  split_ifs with h
  · apply IntegrateLoop_isSome _ _ _ _ _ _ hD
    have := Nat.le_ceil (Dt / s.DtMin)
    rw [div_le_iff₀ hD] at this
    linarith
  · rfl

/-- Sub-stepping over a whole number `m` of minimum steps is `m` calls with
step `DtMin`. -/
theorem IntegrateLoop_multiple (m : Nat) :
    ∀ (fuel g : Nat) (s : Integrator) (Dt U c y : ℚ), 0 < s.DtMin → m ≤ fuel →
      Dt = c + m * s.DtMin →
      IntegrateLoop fuel s Dt U c y
        = IntegrateSeq g (List.replicate m (s.DtMin, U)) s y := by
  induction m with
  | zero =>
    intro fuel g s Dt U c y _ _ hDt
    have hc : ¬ c < Dt := by simp [hDt]
    rw [IntegrateLoop_done _ _ _ _ _ _ hc]
    rfl
  | succ m ih =>
    intro fuel g s Dt U c y hD hf hDt
    obtain ⟨fuel, rfl⟩ : ∃ f, fuel = f + 1 := ⟨fuel - 1, by omega⟩
    have hm : (0 : ℚ) ≤ m * s.DtMin := mul_nonneg (Nat.cast_nonneg _) hD.le
    push_cast at hDt
    have hc : c < Dt := by linarith
    have hinc : (if Dt - c > s.DtMin then s.DtMin else Dt - c) = s.DtMin := by
      split_ifs with hgt
      · rfl
      · have : Dt - c = s.DtMin := by linarith
        exact this
    simp only [IntegrateLoop, hc, if_true, hinc, List.replicate_succ, IntegrateSeq,
      Integrate_of_le g s s.DtMin U le_rfl]
    exact ih fuel g _ Dt U _ _ hD (by omega) (by rw [Run_DtMin]; linarith)

theorem IntegrateSeq_replicate_isSome (g : Nat) (s : Integrator) (U y : ℚ) (m : Nat) :
    (IntegrateSeq g (List.replicate m (s.DtMin, U)) s y).isSome = true := by
  induction m generalizing s y with
  | zero => rfl
  | succ m ih =>
    simp only [List.replicate_succ, IntegrateSeq, Integrate_of_le g s s.DtMin U le_rfl]
    exact ih (s.Run s.DtMin U).2 _

end Integrator


/-! ## The integrator: properties -/

namespace Integrator

/-- C1: when `dt <= DtMin`, `Integrate(dt, u)` returns
`y = X + (dt/2)*(u + UPrev)` and leaves `X = Y = y`, `UPrev = u` (and `DtMin`
as it was), for every state, input and amount of fuel. -/
theorem Integrate_single_step (fuel : Nat) (s : Integrator) (dt u : ℚ) (h : dt ≤ s.DtMin) :
    Integrate fuel s dt u
      = some (s.X + (dt / 2) * (u + s.UPrev),
          { X := s.X + (dt / 2) * (u + s.UPrev), UPrev := u,
            Y := s.X + (dt / 2) * (u + s.UPrev), DtMin := s.DtMin }) := by
  rw [Integrate_of_le fuel s dt u h]
  rfl

theorem Integrate_single_step_witness :
    (1 / 200 : ℚ) ≤ (mk1 3).DtMin ∧
      Integrate 0 (mk1 3) (1 / 200) 2
        = some ((mk1 3).X + ((1 / 200) / 2) * (2 + (mk1 3).UPrev),
            { X := (mk1 3).X + ((1 / 200) / 2) * (2 + (mk1 3).UPrev), UPrev := 2,
              Y := (mk1 3).X + ((1 / 200) / 2) * (2 + (mk1 3).UPrev),
              DtMin := (mk1 3).DtMin }) :=
  ⟨by decide!, Integrate_single_step 0 (mk1 3) (1 / 200) 2 (by decide!)⟩

/-- C2: with `DtMin > 0` and `k >= 1`, one call `Integrate(k*DtMin, u)` returns
(given at least `k` units of fuel) the same value and leaves the same object
as `k` successive calls `Integrate(DtMin, u)`. -/
theorem Integrate_multiple_eq_repeated (s : Integrator) (u y0 : ℚ) (k fuel g : Nat)
    (hD : 0 < s.DtMin) (hk : 1 ≤ k) (hf : k ≤ fuel) :
    ∃ r, Integrate fuel s (k * s.DtMin) u = some r ∧
      IntegrateSeq g (List.replicate k (s.DtMin, u)) s y0 = some r := by
  obtain ⟨r, hr⟩ := Option.isSome_iff_exists.mp (IntegrateSeq_replicate_isSome g s u y0 k)
  refine ⟨r, ?_, hr⟩
  obtain ⟨k, rfl⟩ : ∃ j, k = j + 1 := ⟨k - 1, by omega⟩
  have hy : IntegrateSeq g (List.replicate (k + 1) (s.DtMin, u)) s 0 = some r := by
    simpa only [List.replicate_succ, IntegrateSeq] using hr
  unfold Integrate
  split_ifs with hgt
  · rw [IntegrateLoop_multiple (k + 1) fuel g s _ u 0 0 hD hf (by simp)]
    exact hy
  · have hk0 : k = 0 := by
      by_contra hne
      have h1 : (1 : ℚ) ≤ k := by exact_mod_cast Nat.one_le_iff_ne_zero.mpr hne
      push_cast at hgt
      nlinarith
    subst hk0
    simp only [zero_add, Nat.cast_one, one_mul, List.replicate_succ, List.replicate_zero,
      IntegrateSeq, Integrate_of_le g s s.DtMin u le_rfl] at hy ⊢
    exact hy

theorem Integrate_multiple_eq_repeated_witness :
    ∃ r, Integrate 2 (mk2 0 (1 / 2)) 1 3 = some r ∧
      IntegrateSeq 0 [(1 / 2, 3), (1 / 2, 3)] (mk2 0 (1 / 2)) 0 = some r := by
  have h := Integrate_multiple_eq_repeated (mk2 0 (1 / 2)) 3 0 2 2 0 (by decide!) (by decide)
    (by decide)
  have e : ((2 : Nat) : ℚ) * (mk2 0 (1 / 2)).DtMin = 1 := by decide!
  rw [e] at h
  exact h

/-- The first `Integrate(1, 2)` on `Integrator(0.0f)` returns 199/100 and the
second 399/100, with 100 units of fuel each. -/
theorem Integrate_default_values :
    Integrate 100 (mk1 0) 1 2
        = some (199 / 100, { X := 199 / 100, UPrev := 2, Y := 199 / 100, DtMin := 1 / 100 }) ∧
      Integrate 100 { X := 199 / 100, UPrev := 2, Y := 199 / 100, DtMin := 1 / 100 } 1 2
        = some (399 / 100, { X := 399 / 100, UPrev := 2, Y := 399 / 100, DtMin := 1 / 100 }) := by
  constructor <;> decide!

/-- C3, as stated, fails: no run of the first `Integrate(1, 2)` on
`Integrator(0.0f)` returns 1. -/
theorem Integrate_first_call_ne_one :
    ¬ ∃ fuel s', Integrate fuel (mk1 0) 1 2 = some (1, s') := by
  rintro ⟨fuel, s', h⟩
  have h' := Integrate_fuel_unique _ _ _ _ _ _ _ h Integrate_default_values.1
  have : (1 : ℚ) = 199 / 100 := congrArg Prod.fst h'
  exact absurd this (by decide!)

/-- C3, amended: on `Integrator(0.0f)` (minimum step at its default 1/100),
`Integrate(0, 0)` returns 0, and on a fresh such integrator the first
`Integrate(1, 2)` returns 199/100 and the second 399/100, whenever the fuel is
at least 100. -/
theorem Integrate_default_substeps :
    (∀ fuel, (Integrate fuel (mk1 0) 0 0).map Prod.fst = some 0) ∧
      (∀ n, (IntegrateSeq (100 + n) [(1, 2)] (mk1 0) 0).map Prod.fst = some (199 / 100)) ∧
      (∀ n, (IntegrateSeq (100 + n) [(1, 2), (1, 2)] (mk1 0) 0).map Prod.fst
        = some (399 / 100)) := by
  have h1 := fun n => Integrate_fuel_mono n _ _ _ _ _ Integrate_default_values.1
  have h2 := fun n => Integrate_fuel_mono n _ _ _ _ _ Integrate_default_values.2
  refine ⟨?_, ?_, ?_⟩
  · intro fuel
    rw [Integrate_of_le fuel (mk1 0) 0 0 (by decide!)]
    decide!
  · intro n
    simp only [IntegrateSeq, h1 n, Option.map_some']
  · intro n
    simp only [IntegrateSeq, h1 n, h2 n, Option.map_some']

/-- With a non-positive minimum step the sub-step loop makes no progress:
`dtCumulative` never rises above 0. -/
theorem IntegrateLoop_nonpos_DtMin (Dt U : ℚ) (hDt : 0 < Dt) :
    ∀ (fuel : Nat) (s : Integrator) (c y : ℚ), s.DtMin ≤ 0 → c ≤ 0 →
      IntegrateLoop fuel s Dt U c y = none := by
  intro fuel
  induction fuel with
  | zero =>
    intro s c y _ hc
    have : c < Dt := by linarith
    simp [IntegrateLoop, this]
  | succ fuel ih =>
    intro s c y hs hc
    have hlt : c < Dt := by linarith
    have hgt : Dt - c > s.DtMin := by linarith
    simp only [IntegrateLoop, hlt, if_true, hgt]
    exact ih _ _ _ hs (by linarith)

/-- With a non-positive minimum step and a positive `Dt`, `Integrate` does not
return. -/
theorem Integrate_diverges_of_nonpos_DtMin (s : Integrator) (Dt U : ℚ) (hD : s.DtMin ≤ 0)
    (hDt : 0 < Dt) : ∀ fuel, Integrate fuel s Dt U = none := by
  intro fuel
  have h : Dt > s.DtMin := by linarith
  simp only [Integrate, h, if_true]
  exact IntegrateLoop_nonpos_DtMin Dt U hDt fuel s 0 0 hD le_rfl

/-- C4 fails on the code: with `DtMin = 0` (`Integrator(0.0f, 0.0f)`) the call
`Integrate(1, 0)` does not return, whatever the fuel. -/
theorem Integrate_diverges_zero_DtMin :
    ∀ fuel, Integrate fuel (mk2 0 0) 1 0 = none :=
  Integrate_diverges_of_nonpos_DtMin (mk2 0 0) 1 0 (by decide!) one_pos

end Integrator

/-! ## The propeller coefficient table: lemmas -/

theorem Clamp_of_lt_min {α : Type} [LinearOrder α] (X Min Max : α) (h : X < Min) :
    Clamp X Min Max = Min := by
  simp [Clamp, h]

theorem Clamp_of_mem {α : Type} [LinearOrder α] (X Min Max : α) (h1 : Min ≤ X) (h2 : X < Max) :
    Clamp X Min Max = X := by
  simp [Clamp, not_lt.mpr h1, h2]

theorem Clamp_of_ge_max {α : Type} [LinearOrder α] (X Min Max : α) (h1 : Min ≤ X)
    (h2 : Max ≤ X) : Clamp X Min Max = Max := by
  simp [Clamp, not_lt.mpr h1, not_lt.mpr h2]

theorem At_natCast {α : Type} (xs : List α) (k : Nat) : At xs (k : Int) = xs[k]? := by
  simp [At]

theorem getElem?_append_two_left {α : Type} (pre : List α) (a b : α) :
    (pre ++ [a, b])[pre.length]? = some a := by
  induction pre with
  | nil => rfl
  | cons x xs ih => simpa using ih

theorem getElem?_append_two_right {α : Type} (pre : List α) (a b : α) :
    (pre ++ [a, b])[pre.length + 1]? = some b := by
  induction pre with
  | nil => rfl
  | cons x xs ih => simpa using ih

theorem UpperBound_of_lt_head (x : ℚ) (xs : List ℚ) (v : ℚ) (h : v < x) :
    UpperBound (x :: xs) v = 0 := by
  simp [UpperBound, List.findIdx_cons, h]

theorem UpperBound_of_all_le (xs : List ℚ) (v : ℚ) (h : ∀ x ∈ xs, x ≤ v) :
    UpperBound xs v = (xs.length : Nat) := by
  unfold UpperBound
  rw [List.findIdx_eq_length_of_false]
  intro x hx
  simpa using h x hx

/-- The first branch of the look-up: `n` below the first breakpoint. -/
theorem GetAerodynamicConstants_below (p : PropellerTable) (n J : ℚ)
    (r : FConstantSpeedPropellerPhysicsParameters)
    (t : List FConstantSpeedPropellerPhysicsParameters)
    (hrows : p.ConstantSpeedPropellerPhysicsParameters = r :: t)
    (hN : p.NArray = p.ConstantSpeedPropellerPhysicsParameters.map (fun r => r.n))
    (hn : n < r.n) :
    GetAerodynamicConstants p n J
      = (InterpolateAlongJ r J).map (fun c => ⟨c.1, c.2⟩) := by
  rw [hrows] at hN
  simp only [List.map_cons] at hN
  have hnum : Num p.NArray = ((t.length : Nat) : Int) + 1 := by
    simp [Num, hN]
  have hpos : Num p.NArray > 0 := by rw [hnum]; omega
  have h2 : Clamp (UpperBound p.NArray n) 0 (Num p.NArray - 1) = 0 := by
    rw [hnum, hN, UpperBound_of_lt_head _ _ _ hn]
    unfold Clamp
    split_ifs <;> omega
  have h1 : Clamp ((0 : Int) - 1) 0 (Num p.NArray - 1) = 0 :=
    Clamp_of_lt_min _ _ _ (by omega)
  unfold GetAerodynamicConstants
  simp only [hpos, if_true, h2, h1]
  have e0 : At p.NArray 0 = some r.n := by
    rw [hN]; simp [At]
  have e1 : At p.ConstantSpeedPropellerPhysicsParameters 0 = some r := by
    rw [hrows]; simp [At]
  simp only [e0, e1, Option.bind_eq_bind, Option.some_bind, ne_eq, not_true_eq_false, if_false]
  cases InterpolateAlongJ r J <;> rfl

/-- The last branch of the look-up: `n` at or above the last breakpoint of a
one-row table. -/
theorem GetAerodynamicConstants_single (p : PropellerTable) (n J : ℚ)
    (r : FConstantSpeedPropellerPhysicsParameters)
    (hrows : p.ConstantSpeedPropellerPhysicsParameters = [r])
    (hN : p.NArray = p.ConstantSpeedPropellerPhysicsParameters.map (fun r => r.n)) :
    GetAerodynamicConstants p n J
      = (InterpolateAlongJ r J).map (fun c => ⟨c.1, c.2⟩) := by
  rw [hrows] at hN
  simp only [List.map_cons, List.map_nil] at hN
  have hnum : Num p.NArray - 1 = 0 := by simp [Num, hN]
  have hpos : Num p.NArray > 0 := by simp [Num, hN]
  have hc : ∀ X : Int, Clamp X 0 0 = 0 := by
    intro X
    unfold Clamp
    split_ifs <;> rfl
  unfold GetAerodynamicConstants
  simp only [hpos, if_true, hnum, hc]
  have e0 : At p.NArray 0 = some r.n := by
    rw [hN]; simp [At]
  have e1 : At p.ConstantSpeedPropellerPhysicsParameters 0 = some r := by
    rw [hrows]; simp [At]
  simp only [e0, e1, Option.bind_eq_bind, Option.some_bind, ne_eq, not_true_eq_false, if_false]
  cases InterpolateAlongJ r J <;> rfl

/-- The last branch of the look-up: `n` at or above the last breakpoint of a
table with at least two rows. -/
theorem GetAerodynamicConstants_above (p : PropellerTable) (n J : ℚ)
    (a b : FConstantSpeedPropellerPhysicsParameters)
    (pre : List FConstantSpeedPropellerPhysicsParameters)
    (hrows : p.ConstantSpeedPropellerPhysicsParameters = pre ++ [a, b])
    (hN : p.NArray = p.ConstantSpeedPropellerPhysicsParameters.map (fun r => r.n))
    (hinc : p.NArray.Sorted (· < ·))
    (ha : (InterpolateAlongJ a J).isSome = true)
    (hn : b.n ≤ n) :
    GetAerodynamicConstants p n J
      = (InterpolateAlongJ b J).map (fun c => ⟨c.1, c.2⟩) := by
  rw [hrows] at hN
  simp only [List.map_append, List.map_cons, List.map_nil] at hN
  rw [hN] at hinc
  have hab : a.n < b.n := by
    have := (List.pairwise_append.mp hinc).2.1
    simpa using this
  have hpre : ∀ x ∈ pre.map (fun r => r.n), x < a.n := by
    intro x hx
    exact (List.pairwise_append.mp hinc).2.2 x hx a.n (by simp)
  have hall : ∀ x ∈ p.NArray, x ≤ n := by
    intro x hx
    rw [hN] at hx
    rcases List.mem_append.mp hx with h | h
    · exact ((hpre x h).trans hab).le.trans hn
    · simp only [List.mem_cons, List.mem_singleton, List.not_mem_nil, or_false] at h
      rcases h with h | h
      · rw [h]; exact hab.le.trans hn
      · rw [h]; exact hn
  have hlen : p.NArray.length = pre.length + 2 := by simp [hN]
  have hnum : Num p.NArray = ((pre.length + 2 : Nat) : Int) := by simp [Num, hlen]
  have hpos : Num p.NArray > 0 := by rw [hnum]; omega
  have h2 : Clamp (UpperBound p.NArray n) 0 (Num p.NArray - 1) = ((pre.length + 1 : Nat) : Int) := by
    rw [UpperBound_of_all_le _ _ hall, hlen, hnum]
    rw [Clamp_of_ge_max _ _ _ (by omega) (by omega)]
    omega
  have h1 : Clamp (((pre.length + 1 : Nat) : Int) - 1) 0 (Num p.NArray - 1)
      = ((pre.length : Nat) : Int) := by
    rw [hnum, Clamp_of_mem _ _ _ (by omega) (by omega)]
    omega
  have e0 : At p.NArray ((pre.length : Nat) : Int) = some a.n := by
    have h := getElem?_append_two_left (pre.map (fun r => r.n)) a.n b.n
    rw [List.length_map] at h
    rw [At_natCast, hN]; exact h
  have e1 : At p.NArray ((pre.length + 1 : Nat) : Int) = some b.n := by
    have h := getElem?_append_two_right (pre.map (fun r => r.n)) a.n b.n
    rw [List.length_map] at h
    rw [At_natCast, hN]; exact h
  have e2 : At p.ConstantSpeedPropellerPhysicsParameters ((pre.length : Nat) : Int) = some a := by
    rw [At_natCast, hrows]; exact getElem?_append_two_left pre a b
  have e3 : At p.ConstantSpeedPropellerPhysicsParameters ((pre.length + 1 : Nat) : Int)
      = some b := by
    rw [At_natCast, hrows]; exact getElem?_append_two_right pre a b
  have hne : ((pre.length : Nat) : Int) ≠ ((pre.length + 1 : Nat) : Int) := by omega
  have hfrac : Clamp ((n - a.n) / (b.n - a.n)) 0 1 = 1 := by
    have hpos' : 0 < b.n - a.n := by linarith
    have hge : 1 ≤ (n - a.n) / (b.n - a.n) := by
      rw [one_le_div hpos']; linarith
    exact Clamp_of_ge_max _ _ _ (by linarith) hge
  obtain ⟨ca, hca⟩ := Option.isSome_iff_exists.mp ha
  unfold GetAerodynamicConstants
  simp only [hpos, if_true, h2, h1, e0, e1, e2, e3, hca, Option.bind_eq_bind, Option.some_bind,
    ne_eq, hne, not_false_eq_true, hfrac]
  cases InterpolateAlongJ b J with
  | none => rfl
  | some cb =>
    simp only [Option.some_bind, Option.map_some', one_mul, add_sub_cancel]
    rfl

theorem Clamp_bounds {α : Type} [LinearOrder α] (X Min Max : α) (h : Min ≤ Max) :
    Min ≤ Clamp X Min Max ∧ Clamp X Min Max ≤ Max := by
  unfold Clamp
  split_ifs with h1 h2
  · exact ⟨le_rfl, h⟩
  · exact ⟨not_lt.mp h1, h2.le⟩
  · exact ⟨h, le_rfl⟩

theorem At_of_lt {α : Type} (xs : List α) (i : Int) (h0 : 0 ≤ i) (h1 : i < (xs.length : Nat)) :
    ∃ v, At xs i = some v := by
  obtain ⟨k, rfl⟩ := Int.eq_ofNat_of_zero_le h0
  have hk : k < xs.length := by exact_mod_cast h1
  exact ⟨xs[k], by rw [At_natCast]; exact List.getElem?_eq_getElem hk⟩

/-- A row with a non-empty `J` array and `CT`, `CP` arrays at least as long has
an along-`J` result for every `J`: every array access is in range. -/
theorem InterpolateAlongJ_isSome (row : FConstantSpeedPropellerPhysicsParameters) (J : ℚ)
    (hJ : row.J ≠ []) (hCT : row.J.length ≤ row.CT.length)
    (hCP : row.J.length ≤ row.CP.length) :
    (InterpolateAlongJ row J).isSome = true := by
  have hlen : 0 < row.J.length := List.length_pos.mpr hJ
  have hM : (0 : Int) ≤ Num row.J - 1 := by
    simp only [Num]; omega
  obtain ⟨a0, a1⟩ := Clamp_bounds (UpperBound row.J J) 0 (Num row.J - 1) hM
  obtain ⟨b0, b1⟩ :=
    Clamp_bounds (Clamp (UpperBound row.J J) 0 (Num row.J - 1) - 1) 0 (Num row.J - 1) hM
  have hnum : Num row.J = (row.J.length : Nat) := rfl
  obtain ⟨v1, e1⟩ := At_of_lt row.CT _ b0 (by omega)
  obtain ⟨v2, e2⟩ := At_of_lt row.CP _ b0 (by omega)
  obtain ⟨v3, e3⟩ := At_of_lt row.J _ b0 (by omega)
  obtain ⟨v4, e4⟩ := At_of_lt row.J _ a0 (by omega)
  obtain ⟨v5, e5⟩ := At_of_lt row.CT _ a0 (by omega)
  obtain ⟨v6, e6⟩ := At_of_lt row.CP _ a0 (by omega)
  unfold InterpolateAlongJ
  simp only [e1, e2, e3, e4, e5, e6, Option.bind_eq_bind, Option.some_bind, Option.pure_def]
  split_ifs <;> rfl

theorem Clamp_of_between {α : Type} [LinearOrder α] (X Min Max : α) (h1 : Min ≤ X)
    (h2 : X ≤ Max) : Clamp X Min Max = X := by
  rcases h2.lt_or_eq with h | h
  · exact Clamp_of_mem X Min Max h1 h
  · rw [Clamp_of_ge_max X Min Max h1 h.ge, h]

/-- In a strictly increasing array, `UpperBound` of a value `v` with
`xs[k] <= v < xs[k+1]` is `k + 1`. -/
theorem UpperBound_interior (xs : List ℚ) (hs : xs.Sorted (· < ·)) (k : Nat) (a b v : ℚ)
    (ha : xs[k]? = some a) (hb : xs[k + 1]? = some b) (hav : a ≤ v) (hvb : v < b) :
    UpperBound xs v = ((k + 1 : Nat) : Int) := by
  obtain ⟨hk, hka⟩ := List.getElem?_eq_some.mp ha
  obtain ⟨hk1, hkb⟩ := List.getElem?_eq_some.mp hb
  unfold UpperBound
  congr 1
  rw [List.findIdx_eq hk1]
  refine ⟨by simpa [hkb] using hvb, ?_⟩
  intro j hj
  have hle : xs[j] ≤ a := by
    rcases Nat.lt_succ_iff_lt_or_eq.mp hj with h | h
    · have := List.pairwise_iff_getElem.mp hs j k (by omega) hk h
      rw [hka] at this
      exact this.le
    · subst h
      exact hka.le
  simpa using hle.trans hav

/-- What the along-`J` part computes between two breakpoints
`J_k <= J < J_{k+1}` of a strictly increasing row (further apart than the
near-zero tolerance): the weight of the step from entry `k` to entry `k + 1`
is `(J_{k+1} - J) / (J_{k+1} - J_k)`, which is 1 at `J = J_k` and tends to 0
toward `J_{k+1}`. -/
theorem AlongJ_weight_between (row : FConstantSpeedPropellerPhysicsParameters) (J : ℚ)
    (k : Nat) (jk jk1 ctk ctk1 cpk cpk1 : ℚ) (hs : row.J.Sorted (· < ·))
    (hj0 : row.J[k]? = some jk) (hj1 : row.J[k + 1]? = some jk1)
    (hct0 : row.CT[k]? = some ctk) (hct1 : row.CT[k + 1]? = some ctk1)
    (hcp0 : row.CP[k]? = some cpk) (hcp1 : row.CP[k + 1]? = some cpk1)
    (hlo : jk ≤ J) (hhi : J < jk1) (hgap : SMALL_NUMBER < jk1 - jk) :
    InterpolateAlongJ row J
      = some (ctk + ((jk1 - J) / (jk1 - jk)) * (ctk1 - ctk),
              cpk + ((jk1 - J) / (jk1 - jk)) * (cpk1 - cpk)) := by
  obtain ⟨hk1, -⟩ := List.getElem?_eq_some.mp hj1
  have hnum : Num row.J = (row.J.length : Nat) := rfl
  have h12 : Clamp (UpperBound row.J J) 0 (Num row.J - 1) = ((k + 1 : Nat) : Int) := by
    rw [UpperBound_interior row.J hs k jk jk1 J hj0 hj1 hlo hhi]
    exact Clamp_of_between _ _ _ (by omega) (by omega)
  have h11 : Clamp (((k + 1 : Nat) : Int) - 1) 0 (Num row.J - 1) = ((k : Nat) : Int) := by
    rw [Clamp_of_between _ _ _ (by omega) (by omega)]
    omega
  have hne : ((k : Nat) : Int) ≠ ((k + 1 : Nat) : Int) := by omega
  have hpos : 0 < jk1 - jk := by linarith
  have hnz : IsNearlyZero (jk1 - jk) = false := by
    simp only [IsNearlyZero, decide_eq_false_iff_not, not_le, abs_of_pos hpos]
    exact hgap
  have hfrac : Clamp ((jk1 - J) / (jk1 - jk)) 0 1 = (jk1 - J) / (jk1 - jk) := by
    apply Clamp_of_between
    · exact div_nonneg (by linarith) hpos.le
    · rw [div_le_one hpos]; linarith
  unfold InterpolateAlongJ
  simp only [h12, h11, At_natCast, hj0, hj1, hct0, hct1, hcp0, hcp1, Option.bind_eq_bind,
    Option.some_bind, ne_eq, hne, not_false_eq_true, if_true, hnz, Bool.false_eq_true, if_false,
    hfrac, Option.pure_def]

/-- What the along-`J` part computes below the first breakpoint: the first
stored pair. -/
theorem AlongJ_first_below (row : FConstantSpeedPropellerPhysicsParameters) (J : ℚ)
    (j0 ct0 cp0 : ℚ) (rest : List ℚ) (hJ : row.J = j0 :: rest)
    (hct : row.CT[0]? = some ct0) (hcp : row.CP[0]? = some cp0) (hlt : J < j0) :
    InterpolateAlongJ row J = some (ct0, cp0) := by
  have hnum : Num row.J = ((rest.length : Nat) : Int) + 1 := by
    simp [Num, hJ]
  have h12 : Clamp (UpperBound row.J J) 0 (Num row.J - 1) = 0 := by
    rw [hnum, hJ, UpperBound_of_lt_head _ _ _ hlt]
    unfold Clamp
    split_ifs <;> omega
  have h11 : Clamp ((0 : Int) - 1) 0 (Num row.J - 1) = 0 :=
    Clamp_of_lt_min _ _ _ (by omega)
  have e0 : At row.CT 0 = some ct0 := by rw [← hct]; exact At_natCast _ 0
  have e1 : At row.CP 0 = some cp0 := by rw [← hcp]; exact At_natCast _ 0
  unfold InterpolateAlongJ
  simp only [h12, h11, e0, e1, Option.bind_eq_bind, Option.some_bind, ne_eq, not_true_eq_false,
    if_false, Option.pure_def]

/-- What the along-`J` part computes at or above the last breakpoint of a
strictly increasing row with at least two breakpoints: the pair stored at the
breakpoint before the last. -/
theorem AlongJ_penultimate_above (row : FConstantSpeedPropellerPhysicsParameters)
    (J : ℚ) (ja jb cta ctb cpa cpb : ℚ) (pre : List ℚ) (hJ : row.J = pre ++ [ja, jb])
    (hs : row.J.Sorted (· < ·))
    (hct0 : row.CT[pre.length]? = some cta) (hct1 : row.CT[pre.length + 1]? = some ctb)
    (hcp0 : row.CP[pre.length]? = some cpa) (hcp1 : row.CP[pre.length + 1]? = some cpb)
    (hge : jb ≤ J) :
    InterpolateAlongJ row J = some (cta, cpa) := by
  rw [hJ] at hs
  have hab : ja < jb := by
    have := (List.pairwise_append.mp hs).2.1
    simpa using this
  have hpre : ∀ x ∈ pre, x < ja := fun x hx =>
    (List.pairwise_append.mp hs).2.2 x hx ja (by simp)
  have hall : ∀ x ∈ row.J, x ≤ J := by
    intro x hx
    rw [hJ] at hx
    rcases List.mem_append.mp hx with h | h
    · exact ((hpre x h).trans hab).le.trans hge
    · simp only [List.mem_cons, List.mem_singleton, List.not_mem_nil, or_false] at h
      rcases h with h | h
      · rw [h]; exact hab.le.trans hge
      · rw [h]; exact hge
  have hlen : row.J.length = pre.length + 2 := by simp [hJ]
  have hnum : Num row.J = ((pre.length + 2 : Nat) : Int) := by simp [Num, hlen]
  have h12 : Clamp (UpperBound row.J J) 0 (Num row.J - 1) = ((pre.length + 1 : Nat) : Int) := by
    rw [UpperBound_of_all_le _ _ hall, hlen, hnum]
    rw [Clamp_of_ge_max _ _ _ (by omega) (by omega)]
    omega
  have h11 : Clamp (((pre.length + 1 : Nat) : Int) - 1) 0 (Num row.J - 1)
      = ((pre.length : Nat) : Int) := by
    rw [hnum, Clamp_of_mem _ _ _ (by omega) (by omega)]
    omega
  have e0 : row.J[pre.length]? = some ja := by
    rw [hJ]; exact getElem?_append_two_left pre ja jb
  have e1 : row.J[pre.length + 1]? = some jb := by
    rw [hJ]; exact getElem?_append_two_right pre ja jb
  have hne : ((pre.length : Nat) : Int) ≠ ((pre.length + 1 : Nat) : Int) := by omega
  have hfrac : Clamp (if IsNearlyZero (jb - ja) = true then 0 else (jb - J) / (jb - ja)) 0 1
      = 0 := by
    split_ifs
    · exact Clamp_of_between _ _ _ le_rfl zero_le_one
    · have hpos : 0 < jb - ja := by linarith
      have hle : (jb - J) / (jb - ja) ≤ 0 :=
        div_nonpos_of_nonpos_of_nonneg (by linarith) hpos.le
      rcases hle.lt_or_eq with h | h
      · exact Clamp_of_lt_min _ _ _ h
      · rw [h]; exact Clamp_of_between _ _ _ le_rfl zero_le_one
  unfold InterpolateAlongJ
  simp only [h12, h11, At_natCast, e0, e1, hct0, hct1, hcp0, hcp1, Option.bind_eq_bind,
    Option.some_bind, ne_eq, hne, not_false_eq_true, if_true, hfrac, Option.pure_def, zero_mul,
    add_zero]

theorem tableOf_rows (rows : List FConstantSpeedPropellerPhysicsParameters) :
    (tableOf rows).ConstantSpeedPropellerPhysicsParameters = rows := rfl

theorem tableOf_NArray (rows : List FConstantSpeedPropellerPhysicsParameters) :
    (tableOf rows).NArray
      = (tableOf rows).ConstantSpeedPropellerPhysicsParameters.map (fun r => r.n) := by
  simp [tableOf, InitializePropellerPhysics]

/-! ## The propeller coefficient table: properties -/

/-- C5 fails on the code: in the two-row sample table the query at the stored
breakpoint pair `(n, J) = (1000, 0)`, where the table holds
`(CT, CP) = (1/10, 1/25)`, returns `(1/20, 1/50)`, the entry of the next `J`
breakpoint. -/
theorem GetAerodynamicConstants_at_breakpoint :
    GetAerodynamicConstants (tableOf [sampleRow1, sampleRow2]) 1000 0 = some ⟨1 / 20, 1 / 50⟩ ∧
      At sampleRow1.J 0 = some 0 ∧ At sampleRow1.CT 0 = some (1 / 10) ∧
      At sampleRow1.CP 0 = some (1 / 25) := by
  decide!

/-- C6 fails on the code: for the sample row and `J = 1/4`, between the
breakpoints 0 and 1, the along-`J` result is `(1/16, 1/40)`, which is also what
the one-row table returns; the linear interpolation of the claim gives
`(7/80, 7/200)`. -/
theorem InterpolateAlongJ_between_breakpoints :
    InterpolateAlongJ sampleRow1 (1 / 4) = some (1 / 16, 1 / 40) ∧
      GetAerodynamicConstants (tableOf [sampleRow1]) 1000 (1 / 4) = some ⟨1 / 16, 1 / 40⟩ ∧
      ((1 / 10 : ℚ) + ((1 / 4 - 0) / (1 - 0)) * (1 / 20 - 1 / 10) = 7 / 80) ∧
      ((1 / 25 : ℚ) + ((1 / 4 - 0) / (1 - 0)) * (1 / 50 - 1 / 25) = 7 / 200) := by
  decide!

/-- C7 fails on the code: for the sample row, whose last stored pair is
`(1/20, 1/50)`, a query `J = 2` above the last breakpoint yields the first pair
`(1/10, 1/25)`; a query `J = -1` below the first breakpoint yields the first
pair, as claimed. -/
theorem InterpolateAlongJ_above_last :
    InterpolateAlongJ sampleRow1 2 = some (1 / 10, 1 / 25) ∧
      InterpolateAlongJ sampleRow1 (-1) = some (1 / 10, 1 / 25) ∧
      At sampleRow1.CT 1 = some (1 / 20) ∧ At sampleRow1.CP 1 = some (1 / 50) := by
  decide!

/-- C8 (amended): in exact arithmetic, in a non-empty table with strictly
increasing rotation-speed breakpoints whose rows all have an along-`J` result
at `J`, a query `n` below the first breakpoint returns the along-`J` result of
the first row and a query `n` at or above the last breakpoint returns that of
the last row, however far outside `n` lies.  (Above the last breakpoint the
code evaluates `CT1 + nFrac * (CT2 - CT1)` with `nFrac = 1`, which rounded
arithmetic does not always return as `CT2`.) -/
theorem GetAerodynamicConstants_clamps_n (p : PropellerTable) (n J : ℚ)
    (hne : p.ConstantSpeedPropellerPhysicsParameters ≠ [])
    (hN : p.NArray = p.ConstantSpeedPropellerPhysicsParameters.map (fun r => r.n))
    (hinc : p.NArray.Sorted (· < ·))
    (hrows : ∀ r ∈ p.ConstantSpeedPropellerPhysicsParameters,
      (InterpolateAlongJ r J).isSome = true) :
    (n < (p.ConstantSpeedPropellerPhysicsParameters.head hne).n →
      ∃ c, InterpolateAlongJ (p.ConstantSpeedPropellerPhysicsParameters.head hne) J = some c ∧
        GetAerodynamicConstants p n J = some ⟨c.1, c.2⟩) ∧
    ((p.ConstantSpeedPropellerPhysicsParameters.getLast hne).n ≤ n →
      ∃ c, InterpolateAlongJ (p.ConstantSpeedPropellerPhysicsParameters.getLast hne) J = some c ∧
        GetAerodynamicConstants p n J = some ⟨c.1, c.2⟩) := by
  constructor
  · intro hn
    obtain ⟨c, hc⟩ := Option.isSome_iff_exists.mp (hrows _ (List.head_mem hne))
    refine ⟨c, hc, ?_⟩
    obtain ⟨r, t, hrt⟩ := List.exists_cons_of_ne_nil hne
    have hhead : p.ConstantSpeedPropellerPhysicsParameters.head hne = r := by
      simp [hrt]
    rw [hhead] at hn hc
    rw [GetAerodynamicConstants_below p n J r t hrt hN hn, hc]
    rfl
  · intro hn
    obtain ⟨c, hc⟩ := Option.isSome_iff_exists.mp (hrows _ (List.getLast_mem hne))
    refine ⟨c, hc, ?_⟩
    rcases List.eq_nil_or_concat p.ConstantSpeedPropellerPhysicsParameters with h | ⟨l, b, hlb⟩
    · exact absurd h hne
    · have hlast : p.ConstantSpeedPropellerPhysicsParameters.getLast hne = b := by
        simp [hlb]
      rw [hlast] at hn hc
      rcases List.eq_nil_or_concat l with h | ⟨pre, a, hpa⟩
      · rw [h] at hlb
        rw [GetAerodynamicConstants_single p n J b (by simpa using hlb) hN, hc]
        rfl
      · have hrt : p.ConstantSpeedPropellerPhysicsParameters = pre ++ [a, b] := by
          rw [hlb, hpa]; simp
        have ha : (InterpolateAlongJ a J).isSome = true :=
          hrows a (by rw [hrt]; simp)
        rw [GetAerodynamicConstants_above p n J a b pre hrt hN hinc ha hn, hc]
        rfl

theorem GetAerodynamicConstants_clamps_n_witness :
    (∃ c, InterpolateAlongJ sampleRow1 (1 / 2) = some c ∧
        GetAerodynamicConstants (tableOf [sampleRow1, sampleRow2]) 10 (1 / 2)
          = some ⟨c.1, c.2⟩) ∧
      (∃ c, InterpolateAlongJ sampleRow2 (1 / 2) = some c ∧
        GetAerodynamicConstants (tableOf [sampleRow1, sampleRow2]) 5000 (1 / 2)
          = some ⟨c.1, c.2⟩) :=
  have h := GetAerodynamicConstants_clamps_n (tableOf [sampleRow1, sampleRow2]) 10 (1 / 2)
    (List.cons_ne_nil _ _) (tableOf_NArray _) (by decide!) (by decide!)
  have h' := GetAerodynamicConstants_clamps_n (tableOf [sampleRow1, sampleRow2]) 5000 (1 / 2)
    (List.cons_ne_nil _ _) (tableOf_NArray _) (by decide!) (by decide!)
  ⟨h.1 (by decide!), h'.2 (by decide!)⟩

/-- C9: when the rotation-speed breakpoint array is empty,
`GetAerodynamicConstants(n, J)` returns `(0, 0)` for every `n` and `J`, whatever
the rows hold: no array access is evaluated. -/
theorem GetAerodynamicConstants_empty (p : PropellerTable) (n J : ℚ) (h : p.NArray = []) :
    GetAerodynamicConstants p n J = some ⟨0, 0⟩ := by
  simp [GetAerodynamicConstants, Num, h]

theorem GetAerodynamicConstants_empty_witness :
    (tableOf []).NArray = [] ∧ GetAerodynamicConstants (tableOf []) 1000 (1 / 2) = some ⟨0, 0⟩ :=
  ⟨rfl, GetAerodynamicConstants_empty (tableOf []) 1000 (1 / 2) rfl⟩

/-! ## The first-order actuator: properties -/

namespace UFirstOrderActuator

/-- C10: with `RateLimit = LowerSaturation = UpperSaturation = 0`,
`ApplyActuatorCommand(cmd, dt)` returns what
`integrator.Integrate(dt, wn*(DCGain*cmd - X))` returns, `X` being the state of
the integrator the call works on (the stored one, or the freshly seeded one on
the first call); nothing is clamped, whatever the sign of that value. -/
theorem ApplyActuatorCommand_no_limits (fuel : Nat) (a : UFirstOrderActuator) (cmd dt : ℚ)
    (hR : a.RateLimit = 0) (hL : a.LowerSaturation = 0) (hU : a.UpperSaturation = 0) :
    (a.bActuatorInitialised = true →
      ApplyActuatorCommand fuel a cmd dt
        = (a.integrator.Integrate fuel dt (a.wn * (a.DCGain * cmd - a.integrator.X))).map
            (fun r => (r.1, { a with integrator := r.2, ActuatorState := r.1 }))) ∧
    (a.bActuatorInitialised = false →
      ApplyActuatorCommand fuel a cmd dt
        = ((Integrator.mk1 a.InitialActuatorState).Integrate fuel dt
              (a.wn * (a.DCGain * cmd - a.InitialActuatorState))).map
            (fun r => (r.1, { a with integrator := r.2, ActuatorState := r.1,
                                     bActuatorInitialised := true }))) := by
  constructor
  · intro hi
    unfold ApplyActuatorCommand
    simp only [hi, Bool.not_true, Bool.false_eq_true, if_false, hR, hL, hU, ne_eq,
      not_true_eq_false, mul_comm cmd]
    cases a.integrator.Integrate fuel dt (a.wn * (a.DCGain * cmd - a.integrator.X)) <;> rfl
  · intro hi
    unfold ApplyActuatorCommand
    simp only [hi, Bool.not_false, if_true, InitialiseActuator, hR, hL, hU, ne_eq,
      not_true_eq_false, mul_comm cmd, if_false]
    have hX : (Integrator.mk1 a.InitialActuatorState).X = a.InitialActuatorState := rfl
    rw [hX]
    cases (Integrator.mk1 a.InitialActuatorState).Integrate fuel dt
      (a.wn * (a.DCGain * cmd - a.InitialActuatorState)) <;> rfl

theorem ApplyActuatorCommand_no_limits_witness :
    ApplyActuatorCommand 0 { wn := 1, bActuatorInitialised := true } (-1) (1 / 100)
        = some (-1 / 200,
            { wn := 1, bActuatorInitialised := true, ActuatorState := -1 / 200,
              integrator := { X := -1 / 200, UPrev := -1, Y := -1 / 200 } }) := by
  have h := (ApplyActuatorCommand_no_limits 0 { wn := 1, bActuatorInitialised := true } (-1)
    (1 / 100) rfl rfl rfl).1 rfl
  rw [h]
  decide!

end UFirstOrderActuator

/-! ## The quad-rotor mixer: properties -/

namespace AQuadRotorPawn

/-- C19: with zero pitch, roll and yaw commands, in the Cross and in the Plus
layout, the four propeller commands all equal
`ThrustCommandOffset + 0.25*ThrustCommand*(1 - ThrustCommandOffset)` clamped to
`[0, 1]`; with offset 0.3 and thrust command 0 all four equal 0.3. -/
theorem PropellerCommands_zero_attitude (cfg : EMultiRotorConfiguration)
    (ThrustCommand ThrustCommandOffset : ℚ) :
    PropellerCommands cfg
        { PitchCommand := 0, RollCommand := 0, YawCommand := 0, ThrustCommand := ThrustCommand }
        ThrustCommandOffset
      = ⟨Clamp (ThrustCommandOffset + (1 / 4) * ThrustCommand * (1 - ThrustCommandOffset)) 0 1,
         Clamp (ThrustCommandOffset + (1 / 4) * ThrustCommand * (1 - ThrustCommandOffset)) 0 1,
         Clamp (ThrustCommandOffset + (1 / 4) * ThrustCommand * (1 - ThrustCommandOffset)) 0 1,
         Clamp (ThrustCommandOffset + (1 / 4) * ThrustCommand * (1 - ThrustCommandOffset)) 0 1⟩ ∧
    PropellerCommands cfg
        { PitchCommand := 0, RollCommand := 0, YawCommand := 0, ThrustCommand := 0 } (3 / 10)
      = ⟨3 / 10, 3 / 10, 3 / 10, 3 / 10⟩ := by
  constructor
  · cases cfg <;>
      simp [PropellerCommands, PropellerSpeeds, MCross, MPlus, rowMul]
  · cases cfg <;> decide!

/-- In the Plus layout the unclamped speeds of propellers 1 and 2 do not
depend on the pitch command, that of propeller 3 carries it with the factor
`-(1 - ThrustCommandOffset)/4` and that of propeller 4 with the factor
`+(1 - ThrustCommandOffset)/4`. -/
theorem PropellerSpeeds_Plus_pitch (s : FMultiRotorCommandState) (off p : ℚ) :
    (PropellerSpeeds .Plus { s with PitchCommand := p } off).c0
        = (PropellerSpeeds .Plus { s with PitchCommand := 0 } off).c0 ∧
      (PropellerSpeeds .Plus { s with PitchCommand := p } off).c1
        = (PropellerSpeeds .Plus { s with PitchCommand := 0 } off).c1 ∧
      (PropellerSpeeds .Plus { s with PitchCommand := p } off).c2
        = (PropellerSpeeds .Plus { s with PitchCommand := 0 } off).c2 - p * (1 - off) / 4 ∧
      (PropellerSpeeds .Plus { s with PitchCommand := p } off).c3
        = (PropellerSpeeds .Plus { s with PitchCommand := 0 } off).c3 + p * (1 - off) / 4 := by
  simp only [PropellerSpeeds, MPlus, rowMul]
  refine ⟨by ring, by ring, by ring, by ring⟩

/-- C20 fails on the code: in the Plus layout with thrust command 1/2, no roll,
no yaw and offset 0, where no clamping is active, raising the pitch command
from 0 to 2/5 lowers the command of propeller 3 from 1/8 to 1/40 and raises that
of propeller 4 from 1/8 to 9/40; propellers 1 and 2 stay at 1/8. -/
theorem PropellerCommands_Plus_pitch_sample :
    PropellerCommands .Plus { ThrustCommand := 1 / 2 } 0 = ⟨1 / 8, 1 / 8, 1 / 8, 1 / 8⟩ ∧
      PropellerCommands .Plus { PitchCommand := 2 / 5, ThrustCommand := 1 / 2 } 0
        = ⟨1 / 8, 1 / 8, 1 / 40, 9 / 40⟩ := by
  decide!

end AQuadRotorPawn

/-! ## The sanitiser and the angular kinematics: properties -/

theorem RemoveNumericalErrors_finite (x y z : ℚ) :
    RemoveNumericalErrors ⟨.finite x, .finite y, .finite z⟩
      = ⟨if |x| ≤ 1 / 10000 then 0 else x, if |y| ≤ 1 / 10000 then 0 else y,
         if |z| ≤ 1 / 10000 then 0 else z⟩ := by
  simp [RemoveNumericalErrors, RawFVector.ContainsNaN, FloatValue.IsFinite, IsNearlyZeroTol]

theorem RemoveNumericalErrors_zero : RemoveNumericalErrors (FVector.toRaw ⟨0, 0, 0⟩) = ⟨0, 0, 0⟩ := by
  simp [FVector.toRaw, RemoveNumericalErrors_finite]

/-- C18: `RemoveNumericalErrors` returns the zero vector whenever a component
of its input is a NaN or an infinity; on a finite input it replaces each
component with `|x| <= 0.0001` by 0 and keeps every other component; applying
it to its own result changes nothing. -/
theorem RemoveNumericalErrors_spec :
    (∀ v : RawFVector,
        (v.X.IsFinite = false ∨ v.Y.IsFinite = false ∨ v.Z.IsFinite = false) →
        RemoveNumericalErrors v = ⟨0, 0, 0⟩) ∧
      (∀ x y z : ℚ,
        RemoveNumericalErrors ⟨.finite x, .finite y, .finite z⟩
          = ⟨if |x| ≤ 1 / 10000 then 0 else x, if |y| ≤ 1 / 10000 then 0 else y,
             if |z| ≤ 1 / 10000 then 0 else z⟩) ∧
      (∀ v : RawFVector,
        RemoveNumericalErrors (RemoveNumericalErrors v).toRaw = RemoveNumericalErrors v) := by
  refine ⟨?_, RemoveNumericalErrors_finite, ?_⟩
  · intro v h
    have hc : v.ContainsNaN = true := by
      rcases h with h | h | h <;> simp [RawFVector.ContainsNaN, h]
    simp [RemoveNumericalErrors, hc]
  · intro v
    by_cases hc : v.ContainsNaN = true
    · have h0 : RemoveNumericalErrors v = ⟨0, 0, 0⟩ := by simp [RemoveNumericalErrors, hc]
      rw [h0]
      exact RemoveNumericalErrors_zero
    · obtain ⟨X, Y, Z⟩ := v
      cases X <;> cases Y <;> cases Z <;>
        simp [RawFVector.ContainsNaN, FloatValue.IsFinite] at hc
      rw [RemoveNumericalErrors_finite]
      simp only [FVector.toRaw, RemoveNumericalErrors_finite]
      congr 1 <;> split_ifs <;> simp_all

theorem RemoveNumericalErrors_spec_witness :
    RemoveNumericalErrors ⟨.finite 1, .nan, .finite 2⟩ = ⟨0, 0, 0⟩ ∧
      RemoveNumericalErrors ⟨.negInf, .finite 5, .finite 2⟩ = ⟨0, 0, 0⟩ ∧
      RemoveNumericalErrors ⟨.finite (1 / 20000), .finite 5, .finite (-1 / 10000)⟩
        = ⟨0, 5, 0⟩ :=
  ⟨RemoveNumericalErrors_spec.1 ⟨.finite 1, .nan, .finite 2⟩ (Or.inr (Or.inl rfl)),
   RemoveNumericalErrors_spec.1 ⟨.negInf, .finite 5, .finite 2⟩ (Or.inl rfl),
   by decide!⟩

/-- With `Ixz = 0` and the angular velocity along the body x axis, the
gyroscopic term `Omega x (J*Omega)` vanishes. -/
theorem cross_J_axis_x (Mass Ixx Iyy Izz w : ℚ) :
    FVector.cross ⟨w, 0, 0⟩
        ((PreCalculateSystemCharacteristics
            { Mass := Mass, Ixx := Ixx, Iyy := Iyy, Izz := Izz, Ixz := 0 }).J.mulVec ⟨w, 0, 0⟩)
      = ⟨0, 0, 0⟩ := by
  simp [PreCalculateSystemCharacteristics, Matrix3d.mulVec, FVector.cross]

/-- C17: in `ApplyKinematics`, when the applied moment is zero and
`Omega x (J*Omega) = 0`, the angular velocity increment `dOmegab` is the zero
vector, for every `DeltaTime`, every force and every inertia data. -/
theorem ApplyKinematics_dOmegab_zero (c : FSystemCharacteristics) (Omegab Forces : FVector)
    (DeltaTime : ℚ) (h : Omegab.cross (c.J.mulVec Omegab) = ⟨0, 0, 0⟩) :
    (ApplyKinematics c Omegab Forces ⟨0, 0, 0⟩ DeltaTime).2 = ⟨0, 0, 0⟩ := by
  simp only [ApplyKinematics, h]
  have : FVector.smul DeltaTime (c.JInverse.mulVec (FVector.sub ⟨0, 0, 0⟩ ⟨0, 0, 0⟩))
      = ⟨0, 0, 0⟩ := by
    simp [FVector.smul, FVector.sub, Matrix3d.mulVec]
  rw [this]
  exact RemoveNumericalErrors_zero

theorem ApplyKinematics_dOmegab_zero_witness :
    (ApplyKinematics
        (PreCalculateSystemCharacteristics
          { Mass := 1, Ixx := 2, Iyy := 3, Izz := 4, Ixz := 0 })
        ⟨5, 0, 0⟩ ⟨1, 1, 1⟩ ⟨0, 0, 0⟩ (1 / 50)).2 = ⟨0, 0, 0⟩ :=
  ApplyKinematics_dOmegab_zero _ ⟨5, 0, 0⟩ ⟨1, 1, 1⟩ (1 / 50) (cross_J_axis_x 1 2 3 4 5)

/-! ## The integrator in closed form -/

namespace Integrator

/-- Once the previous input equals the input `U`, the rest of the sub-step loop
adds `(Dt - dtCumulative) * U` to the state. -/
theorem IntegrateLoop_const (Dt U : ℚ) :
    ∀ (fuel : Nat) (s : Integrator) (c : ℚ), 0 < s.DtMin → s.UPrev = U → s.Y = s.X →
      c ≤ Dt → Dt - c ≤ fuel * s.DtMin →
      IntegrateLoop fuel s Dt U c s.X
        = some (s.X + (Dt - c) * U,
            { X := s.X + (Dt - c) * U, UPrev := U, Y := s.X + (Dt - c) * U,
              DtMin := s.DtMin }) := by
  intro fuel
  induction fuel with
  | zero =>
    intro s c _ hU hY hc hf
    simp only [Nat.cast_zero, zero_mul] at hf
    have hcd : c = Dt := le_antisymm hc (by linarith)
    rw [IntegrateLoop_done _ _ _ _ _ _ (by rw [hcd]; exact lt_irrefl _)]
    obtain ⟨X, UPrev, Y, DtMin⟩ := s
    simp only at hU hY
    simp [hcd, hU, hY]
  | succ fuel ih =>
    intro s c hD hU hY hc hf
    by_cases hlt : c < Dt
    · simp only [IntegrateLoop, hlt, if_true]
      push_cast at hf
      have hfn : (0 : ℚ) ≤ fuel * s.DtMin := mul_nonneg (Nat.cast_nonneg _) hD.le
      split_ifs with hgt
      · have h := ih (s.Run s.DtMin U).2 (c + s.DtMin) hD rfl rfl (by linarith)
          (by rw [Run_DtMin]; linarith)
        have hX : (s.Run s.DtMin U).2.X = (s.Run s.DtMin U).1 := rfl
        rw [← hX, h]
        simp only [Run, hU]
        congr 2
        · ring
        · congr 1 <;> ring
      · have h := ih (s.Run (Dt - c) U).2 (c + (Dt - c)) hD rfl rfl (by linarith)
          (by rw [Run_DtMin]; linarith)
        have hX : (s.Run (Dt - c) U).2.X = (s.Run (Dt - c) U).1 := rfl
        rw [← hX, h]
        simp only [Run, hU]
        congr 2
        · ring
        · congr 1 <;> ring
    · have hcd : c = Dt := le_antisymm hc (not_lt.mp hlt)
      rw [IntegrateLoop_done _ _ _ _ _ _ hlt]
      obtain ⟨X, UPrev, Y, DtMin⟩ := s
      simp only at hU hY
      simp [hcd, hU, hY]

/-- In closed form, with a positive minimum step and enough fuel:
`Integrate(Dt, U)` applies the trapezoidal rule on a first step of size
`min Dt DtMin` and adds `U` times the remaining time. -/
theorem Integrate_closed_form (fuel : Nat) (s : Integrator) (Dt U : ℚ) (hD : 0 < s.DtMin)
    (hf : Dt ≤ s.DtMin ∨ Dt ≤ fuel * s.DtMin) :
    Integrate fuel s Dt U
      = some (s.X + (min Dt s.DtMin / 2) * (U + s.UPrev) + (Dt - min Dt s.DtMin) * U,
          { X := s.X + (min Dt s.DtMin / 2) * (U + s.UPrev) + (Dt - min Dt s.DtMin) * U,
            UPrev := U,
            Y := s.X + (min Dt s.DtMin / 2) * (U + s.UPrev) + (Dt - min Dt s.DtMin) * U,
            DtMin := s.DtMin }) := by
  by_cases hle : Dt ≤ s.DtMin
  · rw [Integrate_of_le fuel s Dt U hle, min_eq_left hle]
    simp only [Run, sub_self, zero_mul, add_zero]
  · have hgt : Dt > s.DtMin := not_le.mp hle
    have hf : Dt ≤ fuel * s.DtMin := hf.resolve_left hle
    rw [min_eq_right hgt.le]
    obtain ⟨fuel, rfl⟩ : ∃ f, fuel = f + 1 := by
      cases fuel with
      | zero => simp only [Nat.cast_zero, zero_mul] at hf; linarith
      | succ f => exact ⟨f, rfl⟩
    push_cast at hf
    have hpos : (0 : ℚ) < Dt := by linarith
    have hsub : Dt - 0 > s.DtMin := by simpa using hgt
    simp only [Integrate, hgt, if_true, IntegrateLoop, hpos, hsub, zero_add]
    have h := IntegrateLoop_const Dt U fuel (s.Run s.DtMin U).2 s.DtMin hD rfl rfl hgt.le
      (by rw [Run_DtMin]; linarith)
    have hX : (s.Run s.DtMin U).2.X = (s.Run s.DtMin U).1 := rfl
    rw [← hX, h]
    simp only [Run]

end Integrator

/-! ## The actuators: lazy initialisation and the unlimited second-order filter -/

namespace UFirstOrderActuator

/-- The first statement of `ApplyActuatorCommand`: an uninitialised actuator is
initialised, an initialised one is left as it is. -/
theorem ApplyActuatorCommand_seed (fuel : Nat) (a : UFirstOrderActuator) (cmd dt : ℚ) :
    ApplyActuatorCommand fuel a cmd dt
      = ApplyActuatorCommand fuel (if a.bActuatorInitialised then a else a.InitialiseActuator)
          cmd dt := by
  cases h : a.bActuatorInitialised
  · simp [ApplyActuatorCommand, h, InitialiseActuator]
  · simp

/-- On an initialised actuator the call advances the stored integrator and
keeps the flag. -/
theorem ApplyActuatorCommand_initialised (fuel : Nat) (a : UFirstOrderActuator) (cmd dt : ℚ)
    (r : ℚ × UFirstOrderActuator) (hi : a.bActuatorInitialised = true)
    (h : ApplyActuatorCommand fuel a cmd dt = some r) :
    r.2.bActuatorInitialised = true ∧ r.2.InitialActuatorState = a.InitialActuatorState ∧
      ∃ y, a.integrator.Integrate fuel dt (a.wn * (cmd * a.DCGain - a.integrator.X))
        = some (y, r.2.integrator) := by
  unfold ApplyActuatorCommand at h
  simp only [hi, Bool.not_true, Bool.false_eq_true, if_false] at h
  cases hI : a.integrator.Integrate fuel dt (a.wn * (cmd * a.DCGain - a.integrator.X)) with
  | none => simp [hI] at h
  | some p =>
    obtain ⟨y, i⟩ := p
    simp only [hI, Option.some.injEq] at h
    subst h
    exact ⟨rfl, rfl, y, rfl⟩

/-- After any call the actuator is initialised. -/
theorem ApplyActuatorCommand_flag (fuel : Nat) (a : UFirstOrderActuator) (cmd dt : ℚ)
    (r : ℚ × UFirstOrderActuator) (h : ApplyActuatorCommand fuel a cmd dt = some r) :
    r.2.bActuatorInitialised = true := by
  rw [ApplyActuatorCommand_seed] at h
  refine (ApplyActuatorCommand_initialised fuel _ cmd dt r ?_ h).1
  cases hi : a.bActuatorInitialised <;> simp [InitialiseActuator, hi]

/-- After a non-empty sequence of calls the actuator is initialised. -/
theorem ApplySeq_flag (fuel : Nat) :
    ∀ (cmds : List (ℚ × ℚ)) (a : UFirstOrderActuator) (y0 : ℚ) (r : ℚ × UFirstOrderActuator),
      cmds ≠ [] → ApplySeq fuel cmds a y0 = some r → r.2.bActuatorInitialised = true := by
  intro cmds
  induction cmds with
  | nil => intro a y0 r hne; exact absurd rfl hne
  | cons c rest ih =>
    intro a y0 r _ h
    obtain ⟨cmd, dt⟩ := c
    simp only [ApplySeq] at h
    cases hA : ApplyActuatorCommand fuel a cmd dt with
    | none => simp [hA] at h
    | some p =>
      obtain ⟨y, a'⟩ := p
      simp only [hA] at h
      cases rest with
      | nil =>
        simp only [ApplySeq, Option.some.injEq] at h
        subst h
        exact ApplyActuatorCommand_flag fuel a cmd dt _ hA
      | cons c' rest' => exact ih a' y r (List.cons_ne_nil _ _) h

end UFirstOrderActuator

namespace USecondOrderActuator

/-- The first statement of `ApplyActuatorCommand`: an uninitialised actuator is
initialised, an initialised one is left as it is. -/
theorem ApplyActuatorCommand_seed2 (fuel : Nat) (a : USecondOrderActuator) (cmd dt : ℚ) :
    ApplyActuatorCommand fuel a cmd dt
      = ApplyActuatorCommand fuel (if a.bActuatorInitialised then a else a.InitialiseActuator)
          cmd dt := by
  cases h : a.bActuatorInitialised
  · simp [ApplyActuatorCommand, h, InitialiseActuator]
  · simp

/-- On an initialised actuator the call advances the two stored integrators and
keeps the flag. -/
theorem ApplyActuatorCommand_initialised2 (fuel : Nat) (a : USecondOrderActuator) (cmd dt : ℚ)
    (r : ℚ × USecondOrderActuator) (hi : a.bActuatorInitialised = true)
    (h : ApplyActuatorCommand fuel a cmd dt = some r) :
    r.2.bActuatorInitialised = true ∧ r.2.InitialActuatorState = a.InitialActuatorState ∧
      ∃ y1 y2,
        a.integrator1.Integrate fuel dt
            (cmd * a.DCGain * a.wn ^ 2 - a.integrator2.X * a.wn ^ 2
              - a.integrator1.X * 2 * a.zeta * a.wn)
          = some (y1, r.2.integrator1) ∧
        a.integrator2.Integrate fuel dt y1 = some (y2, r.2.integrator2) := by
  unfold ApplyActuatorCommand at h
  simp only [hi, Bool.not_true, Bool.false_eq_true, if_false] at h
  cases hI : a.integrator1.Integrate fuel dt
      (cmd * a.DCGain * a.wn ^ 2 - a.integrator2.X * a.wn ^ 2
        - a.integrator1.X * 2 * a.zeta * a.wn) with
  | none => simp [hI] at h
  | some p =>
    obtain ⟨y1, i1⟩ := p
    simp only [hI] at h
    cases hJ : a.integrator2.Integrate fuel dt y1 with
    | none => simp [hJ] at h
    | some q =>
      obtain ⟨y2, i2⟩ := q
      simp only [hJ, Option.some.injEq] at h
      subst h
      exact ⟨rfl, rfl, y1, y2, rfl, hJ⟩

/-- After any call the actuator is initialised. -/
theorem ApplyActuatorCommand_flag2 (fuel : Nat) (a : USecondOrderActuator) (cmd dt : ℚ)
    (r : ℚ × USecondOrderActuator) (h : ApplyActuatorCommand fuel a cmd dt = some r) :
    r.2.bActuatorInitialised = true := by
  rw [ApplyActuatorCommand_seed2] at h
  refine (ApplyActuatorCommand_initialised2 fuel _ cmd dt r ?_ h).1
  cases hi : a.bActuatorInitialised <;> simp [InitialiseActuator, hi]

/-- After a non-empty sequence of calls the actuator is initialised. -/
theorem ApplySeq_flag2 (fuel : Nat) :
    ∀ (cmds : List (ℚ × ℚ)) (a : USecondOrderActuator) (y0 : ℚ) (r : ℚ × USecondOrderActuator),
      cmds ≠ [] → ApplySeq fuel cmds a y0 = some r → r.2.bActuatorInitialised = true := by
  intro cmds
  induction cmds with
  | nil => intro a y0 r hne; exact absurd rfl hne
  | cons c rest ih =>
    intro a y0 r _ h
    obtain ⟨cmd, dt⟩ := c
    simp only [ApplySeq] at h
    cases hA : ApplyActuatorCommand fuel a cmd dt with
    | none => simp [hA] at h
    | some p =>
      obtain ⟨y, a'⟩ := p
      simp only [hA] at h
      cases rest with
      | nil =>
        simp only [ApplySeq, Option.some.injEq] at h
        subst h
        exact ApplyActuatorCommand_flag2 fuel a cmd dt _ hA
      | cons c' rest' => exact ih a' y r (List.cons_ne_nil _ _) h

/-- C11: with no rate limit and no saturation,
`ApplyActuatorCommand(cmd, dt)` feeds the stage-1 integrator with
`DCGain*wn^2*cmd - wn^2*X2 - 2*zeta*wn*X1`, feeds the stage-2 integrator with
the value stage 1 returns, and returns what stage 2 returns; `X1`, `X2` are the
states of the integrators the call works on (`b` is the actuator itself once
initialised, the freshly seeded one on the first call). -/
theorem ApplyActuatorCommand_cascade (fuel : Nat) (a b : USecondOrderActuator) (cmd dt : ℚ)
    (hb : b = if a.bActuatorInitialised then a else a.InitialiseActuator)
    (hR : a.RateLimit = 0) (hL : a.LowerSaturation = 0) (hU : a.UpperSaturation = 0) :
    ApplyActuatorCommand fuel a cmd dt
      = (b.integrator1.Integrate fuel dt
            (a.DCGain * a.wn ^ 2 * cmd - a.wn ^ 2 * b.integrator2.X
              - 2 * a.zeta * a.wn * b.integrator1.X)).bind
          (fun r1 => (b.integrator2.Integrate fuel dt r1.1).map
            (fun r2 => (r2.1, { b with integrator1 := r1.2, integrator2 := r2.2,
                                       ActuatorState := r2.1 }))) := by
  have hin : cmd * b.DCGain * b.wn ^ 2 - b.integrator2.X * b.wn ^ 2
        - b.integrator1.X * 2 * b.zeta * b.wn
      = a.DCGain * a.wn ^ 2 * cmd - a.wn ^ 2 * b.integrator2.X
        - 2 * a.zeta * a.wn * b.integrator1.X := by
    have h1 : b.DCGain = a.DCGain := by
      subst hb; cases a.bActuatorInitialised <;> rfl
    have h2 : b.wn = a.wn := by
      subst hb; cases a.bActuatorInitialised <;> rfl
    have h3 : b.zeta = a.zeta := by
      subst hb; cases a.bActuatorInitialised <;> rfl
    rw [h1, h2, h3]; ring
  have hbR : b.RateLimit = 0 := by
    subst hb; cases a.bActuatorInitialised <;> exact hR
  have hbL : b.LowerSaturation = 0 := by
    subst hb; cases a.bActuatorInitialised <;> exact hL
  have hbU : b.UpperSaturation = 0 := by
    subst hb; cases a.bActuatorInitialised <;> exact hU
  have hbi : b.bActuatorInitialised = true := by
    subst hb; cases h : a.bActuatorInitialised <;> simp [InitialiseActuator, h]
  rw [ApplyActuatorCommand_seed2, ← hb, ← hin]
  unfold ApplyActuatorCommand
  simp only [hbi, Bool.not_true, Bool.false_eq_true, if_false, hbR, hbL, hbU, ne_eq,
    not_true_eq_false]
  cases b.integrator1.Integrate fuel dt
      (cmd * b.DCGain * b.wn ^ 2 - b.integrator2.X * b.wn ^ 2
        - b.integrator1.X * 2 * b.zeta * b.wn) with
  | none => rfl
  | some p =>
    obtain ⟨y1, i1⟩ := p
    simp only [Option.some_bind]
    cases b.integrator2.Integrate fuel dt y1 <;> rfl

theorem ApplyActuatorCommand_cascade_witness :
    ApplyActuatorCommand 0 { wn := 2, zeta := 1, DCGain := 3 } 1 (1 / 100)
      = some (3 / 10000,
          { wn := 2, zeta := 1, DCGain := 3, bActuatorInitialised := true,
            ActuatorState := 3 / 10000,
            integrator1 := { X := 3 / 50, UPrev := 12, Y := 3 / 50 },
            integrator2 := { X := 3 / 10000, UPrev := 3 / 50, Y := 3 / 10000 } }) := by
  have h := ApplyActuatorCommand_cascade 0 { wn := 2, zeta := 1, DCGain := 3 }
    (InitialiseActuator { wn := 2, zeta := 1, DCGain := 3 }) 1 (1 / 100) rfl rfl rfl rfl
  rw [h]
  decide!

end USecondOrderActuator

/-! ## Initialisation, saturation and rate limit: properties -/

/-- The two saturation statements of `ApplyActuatorCommand`, applied to a value
`x`: bounds on the result, for bounds `L`, `U` within the `float` range. -/
theorem saturation_bounds (L U x : ℚ) (hL : L ≤ FLT_MAX) (hU : -FLT_MAX ≤ U) :
    (U ≠ 0 →
        (if U ≠ 0 then Clamp (if L ≠ 0 then Clamp x L FLT_MAX else x) (-FLT_MAX) U
          else (if L ≠ 0 then Clamp x L FLT_MAX else x)) ≤ U) ∧
      (L ≠ 0 → (U = 0 ∨ L ≤ U) →
        L ≤ (if U ≠ 0 then Clamp (if L ≠ 0 then Clamp x L FLT_MAX else x) (-FLT_MAX) U
          else (if L ≠ 0 then Clamp x L FLT_MAX else x))) := by
  constructor
  · intro hU0
    rw [if_pos hU0]
    exact (Clamp_bounds _ _ _ hU).2
  · intro hL0 hLU
    have h1 : L ≤ (if L ≠ 0 then Clamp x L FLT_MAX else x) := by
      rw [if_pos hL0]
      exact (Clamp_bounds _ _ _ hL).1
    by_cases hU0 : U = 0
    · rw [if_neg (not_not.mpr hU0)]
      exact h1
    · rw [if_pos hU0]
      have hLU' : L ≤ U := hLU.resolve_left hU0
      generalize (if L ≠ 0 then Clamp x L FLT_MAX else x) = o at h1 ⊢
      unfold Clamp
      split_ifs with c1 c2
      · exact h1.trans c1.le
      · exact h1
      · exact hLU'

namespace UFirstOrderActuator

/-- The value a call returns is the saturation statements applied to some
value. -/
theorem ApplyActuatorCommand_output (fuel : Nat) (a : UFirstOrderActuator) (cmd dt : ℚ)
    (r : ℚ × UFirstOrderActuator) (h : ApplyActuatorCommand fuel a cmd dt = some r) :
    ∃ x, r.1
      = (if a.UpperSaturation ≠ 0 then
          Clamp (if a.LowerSaturation ≠ 0 then Clamp x a.LowerSaturation FLT_MAX else x)
            (-FLT_MAX) a.UpperSaturation
        else (if a.LowerSaturation ≠ 0 then Clamp x a.LowerSaturation FLT_MAX else x)) := by
  rw [ApplyActuatorCommand_seed] at h
  have hi : (if a.bActuatorInitialised then a else a.InitialiseActuator).bActuatorInitialised
      = true := by
    cases hi : a.bActuatorInitialised <;> simp [InitialiseActuator, hi]
  have hL : (if a.bActuatorInitialised then a else a.InitialiseActuator).LowerSaturation
      = a.LowerSaturation := by
    cases a.bActuatorInitialised <;> rfl
  have hU : (if a.bActuatorInitialised then a else a.InitialiseActuator).UpperSaturation
      = a.UpperSaturation := by
    cases a.bActuatorInitialised <;> rfl
  generalize (if a.bActuatorInitialised then a else a.InitialiseActuator) = b at h hi hL hU
  rw [← hL, ← hU]
  unfold ApplyActuatorCommand at h
  simp only [hi, Bool.not_true, Bool.false_eq_true, if_false] at h
  cases hI : b.integrator.Integrate fuel dt (b.wn * (cmd * b.DCGain - b.integrator.X)) with
  | none => simp [hI] at h
  | some p =>
    obtain ⟨y, i⟩ := p
    simp only [hI, Option.some.injEq] at h
    subst h
    exact ⟨_, rfl⟩

end UFirstOrderActuator

namespace USecondOrderActuator

/-- The value a call returns is the saturation statements applied to some
value. -/
theorem ApplyActuatorCommand_output2 (fuel : Nat) (a : USecondOrderActuator) (cmd dt : ℚ)
    (r : ℚ × USecondOrderActuator) (h : ApplyActuatorCommand fuel a cmd dt = some r) :
    ∃ x, r.1
      = (if a.UpperSaturation ≠ 0 then
          Clamp (if a.LowerSaturation ≠ 0 then Clamp x a.LowerSaturation FLT_MAX else x)
            (-FLT_MAX) a.UpperSaturation
        else (if a.LowerSaturation ≠ 0 then Clamp x a.LowerSaturation FLT_MAX else x)) := by
  rw [ApplyActuatorCommand_seed2] at h
  have hi : (if a.bActuatorInitialised then a else a.InitialiseActuator).bActuatorInitialised
      = true := by
    cases hi : a.bActuatorInitialised <;> simp [InitialiseActuator, hi]
  have hL : (if a.bActuatorInitialised then a else a.InitialiseActuator).LowerSaturation
      = a.LowerSaturation := by
    cases a.bActuatorInitialised <;> rfl
  have hU : (if a.bActuatorInitialised then a else a.InitialiseActuator).UpperSaturation
      = a.UpperSaturation := by
    cases a.bActuatorInitialised <;> rfl
  generalize (if a.bActuatorInitialised then a else a.InitialiseActuator) = b at h hi hL hU
  rw [← hL, ← hU]
  unfold ApplyActuatorCommand at h
  simp only [hi, Bool.not_true, Bool.false_eq_true, if_false] at h
  cases hI : b.integrator1.Integrate fuel dt
      (cmd * b.DCGain * b.wn ^ 2 - b.integrator2.X * b.wn ^ 2
        - b.integrator1.X * 2 * b.zeta * b.wn) with
  | none => simp [hI] at h
  | some p =>
    obtain ⟨y1, i1⟩ := p
    simp only [hI] at h
    cases hJ : b.integrator2.Integrate fuel dt y1 with
    | none => simp [hJ] at h
    | some q =>
      obtain ⟨y2, i2⟩ := q
      simp only [hJ, Option.some.injEq] at h
      subst h
      exact ⟨_, rfl⟩

end USecondOrderActuator

/-- C15: for the first-order actuator `a1` and the second-order actuator `a2`,
with saturation bounds inside the `float` range: if `UpperSaturation` is not 0
every returned state is `<= UpperSaturation`; if `LowerSaturation` is not 0 and
`UpperSaturation` is 0 or `LowerSaturation <= UpperSaturation`, every returned
state is `>= LowerSaturation`. -/
theorem saturation_respected (fuel : Nat) (a1 : UFirstOrderActuator)
    (a2 : USecondOrderActuator) (cmd dt : ℚ)
    (h1L : a1.LowerSaturation ≤ FLT_MAX) (h1U : -FLT_MAX ≤ a1.UpperSaturation)
    (h2L : a2.LowerSaturation ≤ FLT_MAX) (h2U : -FLT_MAX ≤ a2.UpperSaturation) :
    (∀ r, UFirstOrderActuator.ApplyActuatorCommand fuel a1 cmd dt = some r →
        (a1.UpperSaturation ≠ 0 → r.1 ≤ a1.UpperSaturation) ∧
        (a1.LowerSaturation ≠ 0 →
          (a1.UpperSaturation = 0 ∨ a1.LowerSaturation ≤ a1.UpperSaturation) →
          a1.LowerSaturation ≤ r.1)) ∧
    (∀ r, USecondOrderActuator.ApplyActuatorCommand fuel a2 cmd dt = some r →
        (a2.UpperSaturation ≠ 0 → r.1 ≤ a2.UpperSaturation) ∧
        (a2.LowerSaturation ≠ 0 →
          (a2.UpperSaturation = 0 ∨ a2.LowerSaturation ≤ a2.UpperSaturation) →
          a2.LowerSaturation ≤ r.1)) := by
  constructor
  · intro r h
    obtain ⟨x, hx⟩ := UFirstOrderActuator.ApplyActuatorCommand_output fuel a1 cmd dt r h
    rw [hx]
    exact saturation_bounds _ _ x h1L h1U
  · intro r h
    obtain ⟨x, hx⟩ := USecondOrderActuator.ApplyActuatorCommand_output2 fuel a2 cmd dt r h
    rw [hx]
    exact saturation_bounds _ _ x h2L h2U

theorem saturation_respected_witness :
    (∃ r, UFirstOrderActuator.ApplyActuatorCommand 0
          { wn := 1, UpperSaturation := 1 / 1000, bActuatorInitialised := true } 1 (1 / 100)
          = some r ∧ r.1 ≤ 1 / 1000) ∧
      (∃ r, USecondOrderActuator.ApplyActuatorCommand 0
          { wn := 1, zeta := 1, DCGain := 1, LowerSaturation := 1 / 2,
            bActuatorInitialised := true } 1 (1 / 100)
          = some r ∧ 1 / 2 ≤ r.1) := by
  have h := saturation_respected 0
    { wn := 1, UpperSaturation := 1 / 1000, bActuatorInitialised := true }
    { wn := 1, zeta := 1, DCGain := 1, LowerSaturation := 1 / 2, bActuatorInitialised := true }
    1 (1 / 100) (by decide!) (by decide!) (by decide!) (by decide!)
  constructor
  · refine ⟨(1 / 1000,
      { wn := 1, UpperSaturation := 1 / 1000, bActuatorInitialised := true,
        ActuatorState := 1 / 1000,
        integrator := { X := 1 / 200, UPrev := 1, Y := 1 / 200 } }),
      by decide!, ?_⟩
    exact (h.1 _ (by decide!)).1 (by decide!)
  · refine ⟨(1 / 2,
      { wn := 1, zeta := 1, DCGain := 1, LowerSaturation := 1 / 2,
        bActuatorInitialised := true, ActuatorState := 1 / 2,
        integrator1 := { X := 1 / 200, UPrev := 1, Y := 1 / 200 },
        integrator2 := { X := 1 / 40000, UPrev := 1 / 200, Y := 1 / 40000 } }),
      by decide!, ?_⟩
    exact (h.2 _ (by decide!)).2 (by decide!) (Or.inl rfl)

/-- The engine interpolation, for a non-negative step `R * dt`, is the
rate-limited move of the specification except within the snap distance. -/
theorem FInterpConstantTo_eq (X0 E dt R : ℚ) (h : 0 ≤ R * dt) :
    FInterpConstantTo X0 E dt R = RateLimitedOrSnapped X0 E R dt := by
  unfold FInterpConstantTo RateLimitedOrSnapped RateLimitedToward
  simp only [← sq]
  split_ifs with hs hle
  · rfl
  · rw [Clamp_of_between _ _ _ (neg_le_of_abs_le hle) (le_of_abs_le hle)]
    ring
  · rw [abs_le, not_and_or] at hle
    rcases hle with hlo | hhi
    · have hlt : E - X0 < -(R * dt) := not_le.mp hlo
      have hneg : E - X0 < 0 := by linarith
      rw [Clamp_of_lt_min _ _ _ hlt, sign_neg hneg]
      simp
    · have hgt : R * dt < E - X0 := not_le.mp hhi
      have hpos : 0 < E - X0 := by linarith
      rw [Clamp_of_ge_max _ _ _ (by linarith) hgt.le, sign_pos hpos]
      simp

/-- C14, as stated, fails: a first-order actuator at state 0 with rate limit
`R = 1/1000`, command 1/100 and `dt = 1/100` has the unrestricted integrator
output `E = 1/20000`, further than `R*dt = 1/100000` from `X0 = 0`; the claimed
result is `X0 + R*dt = 1/100000`, but the call returns `E` itself, because the
engine interpolation snaps to a target whose squared distance is below
`SMALL_NUMBER`. -/
theorem rate_limit_snap_sample :
    (UFirstOrderActuator.ApplyActuatorCommand 0
        { wn := 1, RateLimit := 1 / 1000, bActuatorInitialised := true } (1 / 100)
        (1 / 100)).map Prod.fst = some (1 / 20000) ∧
      (Integrator.Integrate 0 {} (1 / 100) (1 * (1 / 100 * 1 - 0))).map Prod.fst
        = some (1 / 20000) ∧
      RateLimitedToward 0 (1 / 20000) (1 / 1000) (1 / 100) = 1 / 100000 := by
  decide!

/-- C14, amended: for the first-order actuator `a1` and the second-order
actuator `a2` with rate limit `R > 0`, no saturation and `dt > 0`, the returned
state is obtained from the pre-update state `X0` of the output integrator and
the unrestricted integrator output `E`: it is `E` when `(E - X0)^2` is below
`SMALL_NUMBER` or `|E - X0| <= R*dt`, and `X0 + sign(E - X0)*R*dt` otherwise
(`b1`, `b2` are the actuators the calls work on: themselves once initialised,
freshly seeded on the first call). -/
theorem rate_limit_step (fuel : Nat) (a1 b1 : UFirstOrderActuator)
    (a2 b2 : USecondOrderActuator) (cmd dt R : ℚ)
    (hb1 : b1 = if a1.bActuatorInitialised then a1 else a1.InitialiseActuator)
    (hb2 : b2 = if a2.bActuatorInitialised then a2 else a2.InitialiseActuator)
    (hR : 0 < R) (hdt : 0 < dt)
    (h1R : a1.RateLimit = R) (h1L : a1.LowerSaturation = 0) (h1U : a1.UpperSaturation = 0)
    (h2R : a2.RateLimit = R) (h2L : a2.LowerSaturation = 0) (h2U : a2.UpperSaturation = 0) :
    UFirstOrderActuator.ApplyActuatorCommand fuel a1 cmd dt
        = (b1.integrator.Integrate fuel dt (a1.wn * (cmd * a1.DCGain - b1.integrator.X))).map
            (fun r => (RateLimitedOrSnapped b1.integrator.X r.1 R dt,
              { b1 with integrator := r.2,
                        ActuatorState := RateLimitedOrSnapped b1.integrator.X r.1 R dt })) ∧
      USecondOrderActuator.ApplyActuatorCommand fuel a2 cmd dt
        = (b2.integrator1.Integrate fuel dt
              (cmd * a2.DCGain * a2.wn ^ 2 - b2.integrator2.X * a2.wn ^ 2
                - b2.integrator1.X * 2 * a2.zeta * a2.wn)).bind
            (fun r1 => (b2.integrator2.Integrate fuel dt r1.1).map
              (fun r2 => (RateLimitedOrSnapped b2.integrator2.X r2.1 R dt,
                { b2 with integrator1 := r1.2, integrator2 := r2.2,
                          ActuatorState := RateLimitedOrSnapped b2.integrator2.X r2.1 R dt }))) := by
  have hR0 : R ≠ 0 := hR.ne'
  have hstep : 0 ≤ R * dt := (mul_pos hR hdt).le
  constructor
  · have e1 : b1.wn = a1.wn := by subst hb1; cases a1.bActuatorInitialised <;> rfl
    have e2 : b1.DCGain = a1.DCGain := by subst hb1; cases a1.bActuatorInitialised <;> rfl
    have e3 : b1.RateLimit = R := by subst hb1; cases a1.bActuatorInitialised <;> exact h1R
    have e4 : b1.LowerSaturation = 0 := by
      subst hb1; cases a1.bActuatorInitialised <;> exact h1L
    have e5 : b1.UpperSaturation = 0 := by
      subst hb1; cases a1.bActuatorInitialised <;> exact h1U
    have e6 : b1.bActuatorInitialised = true := by
      subst hb1; cases h : a1.bActuatorInitialised <;> simp [UFirstOrderActuator.InitialiseActuator, h]
    rw [UFirstOrderActuator.ApplyActuatorCommand_seed, ← hb1, ← e1, ← e2]
    unfold UFirstOrderActuator.ApplyActuatorCommand
    simp only [e6, Bool.not_true, Bool.false_eq_true, if_false, e3, e4, e5, ne_eq, hR0,
      not_false_eq_true, not_true_eq_false, if_true, FInterpConstantTo_eq _ _ _ _ hstep]
    cases b1.integrator.Integrate fuel dt (b1.wn * (cmd * b1.DCGain - b1.integrator.X)) <;> rfl
  · have e1 : b2.wn = a2.wn := by subst hb2; cases a2.bActuatorInitialised <;> rfl
    have e2 : b2.DCGain = a2.DCGain := by subst hb2; cases a2.bActuatorInitialised <;> rfl
    have e7 : b2.zeta = a2.zeta := by subst hb2; cases a2.bActuatorInitialised <;> rfl
    have e3 : b2.RateLimit = R := by subst hb2; cases a2.bActuatorInitialised <;> exact h2R
    have e4 : b2.LowerSaturation = 0 := by
      subst hb2; cases a2.bActuatorInitialised <;> exact h2L
    have e5 : b2.UpperSaturation = 0 := by
      subst hb2; cases a2.bActuatorInitialised <;> exact h2U
    have e6 : b2.bActuatorInitialised = true := by
      subst hb2; cases h : a2.bActuatorInitialised <;> simp [USecondOrderActuator.InitialiseActuator, h]
    rw [USecondOrderActuator.ApplyActuatorCommand_seed2, ← hb2, ← e1, ← e2, ← e7]
    unfold USecondOrderActuator.ApplyActuatorCommand
    simp only [e6, Bool.not_true, Bool.false_eq_true, if_false, e3, e4, e5, ne_eq, hR0,
      not_false_eq_true, not_true_eq_false, if_true, FInterpConstantTo_eq _ _ _ _ hstep]
    cases b2.integrator1.Integrate fuel dt
        (cmd * b2.DCGain * b2.wn ^ 2 - b2.integrator2.X * b2.wn ^ 2
          - b2.integrator1.X * 2 * b2.zeta * b2.wn) with
    | none => rfl
    | some p =>
      obtain ⟨y1, i1⟩ := p
      simp only [Option.some_bind]
      cases b2.integrator2.Integrate fuel dt y1 <;> rfl

theorem rate_limit_step_witness :
    UFirstOrderActuator.ApplyActuatorCommand 0
        { wn := 1, RateLimit := 1 / 10, bActuatorInitialised := true } 1 (1 / 100)
        = some (1 / 1000,
            { wn := 1, RateLimit := 1 / 10, bActuatorInitialised := true,
              ActuatorState := 1 / 1000,
              integrator := { X := 1 / 200, UPrev := 1, Y := 1 / 200 } }) ∧
      (USecondOrderActuator.ApplyActuatorCommand 0
        { wn := 20, zeta := 1, DCGain := 1, RateLimit := 1 / 10, bActuatorInitialised := true }
        1 (1 / 100)).map Prod.fst = some (1 / 1000) := by
  have h := rate_limit_step 0
    { wn := 1, RateLimit := 1 / 10, bActuatorInitialised := true }
    { wn := 1, RateLimit := 1 / 10, bActuatorInitialised := true }
    { wn := 20, zeta := 1, DCGain := 1, RateLimit := 1 / 10, bActuatorInitialised := true }
    { wn := 20, zeta := 1, DCGain := 1, RateLimit := 1 / 10, bActuatorInitialised := true }
    1 (1 / 100) (1 / 10) rfl rfl (by decide!) (by decide!) rfl rfl rfl rfl rfl rfl
  rw [h.1, h.2]
  decide!

/-! ## The unlimited actuators in closed form -/

namespace UFirstOrderActuator

/-- An initialised first-order actuator without limits, given enough fuel:
the call returns the closed form of the integrator output. -/
theorem ApplyActuatorCommand_closed (fuel : Nat) (b : UFirstOrderActuator) (cmd dt u y : ℚ)
    (hi : b.bActuatorInitialised = true) (hR : b.RateLimit = 0) (hL : b.LowerSaturation = 0)
    (hU : b.UpperSaturation = 0) (hD : 0 < b.integrator.DtMin)
    (hf : dt ≤ b.integrator.DtMin ∨ dt ≤ fuel * b.integrator.DtMin)
    (hu : u = b.wn * (cmd * b.DCGain - b.integrator.X))
    (hy : y = b.integrator.X + (min dt b.integrator.DtMin / 2) * (u + b.integrator.UPrev)
      + (dt - min dt b.integrator.DtMin) * u) :
    ApplyActuatorCommand fuel b cmd dt
      = some (y, { b with integrator := ⟨y, u, y, b.integrator.DtMin⟩,
                          ActuatorState := y }) := by
  unfold ApplyActuatorCommand
  simp only [hi, Bool.not_true, Bool.false_eq_true, if_false, hR, hL, hU, ne_eq,
    not_true_eq_false, ← hu, Integrator.Integrate_closed_form fuel b.integrator dt u hD hf, ← hy]

end UFirstOrderActuator

namespace USecondOrderActuator

/-- An initialised second-order actuator without limits, given enough fuel:
the call returns the closed form of the stage-2 integrator output. -/
theorem ApplyActuatorCommand_closed2 (fuel : Nat) (b : USecondOrderActuator)
    (cmd dt u y1 y2 : ℚ)
    (hi : b.bActuatorInitialised = true) (hR : b.RateLimit = 0) (hL : b.LowerSaturation = 0)
    (hU : b.UpperSaturation = 0) (hD1 : 0 < b.integrator1.DtMin) (hD2 : 0 < b.integrator2.DtMin)
    (hf1 : dt ≤ b.integrator1.DtMin ∨ dt ≤ fuel * b.integrator1.DtMin)
    (hf2 : dt ≤ b.integrator2.DtMin ∨ dt ≤ fuel * b.integrator2.DtMin)
    (hu : u = cmd * b.DCGain * b.wn ^ 2 - b.integrator2.X * b.wn ^ 2
      - b.integrator1.X * 2 * b.zeta * b.wn)
    (hy1 : y1 = b.integrator1.X + (min dt b.integrator1.DtMin / 2) * (u + b.integrator1.UPrev)
      + (dt - min dt b.integrator1.DtMin) * u)
    (hy2 : y2 = b.integrator2.X + (min dt b.integrator2.DtMin / 2) * (y1 + b.integrator2.UPrev)
      + (dt - min dt b.integrator2.DtMin) * y1) :
    ApplyActuatorCommand fuel b cmd dt
      = some (y2, { b with integrator1 := ⟨y1, u, y1, b.integrator1.DtMin⟩,
                           integrator2 := ⟨y2, y1, y2, b.integrator2.DtMin⟩,
                           ActuatorState := y2 }) := by
  unfold ApplyActuatorCommand
  simp only [hi, Bool.not_true, Bool.false_eq_true, if_false, hR, hL, hU, ne_eq,
    not_true_eq_false, ← hu, Integrator.Integrate_closed_form fuel b.integrator1 dt u hD1 hf1,
    ← hy1, Integrator.Integrate_closed_form fuel b.integrator2 dt y1 hD2 hf2, ← hy2]

end USecondOrderActuator

/-! ## The first-order step response -/

namespace UFirstOrderActuator

/-- One call with command 1 and step `0 < dt <= 1/100` keeps the invariant and
returns the new integrator state. -/
theorem StepInvariant_step (fuel : Nat) (b : UFirstOrderActuator) (dt : ℚ) (n : Nat)
    (hdt0 : 0 < dt) (hdt : dt ≤ 1 / 100) (hInv : StepInvariant dt n b) :
    ∃ b', ApplyActuatorCommand fuel b 1 dt = some (b'.integrator.X, b') ∧
      StepInvariant dt (n + 1) b' := by
  obtain ⟨hw, hg, hR, hL, hU, hi, hD, hp0, hp2, hpow⟩ := hInv
  have hle : dt ≤ b.integrator.DtMin := by rw [hD]; exact hdt
  have hmin : min dt b.integrator.DtMin = dt := min_eq_left hle
  obtain ⟨y, hy⟩ : ∃ y, y = b.integrator.X
      + (dt / 2) * ((1 - b.integrator.X) + b.integrator.UPrev) := ⟨_, rfl⟩
  have hcl := ApplyActuatorCommand_closed fuel b 1 dt (1 - b.integrator.X) y
    hi hR hL hU (by rw [hD]; norm_num) (Or.inl hle) (by rw [hw, hg]; ring)
    (by rw [hmin, hy]; ring)
  refine ⟨{ b with integrator := ⟨y, 1 - b.integrator.X, y, b.integrator.DtMin⟩,
                   ActuatorState := y }, hcl, ?_⟩
  have he0 : 0 ≤ 1 - b.integrator.X := by linarith
  have h1 : 0 ≤ dt * (1 - b.integrator.X) := mul_nonneg hdt0.le he0
  have h2 : 0 ≤ (1 / 100 - dt) * (1 - b.integrator.X) := mul_nonneg (by linarith) he0
  have h3 : 0 ≤ dt * (2 * (1 - b.integrator.X) - b.integrator.UPrev) :=
    mul_nonneg hdt0.le (by linarith)
  have h4 : 0 ≤ dt * b.integrator.UPrev := mul_nonneg hdt0.le hp0
  have hr0 : 0 ≤ 1 - dt / 2 := by linarith
  have h5 : (1 - b.integrator.X) * (1 - dt / 2) ≤ (1 - dt / 2) ^ n * (1 - dt / 2) :=
    mul_le_mul_of_nonneg_right hpow hr0
  refine ⟨hw, hg, hR, hL, hU, hi, hD, he0, ?_, ?_⟩
  · show 1 - b.integrator.X ≤ 2 * (1 - y)
    rw [hy]
    nlinarith [h1, h2, h3, h4]
  · show 1 - y ≤ (1 - dt / 2) ^ (n + 1)
    rw [hy, pow_succ]
    nlinarith [h4, h5]

/-- Holding the command 1 for `k + 1` calls from a state satisfying the
invariant with exponent `m`. -/
theorem StepInvariant_seq (fuel : Nat) (dt : ℚ) (hdt0 : 0 < dt) (hdt : dt ≤ 1 / 100) :
    ∀ (k m : Nat) (b : UFirstOrderActuator) (y0 : ℚ), StepInvariant dt m b →
      ∃ b', ApplySeq fuel (List.replicate (k + 1) (1, dt)) b y0 = some (b'.integrator.X, b') ∧
        StepInvariant dt (m + k + 1) b' := by
  intro k
  induction k with
  | zero =>
    intro m b y0 hInv
    obtain ⟨b', hA, hI⟩ := StepInvariant_step fuel b dt m hdt0 hdt hInv
    exact ⟨b', by simp [ApplySeq, hA], hI⟩
  | succ k ih =>
    intro m b y0 hInv
    obtain ⟨b1, hA, hI⟩ := StepInvariant_step fuel b dt m hdt0 hdt hInv
    obtain ⟨b', hS, hI'⟩ := ih (m + 1) b1 b1.integrator.X hI
    refine ⟨b', ?_, ?_⟩
    · rw [List.replicate_succ]
      simp only [ApplySeq, hA]
      exact hS
    · have e : m + 1 + k + 1 = m + (k + 1) + 1 := by omega
      rw [← e]
      exact hI'

/-- The bound behind C12: after `n + 1` calls the output `y` satisfies
`0 <= 1 - y <= (1 - dt/2)^(n+1)`. -/
theorem step_response_bound (fuel : Nat) (a : UFirstOrderActuator) (dt : ℚ) (n : Nat)
    (hdt0 : 0 < dt) (hdt : dt ≤ 1 / 100) (hw : a.wn = 1) (hg : a.DCGain = 1)
    (h0 : a.InitialActuatorState = 0) (hR : a.RateLimit = 0) (hL : a.LowerSaturation = 0)
    (hU : a.UpperSaturation = 0) (hi : a.bActuatorInitialised = false) :
    ∃ y a', ApplySeq fuel (List.replicate (n + 1) (1, dt)) a 0 = some (y, a') ∧
      0 ≤ 1 - y ∧ 1 - y ≤ (1 - dt / 2) ^ (n + 1) := by
  have hInv : StepInvariant dt 0 a.InitialiseActuator := by
    refine ⟨hw, hg, hR, hL, hU, rfl, rfl, ?_, ?_, ?_⟩
    · show (0 : ℚ) ≤ a.InitialActuatorState
      rw [h0]
    · show a.InitialActuatorState ≤ 2 * (1 - a.InitialActuatorState)
      rw [h0]; norm_num
    · show 1 - a.InitialActuatorState ≤ (1 - dt / 2) ^ 0
      rw [h0]; norm_num
  obtain ⟨b', hS, hI⟩ := StepInvariant_seq fuel dt hdt0 hdt n 0 a.InitialiseActuator 0 hInv
  have hseed : ApplySeq fuel (List.replicate (n + 1) (1, dt)) a 0
      = ApplySeq fuel (List.replicate (n + 1) (1, dt)) a.InitialiseActuator 0 := by
    rw [List.replicate_succ]
    simp only [ApplySeq]
    rw [ApplyActuatorCommand_seed fuel a 1 dt, hi]
    rfl
  refine ⟨b'.integrator.X, b', by rw [hseed, hS], ?_, ?_⟩
  · obtain ⟨-, -, -, -, -, -, -, hp0, hp2, -⟩ := hI
    linarith
  · obtain ⟨-, -, -, -, -, -, -, -, -, hpow⟩ := hI
    simpa using hpow

/-- C12 (amended): in exact arithmetic, a first-order actuator with `wn = 1`,
`DCGain = 1`, initial state 0 and no limits, called repeatedly with command 1
and a fixed step `0 < dt <= 0.01`: every call returns, the outputs stay at or
below 1, and they converge to 1 (for every `eps > 0` all outputs from some call
on are within `eps` of 1).  (In rounded arithmetic the outputs stop rising
short of 1.) -/
theorem step_response_converges (fuel : Nat) (a : UFirstOrderActuator) (dt : ℚ)
    (hdt0 : 0 < dt) (hdt : dt ≤ 1 / 100) (hw : a.wn = 1) (hg : a.DCGain = 1)
    (h0 : a.InitialActuatorState = 0) (hR : a.RateLimit = 0) (hL : a.LowerSaturation = 0)
    (hU : a.UpperSaturation = 0) (hi : a.bActuatorInitialised = false) :
    ∀ eps : ℚ, 0 < eps → ∃ N : Nat, ∀ n, N ≤ n →
      ∃ y a', ApplySeq fuel (List.replicate (n + 1) (1, dt)) a 0 = some (y, a') ∧
        y ≤ 1 ∧ |y - 1| < eps := by
  intro eps heps
  have hr0 : (0 : ℚ) ≤ 1 - dt / 2 := by linarith
  have hr1 : 1 - dt / 2 < 1 := by linarith
  obtain ⟨N, hN⟩ := exists_pow_lt_of_lt_one heps hr1
  refine ⟨N, fun n hn => ?_⟩
  obtain ⟨y, a', hS, hy0, hy1⟩ := step_response_bound fuel a dt n hdt0 hdt hw hg h0 hR hL hU hi
  refine ⟨y, a', hS, by linarith, ?_⟩
  have hmono : (1 - dt / 2) ^ (n + 1) ≤ (1 - dt / 2) ^ N :=
    pow_le_pow_of_le_one hr0 hr1.le (by omega)
  rw [abs_sub_comm, abs_of_nonneg hy0]
  linarith

end UFirstOrderActuator

theorem step_response_converges_witness :
    ∃ (N : Nat) (y : ℚ) (a' : UFirstOrderActuator),
      UFirstOrderActuator.ApplySeq 0 (List.replicate (N + 1) (1, 1 / 100)) { wn := 1 } 0
        = some (y, a') ∧ y ≤ 1 ∧ |y - 1| < 1 / 2 := by
  obtain ⟨N, hN⟩ := UFirstOrderActuator.step_response_converges 0 { wn := 1 } (1 / 100)
    (by decide!) (by decide!) rfl rfl rfl rfl rfl rfl rfl (1 / 2) (by decide!)
  obtain ⟨y, a', h⟩ := hN N le_rfl
  exact ⟨N, y, a', h⟩

/-! ## The second-order step response -/

/-- The cone `P >= 0`, `W >= 0`, `-2*P - 2*W <= Q <= 3*tau*P` is mapped into
itself by one step of the second-order recurrence, for `0 < delta <= tau <= 1/10`
and `1 <= sigma <= 11/10`. -/
theorem cone_step (τ δ σ P W Q : ℚ) (hδ0 : 0 < δ) (hδτ : δ ≤ τ) (hτ : τ ≤ 1 / 10)
    (hσ1 : 1 ≤ σ) (hσ2 : σ ≤ 11 / 10)
    (hP : 0 ≤ P) (hW : 0 ≤ W) (hQu : Q ≤ 3 * τ * P) (hQl : -2 * P - 2 * W ≤ Q) :
    0 ≤ (1 - σ * τ) * P + τ * (τ - δ / 2) * W - σ * (δ / 2) * Q ∧
    0 ≤ (1 - τ) * W + τ * P + (δ / 2) * Q ∧
    τ * (σ + 1) * P - τ * σ * W + (σ + 1) * (δ / 2) * Q
      ≤ 3 * τ * ((1 - σ * τ) * P + τ * (τ - δ / 2) * W - σ * (δ / 2) * Q) ∧
    -2 * ((1 - σ * τ) * P + τ * (τ - δ / 2) * W - σ * (δ / 2) * Q)
        - 2 * ((1 - τ) * W + τ * P + (δ / 2) * Q)
      ≤ τ * (σ + 1) * P - τ * σ * W + (σ + 1) * (δ / 2) * Q := by
  have hτ0 : 0 < τ := lt_of_lt_of_le hδ0 hδτ
  have hδ : δ ≤ 1 / 10 := hδτ.trans hτ
  have hσ0 : 0 ≤ σ := by linarith
  have hστ0 : 0 ≤ σ * τ := mul_nonneg hσ0 hτ0.le
  have hσδ0 : 0 ≤ σ * δ := mul_nonneg hσ0 hδ0.le
  have hστ : σ * τ ≤ 11 / 100 := by
    calc σ * τ ≤ (11 / 10) * (1 / 10) := mul_le_mul hσ2 hτ hτ0.le (by norm_num)
      _ = 11 / 100 := by norm_num
  have hσδ : σ * δ ≤ 11 / 100 := by
    calc σ * δ ≤ (11 / 10) * (1 / 10) := mul_le_mul hσ2 hδ hδ0.le (by norm_num)
      _ = 11 / 100 := by norm_num
  have hτδ0 : 0 ≤ τ * δ := mul_nonneg hτ0.le hδ0.le
  have hτδ : τ * δ ≤ 1 / 100 := by
    calc τ * δ ≤ (1 / 10) * (1 / 10) := mul_le_mul hτ hδ hδ0.le (by norm_num)
      _ = 1 / 100 := by norm_num
  have hττ0 : 0 ≤ τ * τ := mul_nonneg hτ0.le hτ0.le
  have hστδ0 : 0 ≤ σ * τ * δ := mul_nonneg hστ0 hδ0.le
  have hστδ : σ * τ * δ ≤ 11 / 1000 := by
    calc σ * τ * δ ≤ (11 / 100) * (1 / 10) := mul_le_mul hστ hδ hδ0.le (by norm_num)
      _ = 11 / 1000 := by norm_num
  have hA : 0 ≤ 3 * τ * P - Q := by linarith
  have hB : 0 ≤ Q + 2 * P + 2 * W := by linarith
  have hc1 : 0 ≤ τ * (τ - δ / 2) := mul_nonneg hτ0.le (by linarith)
  have hc2 : 0 ≤ σ * (δ / 2) := mul_nonneg hσ0 (by linarith)
  refine ⟨?_, ?_, ?_, ?_⟩
  · have k1 : 0 ≤ 1 - σ * τ - (3 / 2) * (σ * τ * δ) := by linarith
    have e : (1 - σ * τ) * P + τ * (τ - δ / 2) * W - σ * (δ / 2) * Q
        = (1 - σ * τ - (3 / 2) * (σ * τ * δ)) * P + τ * (τ - δ / 2) * W
          + σ * (δ / 2) * (3 * τ * P - Q) := by ring
    rw [e]
    exact add_nonneg (add_nonneg (mul_nonneg k1 hP) (mul_nonneg hc1 hW)) (mul_nonneg hc2 hA)
  · have e : (1 - τ) * W + τ * P + (δ / 2) * Q
        = (1 - τ - δ) * W + (τ - δ) * P + (δ / 2) * (Q + 2 * P + 2 * W) := by ring
    rw [e]
    exact add_nonneg (add_nonneg (mul_nonneg (by linarith) hW) (mul_nonneg (by linarith) hP))
      (mul_nonneg (by linarith) hB)
  · have m : 0 ≤ 2 - σ - 3 * (σ * τ) - (9 / 2) * (σ * τ * δ) - (3 / 2) * (σ * δ)
        - (3 / 2) * δ := by linarith
    have c2 : 0 ≤ 3 * τ * (τ * (τ - δ / 2)) + τ * σ :=
      add_nonneg (mul_nonneg (by linarith) hc1) (mul_nonneg hτ0.le hσ0)
    have c3 : 0 ≤ 3 * τ * (σ * (δ / 2)) + (σ + 1) * (δ / 2) :=
      add_nonneg (mul_nonneg (by linarith) hc2) (mul_nonneg (by linarith) (by linarith))
    have e : 3 * τ * ((1 - σ * τ) * P + τ * (τ - δ / 2) * W - σ * (δ / 2) * Q)
          - (τ * (σ + 1) * P - τ * σ * W + (σ + 1) * (δ / 2) * Q)
        = τ * (2 - σ - 3 * (σ * τ) - (9 / 2) * (σ * τ * δ) - (3 / 2) * (σ * δ)
            - (3 / 2) * δ) * P
          + (3 * τ * (τ * (τ - δ / 2)) + τ * σ) * W
          + (3 * τ * (σ * (δ / 2)) + (σ + 1) * (δ / 2)) * (3 * τ * P - Q) := by ring
    have h0 : 0 ≤ 3 * τ * ((1 - σ * τ) * P + τ * (τ - δ / 2) * W - σ * (δ / 2) * Q)
          - (τ * (σ + 1) * P - τ * σ * W + (σ + 1) * (δ / 2) * Q) := by
      rw [e]
      exact add_nonneg (add_nonneg (mul_nonneg (mul_nonneg hτ0.le m) hP) (mul_nonneg c2 hW))
        (mul_nonneg c3 hA)
    linarith
  · have qc : 0 ≤ δ * (3 - σ) / 2 := by
      have : 0 ≤ δ * (3 - σ) := mul_nonneg hδ0.le (by linarith)
      linarith
    have hd3 : δ * (3 - σ) ≤ 1 / 5 := by
      have : δ * (3 - σ) ≤ (1 / 10) * 2 :=
        mul_le_mul hδ (by linarith) (by linarith) (by norm_num)
      linarith
    have kp : 0 ≤ 2 + 3 * τ - σ * τ - δ * (3 - σ) := by linarith
    have kw : 0 ≤ 2 - 2 * τ - τ * σ + 2 * (τ * τ) - τ * δ - δ * (3 - σ) := by
      have : τ * σ = σ * τ := mul_comm _ _
      linarith
    have e : τ * (σ + 1) * P - τ * σ * W + (σ + 1) * (δ / 2) * Q
          - (-2 * ((1 - σ * τ) * P + τ * (τ - δ / 2) * W - σ * (δ / 2) * Q)
              - 2 * ((1 - τ) * W + τ * P + (δ / 2) * Q))
        = (2 + 3 * τ - σ * τ - δ * (3 - σ)) * P
          + (2 - 2 * τ - τ * σ + 2 * (τ * τ) - τ * δ - δ * (3 - σ)) * W
          + (δ * (3 - σ) / 2) * (Q + 2 * P + 2 * W) := by ring
    have h0 : 0 ≤ τ * (σ + 1) * P - τ * σ * W + (σ + 1) * (δ / 2) * Q
          - (-2 * ((1 - σ * τ) * P + τ * (τ - δ / 2) * W - σ * (δ / 2) * Q)
              - 2 * ((1 - τ) * W + τ * P + (δ / 2) * Q)) := by
      rw [e]
      exact add_nonneg (add_nonneg (mul_nonneg kp hP) (mul_nonneg kw hW)) (mul_nonneg qc hB)
    linarith

namespace USecondOrderActuator

/-- One call with command 1 keeps the invariant and returns the new state of
the stage-2 integrator, for `wn > 0`, `dt > 0`, `wn * dt <= 1/10` and enough fuel
for the sub-steps. -/
theorem StepInvariant_step2 (fuel : Nat) (b : USecondOrderActuator) (dt : ℚ)
    (hw : 0 < b.wn) (hdt0 : 0 < dt) (hτ : b.wn * dt ≤ 1 / 10)
    (hf : dt ≤ 1 / 100 ∨ dt ≤ fuel * (1 / 100)) (hInv : StepInvariant dt b) :
    ∃ b', ApplyActuatorCommand fuel b 1 dt = some (b'.integrator2.X, b') ∧
      StepInvariant dt b' ∧ b'.wn = b.wn := by
  obtain ⟨hz, hg, hR, hL, hU, hi, hD1, hD2, hU2, hP, hX1, hQu, hQl⟩ := hInv
  obtain ⟨d, hd⟩ : ∃ d, d = min dt (1 / 100 : ℚ) := ⟨_, rfl⟩
  have hd0 : 0 < d := by rw [hd]; exact lt_min hdt0 (by norm_num)
  have hdle : d ≤ dt := by rw [hd]; exact min_le_left _ _
  obtain ⟨u, hu⟩ : ∃ u, u = b.wn ^ 2 - b.integrator2.X * b.wn ^ 2
      - b.integrator1.X * 2 * b.wn := ⟨_, rfl⟩
  obtain ⟨y1, hy1⟩ : ∃ y1, y1 = b.integrator1.X + (d / 2) * (u + b.integrator1.UPrev)
      + (dt - d) * u := ⟨_, rfl⟩
  obtain ⟨y2, hy2⟩ : ∃ y2, y2 = b.integrator2.X + (d / 2) * (y1 + b.integrator1.X)
      + (dt - d) * y1 := ⟨_, rfl⟩
  have hcl := ApplyActuatorCommand_closed2 fuel b 1 dt u y1 y2 hi hR hL hU
    (by rw [hD1]; norm_num) (by rw [hD2]; norm_num) (by rw [hD1]; exact hf)
    (by rw [hD2]; exact hf) (by rw [hu, hg, hz]; ring) (by rw [hy1, hD1, hd])
    (by rw [hy2, hD2, hU2, hd])
  refine ⟨{ b with integrator1 := ⟨y1, u, y1, b.integrator1.DtMin⟩,
                   integrator2 := ⟨y2, y1, y2, b.integrator2.DtMin⟩,
                   ActuatorState := y2 }, hcl, ?_, rfl⟩
  have hδ0 : 0 < b.wn * d := mul_pos hw hd0
  have hδτ : b.wn * d ≤ b.wn * dt := mul_le_mul_of_nonneg_left hdle hw.le
  have hτ0 : 0 < b.wn * dt := mul_pos hw hdt0
  have hW : 0 ≤ b.wn * b.integrator1.X := mul_nonneg hw.le hX1
  have hc := cone_step (b.wn * dt) (b.wn * d) (1 + b.wn * dt - b.wn * d / 2)
    (b.wn ^ 2 * (1 - b.integrator2.X) - b.wn * b.integrator1.X) (b.wn * b.integrator1.X)
    (b.integrator1.UPrev - (b.wn ^ 2 * (1 - b.integrator2.X) - 2 * b.wn * b.integrator1.X))
    hδ0 hδτ hτ (by linarith) (by linarith) hP hW hQu hQl
  have eP : b.wn ^ 2 * (1 - y2) - b.wn * y1
      = (1 - (1 + b.wn * dt - b.wn * d / 2) * (b.wn * dt))
          * (b.wn ^ 2 * (1 - b.integrator2.X) - b.wn * b.integrator1.X)
        + b.wn * dt * (b.wn * dt - b.wn * d / 2) * (b.wn * b.integrator1.X)
        - (1 + b.wn * dt - b.wn * d / 2) * (b.wn * d / 2)
          * (b.integrator1.UPrev
            - (b.wn ^ 2 * (1 - b.integrator2.X) - 2 * b.wn * b.integrator1.X)) := by
    rw [hy2, hy1, hu]; ring
  have eW : b.wn * y1
      = (1 - b.wn * dt) * (b.wn * b.integrator1.X)
        + b.wn * dt * (b.wn ^ 2 * (1 - b.integrator2.X) - b.wn * b.integrator1.X)
        + (b.wn * d / 2)
          * (b.integrator1.UPrev
            - (b.wn ^ 2 * (1 - b.integrator2.X) - 2 * b.wn * b.integrator1.X)) := by
    rw [hy1, hu]; ring
  have eQ : u - (b.wn ^ 2 * (1 - y2) - 2 * b.wn * y1)
      = b.wn * dt * ((1 + b.wn * dt - b.wn * d / 2) + 1)
          * (b.wn ^ 2 * (1 - b.integrator2.X) - b.wn * b.integrator1.X)
        - b.wn * dt * (1 + b.wn * dt - b.wn * d / 2) * (b.wn * b.integrator1.X)
        + ((1 + b.wn * dt - b.wn * d / 2) + 1) * (b.wn * d / 2)
          * (b.integrator1.UPrev
            - (b.wn ^ 2 * (1 - b.integrator2.X) - 2 * b.wn * b.integrator1.X)) := by
    rw [hy2, hy1, hu]; ring
  obtain ⟨c1, c2, c3, c4⟩ := hc
  rw [← eP] at c1 c3 c4
  rw [← eW] at c2 c4
  rw [← eQ] at c3 c4
  have hy1nn : 0 ≤ y1 := by
    by_contra hneg
    have : b.wn * y1 < 0 := mul_neg_of_pos_of_neg hw (not_le.mp hneg)
    linarith
  exact ⟨hz, hg, hR, hL, hU, hi, hD1, hD2, rfl, c1, hy1nn, c3, c4⟩

/-- Holding the command 1 for `k + 1` calls from a state satisfying the
invariant. -/
theorem StepInvariant_seq2 (fuel : Nat) (dt : ℚ) (hdt0 : 0 < dt)
    (hf : dt ≤ 1 / 100 ∨ dt ≤ fuel * (1 / 100)) :
    ∀ (k : Nat) (b : USecondOrderActuator) (y0 : ℚ), 0 < b.wn → b.wn * dt ≤ 1 / 10 →
      StepInvariant dt b →
      ∃ b', ApplySeq fuel (List.replicate (k + 1) (1, dt)) b y0 = some (b'.integrator2.X, b') ∧
        StepInvariant dt b' ∧ b'.wn = b.wn := by
  intro k
  induction k with
  | zero =>
    intro b y0 hw hτ hInv
    obtain ⟨b', hA, hI, hwn⟩ := StepInvariant_step2 fuel b dt hw hdt0 hτ hf hInv
    exact ⟨b', by simp [ApplySeq, hA], hI, hwn⟩
  | succ k ih =>
    intro b y0 hw hτ hInv
    obtain ⟨b1, hA, hI, hwn⟩ := StepInvariant_step2 fuel b dt hw hdt0 hτ hf hInv
    obtain ⟨b', hS, hI', hwn'⟩ := ih b1 b1.integrator2.X (by rw [hwn]; exact hw)
      (by rw [hwn]; exact hτ) hI
    refine ⟨b', ?_, hI', by rw [hwn', hwn]⟩
    rw [List.replicate_succ]
    simp only [ApplySeq, hA]
    exact hS

/-- C13, as stated, fails: with `zeta = 1`, `DCGain = 1`, initial state 0, no
limits, `wn = 300` and `dt = 1/100`, the first call with command 1 returns
9/4, which exceeds 1. -/
theorem step_response_overshoot_sample :
    (ApplyActuatorCommand 0 { wn := 300, zeta := 1, DCGain := 1 } 1 (1 / 100)).map Prod.fst
        = some (9 / 4) ∧ ¬ ((9 / 4 : ℚ) ≤ 1) := by
  decide!

/-- C13, amended: a second-order actuator with `zeta = 1`, `DCGain = 1`, initial
state 0 and no limits, called repeatedly with command 1 and a fixed step
`dt > 0`, for `wn > 0` with `wn * dt <= 1/10`: every call returns (given fuel
for the sub-steps) and every returned output is `<= 1`. -/
theorem step_response_no_overshoot (fuel : Nat) (a : USecondOrderActuator) (dt : ℚ) (n : Nat)
    (hw : 0 < a.wn) (hdt0 : 0 < dt) (hτ : a.wn * dt ≤ 1 / 10)
    (hf : dt ≤ 1 / 100 ∨ dt ≤ fuel * (1 / 100))
    (hz : a.zeta = 1) (hg : a.DCGain = 1) (h0 : a.InitialActuatorState = 0)
    (hR : a.RateLimit = 0) (hL : a.LowerSaturation = 0) (hU : a.UpperSaturation = 0)
    (hi : a.bActuatorInitialised = false) :
    ∃ y a', ApplySeq fuel (List.replicate (n + 1) (1, dt)) a 0 = some (y, a') ∧ y ≤ 1 := by
  have hτ0 : 0 < a.wn * dt := mul_pos hw hdt0
  have hsq : 0 ≤ a.wn ^ 2 := sq_nonneg _
  have hInv : StepInvariant dt a.InitialiseActuator := by
    refine ⟨hz, hg, hR, hL, hU, rfl, rfl, rfl, ?_, ?_, ?_, ?_, ?_⟩
    · show a.InitialActuatorState = 0
      exact h0
    · show 0 ≤ a.wn ^ 2 * (1 - a.InitialActuatorState) - a.wn * 0
      rw [h0]; linarith
    · show (0 : ℚ) ≤ 0
      exact le_rfl
    · show 0 - (a.wn ^ 2 * (1 - a.InitialActuatorState) - 2 * a.wn * 0)
        ≤ 3 * (a.wn * dt) * (a.wn ^ 2 * (1 - a.InitialActuatorState) - a.wn * 0)
      rw [h0]
      have : 0 ≤ 3 * (a.wn * dt) * a.wn ^ 2 := mul_nonneg (by linarith) hsq
      linarith
    · show -2 * (a.wn ^ 2 * (1 - a.InitialActuatorState) - a.wn * 0) - 2 * (a.wn * 0)
        ≤ 0 - (a.wn ^ 2 * (1 - a.InitialActuatorState) - 2 * a.wn * 0)
      rw [h0]; linarith
  obtain ⟨b', hS, hI, hwn⟩ :=
    StepInvariant_seq2 fuel dt hdt0 hf n a.InitialiseActuator 0 hw hτ hInv
  have hseed : ApplySeq fuel (List.replicate (n + 1) (1, dt)) a 0
      = ApplySeq fuel (List.replicate (n + 1) (1, dt)) a.InitialiseActuator 0 := by
    rw [List.replicate_succ]
    simp only [ApplySeq]
    rw [ApplyActuatorCommand_seed2 fuel a 1 dt, hi]
    rfl
  refine ⟨b'.integrator2.X, b', by rw [hseed, hS], ?_⟩
  obtain ⟨-, -, -, -, -, -, -, -, -, hP, hX1, -, -⟩ := hI
  have hw' : 0 < b'.wn := by rw [hwn]; exact hw
  have h1 : 0 ≤ b'.wn * b'.integrator1.X := mul_nonneg hw'.le hX1
  have h2 : 0 ≤ b'.wn ^ 2 * (1 - b'.integrator2.X) := by linarith
  have h3 : 0 < b'.wn ^ 2 := pow_pos hw' 2
  by_contra hgt
  have : b'.wn ^ 2 * (1 - b'.integrator2.X) < 0 :=
    mul_neg_of_pos_of_neg h3 (by linarith)
  linarith

theorem step_response_no_overshoot_witness :
    ∃ y a', ApplySeq 3 (List.replicate (4 + 1) (1, 1 / 40))
        { wn := 4, zeta := 1, DCGain := 1 } 0 = some (y, a') ∧ y ≤ 1 :=
  step_response_no_overshoot 3 { wn := 4, zeta := 1, DCGain := 1 } (1 / 40) 4
    (by decide!) (by decide!) (by decide!) (Or.inr (by decide!)) rfl rfl rfl rfl rfl rfl rfl

end USecondOrderActuator

/-! ## Forces and moments: the combination `operator+` -/

namespace FForcesAndMoments

/-- C27 (amended): the value returned by `FForcesAndMoments::operator+` is the
component-wise sum of the forces and of the moments of its two operands; in
exact arithmetic the combination is, in value, commutative and associative,
and the default-constructed zero value is a left and right identity.  (The
rounded sum of `float` is not associative.) -/
theorem operatorPlus_value (a b c : FForcesAndMoments) :
    (a.operatorPlus b).1
        = ⟨⟨a.Forces.X + b.Forces.X, a.Forces.Y + b.Forces.Y, a.Forces.Z + b.Forces.Z⟩,
           ⟨a.Moments.X + b.Moments.X, a.Moments.Y + b.Moments.Y, a.Moments.Z + b.Moments.Z⟩⟩
      ∧ (a.operatorPlus b).1 = (b.operatorPlus a).1
      ∧ ((a.operatorPlus b).1.operatorPlus c).1 = (a.operatorPlus (b.operatorPlus c).1).1
      ∧ (({} : FForcesAndMoments).operatorPlus a).1 = a
      ∧ (a.operatorPlus {}).1 = a := by
  obtain ⟨⟨ax, ay, az⟩, ⟨al, am, an⟩⟩ := a
  obtain ⟨⟨bx, b_y, bz⟩, ⟨bl, bm, bn⟩⟩ := b
  obtain ⟨⟨cx, cy, cz⟩, ⟨cl, cm, cn⟩⟩ := c
  refine ⟨rfl, ?_, ?_, ?_, ?_⟩
  · simp only [operatorPlus, FVector.add, mk.injEq, FVector.mk.injEq]
    refine ⟨⟨?_, ?_, ?_⟩, ⟨?_, ?_, ?_⟩⟩ <;> ring
  · simp only [operatorPlus, FVector.add, mk.injEq, FVector.mk.injEq]
    refine ⟨⟨?_, ?_, ?_⟩, ⟨?_, ?_, ?_⟩⟩ <;> ring
  · simp [operatorPlus, FVector.add]
  · simp [operatorPlus, FVector.add]

end FForcesAndMoments

/-! ## The propeller: gyroscopic moment -/

namespace PropellerState

end PropellerState

/-! ## The propeller: side force -/

namespace PropellerState

/-- The aerodynamic constant that `UpdatePropellerState` stores. -/
theorem UpdatePropellerState_AerodynamicConstant (sqrt : ℚ → ℚ) (P : PhysicsParameters)
    (s : PropellerState) (Ruw Rwu : FVector → FVector) (ComponentVelocity : FVector) (Rho : ℚ)
    (Vw : FVector) :
    (UpdatePropellerState sqrt P s Ruw Rwu ComponentVelocity Rho Vw).AerodynamicConstant
      = Rho * (s.omega / (2 * PI)) ^ 2 * P.D ^ 4 := rfl

/-- The side force for a state with a given aerodynamic constant, when the
square-root routine is exact on squares. -/
theorem HubForce_eq (sqrt : ℚ → ℚ) (hsqrt : ∀ x : ℚ, sqrt (x * x) = |x|)
    (P : PhysicsParameters) (s : PropellerState) (CT : ℚ) :
    s.HubForce sqrt P CT
      = if IsNearlyZero |CT * s.AerodynamicConstant| = false
            ∧ IsNearlyZero (s.V.Size sqrt) = false then
          FVector.smul (-|CT * s.AerodynamicConstant| * P.Cd) ⟨s.V.X, s.V.Y, 0⟩
        else ⟨0, 0, 0⟩ := by
  have hT : (s.CalculateThrustForces CT).Size sqrt = |CT * s.AerodynamicConstant| := by
    simp only [CalculateThrustForces, FVector.Size]
    rw [show (0 : ℚ) * 0 + 0 * 0 + -(CT * s.AerodynamicConstant) * -(CT * s.AerodynamicConstant)
        = (CT * s.AerodynamicConstant) * (CT * s.AerodynamicConstant) by ring]
    exact hsqrt _
  simp only [HubForce, hT, CalculateSideForces]
  cases h1 : IsNearlyZero |CT * s.AerodynamicConstant| <;>
    cases h2 : IsNearlyZero (s.V.Size sqrt) <;>
    simp [scaleMatrix, Matrix3d.mulVec, FVector.smul]

/-- C25, a sample where the formula of the specification fails: with a negative
thrust coefficient `CT = -1/10` (and `rho = 1`, `n = 1`, `D = 1`, `Cd = 1/100`,
airspeed `(1, 0, 0)`) the code returns the side force `(-1/1000, 0, 0)`, opposed
to the airspeed, where `-T*Cd*(Vx, Vy, 0)` with `T = CT*rho*n^2*D^4` is
`(1/1000, 0, 0)`. -/
theorem HubForce_negative_CT_sample :
    (UpdatePropellerState Rat.sqrt ⟨1, 1 / 100, 1, 1⟩ { omega := 2 * PI } id id
        ⟨100, 0, 0⟩ 1 ⟨0, 0, 0⟩).V = ⟨1, 0, 0⟩
      ∧ (UpdatePropellerState Rat.sqrt ⟨1, 1 / 100, 1, 1⟩ { omega := 2 * PI } id id
          ⟨100, 0, 0⟩ 1 ⟨0, 0, 0⟩).HubForce Rat.sqrt ⟨1, 1 / 100, 1, 1⟩ (-1 / 10)
        = ⟨-1 / 1000, 0, 0⟩
      ∧ HubForceSpec (-1 / 10) 1 ((2 * PI) / (2 * PI)) 1 (1 / 100) ⟨1, 0, 0⟩
        = ⟨1 / 1000, 0, 0⟩ := by
  decide!

/-- C25 (amended): after `UpdatePropellerState`, the side force that
`CalculateForces` computes is `H = -T*Cd*(Vx, Vy, 0)` with `T` the magnitude
`|CT*rho*n^2*D^4|` of the thrust (`n = omega/(2*PI)`), whenever `T` and the
airspeed magnitude are both not nearly zero, and the zero vector otherwise; it
is the formula of the specification when `CT*rho >= 0`; its component along the
thrust axis is zero, so the thrust-axis component of `CalculateForces` is the
thrust `-CT*rho*n^2*D^4` alone. -/
theorem HubForce_spec (sqrt : ℚ → ℚ) (hsqrt : ∀ x : ℚ, sqrt (x * x) = |x|)
    (P : PhysicsParameters) (s : PropellerState) (Ruw Rwu : FVector → FVector)
    (ComponentVelocity : FVector) (Rho : ℚ) (Vw : FVector) (CT : ℚ) :
    (UpdatePropellerState sqrt P s Ruw Rwu ComponentVelocity Rho Vw).HubForce sqrt P CT
        = (if IsNearlyZero |CT * Rho * (s.omega / (2 * PI)) ^ 2 * P.D ^ 4| = false
              ∧ IsNearlyZero ((UpdatePropellerState sqrt P s Ruw Rwu ComponentVelocity
                    Rho Vw).V.Size sqrt) = false then
            FVector.smul (-|CT * Rho * (s.omega / (2 * PI)) ^ 2 * P.D ^ 4| * P.Cd)
              ⟨(UpdatePropellerState sqrt P s Ruw Rwu ComponentVelocity Rho Vw).V.X,
               (UpdatePropellerState sqrt P s Ruw Rwu ComponentVelocity Rho Vw).V.Y, 0⟩
          else ⟨0, 0, 0⟩)
      ∧ (0 ≤ CT * Rho →
          IsNearlyZero |CT * Rho * (s.omega / (2 * PI)) ^ 2 * P.D ^ 4| = false →
          IsNearlyZero ((UpdatePropellerState sqrt P s Ruw Rwu ComponentVelocity
                    Rho Vw).V.Size sqrt) = false →
          (UpdatePropellerState sqrt P s Ruw Rwu ComponentVelocity Rho Vw).HubForce sqrt P CT
            = HubForceSpec CT Rho (s.omega / (2 * PI)) P.D P.Cd
                (UpdatePropellerState sqrt P s Ruw Rwu ComponentVelocity Rho Vw).V)
      ∧ ((UpdatePropellerState sqrt P s Ruw Rwu ComponentVelocity Rho Vw).HubForce
            sqrt P CT).Z = 0
      ∧ ((UpdatePropellerState sqrt P s Ruw Rwu ComponentVelocity Rho Vw).CalculateForces
            sqrt P CT).Z = -(CT * Rho * (s.omega / (2 * PI)) ^ 2 * P.D ^ 4) := by
  obtain ⟨s', hs'⟩ : ∃ s', s' = UpdatePropellerState sqrt P s Ruw Rwu ComponentVelocity Rho Vw :=
    ⟨_, rfl⟩
  have hA : s'.AerodynamicConstant = Rho * (s.omega / (2 * PI)) ^ 2 * P.D ^ 4 := by
    rw [hs']; rfl
  have hT : CT * s'.AerodynamicConstant = CT * Rho * (s.omega / (2 * PI)) ^ 2 * P.D ^ 4 := by
    rw [hA]; ring
  rw [← hs']
  have hH := HubForce_eq sqrt hsqrt P s' CT
  rw [hT] at hH
  have hZ : (s'.HubForce sqrt P CT).Z = 0 := by
    rw [hH]; split_ifs <;> simp [FVector.smul]
  refine ⟨hH, ?_, hZ, ?_⟩
  · intro h0 h1 h2
    rw [hH, if_pos ⟨h1, h2⟩]
    have hnn : 0 ≤ CT * Rho * (s.omega / (2 * PI)) ^ 2 * P.D ^ 4 := by positivity
    rw [abs_of_nonneg hnn]
    rfl
  · simp only [CalculateForces, FVector.add, hZ, CalculateThrustForces, hT]
    ring

/-- A sample evaluation of the side force: the square root of the rationals,
exact on squares, with `CT = 1/10`, `rho = 1`, `n = 1`, `D = 1`, `Cd = 1/100` and
airspeed `(1, 0, 0)`; the side force is `(-1/1000, 0, 0)`. -/
theorem HubForce_spec_witness :
    (∀ x : ℚ, Rat.sqrt (x * x) = |x|)
      ∧ (0 : ℚ) ≤ 1 / 10 * 1
      ∧ (UpdatePropellerState Rat.sqrt ⟨1, 1 / 100, 1, 1⟩ { omega := 2 * PI } id id
            ⟨100, 0, 0⟩ 1 ⟨0, 0, 0⟩).HubForce Rat.sqrt ⟨1, 1 / 100, 1, 1⟩ (1 / 10)
          = HubForceSpec (1 / 10) 1 ((2 * PI) / (2 * PI)) 1 (1 / 100)
              (UpdatePropellerState Rat.sqrt ⟨1, 1 / 100, 1, 1⟩ { omega := 2 * PI } id id
                ⟨100, 0, 0⟩ 1 ⟨0, 0, 0⟩).V :=
  ⟨Rat.sqrt_eq, by decide!,
    (HubForce_spec Rat.sqrt Rat.sqrt_eq ⟨1, 1 / 100, 1, 1⟩ { omega := 2 * PI } id id
      ⟨100, 0, 0⟩ 1 ⟨0, 0, 0⟩ (1 / 10)).2.1 (by decide!) (by decide!) (by decide!)⟩

/-! ## The propeller: advance ratio -/

/-- C24 (amended): `UpdatePropellerState` sets the advance ratio `J` to 0 when the
magnitude of the propeller-frame airspeed is nearly zero; to `-FLT_MAX` when the
airspeed is not nearly zero but `n = omega/(2*PI)` is; and to `|V|/(n*D)`
otherwise.  With the sentinel, the look-up `GetAerodynamicConstants` of
`GetForcesAndMoments` returns the first stored `(CT, CP)` entry of the lowest
rotation-speed row, for a table with strictly increasing rotation-speed
breakpoints and strictly increasing `J` breakpoints in its lowest row, whose
lowest rotation-speed breakpoint lies above the range `60 * SMALL_NUMBER` of
nearly-zero speeds (in RPM) and whose first `J` breakpoint is above
`-FLT_MAX`. -/
theorem UpdatePropellerState_J (sqrt : ℚ → ℚ) (P : PhysicsParameters) (s : PropellerState)
    (Ruw Rwu : FVector → FVector) (ComponentVelocity : FVector) (Rho : ℚ) (Vw : FVector)
    (p : PropellerTable) (r : FConstantSpeedPropellerPhysicsParameters)
    (t : List FConstantSpeedPropellerPhysicsParameters) (j0 ct0 cp0 : ℚ) (rest : List ℚ)
    (hrows : p.ConstantSpeedPropellerPhysicsParameters = r :: t)
    (hN : p.NArray = p.ConstantSpeedPropellerPhysicsParameters.map (fun r => r.n))
    (hJ : r.J = j0 :: rest) (hct : r.CT[0]? = some ct0) (hcp : r.CP[0]? = some cp0)
    (_hsortN : p.NArray.Sorted (· < ·)) (_hsortJ : r.J.Sorted (· < ·))
    (hj0 : -FLT_MAX < j0) (hn : 60 * SMALL_NUMBER < r.n) :
    (UpdatePropellerState sqrt P s Ruw Rwu ComponentVelocity Rho Vw).J
        = (if IsNearlyZero ((UpdatePropellerState sqrt P s Ruw Rwu ComponentVelocity
                Rho Vw).V.Size sqrt) then 0
          else if IsNearlyZero (s.omega / (2 * PI)) then -FLT_MAX
          else (UpdatePropellerState sqrt P s Ruw Rwu ComponentVelocity Rho Vw).V.Size sqrt
            / (s.omega / (2 * PI) * P.D))
      ∧ (IsNearlyZero ((UpdatePropellerState sqrt P s Ruw Rwu ComponentVelocity
                Rho Vw).V.Size sqrt) = false →
          IsNearlyZero (s.omega / (2 * PI)) = true →
          GetAerodynamicConstants p
              (RadPerSToRPM (UpdatePropellerState sqrt P s Ruw Rwu ComponentVelocity
                Rho Vw).omega)
              (UpdatePropellerState sqrt P s Ruw Rwu ComponentVelocity Rho Vw).J
            = some ⟨ct0, cp0⟩) := by
  have hJeq : (UpdatePropellerState sqrt P s Ruw Rwu ComponentVelocity Rho Vw).J
        = (if IsNearlyZero ((UpdatePropellerState sqrt P s Ruw Rwu ComponentVelocity
                Rho Vw).V.Size sqrt) then 0
          else if IsNearlyZero (s.omega / (2 * PI)) then -FLT_MAX
          else (UpdatePropellerState sqrt P s Ruw Rwu ComponentVelocity Rho Vw).V.Size sqrt
            / (s.omega / (2 * PI) * P.D)) := by
    simp only [UpdatePropellerState]
    split_ifs <;> simp_all
  refine ⟨hJeq, ?_⟩
  intro hV hnz
  rw [hJeq, hV, hnz]
  simp only [Bool.false_eq_true, if_false, if_true]
  have homega : (UpdatePropellerState sqrt P s Ruw Rwu ComponentVelocity Rho Vw).omega
      = s.omega := rfl
  rw [homega]
  have hrpm : RadPerSToRPM s.omega < r.n := by
    have h1 : |s.omega / (2 * PI)| ≤ SMALL_NUMBER := by
      simpa [IsNearlyZero] using hnz
    have h2 : s.omega / (2 * PI) ≤ SMALL_NUMBER := le_trans (le_abs_self _) h1
    have h3 : RadPerSToRPM s.omega = s.omega / (2 * PI) * 60 := rfl
    rw [h3]
    linarith
  rw [GetAerodynamicConstants_below p _ _ r t hrows hN hrpm,
    AlongJ_first_below r _ j0 ct0 cp0 rest hJ hct hcp hj0]
  rfl

/-- A sample evaluation of the advance ratio: the two-row sample table, a
stopped propeller (`omega = 0`) in an airspeed of `(1, 0, 0)`: the advance ratio is
`-FLT_MAX` and the look-up returns the first entry `(1/10, 1/25)` of the row
at 1000 RPM. -/
theorem UpdatePropellerState_J_witness :
    (UpdatePropellerState Rat.sqrt ⟨1, 1 / 100, 1, 1⟩ {} id id ⟨100, 0, 0⟩ 1 ⟨0, 0, 0⟩).J
        = -FLT_MAX
      ∧ GetAerodynamicConstants (tableOf [sampleRow1, sampleRow2])
          (RadPerSToRPM (UpdatePropellerState Rat.sqrt ⟨1, 1 / 100, 1, 1⟩ {} id id
            ⟨100, 0, 0⟩ 1 ⟨0, 0, 0⟩).omega)
          (UpdatePropellerState Rat.sqrt ⟨1, 1 / 100, 1, 1⟩ {} id id ⟨100, 0, 0⟩ 1 ⟨0, 0, 0⟩).J
        = some ⟨1 / 10, 1 / 25⟩ :=
  ⟨by decide!,
    (UpdatePropellerState_J Rat.sqrt ⟨1, 1 / 100, 1, 1⟩ {} id id ⟨100, 0, 0⟩ 1 ⟨0, 0, 0⟩
      (tableOf [sampleRow1, sampleRow2]) sampleRow1 [sampleRow2] 0 (1 / 10) (1 / 25) [1]
      rfl rfl rfl rfl rfl (by decide!) (by decide!) (by decide!) (by decide!)).2 (by decide!)
      (by decide!)⟩

end PropellerState

/-! ## The airspeed state: angle of attack and sideslip -/

/-- C23: in `UpdateAirspeedState` the airspeed vector is the sanitised
difference `Vb - Vwb` and `Va` its magnitude; either `Va` is nearly zero and
`alpha` and `beta` are both exactly 0, or `Va` is not nearly zero, hence not
zero, and `alpha = atan2(Vab.Z, Vab.X)`, `beta = asin(Vab.Y / Va)`: no division
by a zero airspeed occurs. -/
theorem UpdateAirspeedState_alpha_beta (sqrt : ℚ → ℚ) (atan2 : ℚ → ℚ → ℚ) (asin : ℚ → ℚ)
    (TransformFromWorldToBody : RawFVector → RawFVector) (Vw Vb : RawFVector) :
    (UpdateAirspeedState sqrt atan2 asin TransformFromWorldToBody Vw Vb).Vab
        = RemoveNumericalErrors (Vb.sub (TransformFromWorldToBody Vw))
      ∧ (UpdateAirspeedState sqrt atan2 asin TransformFromWorldToBody Vw Vb).Va
        = (UpdateAirspeedState sqrt atan2 asin TransformFromWorldToBody Vw Vb).Vab.Size sqrt
      ∧ ((IsNearlyZero (UpdateAirspeedState sqrt atan2 asin TransformFromWorldToBody Vw Vb).Va
            = true
          ∧ (UpdateAirspeedState sqrt atan2 asin TransformFromWorldToBody Vw Vb).alpha = 0
          ∧ (UpdateAirspeedState sqrt atan2 asin TransformFromWorldToBody Vw Vb).beta = 0)
        ∨ (IsNearlyZero (UpdateAirspeedState sqrt atan2 asin TransformFromWorldToBody Vw Vb).Va
            = false
          ∧ (UpdateAirspeedState sqrt atan2 asin TransformFromWorldToBody Vw Vb).Va ≠ 0
          ∧ (UpdateAirspeedState sqrt atan2 asin TransformFromWorldToBody Vw Vb).alpha
            = atan2 (UpdateAirspeedState sqrt atan2 asin TransformFromWorldToBody Vw Vb).Vab.Z
                (UpdateAirspeedState sqrt atan2 asin TransformFromWorldToBody Vw Vb).Vab.X
          ∧ (UpdateAirspeedState sqrt atan2 asin TransformFromWorldToBody Vw Vb).beta
            = asin ((UpdateAirspeedState sqrt atan2 asin TransformFromWorldToBody Vw Vb).Vab.Y
                / (UpdateAirspeedState sqrt atan2 asin TransformFromWorldToBody Vw Vb).Va))) := by
  refine ⟨rfl, rfl, ?_⟩
  simp only [UpdateAirspeedState, IsNaN]
  cases h : IsNearlyZero
      ((RemoveNumericalErrors (Vb.sub (TransformFromWorldToBody Vw))).Size sqrt)
  · right
    refine ⟨rfl, ?_, by simp, by simp⟩
    intro h0
    rw [h0] at h
    exact absurd h (by decide!)
  · left
    exact ⟨rfl, by simp, by simp⟩

/-- A sample evaluation of `UpdateAirspeedState`: a body velocity equal to the
wind gives a zero airspeed, `alpha = 0` and `beta = 0`, whatever `atan2` and
`asin` return. -/
theorem UpdateAirspeedState_zero_sample (atan2 : ℚ → ℚ → ℚ) (asin : ℚ → ℚ) :
    (UpdateAirspeedState Rat.sqrt atan2 asin id ⟨.finite 3, .finite 0, .finite 1⟩
        ⟨.finite 3, .finite 0, .finite 1⟩).alpha = 0
      ∧ (UpdateAirspeedState Rat.sqrt atan2 asin id ⟨.finite 3, .finite 0, .finite 1⟩
        ⟨.finite 3, .finite 0, .finite 1⟩).beta = 0 := by
  have h0 : Rat.sqrt 0 = 0 := by decide!
  have hV : RemoveNumericalErrors
      ((⟨.finite 3, .finite 0, .finite 1⟩ : RawFVector).sub
        (id ⟨.finite 3, .finite 0, .finite 1⟩)) = ⟨0, 0, 0⟩ := by decide!
  simp only [UpdateAirspeedState, hV, FVector.Size]
  norm_num [h0, IsNearlyZero, SMALL_NUMBER]

/-! ## The stall model: adjusted terms -/

/-- C22, a sample where the formulas of the specification fail: at full stall
(`s = 1`) with zero linear terms, the code returns the drag term 2 at
`alpha = pi/2`, where `s*sign(alpha)*sin^3(alpha)` is 1, and the lift term
`sqrt 2 / 2` at `alpha = pi/4`, where `s*sign(alpha)*sin^2(alpha)*cos(alpha)` is
`sqrt 2 / 4`. -/
theorem stall_terms_factor_sample :
    (CalculateAdjustedCDAlphaCLAlphaForStall Real.sin Real.cos ⟨true, 0, 0, 0⟩
        (Real.pi / 2) 1 0 0).1 = 2
      ∧ StallDragSpec Real.sin 1 0 (Real.pi / 2) = 1
      ∧ (CalculateAdjustedCDAlphaCLAlphaForStall Real.sin Real.cos ⟨true, 0, 0, 0⟩
        (Real.pi / 4) 1 0 0).2 = Real.sqrt 2 / 2
      ∧ StallLiftSpec Real.sin Real.cos 1 0 (Real.pi / 4) = Real.sqrt 2 / 4
      ∧ Real.sqrt 2 / 2 ≠ Real.sqrt 2 / 4 := by
  have hpi : (0 : ℝ) < Real.pi := Real.pi_pos
  have h2 : Sign (Real.pi / 2) = (1 : ℝ) := by
    unfold Sign; rw [if_pos (by positivity)]
  have h4 : Sign (Real.pi / 4) = (1 : ℝ) := by
    unfold Sign; rw [if_pos (by positivity)]
  have hs : Real.sqrt 2 ^ 2 = 2 := Real.sq_sqrt (by norm_num)
  have hpos : (0 : ℝ) < Real.sqrt 2 := Real.sqrt_pos.mpr (by norm_num)
  refine ⟨?_, ?_, ?_, ?_, ?_⟩
  · simp only [CalculateAdjustedCDAlphaCLAlphaForStall, h2, Real.sin_pi_div_two, if_true]
    norm_num
  · simp only [StallDragSpec, h2, Real.sin_pi_div_two]
    norm_num
  · simp only [CalculateAdjustedCDAlphaCLAlphaForStall, h4, Real.sin_pi_div_four,
      Real.cos_pi_div_four, if_true]
    nlinarith [hs]
  · simp only [StallLiftSpec, h4, Real.sin_pi_div_four, Real.cos_pi_div_four]
    nlinarith [hs]
  · intro h
    linarith

/-- C22 (amended): with the stall model enabled and mixing factor `s`, the
adjusted terms are
`lift = (1 - s)*CL_lin + s*2*sign(alpha)*sin^2(alpha)*cos(alpha)`,
`drag = (1 - s)*CD_lin + s*2*sign(alpha)*sin^3(alpha)` and
`pitch = (1 - s)*Cm_lin + s*Cmfp*sign(alpha)*sin^2(alpha)`: the flat-plate lift
and drag terms carry a factor 2, the pitch term is the one of the
specification; with the stall model disabled all three terms are returned
unchanged. -/
theorem stall_terms_spec {K : Type} [LinearOrderedField K] (sin cos : K → K)
    (Alpha0 M Cmfp alpha s CD_lin CL_lin Cm_lin : K) :
    (CalculateAdjustedCDAlphaCLAlphaForStall sin cos ⟨true, Alpha0, M, Cmfp⟩ alpha s
          CD_lin CL_lin).2
        = (1 - s) * CL_lin + s * 2 * Sign alpha * sin alpha ^ 2 * cos alpha
      ∧ (CalculateAdjustedCDAlphaCLAlphaForStall sin cos ⟨true, Alpha0, M, Cmfp⟩ alpha s
          CD_lin CL_lin).1
        = (1 - s) * CD_lin + s * 2 * Sign alpha * sin alpha ^ 3
      ∧ CalculateAdjustedCmAlphaForStall sin ⟨true, Alpha0, M, Cmfp⟩ alpha s Cm_lin
        = StallPitchSpec sin s Cm_lin Cmfp alpha
      ∧ CalculateAdjustedCDAlphaCLAlphaForStall sin cos ⟨false, Alpha0, M, Cmfp⟩ alpha s
          CD_lin CL_lin = (CD_lin, CL_lin)
      ∧ CalculateAdjustedCmAlphaForStall sin ⟨false, Alpha0, M, Cmfp⟩ alpha s Cm_lin
        = Cm_lin := by
  refine ⟨?_, ?_, ?_, ?_, ?_⟩
  · simp only [CalculateAdjustedCDAlphaCLAlphaForStall, if_true]; ring
  · simp only [CalculateAdjustedCDAlphaCLAlphaForStall, if_true]
  · simp only [CalculateAdjustedCmAlphaForStall, StallPitchSpec, if_true]; ring
  · simp [CalculateAdjustedCDAlphaCLAlphaForStall]
  · simp [CalculateAdjustedCmAlphaForStall]

/-! ## The stall model: mixing factor -/

/-- A clamp to `[1, FLT_MAX]` of a value that an exponential sum or product may
take: finite when the value is, `FLT_MAX` otherwise. -/
theorem Clamp_stall_finite (x : ℚ) (hx : 1 ≤ x) :
    FloatValue.Clamp (.finite x) (.finite 1) (.finite FLT_MAX)
      = .finite (if x < FLT_MAX then x else FLT_MAX) := by
  have h1 : ¬ x < 1 := not_lt.mpr hx
  unfold FloatValue.Clamp
  simp only [FloatValue.lt, h1, decide_False, Bool.false_eq_true, if_false]
  by_cases h2 : x < FLT_MAX <;> simp [h2]

/-- The quotient of the two clamped values for finite exponentials. -/
theorem stall_quotient_finite (n d : ℚ) (hn : 1 ≤ n) (hnd : n ≤ d) :
    ∃ q : ℚ, 0 ≤ q ∧ q ≤ 1
      ∧ (FloatValue.Clamp (.finite n) (.finite 1) (.finite FLT_MAX)).div
          (FloatValue.Clamp (.finite d) (.finite 1) (.finite FLT_MAX)) = .finite q := by
  have hF : (1 : ℚ) ≤ FLT_MAX := by decide!
  rw [Clamp_stall_finite n hn, Clamp_stall_finite d (le_trans hn hnd)]
  have key : ∀ a b : ℚ, 1 ≤ a → a ≤ b →
      ∃ q : ℚ, 0 ≤ q ∧ q ≤ 1 ∧ (FloatValue.finite a).div (.finite b) = .finite q := by
    intro a b ha hab
    have hb : 0 < b := by linarith
    refine ⟨a / b, div_nonneg (by linarith) hb.le, (div_le_one hb).mpr hab, ?_⟩
    simp [FloatValue.div, hb.ne']
  by_cases h1 : n < FLT_MAX <;> by_cases h2 : d < FLT_MAX
  · simp only [h1, h2, if_true]; exact key n d hn hnd
  · simp only [h1, h2, if_true, if_false]; exact key n FLT_MAX hn h1.le
  · exact absurd (lt_of_le_of_lt hnd h2) h1
  · simp only [h1, h2, if_false]; exact key FLT_MAX FLT_MAX hF le_rfl

/-- The two clamped values for exponentials in their range: the quotient is a
finite value in `[0, 1]`. -/
theorem stall_quotient_range (e1 e2 : FloatValue) (h1 : ExpRange e1) (h2 : ExpRange e2) :
    ∃ q : ℚ, 0 ≤ q ∧ q ≤ 1
      ∧ (FloatValue.Clamp (((FloatValue.finite 1).add e1).add e2) (.finite 1)
            (.finite FLT_MAX)).div
          (FloatValue.Clamp (((FloatValue.finite 1).add e1).mul ((FloatValue.finite 1).add e2))
            (.finite 1) (.finite FLT_MAX)) = .finite q := by
  have hF : FLT_MAX ≠ 0 := by decide!
  have hone : ∃ q : ℚ, 0 ≤ q ∧ q ≤ 1
      ∧ (FloatValue.finite FLT_MAX).div (.finite FLT_MAX) = .finite q :=
    ⟨1, by norm_num, le_rfl, by simp [FloatValue.div, hF]⟩
  cases e1 with
  | finite y1 =>
    cases e2 with
    | finite y2 =>
      simp only [ExpRange] at h1 h2
      simp only [FloatValue.add, FloatValue.mul]
      exact stall_quotient_finite (1 + y1 + y2) ((1 + y1) * (1 + y2)) (by linarith)
        (by nlinarith [mul_nonneg h1 h2])
    | nan => simpa [FloatValue.add, FloatValue.mul, FloatValue.Clamp, FloatValue.lt] using hone
    | posInf =>
      simp only [ExpRange] at h1
      have hp : (0 : ℚ) < 1 + y1 := by linarith
      simpa [FloatValue.add, FloatValue.mul, FloatValue.Clamp, FloatValue.lt,
        FloatValue.signedInf, hp] using hone
    | negInf => exact absurd h2 (by simp [ExpRange])
  | nan =>
    cases e2 with
    | finite y2 =>
      simpa [FloatValue.add, FloatValue.mul, FloatValue.Clamp, FloatValue.lt] using hone
    | nan => simpa [FloatValue.add, FloatValue.mul, FloatValue.Clamp, FloatValue.lt] using hone
    | posInf =>
      simpa [FloatValue.add, FloatValue.mul, FloatValue.Clamp, FloatValue.lt] using hone
    | negInf => exact absurd h2 (by simp [ExpRange])
  | posInf =>
    cases e2 with
    | finite y2 =>
      simp only [ExpRange] at h2
      have hp : (0 : ℚ) < 1 + y2 := by linarith
      simpa [FloatValue.add, FloatValue.mul, FloatValue.Clamp, FloatValue.lt,
        FloatValue.signedInf, hp] using hone
    | nan => simpa [FloatValue.add, FloatValue.mul, FloatValue.Clamp, FloatValue.lt] using hone
    | posInf =>
      simpa [FloatValue.add, FloatValue.mul, FloatValue.Clamp, FloatValue.lt] using hone
    | negInf => exact absurd h2 (by simp [ExpRange])
  | negInf => exact absurd h1 (by simp [ExpRange])

/-- The stand-in exponential stays in the range of an exponential. -/
theorem sampleExp_range (x : FloatValue) : ExpRange (sampleExp x) := by
  cases x with
  | finite x =>
    simp only [sampleExp, ExpRange]
    nlinarith [sq_nonneg (x + 1)]
  | nan => simp [sampleExp, ExpRange]
  | posInf => simp [sampleExp, ExpRange]
  | negInf => simp [sampleExp, ExpRange]

/-- C21: with the stall model enabled, for every angle of attack `alpha`,
transition rate `M` and stall angle `Alpha0` (finite, infinite or NaN), and for
an exponential routine that returns a non-negative value, an infinity or a NaN,
the mixing factor `SigmaAlpha` computed by
`UpdateAerodynamicStallCalculationParameters` is a finite value within
`[0, 1]`; it is the quotient of the clamped numerator and denominator, or
exactly 1 if that quotient is a NaN (a case that the two clamps exclude). -/
theorem SigmaAlpha_range (exp : FloatValue → FloatValue) (hexp : ∀ x, ExpRange (exp x))
    (Alpha0 M Cmfp alpha : FloatValue) :
    (∃ s : ℚ, 0 ≤ s ∧ s ≤ 1
        ∧ UpdateAerodynamicStallCalculationParameters exp ⟨true, Alpha0, M, Cmfp⟩ alpha
          = .finite s)
      ∧ UpdateAerodynamicStallCalculationParameters exp ⟨true, Alpha0, M, Cmfp⟩ alpha
        = (if ((StallNumerator exp M Alpha0 alpha).div
              (StallDenominator exp M Alpha0 alpha)).IsNaN then .finite 1
          else (StallNumerator exp M Alpha0 alpha).div (StallDenominator exp M Alpha0 alpha))
      ∧ ((StallNumerator exp M Alpha0 alpha).div
          (StallDenominator exp M Alpha0 alpha)).IsNaN = false := by
  obtain ⟨q, hq0, hq1, hq⟩ := stall_quotient_range _ _
    (hexp (M.neg.mul (alpha.sub Alpha0))) (hexp (M.mul (alpha.add Alpha0)))
  have hdiv : (StallNumerator exp M Alpha0 alpha).div (StallDenominator exp M Alpha0 alpha)
      = .finite q := hq
  refine ⟨⟨q, hq0, hq1, ?_⟩, rfl, ?_⟩
  · simp only [UpdateAerodynamicStallCalculationParameters, if_true, hdiv, FloatValue.IsNaN,
      Bool.false_eq_true, if_false]
  · rw [hdiv]; rfl

/-- A sample evaluation of the mixing factor: the stand-in exponential, `M = 10`,
`Alpha0 = 1/4`, `alpha = 1/10`. -/
theorem SigmaAlpha_range_witness :
    (∀ x, ExpRange (sampleExp x))
      ∧ ∃ s : ℚ, 0 ≤ s ∧ s ≤ 1
        ∧ UpdateAerodynamicStallCalculationParameters sampleExp
            ⟨true, .finite (1 / 4), .finite 10, .finite 0⟩ (.finite (1 / 10)) = .finite s :=
  ⟨sampleExp_range,
    (SigmaAlpha_range sampleExp sampleExp_range (.finite (1 / 4)) (.finite 10) (.finite 0)
      (.finite (1 / 10))).1⟩

/-! ## The Dryden filters: lemmas -/

namespace FloatIntegrator

theorem Run_DtMin_float (s : FloatIntegrator) (Dt : ℚ) (U : FloatValue) :
    (s.Run Dt U).2.DtMin = s.DtMin := rfl

theorem IntegrateLoop_done_float (fuel : Nat) (s : FloatIntegrator) (Dt : ℚ) (U : FloatValue) (c : ℚ)
    (y : FloatValue) (h : ¬ c < Dt) : IntegrateLoop fuel s Dt U c y = some (y, s) := by
  cases fuel <;> simp [IntegrateLoop, h]

/-- With a positive minimum step the sub-step loop exits within `fuel`
iterations as soon as `fuel * DtMin` covers the time still to integrate, and
leaves the minimum step unchanged. -/
theorem IntegrateLoop_some :
    ∀ (fuel : Nat) (s : FloatIntegrator) (Dt : ℚ) (U : FloatValue) (c : ℚ) (y : FloatValue),
      0 < s.DtMin → Dt - c ≤ fuel * s.DtMin →
      ∃ v s', IntegrateLoop fuel s Dt U c y = some (v, s') ∧ s'.DtMin = s.DtMin := by
  intro fuel
  induction fuel with
  | zero =>
    intro s Dt U c y _ h
    have hc : ¬ c < Dt := by
      simp only [Nat.cast_zero, zero_mul] at h
      linarith
    exact ⟨y, s, IntegrateLoop_done_float _ _ _ _ _ _ hc, rfl⟩
  | succ fuel ih =>
    intro s Dt U c y hD h
    by_cases hc : c < Dt
    · simp only [IntegrateLoop, hc, if_true]
      obtain ⟨v, s', h1, h2⟩ := ih
        (s.Run (if Dt - c > s.DtMin then s.DtMin else Dt - c) U).2 Dt U
        (c + (if Dt - c > s.DtMin then s.DtMin else Dt - c))
        (s.Run (if Dt - c > s.DtMin then s.DtMin else Dt - c) U).1
        (by rw [Run_DtMin_float]; exact hD)
        (by
          rw [Run_DtMin_float]
          push_cast at h
          split_ifs with hgt
          · linarith
          · have : (0 : ℚ) ≤ fuel * s.DtMin := mul_nonneg (Nat.cast_nonneg _) hD.le
            linarith)
      exact ⟨v, s', h1, by rw [h2, Run_DtMin_float]⟩
    · exact ⟨y, s, IntegrateLoop_done_float _ _ _ _ _ _ hc, rfl⟩

/-- With a positive minimum step `Integrate` returns as soon as the fuel covers
the step, and leaves the minimum step unchanged. -/
theorem Integrate_some (fuel : Nat) (s : FloatIntegrator) (Dt : ℚ) (U : FloatValue)
    (hD : 0 < s.DtMin) (hf : Dt ≤ fuel * s.DtMin) :
    ∃ v s', Integrate fuel s Dt U = some (v, s') ∧ s'.DtMin = s.DtMin := by
  unfold Integrate
  split_ifs with h
  · exact IntegrateLoop_some fuel s Dt U 0 _ hD (by linarith)
  · exact ⟨_, _, rfl, rfl⟩

end FloatIntegrator

/-- Zero times a value is zero when the value is finite, NaN otherwise. -/
theorem FloatValue.zero_mul_cases (v : FloatValue) :
    (FloatValue.finite 0).mul v = .finite 0 ∨ (FloatValue.finite 0).mul v = .nan := by
  cases v <;> simp [FloatValue.mul, FloatValue.signedInf]

/-- The guard at the end of `GetTurbulence` sends both zero and NaN to zero. -/
theorem turbulence_guard (v : FloatValue) (h : v = .finite 0 ∨ v = .nan) :
    (if (v.IsNaN || v.IsNearlyZero) = true then FloatValue.finite 0 else v) = .finite 0 := by
  rcases h with h | h <;> subst h
  · simp
  · rfl

namespace UDrydenModelTFHu

/-- The longitudinal filter returns `Sigma` times the output of its integrator. -/
theorem Filter_some_Hu (sqrtf : FloatValue → FloatValue) (fuel : Nat) (self : UDrydenModelTFHu)
    (Dt : ℚ) (Va L Sigma Noise : FloatValue) (hD : 0 < self._Integrator.DtMin)
    (hf : Dt ≤ fuel * self._Integrator.DtMin) :
    ∃ y i, self.Filter sqrtf fuel Dt Va L Sigma Noise
        = some (Sigma.mul y, { self with _Integrator := i })
      ∧ i.DtMin = self._Integrator.DtMin := by
  obtain ⟨v, s', h1, h2⟩ := FloatIntegrator.Integrate_some fuel self._Integrator Dt
    ((((sqrtf ((if (!Va.IsNearlyZero) = true then L.div Va else .finite FLT_MAX).mul
        (.finite (2 / PI)))).mul Noise).sub self._Integrator.X).div
      (if (!Va.IsNearlyZero) = true then L.div Va else .finite FLT_MAX)) hD hf
  refine ⟨v, s', ?_, h2⟩
  simp only [Filter, h1, Option.bind_eq_bind, Option.some_bind, Option.pure_def]

/-- With `Sigma = 0` the call `GetTurbulence` on the longitudinal filter returns
exactly 0, whatever the noise sample and the integrator state, and leaves a
well-formed object. -/
theorem GetTurbulence_zero_Hu (sqrtf : FloatValue → FloatValue) (fuel : Nat)
    (self : UDrydenModelTFHu) (Va : FloatValue) (Dt : ℚ) (L draw : FloatValue)
    (hv : self.Valid) (hf : Dt ≤ fuel * self.Ts) :
    ∃ self', self.GetTurbulence sqrtf fuel Va Dt L (.finite 0) draw = some (.finite 0, self')
      ∧ self'.Valid := by
  obtain ⟨b, hb, hbT, hbD, hbI⟩ : ∃ b : UDrydenModelTFHu,
      b = (if (!self.IsInitialized) = true then self.Initialize else self)
        ∧ b.Ts = self.Ts ∧ b._Integrator.DtMin = self.Ts ∧ b.IsInitialized = true := by
    refine ⟨_, rfl, ?_, ?_, ?_⟩
    · cases hi : self.IsInitialized <;> simp [Initialize]
    · cases hi : self.IsInitialized
      · simp [Initialize, FloatIntegrator.mk2]
      · simpa using hv.2 hi
    · cases hi : self.IsInitialized <;> simp [Initialize, hi]
  obtain ⟨y, i, h1, h2⟩ := Filter_some_Hu sqrtf fuel b Dt
    (if (Va.IsNaN || Va.IsNearlyZero) = true then .finite 0 else Va) L (.finite 0)
    ((sqrtf ((FloatValue.finite PI).div (.finite b.Ts))).mul draw)
    (by rw [hbD]; exact hv.1) (by rw [hbD]; exact hf)
  refine ⟨{ b with _Integrator := i }, ?_, ?_⟩
  · simp only [GetTurbulence, ← hb, h1, Option.bind_eq_bind, Option.some_bind, Option.pure_def,
      turbulence_guard _ (FloatValue.zero_mul_cases y)]
  · refine ⟨?_, fun _ => ?_⟩
    · rw [show ({ b with _Integrator := i } : UDrydenModelTFHu).Ts = b.Ts from rfl, hbT]
      exact hv.1
    · rw [show ({ b with _Integrator := i } : UDrydenModelTFHu)._Integrator.DtMin = i.DtMin
        from rfl, h2, hbD]
      exact hbT.symm

end UDrydenModelTFHu

namespace UDrydenModelTFHv

/-- The lateral filter returns `Sigma` times the output of its second
integrator. -/
theorem Filter_some_Hv (sqrtf : FloatValue → FloatValue) (fuel : Nat) (self : UDrydenModelTFHv)
    (Dt : ℚ) (Va L Sigma Noise : FloatValue) (hD1 : 0 < self._Integrator_Vg_P1.DtMin)
    (hf1 : Dt ≤ fuel * self._Integrator_Vg_P1.DtMin) (hD2 : 0 < self._Integrator_Vg_P2.DtMin)
    (hf2 : Dt ≤ fuel * self._Integrator_Vg_P2.DtMin) :
    ∃ y i1 i2, self.Filter sqrtf fuel Dt Va L Sigma Noise
        = some (Sigma.mul y, { self with _Integrator_Vg_P1 := i1, _Integrator_Vg_P2 := i2 })
      ∧ i1.DtMin = self._Integrator_Vg_P1.DtMin ∧ i2.DtMin = self._Integrator_Vg_P2.DtMin := by
  obtain ⟨Lov, hL⟩ : ∃ Lov, Lov
      = (if (!Va.IsNearlyZero) = true then L.div Va else FloatValue.finite FLT_MAX) := ⟨_, rfl⟩
  obtain ⟨w1, hw1⟩ : ∃ w1, w1
      = (((sqrtf (Lov.mul (.finite (1 / PI)))).mul Noise).sub self._Integrator_Vg_P1.X).div Lov :=
    ⟨_, rfl⟩
  obtain ⟨v1, s1, h1, e1⟩ :=
    FloatIntegrator.Integrate_some fuel self._Integrator_Vg_P1 Dt w1 hD1 hf1
  obtain ⟨v2, s2, h2, e2⟩ := FloatIntegrator.Integrate_some fuel self._Integrator_Vg_P2 Dt
    (((v1.add (((sqrtf (.finite 3)).mul Lov).mul w1)).sub self._Integrator_Vg_P2.X).div Lov)
    hD2 hf2
  refine ⟨v2, s1, s2, ?_, e1, e2⟩
  simp only [Filter, ← hL, ← hw1, h1, h2, Option.bind_eq_bind, Option.some_bind,
    Option.pure_def]

/-- With `Sigma = 0` the call `GetTurbulence` on the lateral filter returns
exactly 0, whatever the noise sample and the integrator states, and leaves a
well-formed object. -/
theorem GetTurbulence_zero_Hv (sqrtf : FloatValue → FloatValue) (fuel : Nat)
    (self : UDrydenModelTFHv) (Va : FloatValue) (Dt : ℚ) (L draw : FloatValue)
    (hv : self.Valid) (hf : Dt ≤ fuel * self.Ts) :
    ∃ self', self.GetTurbulence sqrtf fuel Va Dt L (.finite 0) draw = some (.finite 0, self')
      ∧ self'.Valid := by
  obtain ⟨b, hb, hbT, hbD1, hbD2, hbI⟩ : ∃ b : UDrydenModelTFHv,
      b = (if (!self.IsInitialized) = true then self.Initialize else self)
        ∧ b.Ts = self.Ts ∧ b._Integrator_Vg_P1.DtMin = self.Ts
        ∧ b._Integrator_Vg_P2.DtMin = self.Ts ∧ b.IsInitialized = true := by
    refine ⟨_, rfl, ?_, ?_, ?_, ?_⟩
    · cases hi : self.IsInitialized <;> simp [Initialize]
    · cases hi : self.IsInitialized
      · simp [Initialize, FloatIntegrator.mk2]
      · simpa using (hv.2 hi).1
    · cases hi : self.IsInitialized
      · simp [Initialize, FloatIntegrator.mk2]
      · simpa using (hv.2 hi).2
    · cases hi : self.IsInitialized <;> simp [Initialize, hi]
  obtain ⟨y, i1, i2, h1, e1, e2⟩ := Filter_some_Hv sqrtf fuel b Dt
    (if (Va.IsNaN || Va.IsNearlyZero) = true then .finite 0 else Va) L (.finite 0)
    ((sqrtf ((FloatValue.finite PI).div (.finite b.Ts))).mul draw)
    (by rw [hbD1]; exact hv.1) (by rw [hbD1]; exact hf)
    (by rw [hbD2]; exact hv.1) (by rw [hbD2]; exact hf)
  refine ⟨{ b with _Integrator_Vg_P1 := i1, _Integrator_Vg_P2 := i2 }, ?_, ?_⟩
  · simp only [GetTurbulence, ← hb, h1, Option.bind_eq_bind, Option.some_bind, Option.pure_def,
      turbulence_guard _ (FloatValue.zero_mul_cases y)]
  · refine ⟨?_, fun _ => ⟨?_, ?_⟩⟩
    · rw [show ({ b with _Integrator_Vg_P1 := i1, _Integrator_Vg_P2 := i2 } :
        UDrydenModelTFHv).Ts = b.Ts from rfl, hbT]
      exact hv.1
    · rw [show ({ b with _Integrator_Vg_P1 := i1, _Integrator_Vg_P2 := i2 } :
        UDrydenModelTFHv)._Integrator_Vg_P1.DtMin = i1.DtMin from rfl, e1, hbD1]
      exact hbT.symm
    · rw [show ({ b with _Integrator_Vg_P1 := i1, _Integrator_Vg_P2 := i2 } :
        UDrydenModelTFHv)._Integrator_Vg_P2.DtMin = i2.DtMin from rfl, e2, hbD2]
      exact hbT.symm

end UDrydenModelTFHv

namespace UDrydenModelTFHw

/-- The vertical filter returns `Sigma` times the output of its second
integrator. -/
theorem Filter_some_Hw (sqrtf : FloatValue → FloatValue) (fuel : Nat) (self : UDrydenModelTFHw)
    (Dt : ℚ) (Va L Sigma Noise : FloatValue) (hD1 : 0 < self._Integrator_Wg_P1.DtMin)
    (hf1 : Dt ≤ fuel * self._Integrator_Wg_P1.DtMin) (hD2 : 0 < self._Integrator_Wg_P2.DtMin)
    (hf2 : Dt ≤ fuel * self._Integrator_Wg_P2.DtMin) :
    ∃ y i1 i2, self.Filter sqrtf fuel Dt Va L Sigma Noise
        = some (Sigma.mul y, { self with _Integrator_Wg_P1 := i1, _Integrator_Wg_P2 := i2 })
      ∧ i1.DtMin = self._Integrator_Wg_P1.DtMin ∧ i2.DtMin = self._Integrator_Wg_P2.DtMin := by
  obtain ⟨Lov, hL⟩ : ∃ Lov, Lov
      = (if (!Va.IsNearlyZero) = true then L.div Va else FloatValue.finite FLT_MAX) := ⟨_, rfl⟩
  obtain ⟨w1, hw1⟩ : ∃ w1, w1
      = (((sqrtf (Lov.mul (.finite (1 / PI)))).mul Noise).sub self._Integrator_Wg_P1.X).div Lov :=
    ⟨_, rfl⟩
  obtain ⟨v1, s1, h1, e1⟩ :=
    FloatIntegrator.Integrate_some fuel self._Integrator_Wg_P1 Dt w1 hD1 hf1
  obtain ⟨v2, s2, h2, e2⟩ := FloatIntegrator.Integrate_some fuel self._Integrator_Wg_P2 Dt
    (((v1.add (((sqrtf (.finite 3)).mul Lov).mul w1)).sub self._Integrator_Wg_P2.X).div Lov)
    hD2 hf2
  refine ⟨v2, s1, s2, ?_, e1, e2⟩
  simp only [Filter, ← hL, ← hw1, h1, h2, Option.bind_eq_bind, Option.some_bind,
    Option.pure_def]

/-- With `Sigma = 0` the call `GetTurbulence` on the vertical filter returns
exactly 0, whatever the noise sample and the integrator states, and leaves a
well-formed object. -/
theorem GetTurbulence_zero_Hw (sqrtf : FloatValue → FloatValue) (fuel : Nat)
    (self : UDrydenModelTFHw) (Va : FloatValue) (Dt : ℚ) (L draw : FloatValue)
    (hv : self.Valid) (hf : Dt ≤ fuel * self.Ts) :
    ∃ self', self.GetTurbulence sqrtf fuel Va Dt L (.finite 0) draw = some (.finite 0, self')
      ∧ self'.Valid := by
  obtain ⟨b, hb, hbT, hbD1, hbD2, hbI⟩ : ∃ b : UDrydenModelTFHw,
      b = (if (!self.IsInitialized) = true then self.Initialize else self)
        ∧ b.Ts = self.Ts ∧ b._Integrator_Wg_P1.DtMin = self.Ts
        ∧ b._Integrator_Wg_P2.DtMin = self.Ts ∧ b.IsInitialized = true := by
    refine ⟨_, rfl, ?_, ?_, ?_, ?_⟩
    · cases hi : self.IsInitialized <;> simp [Initialize]
    · cases hi : self.IsInitialized
      · simp [Initialize, FloatIntegrator.mk2]
      · simpa using (hv.2 hi).1
    · cases hi : self.IsInitialized
      · simp [Initialize, FloatIntegrator.mk2]
      · simpa using (hv.2 hi).2
    · cases hi : self.IsInitialized <;> simp [Initialize, hi]
  obtain ⟨y, i1, i2, h1, e1, e2⟩ := Filter_some_Hw sqrtf fuel b Dt
    (if (Va.IsNaN || Va.IsNearlyZero) = true then .finite 0 else Va) L (.finite 0)
    ((sqrtf ((FloatValue.finite PI).div (.finite b.Ts))).mul draw)
    (by rw [hbD1]; exact hv.1) (by rw [hbD1]; exact hf)
    (by rw [hbD2]; exact hv.1) (by rw [hbD2]; exact hf)
  refine ⟨{ b with _Integrator_Wg_P1 := i1, _Integrator_Wg_P2 := i2 }, ?_, ?_⟩
  · simp only [GetTurbulence, ← hb, h1, Option.bind_eq_bind, Option.some_bind, Option.pure_def,
      turbulence_guard _ (FloatValue.zero_mul_cases y)]
  · refine ⟨?_, fun _ => ⟨?_, ?_⟩⟩
    · rw [show ({ b with _Integrator_Wg_P1 := i1, _Integrator_Wg_P2 := i2 } :
        UDrydenModelTFHw).Ts = b.Ts from rfl, hbT]
      exact hv.1
    · rw [show ({ b with _Integrator_Wg_P1 := i1, _Integrator_Wg_P2 := i2 } :
        UDrydenModelTFHw)._Integrator_Wg_P1.DtMin = i1.DtMin from rfl, e1, hbD1]
      exact hbT.symm
    · rw [show ({ b with _Integrator_Wg_P1 := i1, _Integrator_Wg_P2 := i2 } :
        UDrydenModelTFHw)._Integrator_Wg_P2.DtMin = i2.DtMin from rfl, e2, hbD2]
      exact hbT.symm

end UDrydenModelTFHw

/-- With a zero wind speed the three RMS intensities are zero, at every
altitude and for every power routine. -/
theorem GetTurbulenceRMSIntensities_zero {K : Type} [LinearOrderedField K] (pow : K → K → K)
    (Altitude : K) : GetTurbulenceRMSIntensities pow Altitude 0 = ⟨0, 0, 0⟩ := by
  simp [GetTurbulenceRMSIntensities]

/-- A zero value converted from feet to metres is zero. -/
theorem FtToM_zero : (FloatValue.finite 0).FtToM = .finite 0 := by decide!

/-! ## The Dryden model at zero wind speed -/

namespace UTurbulenceModelDryden

/-- A look inside `GetTurbulence`: below 10 ft the scale length is 0, and for an
airspeed that is not nearly zero the longitudinal filter then divides by
`L / Va = 0`; its result `Sigma * ug_p` is a NaN (here with `Sigma = 0`, a
fresh integrator and a zero noise sample), which the guard at the end of
`GetTurbulence` replaces by 0. -/
theorem Filter_zero_length_sample :
    (({ Ts := 1 / 100 } : UDrydenModelTFHu).Initialize.Filter sampleSqrtf 2 (1 / 50)
        (.finite 1) (.finite 0) (.finite 0) (.finite 0)).map Prod.fst = some .nan
      ∧ (({ Ts := 1 / 100 } : UDrydenModelTFHu).GetTurbulence sampleSqrtf 2 (.finite 1)
        (1 / 50) (.finite 0) (.finite 0) (.finite 0)).map Prod.fst = some (.finite 0) := by
  refine ⟨by decide!, ?_⟩
  obtain ⟨f', h, _⟩ := UDrydenModelTFHu.GetTurbulence_zero_Hu sampleSqrtf 2 { Ts := 1 / 100 }
    (.finite 1) (1 / 50) (.finite 0) (.finite 0)
    ⟨by norm_num, fun h => by simp at h⟩ (by norm_num)
  rw [h]; rfl

/-- With reference wind speed 0, `GetTurbulenceRMSIntensities` returns
`(0, 0, 0)` for every altitude; each Dryden axis filter (Hu, Hv, Hw) called
through `GetTurbulence` with `Sigma = 0` returns 0, whatever the airspeed, the
scale length, the noise sample and the integrator state (finite or not); so
`GetTurbulenceBodyFrame` returns the zero vector regardless of the noise
draws.  The filters have a positive sample time, and the fuel covers the
sub-steps of the frame. -/
theorem GetTurbulenceBodyFrame_zero_wind {K : Type} [LinearOrderedField K] (powK : K → K → K)
    (AltitudeK : K) (pow : ℚ → ℚ → ℚ) (sqrtf : FloatValue → FloatValue) (fuel : Nat)
    (m : UTurbulenceModelDryden) (Dt Va Altitude : ℚ) (drawU drawV drawW : FloatValue)
    (hm : m.Ready Dt fuel) :
    GetTurbulenceRMSIntensities powK AltitudeK 0 = ⟨0, 0, 0⟩
      ∧ (∀ f, m.DrydenHu = some f → ∀ Va' L draw,
          (f.GetTurbulence sqrtf fuel Va' Dt L (.finite 0) draw).map Prod.fst
            = some (.finite 0))
      ∧ (∀ f, m.DrydenHv = some f → ∀ Va' L draw,
          (f.GetTurbulence sqrtf fuel Va' Dt L (.finite 0) draw).map Prod.fst
            = some (.finite 0))
      ∧ (∀ f, m.DrydenHw = some f → ∀ Va' L draw,
          (f.GetTurbulence sqrtf fuel Va' Dt L (.finite 0) draw).map Prod.fst
            = some (.finite 0))
      ∧ (m.GetTurbulenceBodyFrame pow sqrtf fuel Dt Va Altitude 0 drawU drawV drawW).map
          Prod.fst = some ⟨.finite 0, .finite 0, .finite 0⟩ := by
  obtain ⟨hu, hv, hw⟩ := hm
  have HU : ∀ f, m.DrydenHu = some f → ∀ Va' L draw,
      ∃ f', f.GetTurbulence sqrtf fuel Va' Dt L (.finite 0) draw = some (.finite 0, f') :=
    fun f hf Va' L draw => by
      obtain ⟨f', h, _⟩ :=
        UDrydenModelTFHu.GetTurbulence_zero_Hu sqrtf fuel f Va' Dt L draw (hu f hf).1 (hu f hf).2
      exact ⟨f', h⟩
  have HV : ∀ f, m.DrydenHv = some f → ∀ Va' L draw,
      ∃ f', f.GetTurbulence sqrtf fuel Va' Dt L (.finite 0) draw = some (.finite 0, f') :=
    fun f hf Va' L draw => by
      obtain ⟨f', h, _⟩ :=
        UDrydenModelTFHv.GetTurbulence_zero_Hv sqrtf fuel f Va' Dt L draw (hv f hf).1 (hv f hf).2
      exact ⟨f', h⟩
  have HW : ∀ f, m.DrydenHw = some f → ∀ Va' L draw,
      ∃ f', f.GetTurbulence sqrtf fuel Va' Dt L (.finite 0) draw = some (.finite 0, f') :=
    fun f hf Va' L draw => by
      obtain ⟨f', h, _⟩ :=
        UDrydenModelTFHw.GetTurbulence_zero_Hw sqrtf fuel f Va' Dt L draw (hw f hf).1 (hw f hf).2
      exact ⟨f', h⟩
  have hR : GetTurbulenceBodyFrame.RMSIntensities pow Altitude 0 = ⟨0, 0, 0⟩ := by
    simp [GetTurbulenceBodyFrame.RMSIntensities, GetTurbulenceRMSIntensities]
  refine ⟨GetTurbulenceRMSIntensities_zero powK AltitudeK, ?_, ?_, ?_, ?_⟩
  · intro f hf Va' L draw
    obtain ⟨f', h⟩ := HU f hf Va' L draw
    rw [h]; rfl
  · intro f hf Va' L draw
    obtain ⟨f', h⟩ := HV f hf Va' L draw
    rw [h]; rfl
  · intro f hf Va' L draw
    obtain ⟨f', h⟩ := HW f hf Va' L draw
    rw [h]; rfl
  · rcases hmu : m.DrydenHu with _ | fu
    · rcases hmv : m.DrydenHv with _ | fv
      · rcases hmw : m.DrydenHw with _ | fw
        · simp [GetTurbulenceBodyFrame, hmu, hmv, hmw, hR, FtToM_zero]
        · obtain ⟨fw', hw'⟩ := HW fw hmw (.finite (MToFt Va))
            (.finite (GetTurbulenceBodyFrame.ScaleLengths pow Altitude).Z) drawW
          simp [GetTurbulenceBodyFrame, hmu, hmv, hmw, hR, hw', FtToM_zero]
      · rcases hmw : m.DrydenHw with _ | fw
        · obtain ⟨fv', hv'⟩ := HV fv hmv (.finite (MToFt Va))
            (.finite (GetTurbulenceBodyFrame.ScaleLengths pow Altitude).Y) drawV
          simp [GetTurbulenceBodyFrame, hmu, hmv, hmw, hR, hv', FtToM_zero]
        · obtain ⟨fv', hv'⟩ := HV fv hmv (.finite (MToFt Va))
            (.finite (GetTurbulenceBodyFrame.ScaleLengths pow Altitude).Y) drawV
          obtain ⟨fw', hw'⟩ := HW fw hmw (.finite (MToFt Va))
            (.finite (GetTurbulenceBodyFrame.ScaleLengths pow Altitude).Z) drawW
          simp [GetTurbulenceBodyFrame, hmu, hmv, hmw, hR, hv', hw', FtToM_zero]
    · rcases hmv : m.DrydenHv with _ | fv
      · rcases hmw : m.DrydenHw with _ | fw
        · obtain ⟨fu', hu'⟩ := HU fu hmu (.finite (MToFt Va))
            (.finite (GetTurbulenceBodyFrame.ScaleLengths pow Altitude).X) drawU
          simp [GetTurbulenceBodyFrame, hmu, hmv, hmw, hR, hu', FtToM_zero]
        · obtain ⟨fu', hu'⟩ := HU fu hmu (.finite (MToFt Va))
            (.finite (GetTurbulenceBodyFrame.ScaleLengths pow Altitude).X) drawU
          obtain ⟨fw', hw'⟩ := HW fw hmw (.finite (MToFt Va))
            (.finite (GetTurbulenceBodyFrame.ScaleLengths pow Altitude).Z) drawW
          simp [GetTurbulenceBodyFrame, hmu, hmv, hmw, hR, hu', hw', FtToM_zero]
      · rcases hmw : m.DrydenHw with _ | fw
        · obtain ⟨fu', hu'⟩ := HU fu hmu (.finite (MToFt Va))
            (.finite (GetTurbulenceBodyFrame.ScaleLengths pow Altitude).X) drawU
          obtain ⟨fv', hv'⟩ := HV fv hmv (.finite (MToFt Va))
            (.finite (GetTurbulenceBodyFrame.ScaleLengths pow Altitude).Y) drawV
          simp [GetTurbulenceBodyFrame, hmu, hmv, hmw, hR, hu', hv', FtToM_zero]
        · obtain ⟨fu', hu'⟩ := HU fu hmu (.finite (MToFt Va))
            (.finite (GetTurbulenceBodyFrame.ScaleLengths pow Altitude).X) drawU
          obtain ⟨fv', hv'⟩ := HV fv hmv (.finite (MToFt Va))
            (.finite (GetTurbulenceBodyFrame.ScaleLengths pow Altitude).Y) drawV
          obtain ⟨fw', hw'⟩ := HW fw hmw (.finite (MToFt Va))
            (.finite (GetTurbulenceBodyFrame.ScaleLengths pow Altitude).Z) drawW
          simp [GetTurbulenceBodyFrame, hmu, hmv, hmw, hR, hu', hv', hw', FtToM_zero]

/-- A sample evaluation at zero wind speed: a model with three fresh
filters of sample time 1/100, a frame of 1/50 s and fuel for two sub-steps. -/
theorem GetTurbulenceBodyFrame_zero_wind_witness :
    (({ DrydenHu := some { Ts := 1 / 100 }, DrydenHv := some { Ts := 1 / 100 },
        DrydenHw := some { Ts := 1 / 100 } } : UTurbulenceModelDryden).GetTurbulenceBodyFrame
          (fun b _ => b) sampleSqrtf 2 (1 / 50) 20 100 0 (.finite 1) (.finite (-2))
          (.finite 3)).map Prod.fst = some ⟨.finite 0, .finite 0, .finite 0⟩ :=
  (GetTurbulenceBodyFrame_zero_wind (fun b _ => b) (100 : ℚ) (fun b _ => b) sampleSqrtf 2
    { DrydenHu := some { Ts := 1 / 100 }, DrydenHv := some { Ts := 1 / 100 },
      DrydenHw := some { Ts := 1 / 100 } } (1 / 50) 20 100 (.finite 1) (.finite (-2))
    (.finite 3)
    ⟨fun f hf => by
        cases hf
        exact ⟨⟨by norm_num, fun h => by simp at h⟩, by norm_num⟩,
      fun f hf => by
        cases hf
        exact ⟨⟨by norm_num, fun h => by simp at h⟩, by norm_num⟩,
      fun f hf => by
        cases hf
        exact ⟨⟨by norm_num, fun h => by simp at h⟩, by norm_num⟩⟩).2.2.2.2

end UTurbulenceModelDryden

/-! ## The Dryden model: scale lengths and intensities -/

/-- For a clamped altitude `hc` in `[10, 1000]` the horizontal scale length
`hc / (0.177 + 0.000823*hc)^1.2` lies in `[10, 1000]` (real arithmetic): the
base lies in `(0, 1]`, and by the weighted inequality of the means
`(hc/1000)^0.823 <= 0.177 + 0.823*(hc/1000)`. -/
theorem scale_length_bounds (hc : ℝ) (h1 : 10 ≤ hc) (h2 : hc ≤ 1000) :
    10 ≤ hc / (177 / 1000 + 823 / 1000000 * hc) ^ (12 / 10 : ℝ)
      ∧ hc / (177 / 1000 + 823 / 1000000 * hc) ^ (12 / 10 : ℝ) ≤ 1000 := by
  have hb0 : (0 : ℝ) < 177 / 1000 + 823 / 1000000 * hc := by linarith
  have hb1 : (177 / 1000 + 823 / 1000000 * hc : ℝ) ≤ 1 := by linarith
  have hp0 : (0 : ℝ) < (177 / 1000 + 823 / 1000000 * hc) ^ (12 / 10 : ℝ) :=
    Real.rpow_pos_of_pos hb0 _
  have hp1 : (177 / 1000 + 823 / 1000000 * hc) ^ (12 / 10 : ℝ) ≤ 1 :=
    Real.rpow_le_one hb0.le hb1 (by norm_num)
  have ht0 : (0 : ℝ) < hc / 1000 := by positivity
  have ht1 : hc / 1000 ≤ 1 := by linarith
  have hgm : (1 : ℝ) ^ (177 / 1000 : ℝ) * (hc / 1000) ^ (823 / 1000 : ℝ)
      ≤ 177 / 1000 * 1 + 823 / 1000 * (hc / 1000) :=
    Real.geom_mean_le_arith_mean2_weighted (by norm_num) (by norm_num) (by norm_num) ht0.le
      (by norm_num)
  rw [Real.one_rpow, one_mul] at hgm
  have hle : (hc / 1000) ^ (823 / 1000 : ℝ) ≤ 177 / 1000 + 823 / 1000000 * hc := by
    linarith
  have hpow : ((hc / 1000) ^ (823 / 1000 : ℝ)) ^ (12 / 10 : ℝ)
      ≤ (177 / 1000 + 823 / 1000000 * hc) ^ (12 / 10 : ℝ) :=
    Real.rpow_le_rpow (Real.rpow_nonneg ht0.le _) hle (by norm_num)
  rw [← Real.rpow_mul ht0.le] at hpow
  have hexp : (hc / 1000) ^ (1 : ℝ) ≤ (hc / 1000) ^ ((823 / 1000 : ℝ) * (12 / 10)) :=
    Real.rpow_le_rpow_of_exponent_ge ht0 ht1 (by norm_num)
  rw [Real.rpow_one] at hexp
  have hkey : hc / 1000 ≤ (177 / 1000 + 823 / 1000000 * hc) ^ (12 / 10 : ℝ) :=
    le_trans hexp hpow
  constructor
  · rw [le_div_iff₀ hp0]
    nlinarith
  · rw [div_le_iff₀ hp0]
    linarith

/-- C29 (amended): in exact arithmetic, over the real numbers with the exact
power function, `GetTurbulenceScaleLengths(h)` is `(0, 0, 0)` for every
altitude `h < 10`, and for every `h >= 10` it is `(L, L, hc)` with
`hc = clamp(h, 10, 1000)` and `L = hc / (0.177 + 0.000823*hc)^1.2`; both `hc`
and `L` lie within `[10, 1000]`.  (In rounded arithmetic `L` exceeds 1000 at
`hc = 1000`.) -/
theorem GetTurbulenceScaleLengths_spec (h : ℝ) :
    GetTurbulenceScaleLengths (fun b e : ℝ => b ^ e) h
        = (if h < 10 then ⟨0, 0, 0⟩
          else ⟨Clamp h 10 1000 / (177 / 1000 + 823 / 1000000 * Clamp h 10 1000) ^ (12 / 10 : ℝ),
                Clamp h 10 1000 / (177 / 1000 + 823 / 1000000 * Clamp h 10 1000) ^ (12 / 10 : ℝ),
                Clamp h 10 1000⟩)
      ∧ 10 ≤ Clamp h 10 1000 ∧ Clamp h 10 1000 ≤ 1000
      ∧ 10 ≤ Clamp h 10 1000 / (177 / 1000 + 823 / 1000000 * Clamp h 10 1000) ^ (12 / 10 : ℝ)
      ∧ Clamp h 10 1000 / (177 / 1000 + 823 / 1000000 * Clamp h 10 1000) ^ (12 / 10 : ℝ)
          ≤ 1000 := by
  have hc := Clamp_bounds h 10 1000 (by norm_num)
  refine ⟨?_, hc.1, hc.2, scale_length_bounds _ hc.1 hc.2⟩
  unfold GetTurbulenceScaleLengths
  by_cases hlt : h < 10
  · rw [if_neg (not_le.mpr hlt), if_pos hlt]
  · rw [if_pos (not_lt.mp hlt), if_neg hlt]

/-- A sample evaluation of `GetTurbulenceScaleLengths` in rational arithmetic:
at 1000 ft, with any power routine that returns 1 for the base 1, the three
scale lengths are 1000; at 5 ft they are 0. -/
theorem GetTurbulenceScaleLengths_sample (pow : ℚ → ℚ → ℚ) (hpow : pow 1 (12 / 10) = 1) :
    (GetTurbulenceScaleLengths pow 1000).X = 1000
      ∧ (GetTurbulenceScaleLengths pow 1000).Z = 1000
      ∧ (GetTurbulenceScaleLengths pow 5).X = 0 := by
  have hC : Clamp (1000 : ℚ) 10 1000 = 1000 := by decide!
  have hb : (177 / 1000 + 823 / 1000000 * 1000 : ℚ) = 1 := by norm_num
  refine ⟨?_, ?_, ?_⟩
  · simp only [GetTurbulenceScaleLengths, hC, hb, hpow]; norm_num
  · simp only [GetTurbulenceScaleLengths, hC]; norm_num
  · simp only [GetTurbulenceScaleLengths]; norm_num

/-- C30: `GetTurbulenceBodyFrame` converts the wind speed to ft/s into the local
`WindSpeedFtS` but evaluates the RMS intensities from the unconverted value in
m/s: for every wind speed `W` the vertical intensity is `0.1 * W`, which is
`0.1 * MToFt(W)` only for `W = 0`; for `W = 1` it is `1/10`, not
`0.328084`. -/
theorem RMSIntensities_wind_speed_not_converted (pow : ℚ → ℚ → ℚ) (Altitude W : ℚ) :
    (GetTurbulenceBodyFrame.RMSIntensities pow Altitude W).Z = 1 / 10 * W
      ∧ ((GetTurbulenceBodyFrame.RMSIntensities pow Altitude W).Z = 1 / 10 * MToFt W ↔ W = 0)
      ∧ (GetTurbulenceBodyFrame.RMSIntensities pow Altitude 1).Z = 1 / 10
      ∧ (1 / 10 * MToFt 1 : ℚ) = 328084 / 1000000 := by
  have hZ : ∀ w : ℚ, (GetTurbulenceBodyFrame.RMSIntensities pow Altitude w).Z = 1 / 10 * w :=
    fun _ => rfl
  refine ⟨hZ W, ?_, ?_, by decide!⟩
  · rw [hZ]
    simp only [MToFt, M_TO_FT]
    constructor
    · intro h; linarith
    · intro h; rw [h]; ring
  · rw [hZ]; norm_num

/-! ## The fixed-wing thrust command -/

namespace AFixedWingPawn

/-- C31: `ApplyThrustCommand(Value)` does not store `Value` clamped to `[0, 1]`:
for every `Value` the stored command `ActuatorCommandState.dt` is 0; for
`Value = 1/2` the code stores 0 where the clamped value is `1/2`. -/
theorem ApplyThrustCommand_stores_zero (s : FFixedWingActuatorCommandState) (Value : ℚ) :
    (ApplyThrustCommand s Value).dt = 0
      ∧ (ApplyThrustCommand s (1 / 2)).dt = 0
      ∧ (ApplyThrustCommandSpec s (1 / 2)).dt = 1 / 2
      ∧ (ApplyThrustCommand s (1 / 2)).dt ≠ (ApplyThrustCommandSpec s (1 / 2)).dt := by
  have h : (ApplyThrustCommandSpec s (1 / 2)).dt = 1 / 2 := by
    simp only [ApplyThrustCommandSpec]
    decide!
  refine ⟨rfl, rfl, h, ?_⟩
  rw [h]
  simp only [ApplyThrustCommand]
  norm_num

end AFixedWingPawn

/-! ## A fresh integrator with zero input -/

namespace Integrator

/-- C34: a freshly constructed integrator does not keep its initial state under
zero input, because both constructors store the initial state in `UPrev` as
well: for a single step (`DtMin = dt`) `Integrate(dt, 0)` returns
`X0 + (dt/2)*X0`; `Integrator(1.0f).Integrate(0.01f, 0)` returns `1.005`, and
`Integrator(1.0f, 0.5f).Integrate(1, 0)`, in two sub-steps, returns `1.25`. -/
theorem Integrate_fresh_zero_input (fuel : Nat) (X0 dt : ℚ) :
    ((mk2 X0 dt).Integrate fuel dt 0).map Prod.fst = some (X0 + dt / 2 * X0)
      ∧ ((mk1 1).Integrate 0 (1 / 100) 0).map Prod.fst = some (201 / 200)
      ∧ ((mk2 1 (1 / 2)).Integrate 2 1 0).map Prod.fst = some (5 / 4) := by
  refine ⟨?_, by decide!, by decide!⟩
  rw [Integrate_of_le fuel (mk2 X0 dt) dt 0 le_rfl]
  simp only [Option.map_some', Run, mk2]
  congr 1
  ring

end Integrator

/-! ## The angular increment without applied moment -/

namespace AFlyingPawn

/-- The angular increment that `ApplyKinematics` returns is the sanitised
local `domegab`. -/
theorem ApplyKinematics_domegab (c : FSystemCharacteristics) (Omegab Forces Moments : FVector)
    (DeltaTime : ℚ) :
    (ApplyKinematics c Omegab Forces Moments DeltaTime).2
      = RemoveNumericalErrors (domegab c Omegab Moments DeltaTime).toRaw := rfl

end AFlyingPawn

/-! ## The quad-rotor mixer: sum of the commands -/

namespace AQuadRotorPawn

end AQuadRotorPawn

/-! ## Forces and moments: the left operand of `operator+` -/

namespace FForcesAndMoments

/-- C38: `operator+` has the same effect on its left operand as `operator+=`:
after `a + b` the left operand holds the component-wise sum (it equals the
returned value), and the right operand, passed by value, is unchanged; so in
`SubstepTick` the local `AirframeForcesAndMoments` holds the total after the
sum. -/
theorem operatorPlus_left_operand (a b : FForcesAndMoments) :
    (a.operatorPlus b).2 = (a.operatorPlusAssign b).2
      ∧ (a.operatorPlus b).2 = ⟨a.Forces.add b.Forces, a.Moments.add b.Moments⟩
      ∧ (a.operatorPlus b).2 = (a.operatorPlus b).1
      ∧ AFlyingPawn.SubstepTickSum a b
        = (⟨a.Forces.add b.Forces, a.Moments.add b.Moments⟩,
           ⟨a.Forces.add b.Forces, a.Moments.add b.Moments⟩, b) :=
  ⟨rfl, rfl, rfl, rfl⟩

/-- A sample evaluation of `operator+`: the left operand `((1,2,3), (0,0,1))`
becomes `((2,2,3), (0,5,1))` after adding `((1,0,0), (0,5,0))`. -/
theorem operatorPlus_overwrites_sample :
    ((⟨⟨1, 2, 3⟩, ⟨0, 0, 1⟩⟩ : FForcesAndMoments).operatorPlus ⟨⟨1, 0, 0⟩, ⟨0, 5, 0⟩⟩).2
      = ⟨⟨2, 2, 3⟩, ⟨0, 5, 1⟩⟩ := by
  decide!

end FForcesAndMoments

/-! ## The frame transforms of the pawn -/

namespace AFlyingPawn

/-- C39: when the stored rotation `Rwu` is the inverse of `Ruw` and `Ruw`
preserves the squared length (it is a rotation), `TransformFromBodyToWorld`
and `TransformFromWorldToBody` are mutually inverse and both preserve the
squared length, hence the length `Size` for every square-root routine. -/
theorem transforms_inverse (Ruw Rwu : FVector → FVector)
    (h1 : ∀ v, Ruw (Rwu v) = v) (h2 : ∀ v, Rwu (Ruw v) = v)
    (hrot : ∀ v, (Ruw v).SizeSquared = v.SizeSquared) (v : FVector) :
    TransformFromBodyToWorld Ruw (TransformFromWorldToBody Rwu v) = v
      ∧ TransformFromWorldToBody Rwu (TransformFromBodyToWorld Ruw v) = v
      ∧ (TransformFromBodyToWorld Ruw v).SizeSquared = v.SizeSquared
      ∧ (TransformFromWorldToBody Rwu v).SizeSquared = v.SizeSquared
      ∧ (∀ sqrt : ℚ → ℚ, (TransformFromBodyToWorld Ruw v).Size sqrt = v.Size sqrt)
      ∧ (∀ sqrt : ℚ → ℚ, (TransformFromWorldToBody Rwu v).Size sqrt = v.Size sqrt) := by
  have hrot' : ∀ w, (Rwu w).SizeSquared = w.SizeSquared := by
    intro w
    rw [← hrot (Rwu w), h1]
  have hflip : ∀ w : FVector, (⟨w.X, w.Y, -w.Z⟩ : FVector).SizeSquared = w.SizeSquared := by
    intro w
    simp only [FVector.SizeSquared]
    ring
  have e1 : TransformFromBodyToWorld Ruw (TransformFromWorldToBody Rwu v) = v := by
    simp only [TransformFromBodyToWorld, TransformFromWorldToBody, neg_neg]
    exact h1 v
  have e2 : TransformFromWorldToBody Rwu (TransformFromBodyToWorld Ruw v) = v := by
    simp only [TransformFromBodyToWorld, TransformFromWorldToBody, h2, neg_neg]
  have e3 : (TransformFromBodyToWorld Ruw v).SizeSquared = v.SizeSquared := by
    simp only [TransformFromBodyToWorld]
    rw [hrot, hflip]
  have e4 : (TransformFromWorldToBody Rwu v).SizeSquared = v.SizeSquared := by
    simp only [TransformFromWorldToBody]
    rw [hflip, hrot']
  refine ⟨e1, e2, e3, e4, ?_, ?_⟩
  · intro sqrt
    have := e3
    simp only [FVector.SizeSquared] at this
    simp only [FVector.Size, this]
  · intro sqrt
    have := e4
    simp only [FVector.SizeSquared] at this
    simp only [FVector.Size, this]

/-- A sample evaluation of the transforms: the quarter turn about the vertical
axis, `(x, y, z) -> (-y, x, z)`, with its inverse `(x, y, z) -> (y, -x, z)`,
applied to `(1, 2, 3)`. -/
theorem transforms_inverse_witness :
    TransformFromWorldToBody (fun v => ⟨v.Y, -v.X, v.Z⟩) ⟨1, 2, 3⟩ = ⟨2, -1, -3⟩
      ∧ TransformFromBodyToWorld (fun v => ⟨-v.Y, v.X, v.Z⟩)
          (TransformFromWorldToBody (fun v => ⟨v.Y, -v.X, v.Z⟩) ⟨1, 2, 3⟩) = ⟨1, 2, 3⟩ :=
  ⟨by decide!,
    (transforms_inverse (fun v => ⟨-v.Y, v.X, v.Z⟩) (fun v => ⟨v.Y, -v.X, v.Z⟩)
      (fun v => by simp) (fun v => by simp)
      (fun v => by simp only [FVector.SizeSquared]; ring) ⟨1, 2, 3⟩).1⟩

end AFlyingPawn

/-! ## The table look-up: every access is in range -/

/-- The guard of the along-`J` division: a difference that is not nearly zero
is not zero, so the checked quotient is always a value. -/
theorem CheckedQuotient_eq (j11 j12 J : ℚ) :
    CheckedQuotient j11 j12 J
      = some (if IsNearlyZero (j12 - j11) then 0 else (j12 - J) / (j12 - j11)) := by
  unfold CheckedQuotient
  by_cases h : IsNearlyZero (j12 - j11) = true
  · simp [h]
  · have hd : j12 - j11 ≠ 0 := by
      intro h0
      apply h
      rw [h0]
      decide!
    simp [h, hd]

/-- The along-`J` part never divides by zero: with the division checked it
computes the same result. -/
theorem InterpolateAlongJChecked_eq (row : FConstantSpeedPropellerPhysicsParameters) (J : ℚ) :
    InterpolateAlongJChecked row J = InterpolateAlongJ row J := by
  unfold InterpolateAlongJChecked InterpolateAlongJ
  simp only [CheckedQuotient_eq, Option.bind_eq_bind, Option.some_bind]

/-- An element read from an array belongs to it. -/
theorem At_mem {α : Type} (xs : List α) (i : Int) (v : α) (h : At xs i = some v) : v ∈ xs := by
  unfold At at h
  split_ifs at h
  exact List.getElem?_mem h

/-- In a table initialised from its rows, whose rows all have an along-`J`
result at `J`, the look-up returns a value for every `n`. -/
theorem GetAerodynamicConstants_isSome (p : PropellerTable) (n J : ℚ)
    (hne : p.ConstantSpeedPropellerPhysicsParameters ≠ [])
    (hN : p.NArray = p.ConstantSpeedPropellerPhysicsParameters.map (fun r => r.n))
    (hrows : ∀ r ∈ p.ConstantSpeedPropellerPhysicsParameters,
      (InterpolateAlongJ r J).isSome = true) :
    (GetAerodynamicConstants p n J).isSome = true := by
  have hlen : p.NArray.length = p.ConstantSpeedPropellerPhysicsParameters.length := by
    rw [hN, List.length_map]
  have hpos : 0 < p.ConstantSpeedPropellerPhysicsParameters.length := List.length_pos.mpr hne
  have hnum : Num p.NArray = (p.NArray.length : Nat) := rfl
  have hM : (0 : Int) ≤ Num p.NArray - 1 := by rw [hnum]; omega
  have hgt : Num p.NArray > 0 := by rw [hnum]; omega
  obtain ⟨a0, a1⟩ := Clamp_bounds (UpperBound p.NArray n) 0 (Num p.NArray - 1) hM
  obtain ⟨b0, b1⟩ :=
    Clamp_bounds (Clamp (UpperBound p.NArray n) 0 (Num p.NArray - 1) - 1) 0 (Num p.NArray - 1) hM
  obtain ⟨n1, e1⟩ := At_of_lt p.NArray _ b0 (by omega)
  obtain ⟨n2, e2⟩ := At_of_lt p.NArray _ a0 (by omega)
  obtain ⟨r1, e3⟩ := At_of_lt p.ConstantSpeedPropellerPhysicsParameters _ b0 (by omega)
  obtain ⟨r2, e4⟩ := At_of_lt p.ConstantSpeedPropellerPhysicsParameters _ a0 (by omega)
  obtain ⟨c1, h1⟩ := Option.isSome_iff_exists.mp (hrows r1 (At_mem _ _ _ e3))
  obtain ⟨c2, h2⟩ := Option.isSome_iff_exists.mp (hrows r2 (At_mem _ _ _ e4))
  unfold GetAerodynamicConstants
  simp only [hgt, if_true, e1, e2, e3, e4, h1, h2, Option.bind_eq_bind, Option.some_bind,
    Option.pure_def]
  split_ifs <;> rfl

/-- C32: for every non-empty table (initialised from its rows) in which each
row's `J` array is non-empty and its `CT` and `CP` arrays are at least as long
as its `J` array, and for every query `(n, J)`: the look-up returns a value,
that is no array access is out of range; the row indices `n1i`, `n2i` lie in
the range of `NArray` and of the rows, the indices `j11i`, `j12i` (`j21i`,
`j22i`) of every row lie in the range of its `J`, `CT` and `CP` arrays; and the
along-`J` division is never evaluated with a zero divisor. -/
theorem GetAerodynamicConstants_in_bounds (p : PropellerTable) (n J : ℚ)
    (hne : p.ConstantSpeedPropellerPhysicsParameters ≠ [])
    (hN : p.NArray = p.ConstantSpeedPropellerPhysicsParameters.map (fun r => r.n))
    (hwf : ∀ r ∈ p.ConstantSpeedPropellerPhysicsParameters,
      r.J ≠ [] ∧ r.J.length ≤ r.CT.length ∧ r.J.length ≤ r.CP.length) :
    (GetAerodynamicConstants p n J).isSome = true
      ∧ (0 ≤ Clamp (UpperBound p.NArray n) 0 (Num p.NArray - 1)
          ∧ Clamp (UpperBound p.NArray n) 0 (Num p.NArray - 1) < Num p.NArray
          ∧ 0 ≤ Clamp (Clamp (UpperBound p.NArray n) 0 (Num p.NArray - 1) - 1) 0
              (Num p.NArray - 1)
          ∧ Clamp (Clamp (UpperBound p.NArray n) 0 (Num p.NArray - 1) - 1) 0
              (Num p.NArray - 1) < Num p.NArray
          ∧ Num p.NArray = Num p.ConstantSpeedPropellerPhysicsParameters)
      ∧ (∀ r ∈ p.ConstantSpeedPropellerPhysicsParameters,
          0 ≤ Clamp (UpperBound r.J J) 0 (Num r.J - 1)
            ∧ Clamp (UpperBound r.J J) 0 (Num r.J - 1) < Num r.J
            ∧ 0 ≤ Clamp (Clamp (UpperBound r.J J) 0 (Num r.J - 1) - 1) 0 (Num r.J - 1)
            ∧ Clamp (Clamp (UpperBound r.J J) 0 (Num r.J - 1) - 1) 0 (Num r.J - 1) < Num r.J
            ∧ Num r.J ≤ Num r.CT ∧ Num r.J ≤ Num r.CP
            ∧ (InterpolateAlongJ r J).isSome = true
            ∧ InterpolateAlongJChecked r J = InterpolateAlongJ r J) := by
  have hrows : ∀ r ∈ p.ConstantSpeedPropellerPhysicsParameters,
      (InterpolateAlongJ r J).isSome = true :=
    fun r hr => InterpolateAlongJ_isSome r J (hwf r hr).1 (hwf r hr).2.1 (hwf r hr).2.2
  refine ⟨GetAerodynamicConstants_isSome p n J hne hN hrows, ?_, ?_⟩
  · have hlen : p.NArray.length = p.ConstantSpeedPropellerPhysicsParameters.length := by
      rw [hN, List.length_map]
    have hpos : 0 < p.ConstantSpeedPropellerPhysicsParameters.length := List.length_pos.mpr hne
    have hnum : Num p.NArray = (p.NArray.length : Nat) := rfl
    have hnum' : Num p.ConstantSpeedPropellerPhysicsParameters
        = (p.ConstantSpeedPropellerPhysicsParameters.length : Nat) := rfl
    have hM : (0 : Int) ≤ Num p.NArray - 1 := by rw [hnum]; omega
    obtain ⟨a0, a1⟩ := Clamp_bounds (UpperBound p.NArray n) 0 (Num p.NArray - 1) hM
    obtain ⟨b0, b1⟩ :=
      Clamp_bounds (Clamp (UpperBound p.NArray n) 0 (Num p.NArray - 1) - 1) 0
        (Num p.NArray - 1) hM
    refine ⟨a0, by omega, b0, by omega, ?_⟩
    rw [hnum, hnum', hlen]
  · intro r hr
    obtain ⟨hJ, hCT, hCP⟩ := hwf r hr
    have hpos : 0 < r.J.length := List.length_pos.mpr hJ
    have hnum : Num r.J = (r.J.length : Nat) := rfl
    have hnumT : Num r.CT = (r.CT.length : Nat) := rfl
    have hnumP : Num r.CP = (r.CP.length : Nat) := rfl
    have hM : (0 : Int) ≤ Num r.J - 1 := by rw [hnum]; omega
    obtain ⟨a0, a1⟩ := Clamp_bounds (UpperBound r.J J) 0 (Num r.J - 1) hM
    obtain ⟨b0, b1⟩ :=
      Clamp_bounds (Clamp (UpperBound r.J J) 0 (Num r.J - 1) - 1) 0 (Num r.J - 1) hM
    exact ⟨a0, by omega, b0, by omega, by rw [hnum, hnumT]; exact_mod_cast hCT,
      by rw [hnum, hnumP]; exact_mod_cast hCP, hrows r hr, InterpolateAlongJChecked_eq r J⟩

/-- A sample evaluation of the look-up on the two-row sample table, between the
rows and between the `J` breakpoints. -/
theorem GetAerodynamicConstants_in_bounds_witness :
    (tableOf [sampleRow1, sampleRow2]).ConstantSpeedPropellerPhysicsParameters ≠ []
      ∧ (GetAerodynamicConstants (tableOf [sampleRow1, sampleRow2]) 1500 (1 / 2)).isSome = true :=
  ⟨List.cons_ne_nil _ _,
    (GetAerodynamicConstants_in_bounds (tableOf [sampleRow1, sampleRow2]) 1500 (1 / 2)
      (List.cons_ne_nil _ _) rfl
      (fun r hr => by
        have hr' : r = sampleRow1 ∨ r = sampleRow2 := by
          simpa [tableOf, InitializePropellerPhysics] using hr
        rcases hr' with h | h <;> subst h <;>
          exact ⟨List.cons_ne_nil _ _, by decide, by decide⟩)).1⟩

/-! ## The rate limit over consecutive calls -/

/-- The engine interpolation stays within `R * dt` of its origin, or within the
snap distance. -/
theorem FInterpConstantTo_near (X0 E dt R : ℚ) (h : 0 ≤ R * dt) :
    |FInterpConstantTo X0 E dt R - X0| ≤ R * dt
      ∨ (FInterpConstantTo X0 E dt R - X0) ^ 2 < SMALL_NUMBER := by
  unfold FInterpConstantTo
  simp only
  split_ifs with hs
  · right
    rw [sq]
    exact hs
  · left
    obtain ⟨h1, h2⟩ := Clamp_bounds (E - X0) (-(R * dt)) (R * dt) (by linarith)
    rw [show X0 + Clamp (E - X0) (-(R * dt)) (R * dt) - X0
      = Clamp (E - X0) (-(R * dt)) (R * dt) by ring]
    exact abs_le.mpr ⟨h1, h2⟩

namespace UFirstOrderActuator

/-- A call keeps the parameters of the actuator and stores the returned value
as the actuator state. -/
theorem ApplyActuatorCommand_params (fuel : Nat) (a : UFirstOrderActuator) (cmd dt : ℚ)
    (r : ℚ × UFirstOrderActuator) (h : ApplyActuatorCommand fuel a cmd dt = some r) :
    r.2.RateLimit = a.RateLimit ∧ r.2.LowerSaturation = a.LowerSaturation
      ∧ r.2.UpperSaturation = a.UpperSaturation ∧ r.2.ActuatorState = r.1 := by
  rw [ApplyActuatorCommand_seed] at h
  have hi : (if a.bActuatorInitialised then a else a.InitialiseActuator).bActuatorInitialised
      = true := by
    cases hi : a.bActuatorInitialised <;> simp [InitialiseActuator, hi]
  have hR : (if a.bActuatorInitialised then a else a.InitialiseActuator).RateLimit
      = a.RateLimit := by
    cases a.bActuatorInitialised <;> rfl
  have hL : (if a.bActuatorInitialised then a else a.InitialiseActuator).LowerSaturation
      = a.LowerSaturation := by
    cases a.bActuatorInitialised <;> rfl
  have hU : (if a.bActuatorInitialised then a else a.InitialiseActuator).UpperSaturation
      = a.UpperSaturation := by
    cases a.bActuatorInitialised <;> rfl
  generalize (if a.bActuatorInitialised then a else a.InitialiseActuator) = b at h hi hR hL hU
  rw [← hR, ← hL, ← hU]
  unfold ApplyActuatorCommand at h
  simp only [hi, Bool.not_true, Bool.false_eq_true, if_false] at h
  cases hI : b.integrator.Integrate fuel dt (b.wn * (cmd * b.DCGain - b.integrator.X)) with
  | none => simp [hI] at h
  | some p =>
    obtain ⟨y, i⟩ := p
    simp only [hI, Option.some.injEq] at h
    subst h
    exact ⟨rfl, rfl, rfl, rfl⟩

/-- An initialised actuator with a rate limit and no saturation, given enough
fuel: the call returns the engine interpolation from the integrator state
before the call toward the integrator output. -/
theorem ApplyActuatorCommand_rate_limited (fuel : Nat) (b : UFirstOrderActuator) (cmd dt : ℚ)
    (hi : b.bActuatorInitialised = true) (hR : b.RateLimit ≠ 0) (hL : b.LowerSaturation = 0)
    (hU : b.UpperSaturation = 0) (hD : 0 < b.integrator.DtMin)
    (hf : dt ≤ b.integrator.DtMin ∨ dt ≤ fuel * b.integrator.DtMin) :
    ∃ E i, b.integrator.Integrate fuel dt (b.wn * (cmd * b.DCGain - b.integrator.X))
        = some (E, i)
      ∧ ApplyActuatorCommand fuel b cmd dt
        = some (FInterpConstantTo b.integrator.X E dt b.RateLimit,
            { b with integrator := i,
                     ActuatorState := FInterpConstantTo b.integrator.X E dt b.RateLimit }) := by
  have hI := Integrator.Integrate_closed_form fuel b.integrator dt
    (b.wn * (cmd * b.DCGain - b.integrator.X)) hD hf
  refine ⟨_, _, hI, ?_⟩
  unfold ApplyActuatorCommand
  simp only [hi, Bool.not_true, Bool.false_eq_true, if_false, hI, hR, hL, hU, ne_eq,
    not_true_eq_false, not_false_eq_true, if_true]

/-- C33, as stated, fails: a first-order actuator with `wn = 100`, rate limit
`R = 1` and no saturation, commanded to 1 with `dt = 1/100`, returns `1/100` on
the first call and `51/100` on the second; the two states differ by `1/2`,
fifty times `R*dt = 1/100` (after the first call the integrator state is
`1/2`, and the second call limits the move from there). -/
theorem rate_limit_origin_sample :
    (ApplyActuatorCommand 0 { wn := 100, RateLimit := 1 } 1 (1 / 100)).bind
        (fun r => (ApplyActuatorCommand 0 r.2 1 (1 / 100)).map
          (fun r2 => (r.1, r.2.integrator.X, r2.1)))
      = some (1 / 100, 1 / 2, 51 / 100)
      ∧ ¬ |(51 / 100 : ℚ) - 1 / 100| ≤ 1 * (1 / 100) := by
  constructor <;> decide!

/-- C33 (amended): for a first-order actuator with rate limit `R > 0` and no
saturation, the state returned by a call that follows another call differs by
at most `R*dt` (`dt > 0` the step of the later call), or by less than the snap
distance of the engine interpolation, from the integrator state that the
earlier call left, which is the unrestricted output of the earlier call and
not the state it returned. -/
theorem rate_limit_consecutive (fuel : Nat) (a a1 : UFirstOrderActuator)
    (cmd1 dt1 y1 cmd2 dt2 R : ℚ)
    (h1 : ApplyActuatorCommand fuel a cmd1 dt1 = some (y1, a1))
    (hR : 0 < R) (hRL : a.RateLimit = R) (hL : a.LowerSaturation = 0)
    (hU : a.UpperSaturation = 0) (hdt2 : 0 < dt2) (hD : 0 < a1.integrator.DtMin)
    (hf : dt2 ≤ a1.integrator.DtMin ∨ dt2 ≤ fuel * a1.integrator.DtMin) :
    ∃ y2 a2, ApplyActuatorCommand fuel a1 cmd2 dt2 = some (y2, a2)
      ∧ (|y2 - a1.integrator.X| ≤ R * dt2 ∨ (y2 - a1.integrator.X) ^ 2 < SMALL_NUMBER)
      ∧ a1.ActuatorState = y1 ∧ a2.ActuatorState = y2 := by
  obtain ⟨p1, p2, p3, p4⟩ := ApplyActuatorCommand_params fuel a cmd1 dt1 (y1, a1) h1
  have hi := ApplyActuatorCommand_flag fuel a cmd1 dt1 (y1, a1) h1
  simp only at p1 p2 p3 p4 hi
  have hR1 : a1.RateLimit = R := by rw [p1, hRL]
  obtain ⟨E, i, _, hcall⟩ := ApplyActuatorCommand_rate_limited fuel a1 cmd2 dt2 hi
    (by rw [hR1]; exact hR.ne') (by rw [p2, hL]) (by rw [p3, hU]) hD hf
  refine ⟨_, _, hcall, ?_, p4, rfl⟩
  rw [hR1]
  exact FInterpConstantTo_near _ _ _ _ (mul_pos hR hdt2).le

/-- A sample evaluation of two consecutive calls: `wn = 100`, `R = 1`, command 1
and `dt = 1/100`; after the first call the returned state is `1/100` and the
integrator state `1/2`. -/
theorem rate_limit_consecutive_witness :
    ApplyActuatorCommand 0 { wn := 100, RateLimit := 1 } 1 (1 / 100)
        = some (1 / 100,
            { wn := 100, RateLimit := 1, ActuatorState := 1 / 100, bActuatorInitialised := true,
              integrator := ⟨1 / 2, 100, 1 / 2, 1 / 100⟩ })
      ∧ ∃ y2 a2, ApplyActuatorCommand 0
            { wn := 100, RateLimit := 1, ActuatorState := 1 / 100, bActuatorInitialised := true,
              integrator := ⟨1 / 2, 100, 1 / 2, 1 / 100⟩ } 1 (1 / 100) = some (y2, a2)
          ∧ (|y2 - 1 / 2| ≤ 1 * (1 / 100) ∨ (y2 - 1 / 2) ^ 2 < SMALL_NUMBER) := by
  refine ⟨by decide!, ?_⟩
  obtain ⟨y2, a2, h, hb, _, _⟩ := rate_limit_consecutive 0 { wn := 100, RateLimit := 1 }
    { wn := 100, RateLimit := 1, ActuatorState := 1 / 100, bActuatorInitialised := true,
      integrator := ⟨1 / 2, 100, 1 / 2, 1 / 100⟩ } 1 (1 / 100) (1 / 100) 1 (1 / 100) 1
    (by decide!) (by norm_num) rfl rfl rfl (by norm_num) (by decide!) (Or.inl (by decide!))
  exact ⟨y2, a2, h, hb⟩

end UFirstOrderActuator

/-! ## The aileron update of the fixed-wing pawns -/

namespace UFirstOrderActuator

/-- With enough fuel for the integrator the call returns. -/
theorem ApplyActuatorCommand_returns (fuel : Nat) (a : UFirstOrderActuator) (cmd dt : ℚ)
    (h : a.Seeded.integrator.Enough fuel dt) :
    ∃ r, ApplyActuatorCommand fuel a cmd dt = some r := by
  rw [ApplyActuatorCommand_seed]
  have hi : a.Seeded.bActuatorInitialised = true := by
    unfold Seeded
    cases hi : a.bActuatorInitialised <;> simp [InitialiseActuator, hi]
  change ∃ r, ApplyActuatorCommand fuel a.Seeded cmd dt = some r
  generalize a.Seeded = b at h hi
  have hI := Integrator.Integrate_closed_form fuel b.integrator dt
    (b.wn * (cmd * b.DCGain - b.integrator.X)) h.1 h.2
  unfold ApplyActuatorCommand
  simp only [hi, Bool.not_true, Bool.false_eq_true, if_false, hI]
  exact ⟨_, rfl⟩

end UFirstOrderActuator

namespace USecondOrderActuator

/-- With enough fuel for the two integrators the call returns. -/
theorem ApplyActuatorCommand_returns2 (fuel : Nat) (a : USecondOrderActuator) (cmd dt : ℚ)
    (h1 : a.Seeded.integrator1.Enough fuel dt) (h2 : a.Seeded.integrator2.Enough fuel dt) :
    ∃ r, ApplyActuatorCommand fuel a cmd dt = some r := by
  rw [ApplyActuatorCommand_seed2]
  have hi : a.Seeded.bActuatorInitialised = true := by
    unfold Seeded
    cases hi : a.bActuatorInitialised <;> simp [InitialiseActuator, hi]
  change ∃ r, ApplyActuatorCommand fuel a.Seeded cmd dt = some r
  generalize a.Seeded = b at h1 h2 hi
  have hI1 := Integrator.Integrate_closed_form fuel b.integrator1 dt
    (cmd * b.DCGain * b.wn ^ 2 - b.integrator2.X * b.wn ^ 2 - b.integrator1.X * 2 * b.zeta * b.wn)
    h1.1 h1.2
  have hI2 := fun y => Integrator.Integrate_closed_form fuel b.integrator2 dt y h2.1 h2.2
  unfold ApplyActuatorCommand
  simp only [hi, Bool.not_true, Bool.false_eq_true, if_false, hI1, hI2]
  exact ⟨_, rfl⟩

end USecondOrderActuator

namespace UCtrlSurfaceStaticMeshComponent

/-- A control surface whose actuator, if any, is ready returns from the call. -/
theorem ApplyActuatorCommand_mesh_returns (fuel : Nat) (m : UCtrlSurfaceStaticMeshComponent)
    (Cmd dt : ℚ) (h : m.Ready fuel dt) :
    ∃ m', ApplyActuatorCommand fuel m Cmd dt = some m' := by
  unfold Ready at h
  unfold ApplyActuatorCommand
  rcases hm : m.ActuatorModel with _ | a
  · exact ⟨_, rfl⟩
  · rw [hm] at h
    cases a with
    | FirstOrder a =>
      obtain ⟨r, hr⟩ := UFirstOrderActuator.ApplyActuatorCommand_returns fuel a Cmd dt h
      simp only [UActuatorModel.ApplyActuatorCommand, hr]
      exact ⟨_, rfl⟩
    | SecondOrder a =>
      obtain ⟨r, hr⟩ := USecondOrderActuator.ApplyActuatorCommand_returns2 fuel a Cmd dt h.1 h.2
      simp only [UActuatorModel.ApplyActuatorCommand, hr]
      exact ⟨_, rfl⟩

end UCtrlSurfaceStaticMeshComponent

/-- C37: `AStandardFixedWingPawn::UpdateAileronAngles` and
`AVTailPawn::UpdateAileronAngles` return when the aileron actuators are ready;
the left aileron mesh is the result of applying `0.5*(de - dr)` and the right
one of applying `0.5*(de + dr)`, the stored `ActuatorState.da` is half the
difference of the two motion states, and a run from the same state with any
other roll command `da` ends with the same aileron meshes and the same
actuator state. -/
theorem UpdateAileronAngles_ignores_roll_command (fuel : Nat) (s : AStandardFixedWingPawn)
    (v : AVTailPawn) (dt da : ℚ)
    (hsL : s.LeftAileronMesh.Ready fuel dt) (hsR : s.RightAileronMesh.Ready fuel dt)
    (hvL : v.LeftAileronMesh.Ready fuel dt) (hvR : v.RightAileronMesh.Ready fuel dt) :
    (∃ s1 s2, s.UpdateAileronAngles fuel dt = some s1
      ∧ s.LeftAileronMesh.ApplyActuatorCommand fuel
          (1 / 2 * (s.ActuatorCommandState.de - s.ActuatorCommandState.dr)) dt
        = some s1.LeftAileronMesh
      ∧ s.RightAileronMesh.ApplyActuatorCommand fuel
          (1 / 2 * (s.ActuatorCommandState.de + s.ActuatorCommandState.dr)) dt
        = some s1.RightAileronMesh
      ∧ s1.ActuatorState.da
        = 1 / 2 * (s1.LeftAileronMesh.GetMotionState - s1.RightAileronMesh.GetMotionState)
      ∧ AStandardFixedWingPawn.UpdateAileronAngles fuel
          { s with ActuatorCommandState := { s.ActuatorCommandState with da := da } } dt
        = some s2
      ∧ s2.LeftAileronMesh = s1.LeftAileronMesh ∧ s2.RightAileronMesh = s1.RightAileronMesh
      ∧ s2.ActuatorState = s1.ActuatorState)
    ∧ (∃ v1 v2, v.UpdateAileronAngles fuel dt = some v1
      ∧ v.LeftAileronMesh.ApplyActuatorCommand fuel
          (1 / 2 * (v.ActuatorCommandState.de - v.ActuatorCommandState.dr)) dt
        = some v1.LeftAileronMesh
      ∧ v.RightAileronMesh.ApplyActuatorCommand fuel
          (1 / 2 * (v.ActuatorCommandState.de + v.ActuatorCommandState.dr)) dt
        = some v1.RightAileronMesh
      ∧ v1.ActuatorState.da
        = 1 / 2 * (v1.LeftAileronMesh.GetMotionState - v1.RightAileronMesh.GetMotionState)
      ∧ AVTailPawn.UpdateAileronAngles fuel
          { v with ActuatorCommandState := { v.ActuatorCommandState with da := da } } dt
        = some v2
      ∧ v2.LeftAileronMesh = v1.LeftAileronMesh ∧ v2.RightAileronMesh = v1.RightAileronMesh
      ∧ v2.ActuatorState = v1.ActuatorState) := by
  constructor
  · obtain ⟨L, hL⟩ := UCtrlSurfaceStaticMeshComponent.ApplyActuatorCommand_mesh_returns fuel
      s.LeftAileronMesh (1 / 2 * (s.ActuatorCommandState.de - s.ActuatorCommandState.dr)) dt hsL
    obtain ⟨R, hR⟩ := UCtrlSurfaceStaticMeshComponent.ApplyActuatorCommand_mesh_returns fuel
      s.RightAileronMesh (1 / 2 * (s.ActuatorCommandState.de + s.ActuatorCommandState.dr)) dt hsR
    have h1 : s.UpdateAileronAngles fuel dt
        = some { s with
            LeftAileronMesh := L
            RightAileronMesh := R
            ActuatorState :=
              { s.ActuatorState with da := 1 / 2 * (L.GetMotionState - R.GetMotionState) } } := by
      simp only [AStandardFixedWingPawn.UpdateAileronAngles, hL, hR]
    have h2 : AStandardFixedWingPawn.UpdateAileronAngles fuel
          { s with ActuatorCommandState := { s.ActuatorCommandState with da := da } } dt
        = some { s with
            ActuatorCommandState := { s.ActuatorCommandState with da := da }
            LeftAileronMesh := L
            RightAileronMesh := R
            ActuatorState :=
              { s.ActuatorState with da := 1 / 2 * (L.GetMotionState - R.GetMotionState) } } := by
      simp only [AStandardFixedWingPawn.UpdateAileronAngles, hL, hR]
    exact ⟨_, _, h1, hL, hR, rfl, h2, rfl, rfl, rfl⟩
  · obtain ⟨L, hL⟩ := UCtrlSurfaceStaticMeshComponent.ApplyActuatorCommand_mesh_returns fuel
      v.LeftAileronMesh (1 / 2 * (v.ActuatorCommandState.de - v.ActuatorCommandState.dr)) dt hvL
    obtain ⟨R, hR⟩ := UCtrlSurfaceStaticMeshComponent.ApplyActuatorCommand_mesh_returns fuel
      v.RightAileronMesh (1 / 2 * (v.ActuatorCommandState.de + v.ActuatorCommandState.dr)) dt hvR
    have h1 : v.UpdateAileronAngles fuel dt
        = some { v with
            LeftAileronMesh := L
            RightAileronMesh := R
            ActuatorState :=
              { v.ActuatorState with da := 1 / 2 * (L.GetMotionState - R.GetMotionState) } } := by
      simp only [AVTailPawn.UpdateAileronAngles, hL, hR]
    have h2 : AVTailPawn.UpdateAileronAngles fuel
          { v with ActuatorCommandState := { v.ActuatorCommandState with da := da } } dt
        = some { v with
            ActuatorCommandState := { v.ActuatorCommandState with da := da }
            LeftAileronMesh := L
            RightAileronMesh := R
            ActuatorState :=
              { v.ActuatorState with da := 1 / 2 * (L.GetMotionState - R.GetMotionState) } } := by
      simp only [AVTailPawn.UpdateAileronAngles, hL, hR]
    exact ⟨_, _, h1, hL, hR, rfl, h2, rfl, rfl, rfl⟩

/-- A sample evaluation of the aileron update with step `1/100`: on the sample
standard pawn the left mesh moves to `1/3200`, the right one to `3/16`, and
the stored aileron state is `-599/6400`; on the sample V-tail pawn they are
`1/160`, `3/3200` and `17/6400`; a roll command of 1 changes none of them. -/
theorem UpdateAileronAngles_ignores_roll_command_witness :
    (∃ s1 s2, sampleStandardPawn.UpdateAileronAngles 0 (1 / 100) = some s1
      ∧ s1.ActuatorState.da
        = 1 / 2 * (s1.LeftAileronMesh.GetMotionState - s1.RightAileronMesh.GetMotionState)
      ∧ AStandardFixedWingPawn.UpdateAileronAngles 0
          { sampleStandardPawn with
            ActuatorCommandState := { sampleStandardPawn.ActuatorCommandState with da := 1 } }
          (1 / 100) = some s2
      ∧ s2.LeftAileronMesh = s1.LeftAileronMesh ∧ s2.RightAileronMesh = s1.RightAileronMesh
      ∧ s2.ActuatorState = s1.ActuatorState)
    ∧ (∃ v1 v2, sampleVTailPawn.UpdateAileronAngles 0 (1 / 100) = some v1
      ∧ v1.ActuatorState.da
        = 1 / 2 * (v1.LeftAileronMesh.GetMotionState - v1.RightAileronMesh.GetMotionState)
      ∧ AVTailPawn.UpdateAileronAngles 0
          { sampleVTailPawn with
            ActuatorCommandState := { sampleVTailPawn.ActuatorCommandState with da := 1 } }
          (1 / 100) = some v2
      ∧ v2.LeftAileronMesh = v1.LeftAileronMesh ∧ v2.RightAileronMesh = v1.RightAileronMesh
      ∧ v2.ActuatorState = v1.ActuatorState)
    ∧ (sampleStandardPawn.UpdateAileronAngles 0 (1 / 100)).map
        (fun p => (p.LeftAileronMesh.GetMotionState, p.RightAileronMesh.GetMotionState,
          p.ActuatorState.da)) = some (1 / 3200, 3 / 16, -599 / 6400)
    ∧ (sampleVTailPawn.UpdateAileronAngles 0 (1 / 100)).map
        (fun p => (p.LeftAileronMesh.GetMotionState, p.RightAileronMesh.GetMotionState,
          p.ActuatorState.da)) = some (1 / 160, 3 / 3200, 17 / 6400) := by
  obtain ⟨⟨s1, s2, a1, _, _, a2, a3, a4, a5, a6⟩, ⟨v1, v2, b1, _, _, b2, b3, b4, b5, b6⟩⟩ :=
    UpdateAileronAngles_ignores_roll_command 0 sampleStandardPawn sampleVTailPawn (1 / 100) 1
      (by simp [UCtrlSurfaceStaticMeshComponent.Ready, sampleStandardPawn, UActuatorModel.Ready,
        USecondOrderActuator.Seeded, USecondOrderActuator.InitialiseActuator, Integrator.mk1,
        Integrator.Enough])
      trivial
      (by simp [UCtrlSurfaceStaticMeshComponent.Ready, sampleVTailPawn, UActuatorModel.Ready,
        UFirstOrderActuator.Seeded, UFirstOrderActuator.InitialiseActuator, Integrator.mk1,
        Integrator.Enough])
      (by simp [UCtrlSurfaceStaticMeshComponent.Ready, sampleVTailPawn, UActuatorModel.Ready,
        USecondOrderActuator.Seeded, USecondOrderActuator.InitialiseActuator, Integrator.mk1,
        Integrator.Enough])
  exact ⟨⟨s1, s2, a1, a2, a3, a4, a5, a6⟩, ⟨v1, v2, b1, b2, b3, b4, b5, b6⟩,
    by decide!, by decide!⟩

/-! ## The airframe forces and moments at zero airspeed -/

/-- For an exponential routine in its range, the stall update stores a finite
mixing factor. -/
theorem UpdateAerodynamicStallCalculationParameters_finite (exp : FloatValue → FloatValue)
    (hexp : ∀ x, ExpRange (exp x)) (p : FAerodynamicStallParameters FloatValue)
    (alpha : FloatValue) :
    ∃ s : ℚ, UpdateAerodynamicStallCalculationParameters exp p alpha = .finite s := by
  cases hb : p.bEnableStallModel
  · exact ⟨0, by simp [UpdateAerodynamicStallCalculationParameters, hb]⟩
  · obtain ⟨q, _, _, hq⟩ := stall_quotient_range _ _
      (hexp (p.M.neg.mul (alpha.sub p.Alpha0))) (hexp (p.M.mul (alpha.add p.Alpha0)))
    have hdiv : (StallNumerator exp p.M p.Alpha0 alpha).div
        (StallDenominator exp p.M p.Alpha0 alpha) = .finite q := hq
    exact ⟨q, by simp only [UpdateAerodynamicStallCalculationParameters, hb, if_true, hdiv,
      FloatValue.IsNaN, Bool.false_eq_true, if_false]⟩

namespace AFlyingPawn

/-- At zero airspeed the method of `AFlyingPawn` returns zero forces and
moments, whatever the virtual methods compute. -/
theorem CalculateAirframeForcesAndMoments_of_zero (V : VirtualMethods)
    (RotateVector : ℚ → ℚ → ℚ → FVector → FVector)
    (AerodynamicCoefficients : FAerodynamicCoefficients)
    (GeometricCharacteristics : FGeometricCharacteristics) (Omegab : FVector)
    (AirspeedState : FAirspeedState) (rho : ℚ) (hVa : AirspeedState.Va = 0) :
    CalculateAirframeForcesAndMoments V RotateVector AerodynamicCoefficients
      GeometricCharacteristics Omegab AirspeedState rho = ⟨⟨0, 0, 0⟩, ⟨0, 0, 0⟩⟩ := by
  simp [CalculateAirframeForcesAndMoments, CalculateAirframeAerodynamicForces,
    CalculateAirframeAerodynamicMoments, UpdateAerodynamicCalculationParameters, hVa,
    FVector.smul, FVector.mul]

end AFlyingPawn

/-- C40: when the airspeed `Va` is exactly 0, `UpdateAerodynamicCalculationParameters`
stores dynamic pressure 0 and rate scalings `b/(2Va)`, `c/(2Va)` equal to 0,
and `CalculateAirframeForcesAndMoments` returns the zero force and the zero
moment: for the method of `AFlyingPawn` with any virtual methods, and for the
override of `AFixedWingPawn`, for all stability and control derivatives, body
rates, control deflections, reference areas, angles and stall settings, and
any rotation routine. -/
theorem CalculateAirframeForcesAndMoments_zero_airspeed (V : AFlyingPawn.VirtualMethods)
    (RotateVector : ℚ → ℚ → ℚ → FVector → FVector)
    (exp : FloatValue → FloatValue) (hexp : ∀ x, ExpRange (exp x)) (sin cos : ℚ → ℚ)
    (AerodynamicControlDerivatives : FAerodynamicControlDerivatives)
    (ActuatorState : FFixedWingActuatorState)
    (AerodynamicStallParameters : FAerodynamicStallParameters ℚ)
    (AerodynamicCoefficients : FAerodynamicCoefficients)
    (GeometricCharacteristics : FGeometricCharacteristics) (Omegab : FVector)
    (AirspeedState : FAirspeedState) (rho : ℚ) (hVa : AirspeedState.Va = 0) :
    AFlyingPawn.UpdateAerodynamicCalculationParameters GeometricCharacteristics
        AirspeedState.Va rho = { DynamicPressure := 0, cOver2Va := 0, bOver2Va := 0 }
      ∧ AFlyingPawn.CalculateAirframeForcesAndMoments V RotateVector AerodynamicCoefficients
          GeometricCharacteristics Omegab AirspeedState rho
        = { Forces := ⟨0, 0, 0⟩, Moments := ⟨0, 0, 0⟩ }
      ∧ AFixedWingPawn.CalculateAirframeForcesAndMoments exp sin cos RotateVector
          AerodynamicControlDerivatives ActuatorState AerodynamicStallParameters
          AerodynamicCoefficients GeometricCharacteristics Omegab AirspeedState rho
        = some { Forces := ⟨0, 0, 0⟩, Moments := ⟨0, 0, 0⟩ } := by
  refine ⟨?_, AFlyingPawn.CalculateAirframeForcesAndMoments_of_zero V RotateVector _ _ _ _ _ hVa,
    ?_⟩
  · simp [AFlyingPawn.UpdateAerodynamicCalculationParameters, hVa, IsNearlyZero, SMALL_NUMBER]
  · obtain ⟨s, hs⟩ := UpdateAerodynamicStallCalculationParameters_finite exp hexp
      ⟨AerodynamicStallParameters.bEnableStallModel, .finite AerodynamicStallParameters.Alpha0,
        .finite AerodynamicStallParameters.M, .finite AerodynamicStallParameters.Cmfp⟩
      (.finite AirspeedState.alpha)
    simp only [AFixedWingPawn.CalculateAirframeForcesAndMoments, hs]
    rw [AFlyingPawn.CalculateAirframeForcesAndMoments_of_zero _ _ _ _ _ _ _ hVa]

/-- A sample evaluation at zero airspeed: sample derivatives, body rates
`(1, 2, 3)`, deflections `(1/10, 1/5, 3/10)`, reference areas `(1, 2, 3)`, the
stall model enabled, the stand-in exponential, `sin x = x`, `cos x = 1` and the
identity as rotation. -/
theorem CalculateAirframeForcesAndMoments_zero_airspeed_witness :
    (∀ x, ExpRange (sampleExp x)) ∧ sampleAirspeedStateAtRest.Va = 0
      ∧ AFlyingPawn.CalculateAirframeForcesAndMoments AFlyingPawn.BaseMethods
          (fun _ _ _ v => v) sampleAerodynamicCoefficients ⟨2, 1 / 2, ⟨1, 2, 3⟩⟩ ⟨1, 2, 3⟩
          sampleAirspeedStateAtRest (1225 / 1000)
        = { Forces := ⟨0, 0, 0⟩, Moments := ⟨0, 0, 0⟩ }
      ∧ AFixedWingPawn.CalculateAirframeForcesAndMoments sampleExp (fun x => x) (fun _ => 1)
          (fun _ _ _ v => v) sampleAerodynamicControlDerivatives ⟨1 / 10, 1 / 5, 3 / 10⟩
          ⟨true, 1 / 4, 10, -1 / 2⟩ sampleAerodynamicCoefficients ⟨2, 1 / 2, ⟨1, 2, 3⟩⟩
          ⟨1, 2, 3⟩ sampleAirspeedStateAtRest (1225 / 1000)
        = some { Forces := ⟨0, 0, 0⟩, Moments := ⟨0, 0, 0⟩ } :=
  ⟨sampleExp_range, rfl,
    (CalculateAirframeForcesAndMoments_zero_airspeed AFlyingPawn.BaseMethods (fun _ _ _ v => v)
      sampleExp sampleExp_range (fun x => x) (fun _ => 1) sampleAerodynamicControlDerivatives
      ⟨1 / 10, 1 / 5, 3 / 10⟩ ⟨true, 1 / 4, 10, -1 / 2⟩ sampleAerodynamicCoefficients
      ⟨2, 1 / 2, ⟨1, 2, 3⟩⟩ ⟨1, 2, 3⟩ sampleAirspeedStateAtRest (1225 / 1000) rfl).2⟩

/-! ## Rounded arithmetic: agreement with exact arithmetic, and samples -/

namespace Integrator

/-- With the identity as rounding the rounded step is the exact one. -/
theorem RunRounded_id (s : Integrator) (Dt U : ℚ) : s.RunRounded id Dt U = s.Run Dt U := rfl

/-- With the identity as rounding the rounded loop is the exact one. -/
theorem IntegrateLoopRounded_id (fuel : Nat) (s : Integrator) (Dt U c y : ℚ) :
    IntegrateLoopRounded id fuel s Dt U c y = IntegrateLoop fuel s Dt U c y := by
  induction fuel generalizing s c y with
  | zero => rfl
  | succ k ih =>
    simp only [IntegrateLoopRounded, IntegrateLoop, id, RunRounded_id]
    split_ifs <;> first | rfl | exact ih _ _ _

/-- With the identity as rounding `Integrate` is the exact one. -/
theorem IntegrateRounded_id (fuel : Nat) (s : Integrator) (Dt U : ℚ) :
    s.IntegrateRounded id fuel Dt U = s.Integrate fuel Dt U := by
  simp only [IntegrateRounded, Integrate, IntegrateLoopRounded_id, RunRounded_id]

end Integrator

/-- With the identity as rounding the engine interpolation is the exact one. -/
theorem FInterpConstantToRounded_id (C T dt S : ℚ) :
    FInterpConstantToRounded id C T dt S = FInterpConstantTo C T dt S := rfl

namespace UFirstOrderActuator

/-- With the identity as rounding the call is the exact one. -/
theorem ApplyActuatorCommandRounded_id (fuel : Nat) (a : UFirstOrderActuator) (cmd dt : ℚ) :
    ApplyActuatorCommandRounded id fuel a cmd dt = ApplyActuatorCommand fuel a cmd dt := by
  simp only [ApplyActuatorCommandRounded, ApplyActuatorCommand, InitialiseActuatorRounded,
    InitialiseActuator, Integrator.IntegrateRounded_id, FInterpConstantToRounded_id, id,
    Integrator.mk1, Integrator.mk2]

end UFirstOrderActuator

/-- With the identity as rounding the sum of forces and moments is the exact
one. -/
theorem operatorPlusRounded_id (a b : FForcesAndMoments) :
    a.operatorPlusRounded id b = a.operatorPlus b := rfl

/-- With the identity as rounding the scale lengths are the exact ones. -/
theorem GetTurbulenceScaleLengthsRounded_id (pow : ℚ → ℚ → ℚ) (Altitude : ℚ) :
    GetTurbulenceScaleLengthsRounded id pow Altitude = GetTurbulenceScaleLengths pow Altitude :=
  rfl

/-- With the identity as rounding the along-`J` part is the exact one. -/
theorem InterpolateAlongJRounded_id (row : FConstantSpeedPropellerPhysicsParameters) (J : ℚ) :
    InterpolateAlongJRounded id row J = InterpolateAlongJ row J := by
  simp only [InterpolateAlongJRounded, InterpolateAlongJ, id, IsNearlyZero, decide_eq_true_eq]

/-- Samples of the rounding: `0.01f`, `0.09f`, `0.013f`, and a value with a
24-bit significand, which is kept. -/
theorem RoundFloat_samples :
    RoundFloat (1 / 100) = 5368709 / 536870912
      ∧ RoundFloat (9 / 100) = 3019899 / 33554432
      ∧ RoundFloat (13 / 1000) = 3489661 / 268435456
      ∧ RoundFloat (16777215 / 16777216) = 16777215 / 16777216
      ∧ RoundFloat (100000000 + 1) = 100000000 := by
  refine ⟨?_, ?_, ?_, ?_, ?_⟩ <;> decide!

/-- C8, as stated, fails in `float` arithmetic: in the table with the rows
`(1000 RPM, CT 0.09f, CP 0.04f)` and `(2000 RPM, CT 0.013f, CP 0.05f)` a query
at or above the last breakpoint returns `CT = 0.09f + 1.0f * (0.013f - 0.09f)`,
which is `0.0129999965` (`872415 / 2^26`), not the stored `0.013f`
(`3489661 / 2^28`) that the along-`J` result of the last row holds; in exact
arithmetic the two agree. -/
theorem GetAerodynamicConstants_rounded_blend_sample :
    GetAerodynamicConstantsRounded RoundFloat (tableOf [sampleFloatRow1, sampleFloatRow2]) 3000 0
        = some ⟨872415 / 67108864, 13421773 / 268435456⟩
      ∧ GetAerodynamicConstantsRounded RoundFloat (tableOf [sampleFloatRow1, sampleFloatRow2])
          2000 0 = some ⟨872415 / 67108864, 13421773 / 268435456⟩
      ∧ InterpolateAlongJRounded RoundFloat sampleFloatRow2 0
        = some (3489661 / 268435456, 13421773 / 268435456)
      ∧ (872415 / 67108864 : ℚ) ≠ 3489661 / 268435456
      ∧ GetAerodynamicConstants (tableOf [sampleFloatRow1, sampleFloatRow2]) 3000 0
        = some ⟨3489661 / 268435456, 13421773 / 268435456⟩ := by
  refine ⟨?_, ?_, ?_, ?_, ?_⟩ <;> decide!

/-- C27, as stated, fails in `float` arithmetic: with forces `(1e8, 0, 0)`,
`(-1e8, 0, 0)` and `(1, 0, 0)` the sum `(a + b) + c` has the force `(1, 0, 0)`
and `a + (b + c)` the force `(0, 0, 0)`, because `-1e8f + 1.0f` rounds to
`-1e8f`. -/
theorem operatorPlus_rounded_not_associative :
    (((⟨⟨100000000, 0, 0⟩, ⟨0, 0, 0⟩⟩ : FForcesAndMoments).operatorPlusRounded RoundFloat
          ⟨⟨-100000000, 0, 0⟩, ⟨0, 0, 0⟩⟩).1.operatorPlusRounded RoundFloat
        ⟨⟨1, 0, 0⟩, ⟨0, 0, 0⟩⟩).1 = ⟨⟨1, 0, 0⟩, ⟨0, 0, 0⟩⟩
      ∧ ((⟨⟨100000000, 0, 0⟩, ⟨0, 0, 0⟩⟩ : FForcesAndMoments).operatorPlusRounded RoundFloat
          ((⟨⟨-100000000, 0, 0⟩, ⟨0, 0, 0⟩⟩ : FForcesAndMoments).operatorPlusRounded RoundFloat
            ⟨⟨1, 0, 0⟩, ⟨0, 0, 0⟩⟩).1).1 = ⟨⟨0, 0, 0⟩, ⟨0, 0, 0⟩⟩ := by
  constructor <;> decide!

/-- C29, as stated, fails in `float` arithmetic: at an altitude of 1000 ft (and
above, by the clamp) the base `0.177f + 0.000823f * 1000` rounds to
`1 - 2^-24 = 0.99999994`, the power routine returns a value below 1 (the
`float` nearest to the power is `0.99999994` again; in `double` it is
`0.9999999285`), and the quotient `1000 / 0.99999994` rounds to
`1000 + 2^-14 = 1000.00006`, above the bound 1000. -/
theorem GetTurbulenceScaleLengths_rounded_sample :
    RoundFloat (RoundFloat (177 / 1000) + RoundFloat (RoundFloat (823 / 1000000) * 1000))
        = 16777215 / 16777216
      ∧ samplePowNearOne (16777215 / 16777216) (RoundFloat (12 / 10)) = 16777215 / 16777216
      ∧ (GetTurbulenceScaleLengthsRounded RoundFloat samplePowNearOne 1000).X = 16384001 / 16384
      ∧ (GetTurbulenceScaleLengthsRounded RoundFloat samplePowNearOne 1000).Y = 16384001 / 16384
      ∧ (GetTurbulenceScaleLengthsRounded RoundFloat samplePowNearOne 1000).Z = 1000
      ∧ (GetTurbulenceScaleLengthsRounded RoundFloat samplePowNearOne 5000).X = 16384001 / 16384
      ∧ (GetTurbulenceScaleLengthsRounded RoundFloat (fun _ _ => 9999999285 / 10000000000)
          1000).X = 16384001 / 16384
      ∧ (1000 : ℚ) < 16384001 / 16384 := by
  refine ⟨?_, ?_, ?_, ?_, ?_, ?_, ?_, ?_⟩ <;> decide!

/-! ## Seeding of the actuators: the calls return -/

namespace UFirstOrderActuator

/-- A call on an initialised actuator whose integrator has a positive minimum
step and enough fuel returns; it keeps the flag, the initial state and the
minimum step, and its integrator is the stored one advanced by `Integrate`. -/
theorem ApplyActuatorCommand_advance (fuel : Nat) (b : UFirstOrderActuator) (cmd dt : ℚ)
    (hi : b.bActuatorInitialised = true) (hD : 0 < b.integrator.DtMin)
    (hf : dt ≤ b.integrator.DtMin ∨ dt ≤ fuel * b.integrator.DtMin) :
    ∃ y c, ApplyActuatorCommand fuel b cmd dt = some (y, c)
      ∧ c.bActuatorInitialised = true
      ∧ c.InitialActuatorState = b.InitialActuatorState
      ∧ c.integrator.DtMin = b.integrator.DtMin
      ∧ b.integrator.Integrate fuel dt (b.wn * (cmd * b.DCGain - b.integrator.X))
        = some (c.integrator.X, c.integrator) := by
  have hI := Integrator.Integrate_closed_form fuel b.integrator dt
    (b.wn * (cmd * b.DCGain - b.integrator.X)) hD hf
  obtain ⟨r, hr⟩ : ∃ r, ApplyActuatorCommand fuel b cmd dt = some r := by
    unfold ApplyActuatorCommand
    simp only [hi, Bool.not_true, Bool.false_eq_true, if_false, hI]
    exact ⟨_, rfl⟩
  obtain ⟨hri, hrI, y, hy⟩ := ApplyActuatorCommand_initialised fuel b cmd dt r hi hr
  have e := hI.symm.trans hy
  simp only [Option.some.injEq, Prod.mk.injEq] at e
  obtain ⟨e1, e2⟩ := e
  refine ⟨r.1, r.2, hr, hri, hrI, ?_, ?_⟩
  · rw [← e2]
  · rw [hy, ← e2, ← e1]

/-- Every sequence of calls on an initialised actuator returns, given a
positive minimum step `d` and enough fuel for each step; the flag, the initial
state and the minimum step are kept. -/
theorem ApplySeq_advance (fuel : Nat) (d : ℚ) (hd : 0 < d) :
    ∀ (cmds : List (ℚ × ℚ)) (b : UFirstOrderActuator) (y0 : ℚ),
      b.bActuatorInitialised = true → b.integrator.DtMin = d →
      (∀ c ∈ cmds, c.2 ≤ d ∨ c.2 ≤ fuel * d) →
      ∃ y s, ApplySeq fuel cmds b y0 = some (y, s)
        ∧ s.bActuatorInitialised = true
        ∧ s.InitialActuatorState = b.InitialActuatorState
        ∧ s.integrator.DtMin = d := by
  intro cmds
  induction cmds with
  | nil => exact fun b y0 hi hD _ => ⟨y0, b, rfl, hi, rfl, hD⟩
  | cons c rest ih =>
    intro b y0 hi hD hc
    obtain ⟨cmd, dt⟩ := c
    obtain ⟨y, b', hA, hi', hI', hD', _⟩ := ApplyActuatorCommand_advance fuel b cmd dt hi
      (by rw [hD]; exact hd) (by rw [hD]; exact hc (cmd, dt) (List.mem_cons_self _ _))
    obtain ⟨y', s, hS, hsi, hsI, hsD⟩ := ih b' y hi' (by rw [hD', hD])
      (fun c hcm => hc c (List.mem_cons_of_mem _ hcm))
    refine ⟨y', s, ?_, hsi, by rw [hsI, hI'], hsD⟩
    simp only [ApplySeq, hA]
    exact hS

end UFirstOrderActuator

namespace USecondOrderActuator

/-- A call on an initialised actuator whose integrators have positive minimum
steps and enough fuel returns; it keeps the flag, the initial state and the
minimum steps, and its integrators are the stored ones advanced by
`Integrate`. -/
theorem ApplyActuatorCommand_advance2 (fuel : Nat) (b : USecondOrderActuator) (cmd dt : ℚ)
    (hi : b.bActuatorInitialised = true) (hD1 : 0 < b.integrator1.DtMin)
    (hf1 : dt ≤ b.integrator1.DtMin ∨ dt ≤ fuel * b.integrator1.DtMin)
    (hD2 : 0 < b.integrator2.DtMin)
    (hf2 : dt ≤ b.integrator2.DtMin ∨ dt ≤ fuel * b.integrator2.DtMin) :
    ∃ y c, ApplyActuatorCommand fuel b cmd dt = some (y, c)
      ∧ c.bActuatorInitialised = true
      ∧ c.InitialActuatorState = b.InitialActuatorState
      ∧ c.integrator1.DtMin = b.integrator1.DtMin
      ∧ c.integrator2.DtMin = b.integrator2.DtMin
      ∧ b.integrator1.Integrate fuel dt
          (cmd * b.DCGain * b.wn ^ 2 - b.integrator2.X * b.wn ^ 2
            - b.integrator1.X * 2 * b.zeta * b.wn)
        = some (c.integrator1.X, c.integrator1)
      ∧ b.integrator2.Integrate fuel dt c.integrator1.X
        = some (c.integrator2.X, c.integrator2) := by
  have hI1 := Integrator.Integrate_closed_form fuel b.integrator1 dt
    (cmd * b.DCGain * b.wn ^ 2 - b.integrator2.X * b.wn ^ 2
      - b.integrator1.X * 2 * b.zeta * b.wn) hD1 hf1
  have hI2 := fun y => Integrator.Integrate_closed_form fuel b.integrator2 dt y hD2 hf2
  obtain ⟨r, hr⟩ : ∃ r, ApplyActuatorCommand fuel b cmd dt = some r := by
    unfold ApplyActuatorCommand
    simp only [hi, Bool.not_true, Bool.false_eq_true, if_false, hI1, hI2]
    exact ⟨_, rfl⟩
  obtain ⟨hri, hrI, y1, y2, hy1, hy2⟩ := ApplyActuatorCommand_initialised2 fuel b cmd dt r hi hr
  have e := hI1.symm.trans hy1
  simp only [Option.some.injEq, Prod.mk.injEq] at e
  obtain ⟨e1, e2⟩ := e
  have f := (hI2 y1).symm.trans hy2
  simp only [Option.some.injEq, Prod.mk.injEq] at f
  obtain ⟨f1, f2⟩ := f
  have hX1 : r.2.integrator1.X = y1 := by rw [← e2, ← e1]
  refine ⟨r.1, r.2, hr, hri, hrI, ?_, ?_, ?_, ?_⟩
  · rw [← e2]
  · rw [← f2]
  · rw [hy1, hX1]
  · rw [hX1, hy2, ← f2, ← f1]

/-- Every sequence of calls on an initialised second-order actuator returns,
given a positive minimum step `d` of both integrators and enough fuel for each
step; the flag, the initial state and the minimum steps are kept. -/
theorem ApplySeq_advance2 (fuel : Nat) (d : ℚ) (hd : 0 < d) :
    ∀ (cmds : List (ℚ × ℚ)) (b : USecondOrderActuator) (y0 : ℚ),
      b.bActuatorInitialised = true → b.integrator1.DtMin = d → b.integrator2.DtMin = d →
      (∀ c ∈ cmds, c.2 ≤ d ∨ c.2 ≤ fuel * d) →
      ∃ y s, ApplySeq fuel cmds b y0 = some (y, s)
        ∧ s.bActuatorInitialised = true
        ∧ s.InitialActuatorState = b.InitialActuatorState
        ∧ s.integrator1.DtMin = d ∧ s.integrator2.DtMin = d := by
  intro cmds
  induction cmds with
  | nil => exact fun b y0 hi hD1 hD2 _ => ⟨y0, b, rfl, hi, rfl, hD1, hD2⟩
  | cons c rest ih =>
    intro b y0 hi hD1 hD2 hc
    obtain ⟨cmd, dt⟩ := c
    have hdt := hc (cmd, dt) (List.mem_cons_self _ _)
    obtain ⟨y, b', hA, hi', hI', hD1', hD2', _, _⟩ := ApplyActuatorCommand_advance2 fuel b cmd dt
      hi (by rw [hD1]; exact hd) (by rw [hD1]; exact hdt) (by rw [hD2]; exact hd)
      (by rw [hD2]; exact hdt)
    obtain ⟨y', s, hS, hsi, hsI, hsD1, hsD2⟩ := ih b' y hi' (by rw [hD1', hD1])
      (by rw [hD2', hD2]) (fun c hcm => hc c (List.mem_cons_of_mem _ hcm))
    refine ⟨y', s, ?_, hsi, by rw [hsI, hI'], hsD1, hsD2⟩
    simp only [ApplySeq, hA]
    exact hS

end USecondOrderActuator

/-- C16: an actuator is seeded from `InitialActuatorState` exactly once.  For an
uninitialised first-order actuator `a1` and second-order actuator `a2`, with
fuel for every step (the integrators step by `DtMin = 0.01`): the first call
`ApplyActuatorCommand(cmd, dt)` returns; it is the call on the seeded actuator,
whose output integrator holds `InitialActuatorState` and is advanced from
there; afterwards the flag is true.  From the state `b` it leaves, every
sequence `cmds` of further calls returns, in a state `s` with the flag true and
the same `InitialActuatorState`, and a further call `(cmd2, dt2)` returns with
the flag true and with the integrators of `s` advanced by `Integrate`: nothing
is seeded or reset again. -/
theorem actuator_seeded_once (fuel : Nat) (a1 : UFirstOrderActuator)
    (a2 : USecondOrderActuator) (cmd dt cmd2 dt2 : ℚ) (cmds : List (ℚ × ℚ))
    (h1 : a1.bActuatorInitialised = false) (h2 : a2.bActuatorInitialised = false)
    (hdt : dt ≤ 1 / 100 ∨ dt ≤ fuel * (1 / 100))
    (hcmds : ∀ c ∈ cmds, c.2 ≤ 1 / 100 ∨ c.2 ≤ fuel * (1 / 100))
    (hdt2 : dt2 ≤ 1 / 100 ∨ dt2 ≤ fuel * (1 / 100)) :
    (∃ y b, UFirstOrderActuator.ApplyActuatorCommand fuel a1 cmd dt = some (y, b)
      ∧ UFirstOrderActuator.ApplyActuatorCommand fuel a1 cmd dt
        = UFirstOrderActuator.ApplyActuatorCommand fuel a1.InitialiseActuator cmd dt
      ∧ a1.InitialiseActuator.integrator.X = a1.InitialActuatorState
      ∧ a1.InitialiseActuator.integrator.Integrate fuel dt
          (a1.wn * (cmd * a1.DCGain - a1.InitialActuatorState))
        = some (b.integrator.X, b.integrator)
      ∧ b.bActuatorInitialised = true
      ∧ ∃ y' s, UFirstOrderActuator.ApplySeq fuel cmds b y = some (y', s)
        ∧ s.bActuatorInitialised = true
        ∧ s.InitialActuatorState = a1.InitialActuatorState
        ∧ ∃ y'' t, UFirstOrderActuator.ApplyActuatorCommand fuel s cmd2 dt2 = some (y'', t)
          ∧ t.bActuatorInitialised = true
          ∧ t.InitialActuatorState = a1.InitialActuatorState
          ∧ s.integrator.Integrate fuel dt2 (s.wn * (cmd2 * s.DCGain - s.integrator.X))
            = some (t.integrator.X, t.integrator))
    ∧ (∃ y b, USecondOrderActuator.ApplyActuatorCommand fuel a2 cmd dt = some (y, b)
      ∧ USecondOrderActuator.ApplyActuatorCommand fuel a2 cmd dt
        = USecondOrderActuator.ApplyActuatorCommand fuel a2.InitialiseActuator cmd dt
      ∧ a2.InitialiseActuator.integrator2.X = a2.InitialActuatorState
      ∧ a2.InitialiseActuator.integrator1.X = 0
      ∧ a2.InitialiseActuator.integrator2.Integrate fuel dt b.integrator1.X
        = some (b.integrator2.X, b.integrator2)
      ∧ b.bActuatorInitialised = true
      ∧ ∃ y' s, USecondOrderActuator.ApplySeq fuel cmds b y = some (y', s)
        ∧ s.bActuatorInitialised = true
        ∧ s.InitialActuatorState = a2.InitialActuatorState
        ∧ ∃ y'' t, USecondOrderActuator.ApplyActuatorCommand fuel s cmd2 dt2 = some (y'', t)
          ∧ t.bActuatorInitialised = true
          ∧ t.InitialActuatorState = a2.InitialActuatorState
          ∧ s.integrator1.Integrate fuel dt2
              (cmd2 * s.DCGain * s.wn ^ 2 - s.integrator2.X * s.wn ^ 2
                - s.integrator1.X * 2 * s.zeta * s.wn)
            = some (t.integrator1.X, t.integrator1)
          ∧ s.integrator2.Integrate fuel dt2 t.integrator1.X
            = some (t.integrator2.X, t.integrator2)) := by
  have hd : (0 : ℚ) < 1 / 100 := by norm_num
  constructor
  · have hseed : UFirstOrderActuator.ApplyActuatorCommand fuel a1 cmd dt
        = UFirstOrderActuator.ApplyActuatorCommand fuel a1.InitialiseActuator cmd dt := by
      rw [UFirstOrderActuator.ApplyActuatorCommand_seed, h1]
      rfl
    obtain ⟨y, b, hA, hbi, hbI, hbD, hbInt⟩ :=
      UFirstOrderActuator.ApplyActuatorCommand_advance fuel a1.InitialiseActuator cmd dt rfl
        hd hdt
    obtain ⟨y', s, hS, hsi, hsI, hsD⟩ :=
      UFirstOrderActuator.ApplySeq_advance fuel (1 / 100) hd cmds b y hbi (by rw [hbD]; rfl)
        hcmds
    obtain ⟨y'', t, hT, hti, htI, _, htInt⟩ :=
      UFirstOrderActuator.ApplyActuatorCommand_advance fuel s cmd2 dt2 hsi
        (by rw [hsD]; exact hd) (by rw [hsD]; exact hdt2)
    exact ⟨y, b, by rw [hseed]; exact hA, hseed, rfl, hbInt, hbi, y', s, hS, hsi,
      by rw [hsI, hbI]; rfl, y'', t, hT, hti, by rw [htI, hsI, hbI]; rfl, htInt⟩
  · have hseed : USecondOrderActuator.ApplyActuatorCommand fuel a2 cmd dt
        = USecondOrderActuator.ApplyActuatorCommand fuel a2.InitialiseActuator cmd dt := by
      rw [USecondOrderActuator.ApplyActuatorCommand_seed2, h2]
      rfl
    obtain ⟨y, b, hA, hbi, hbI, hbD1, hbD2, _, hbInt2⟩ :=
      USecondOrderActuator.ApplyActuatorCommand_advance2 fuel a2.InitialiseActuator cmd dt rfl
        hd hdt hd hdt
    obtain ⟨y', s, hS, hsi, hsI, hsD1, hsD2⟩ :=
      USecondOrderActuator.ApplySeq_advance2 fuel (1 / 100) hd cmds b y hbi
        (by rw [hbD1]; rfl) (by rw [hbD2]; rfl) hcmds
    obtain ⟨y'', t, hT, hti, htI, _, _, htInt1, htInt2⟩ :=
      USecondOrderActuator.ApplyActuatorCommand_advance2 fuel s cmd2 dt2 hsi
        (by rw [hsD1]; exact hd) (by rw [hsD1]; exact hdt2) (by rw [hsD2]; exact hd)
        (by rw [hsD2]; exact hdt2)
    exact ⟨y, b, by rw [hseed]; exact hA, hseed, rfl, rfl, hbInt2, hbi, y', s, hS, hsi,
      by rw [hsI, hbI]; rfl, y'', t, hT, hti, by rw [htI, hsI, hbI]; rfl, htInt1, htInt2⟩

/-- A sample evaluation of the seeding: a first-order actuator (`wn = 1`) and a
second-order actuator (`wn = 1`, `zeta = 1`, `DCGain = 1`), both with
`InitialActuatorState = 7`, a first call `(0, 1/100)`, then the calls
`(1, 1/100)` and `(1/2, 1/50)`, then `(1, 1/50)`, with fuel for two sub-steps;
the first call of the first-order actuator returns 7. -/
theorem actuator_seeded_once_witness :
    (∃ y b, UFirstOrderActuator.ApplyActuatorCommand 2 { wn := 1, InitialActuatorState := 7 } 0
          (1 / 100) = some (y, b)
      ∧ b.bActuatorInitialised = true
      ∧ ∃ y' s, UFirstOrderActuator.ApplySeq 2 [(1, 1 / 100), (1 / 2, 1 / 50)] b y = some (y', s)
        ∧ s.bActuatorInitialised = true ∧ s.InitialActuatorState = 7
        ∧ ∃ y'' t, UFirstOrderActuator.ApplyActuatorCommand 2 s 1 (1 / 50) = some (y'', t)
          ∧ t.bActuatorInitialised = true)
    ∧ (∃ y b, USecondOrderActuator.ApplyActuatorCommand 2
          { wn := 1, zeta := 1, DCGain := 1, InitialActuatorState := 7 } 0 (1 / 100) = some (y, b)
      ∧ b.bActuatorInitialised = true
      ∧ ∃ y' s, USecondOrderActuator.ApplySeq 2 [(1, 1 / 100), (1 / 2, 1 / 50)] b y
          = some (y', s)
        ∧ s.bActuatorInitialised = true ∧ s.InitialActuatorState = 7
        ∧ ∃ y'' t, USecondOrderActuator.ApplyActuatorCommand 2 s 1 (1 / 50) = some (y'', t)
          ∧ t.bActuatorInitialised = true)
    ∧ (UFirstOrderActuator.ApplyActuatorCommand 2 { wn := 1, InitialActuatorState := 7 } 0
        (1 / 100)).map Prod.fst = some 7 := by
  obtain ⟨⟨y, b, a1, _, _, _, a2, y', s, a3, a4, a5, y'', t, a6, a7, _⟩,
      ⟨z, c, b1, _, _, _, _, b2, z', u, b3, b4, b5, z'', v, b6, b7, _⟩⟩ :=
    actuator_seeded_once 2 { wn := 1, InitialActuatorState := 7 }
      { wn := 1, zeta := 1, DCGain := 1, InitialActuatorState := 7 } 0 (1 / 100) 1 (1 / 50)
      [(1, 1 / 100), (1 / 2, 1 / 50)] rfl rfl (Or.inl le_rfl)
      (by
        intro c hc
        simp only [List.mem_cons, List.mem_singleton, List.not_mem_nil, or_false] at hc
        rcases hc with rfl | rfl <;> norm_num)
      (Or.inr (by norm_num))
  exact ⟨⟨y, b, a1, a2, y', s, a3, a4, a5, y'', t, a6, a7⟩,
    ⟨z, c, b1, b2, z', u, b3, b4, b5, z'', v, b6, b7⟩, by decide!⟩

/-! ## The sentinel advance ratio and tables that start at or below rest -/

/-- C24, as stated, fails for a table whose lowest rotation-speed breakpoint is
not above the nearly-zero range.  With rows at 0 RPM (both coefficients 0) and
at 1000 RPM (`0.09f`, `0.04f`), a propeller turning at `omega = 2^-25` rad/s in
an airspeed of `(1, 0, 0)` has a nearly-zero `n`, so `J` is the sentinel
`-FLT_MAX`; its speed in RPM lies above the first breakpoint, and the look-up
blends the two rows: the result is not the first stored entry `(0, 0)` of the
lowest row, in exact and in `float` arithmetic.  With rows at -1000 RPM and
1000 RPM a stopped propeller (`omega = 0`) gets the mean `(11/100, 9/200)` of
the two first entries, not the first entry `(1/10, 1/25)` of the lowest
row. -/
theorem sentinel_lookup_blends_sample :
    (PropellerState.UpdatePropellerState Rat.sqrt ⟨1, 1 / 100, 1, 1⟩ { omega := 1 / 33554432 }
        id id ⟨100, 0, 0⟩ 1 ⟨0, 0, 0⟩).J = -FLT_MAX
      ∧ GetAerodynamicConstants (tableOf [sampleRowAtRest, sampleFloatRow1])
          (RadPerSToRPM (1 / 33554432)) (-FLT_MAX)
        = some ⟨55296002197265625 / 2158886032723523006944509952,
            98303997802734375 / 8635544130894092027778039808⟩
      ∧ GetAerodynamicConstantsRounded RoundFloat (tableOf [sampleRowAtRest, sampleFloatRow1])
          (RoundFloat (RadPerSToRPM (1 / 33554432))) (-FLT_MAX)
        = some ⟨7382505 / 288230376151711744, 13124453 / 1152921504606846976⟩
      ∧ (PropellerState.UpdatePropellerState Rat.sqrt ⟨1, 1 / 100, 1, 1⟩ { omega := 0 }
          id id ⟨100, 0, 0⟩ 1 ⟨0, 0, 0⟩).J = -FLT_MAX
      ∧ GetAerodynamicConstants (tableOf [sampleRowReverse, sampleRowForward])
          (RadPerSToRPM 0) (-FLT_MAX) = some ⟨11 / 100, 9 / 200⟩ := by
  refine ⟨?_, ?_, ?_, ?_, ?_⟩ <;> decide!

/-! ## Zero wind with an unset sample time -/

namespace FloatIntegrator

/-- With a non-positive minimum step the sub-step loop makes no progress. -/
theorem IntegrateLoop_nonpos_DtMin_float (Dt : ℚ) (U : FloatValue) (hDt : 0 < Dt) :
    ∀ (fuel : Nat) (s : FloatIntegrator) (c : ℚ) (y : FloatValue), s.DtMin ≤ 0 → c ≤ 0 →
      IntegrateLoop fuel s Dt U c y = none := by
  intro fuel
  induction fuel with
  | zero =>
    intro s c y _ hc
    have : c < Dt := by linarith
    simp [IntegrateLoop, this]
  | succ fuel ih =>
    intro s c y hs hc
    have hlt : c < Dt := by linarith
    have hgt : Dt - c > s.DtMin := by linarith
    simp only [IntegrateLoop, hlt, if_true, hgt]
    exact ih _ _ _ hs (by linarith)

/-- With a non-positive minimum step and a positive `Dt`, `Integrate` does not
return. -/
theorem Integrate_diverges_float (s : FloatIntegrator) (Dt : ℚ) (U : FloatValue)
    (hD : s.DtMin ≤ 0) (hDt : 0 < Dt) : ∀ fuel, Integrate fuel s Dt U = none := by
  intro fuel
  have h : Dt > s.DtMin := by linarith
  simp only [Integrate, h, if_true]
  exact IntegrateLoop_nonpos_DtMin_float Dt U hDt fuel s 0 (.finite 0) hD le_rfl

end FloatIntegrator

/-- C28 fails on the code when a filter has its sample time `Ts` unset (0, the
value of the uninitialised property): `Initialize` builds `Integrator(0.0f, Ts)`
with `DtMin = 0`, the sub-step loop of `Integrate` makes no progress for
`Dt = 0.01 > 0`, and `GetTurbulenceBodyFrame` with wind speed 0 does not return
the zero vector: it does not return, whatever the fuel, the airspeed, the
altitude and the noise samples, for a model with the filter `Hu`, `Hv` or `Hw`
alone. -/
theorem GetTurbulenceBodyFrame_zero_wind_unset_Ts (pow : ℚ → ℚ → ℚ)
    (sqrtf : FloatValue → FloatValue) (fuel : Nat) (Va Altitude : ℚ)
    (drawU drawV drawW : FloatValue) :
    UTurbulenceModelDryden.GetTurbulenceBodyFrame pow sqrtf fuel
        { DrydenHu := some { Ts := 0 } } (1 / 100) Va Altitude 0 drawU drawV drawW = none
      ∧ UTurbulenceModelDryden.GetTurbulenceBodyFrame pow sqrtf fuel
        { DrydenHv := some { Ts := 0 } } (1 / 100) Va Altitude 0 drawU drawV drawW = none
      ∧ UTurbulenceModelDryden.GetTurbulenceBodyFrame pow sqrtf fuel
        { DrydenHw := some { Ts := 0 } } (1 / 100) Va Altitude 0 drawU drawV drawW = none := by
  have hd : ∀ (s : FloatIntegrator) (U : FloatValue), s.DtMin = 0 →
      FloatIntegrator.Integrate fuel s 100⁻¹ U = none :=
    fun s U hs => FloatIntegrator.Integrate_diverges_float s 100⁻¹ U (le_of_eq hs)
      (by norm_num) fuel
  refine ⟨?_, ?_, ?_⟩
  · simp [UTurbulenceModelDryden.GetTurbulenceBodyFrame, UDrydenModelTFHu.GetTurbulence,
      UDrydenModelTFHu.Initialize, UDrydenModelTFHu.Filter, FloatIntegrator.mk2, hd]
  · simp [UTurbulenceModelDryden.GetTurbulenceBodyFrame, UDrydenModelTFHv.GetTurbulence,
      UDrydenModelTFHv.Initialize, UDrydenModelTFHv.Filter, FloatIntegrator.mk2, hd]
  · simp [UTurbulenceModelDryden.GetTurbulenceBodyFrame, UDrydenModelTFHw.GetTurbulence,
      UDrydenModelTFHw.Initialize, UDrydenModelTFHw.Filter, FloatIntegrator.mk2, hd]

/-! ## The step response in rounded arithmetic -/

namespace UFirstOrderActuator

/-- Repeated calls can be split: `m + n` calls are `m` calls followed by `n`
calls. -/
theorem ApplyRepeatedRounded_add (rnd : ℚ → ℚ) (fuel : Nat) (cmd dt : ℚ) (m n : Nat)
    (a : UFirstOrderActuator) (y0 : ℚ) :
    ApplyRepeatedRounded rnd fuel cmd dt (m + n) a y0
      = (ApplyRepeatedRounded rnd fuel cmd dt m a y0).bind
          (fun r => ApplyRepeatedRounded rnd fuel cmd dt n r.2 r.1) := by
  induction m generalizing a y0 with
  | zero => simp [ApplyRepeatedRounded]
  | succ k ih =>
    rw [Nat.succ_add]
    simp only [ApplyRepeatedRounded]
    cases ApplyActuatorCommandRounded rnd fuel a cmd dt with
    | none => rfl
    | some p => exact ih p.2 p.1

/-- Once a call returns its own input state, every further number of calls
does. -/
theorem ApplyRepeatedRounded_fixed (rnd : ℚ → ℚ) (fuel : Nat) (cmd dt y : ℚ)
    (a : UFirstOrderActuator)
    (h : ApplyActuatorCommandRounded rnd fuel a cmd dt = some (y, a)) (n : Nat) :
    ApplyRepeatedRounded rnd fuel cmd dt n a y = some (y, a) := by
  induction n with
  | zero => rfl
  | succ k ih =>
    simp only [ApplyRepeatedRounded, h]
    exact ih

set_option maxHeartbeats 4000000 in
/-- C12, as stated, fails in `float` arithmetic: with `wn = 1`, `DCGain = 1`,
initial state 0, no rate limit or saturation and the step `dt = 0.01f`, the
outputs of `ApplyActuatorCommand(1, dt)` rise to `16777167 / 2^24 = 0.999997079`
at the 1251st call; there the increment `(dt/2) * (U + UPrev)` is below half
a unit in the last place of the state, the call returns its input state, and
every later output is the same value, `49 / 2^24` below 1. -/
theorem step_response_stalls_rounded :
    ApplyRepeatedRounded RoundFloat 0 1 (5368709 / 536870912) 1251 { wn := 1 } 0
        = some (16777167 / 16777216, stallState (16777167 / 16777216) (49 / 16777216))
      ∧ ApplyActuatorCommandRounded RoundFloat 0
          (stallState (16777167 / 16777216) (49 / 16777216)) 1 (5368709 / 536870912)
        = some (16777167 / 16777216, stallState (16777167 / 16777216) (49 / 16777216))
      ∧ (∀ n : Nat,
          (ApplyRepeatedRounded RoundFloat 0 1 (5368709 / 536870912) (1251 + n)
            { wn := 1 } 0).map (fun r => 1 - r.1) = some (49 / 16777216))
      ∧ RoundFloat (1 / 100) = 5368709 / 536870912 := by
  have c1 : ApplyRepeatedRounded RoundFloat 0 1 (5368709 / 536870912) 50
        { wn := 1 } 0
      = some (13201939 / 33554432,
          (stallState (13201939 / 33554432) (2569891 / 4194304))) := by
    decide!
  have c2 : ApplyRepeatedRounded RoundFloat 0 1 (5368709 / 536870912) 50
        (stallState (13201939 / 33554432) (2569891 / 4194304)) (13201939 / 33554432)
      = some (5318145 / 8388608,
          (stallState (5318145 / 8388608) (3101637 / 8388608))) := by
    decide!
  have c3 : ApplyRepeatedRounded RoundFloat 0 1 (5368709 / 536870912) 50
        (stallState (5318145 / 8388608) (3101637 / 8388608)) (5318145 / 8388608)
      = some (1633929 / 2097152,
          (stallState (1633929 / 2097152) (233963 / 1048576))) := by
    decide!
  have c4 : ApplyRepeatedRounded RoundFloat 0 1 (5368709 / 536870912) 50
        (stallState (1633929 / 2097152) (233963 / 1048576)) (1633929 / 2097152)
      = some (1817617 / 2097152,
          (stallState (1817617 / 2097152) (2258985 / 16777216))) := by
    decide!
  have c5 : ApplyRepeatedRounded RoundFloat 0 1 (5368709 / 536870912) 50
        (stallState (1817617 / 2097152) (2258985 / 16777216)) (1817617 / 2097152)
      = some (3856929 / 4194304,
          (stallState (3856929 / 4194304) (1363201 / 16777216))) := by
    decide!
  have c6 : ApplyRepeatedRounded RoundFloat 0 1 (5368709 / 536870912) 50
        (stallState (3856929 / 4194304) (1363201 / 16777216)) (3856929 / 4194304)
      = some (7981425 / 8388608,
          (stallState (7981425 / 8388608) (411317 / 8388608))) := by
    decide!
  have c7 : ApplyRepeatedRounded RoundFloat 0 1 (5368709 / 536870912) 50
        (stallState (7981425 / 8388608) (411317 / 8388608)) (7981425 / 8388608)
      = some (16285781 / 16777216,
          (stallState (16285781 / 16777216) (62053 / 2097152))) := by
    decide!
  have c8 : ApplyRepeatedRounded RoundFloat 0 1 (5368709 / 536870912) 50
        (stallState (16285781 / 16777216) (62053 / 2097152)) (16285781 / 16777216)
      = some (16480655 / 16777216,
          (stallState (16480655 / 16777216) (74893 / 4194304))) := by
    decide!
  have c9 : ApplyRepeatedRounded RoundFloat 0 1 (5368709 / 536870912) 50
        (stallState (16480655 / 16777216) (74893 / 4194304)) (16480655 / 16777216)
      = some (8299127 / 8388608,
          (stallState (8299127 / 8388608) (180779 / 16777216))) := by
    decide!
  have c10 : ApplyRepeatedRounded RoundFloat 0 1 (5368709 / 536870912) 50
        (stallState (8299127 / 8388608) (180779 / 16777216)) (8299127 / 8388608)
      = some (4167305 / 4194304,
          (stallState (4167305 / 4194304) (27273 / 4194304))) := by
    decide!
  have c11 : ApplyRepeatedRounded RoundFloat 0 1 (5368709 / 536870912) 50
        (stallState (4167305 / 4194304) (27273 / 4194304)) (4167305 / 4194304)
      = some (16712045 / 16777216,
          (stallState (16712045 / 16777216) (65833 / 16777216))) := by
    decide!
  have c12 : ApplyRepeatedRounded RoundFloat 0 1 (5368709 / 536870912) 50
        (stallState (16712045 / 16777216) (65833 / 16777216)) (16712045 / 16777216)
      = some (16737889 / 16777216,
          (stallState (16737889 / 16777216) (19863 / 8388608))) := by
    decide!
  have c13 : ApplyRepeatedRounded RoundFloat 0 1 (5368709 / 536870912) 50
        (stallState (16737889 / 16777216) (19863 / 8388608)) (16737889 / 16777216)
      = some (16753483 / 16777216,
          (stallState (16753483 / 16777216) (11987 / 8388608))) := by
    decide!
  have c14 : ApplyRepeatedRounded RoundFloat 0 1 (5368709 / 536870912) 50
        (stallState (16753483 / 16777216) (11987 / 8388608)) (16753483 / 16777216)
      = some (4190723 / 4194304,
          (stallState (4190723 / 4194304) (14469 / 16777216))) := by
    decide!
  have c15 : ApplyRepeatedRounded RoundFloat 0 1 (5368709 / 536870912) 50
        (stallState (4190723 / 4194304) (14469 / 16777216)) (4190723 / 4194304)
      = some (8384285 / 8388608,
          (stallState (8384285 / 8388608) (4367 / 8388608))) := by
    decide!
  have c16 : ApplyRepeatedRounded RoundFloat 0 1 (5368709 / 536870912) 50
        (stallState (8384285 / 8388608) (4367 / 8388608)) (8384285 / 8388608)
      = some (16771999 / 16777216,
          (stallState (16771999 / 16777216) (2635 / 8388608))) := by
    decide!
  have c17 : ApplyRepeatedRounded RoundFloat 0 1 (5368709 / 536870912) 50
        (stallState (16771999 / 16777216) (2635 / 8388608)) (16771999 / 16777216)
      = some (16774067 / 16777216,
          (stallState (16774067 / 16777216) (3181 / 16777216))) := by
    decide!
  have c18 : ApplyRepeatedRounded RoundFloat 0 1 (5368709 / 536870912) 50
        (stallState (16774067 / 16777216) (3181 / 16777216)) (16774067 / 16777216)
      = some (16775315 / 16777216,
          (stallState (16775315 / 16777216) (15 / 131072))) := by
    decide!
  have c19 : ApplyRepeatedRounded RoundFloat 0 1 (5368709 / 536870912) 50
        (stallState (16775315 / 16777216) (15 / 131072)) (16775315 / 16777216)
      = some (16776069 / 16777216,
          (stallState (16776069 / 16777216) (1159 / 16777216))) := by
    decide!
  have c20 : ApplyRepeatedRounded RoundFloat 0 1 (5368709 / 536870912) 50
        (stallState (16776069 / 16777216) (1159 / 16777216)) (16776069 / 16777216)
      = some (4194131 / 4194304,
          (stallState (4194131 / 4194304) (699 / 16777216))) := by
    decide!
  have c21 : ApplyRepeatedRounded RoundFloat 0 1 (5368709 / 536870912) 50
        (stallState (4194131 / 4194304) (699 / 16777216)) (4194131 / 4194304)
      = some (16776797 / 16777216,
          (stallState (16776797 / 16777216) (423 / 16777216))) := by
    decide!
  have c22 : ApplyRepeatedRounded RoundFloat 0 1 (5368709 / 536870912) 50
        (stallState (16776797 / 16777216) (423 / 16777216)) (16776797 / 16777216)
      = some (16776965 / 16777216,
          (stallState (16776965 / 16777216) (127 / 8388608))) := by
    decide!
  have c23 : ApplyRepeatedRounded RoundFloat 0 1 (5368709 / 536870912) 50
        (stallState (16776965 / 16777216) (127 / 8388608)) (16776965 / 16777216)
      = some (8388533 / 8388608,
          (stallState (8388533 / 8388608) (19 / 2097152))) := by
    decide!
  have c24 : ApplyRepeatedRounded RoundFloat 0 1 (5368709 / 536870912) 50
        (stallState (8388533 / 8388608) (19 / 2097152)) (8388533 / 8388608)
      = some (16777117 / 16777216,
          (stallState (16777117 / 16777216) (25 / 4194304))) := by
    decide!
  have c25 : ApplyRepeatedRounded RoundFloat 0 1 (5368709 / 536870912) 50
        (stallState (16777117 / 16777216) (25 / 4194304)) (16777117 / 16777216)
      = some (16777167 / 16777216,
          (stallState (16777167 / 16777216) (25 / 8388608))) := by
    decide!
  have c26 : ApplyRepeatedRounded RoundFloat 0 1 (5368709 / 536870912) 1
        (stallState (16777167 / 16777216) (25 / 8388608)) (16777167 / 16777216)
      = some (16777167 / 16777216,
          (stallState (16777167 / 16777216) (49 / 16777216))) := by
    decide!
  have h2 : ApplyRepeatedRounded RoundFloat 0 1 (5368709 / 536870912) 100 { wn := 1 } 0
      = some (5318145 / 8388608,
          (stallState (5318145 / 8388608) (3101637 / 8388608))) := by
    rw [show (100 : Nat) = 50 + 50 from rfl, ApplyRepeatedRounded_add, c1]
    exact c2
  have h3 : ApplyRepeatedRounded RoundFloat 0 1 (5368709 / 536870912) 150 { wn := 1 } 0
      = some (1633929 / 2097152,
          (stallState (1633929 / 2097152) (233963 / 1048576))) := by
    rw [show (150 : Nat) = 100 + 50 from rfl, ApplyRepeatedRounded_add, h2]
    exact c3
  have h4 : ApplyRepeatedRounded RoundFloat 0 1 (5368709 / 536870912) 200 { wn := 1 } 0
      = some (1817617 / 2097152,
          (stallState (1817617 / 2097152) (2258985 / 16777216))) := by
    rw [show (200 : Nat) = 150 + 50 from rfl, ApplyRepeatedRounded_add, h3]
    exact c4
  have h5 : ApplyRepeatedRounded RoundFloat 0 1 (5368709 / 536870912) 250 { wn := 1 } 0
      = some (3856929 / 4194304,
          (stallState (3856929 / 4194304) (1363201 / 16777216))) := by
    rw [show (250 : Nat) = 200 + 50 from rfl, ApplyRepeatedRounded_add, h4]
    exact c5
  have h6 : ApplyRepeatedRounded RoundFloat 0 1 (5368709 / 536870912) 300 { wn := 1 } 0
      = some (7981425 / 8388608,
          (stallState (7981425 / 8388608) (411317 / 8388608))) := by
    rw [show (300 : Nat) = 250 + 50 from rfl, ApplyRepeatedRounded_add, h5]
    exact c6
  have h7 : ApplyRepeatedRounded RoundFloat 0 1 (5368709 / 536870912) 350 { wn := 1 } 0
      = some (16285781 / 16777216,
          (stallState (16285781 / 16777216) (62053 / 2097152))) := by
    rw [show (350 : Nat) = 300 + 50 from rfl, ApplyRepeatedRounded_add, h6]
    exact c7
  have h8 : ApplyRepeatedRounded RoundFloat 0 1 (5368709 / 536870912) 400 { wn := 1 } 0
      = some (16480655 / 16777216,
          (stallState (16480655 / 16777216) (74893 / 4194304))) := by
    rw [show (400 : Nat) = 350 + 50 from rfl, ApplyRepeatedRounded_add, h7]
    exact c8
  have h9 : ApplyRepeatedRounded RoundFloat 0 1 (5368709 / 536870912) 450 { wn := 1 } 0
      = some (8299127 / 8388608,
          (stallState (8299127 / 8388608) (180779 / 16777216))) := by
    rw [show (450 : Nat) = 400 + 50 from rfl, ApplyRepeatedRounded_add, h8]
    exact c9
  have h10 : ApplyRepeatedRounded RoundFloat 0 1 (5368709 / 536870912) 500 { wn := 1 } 0
      = some (4167305 / 4194304,
          (stallState (4167305 / 4194304) (27273 / 4194304))) := by
    rw [show (500 : Nat) = 450 + 50 from rfl, ApplyRepeatedRounded_add, h9]
    exact c10
  have h11 : ApplyRepeatedRounded RoundFloat 0 1 (5368709 / 536870912) 550 { wn := 1 } 0
      = some (16712045 / 16777216,
          (stallState (16712045 / 16777216) (65833 / 16777216))) := by
    rw [show (550 : Nat) = 500 + 50 from rfl, ApplyRepeatedRounded_add, h10]
    exact c11
  have h12 : ApplyRepeatedRounded RoundFloat 0 1 (5368709 / 536870912) 600 { wn := 1 } 0
      = some (16737889 / 16777216,
          (stallState (16737889 / 16777216) (19863 / 8388608))) := by
    rw [show (600 : Nat) = 550 + 50 from rfl, ApplyRepeatedRounded_add, h11]
    exact c12
  have h13 : ApplyRepeatedRounded RoundFloat 0 1 (5368709 / 536870912) 650 { wn := 1 } 0
      = some (16753483 / 16777216,
          (stallState (16753483 / 16777216) (11987 / 8388608))) := by
    rw [show (650 : Nat) = 600 + 50 from rfl, ApplyRepeatedRounded_add, h12]
    exact c13
  have h14 : ApplyRepeatedRounded RoundFloat 0 1 (5368709 / 536870912) 700 { wn := 1 } 0
      = some (4190723 / 4194304,
          (stallState (4190723 / 4194304) (14469 / 16777216))) := by
    rw [show (700 : Nat) = 650 + 50 from rfl, ApplyRepeatedRounded_add, h13]
    exact c14
  have h15 : ApplyRepeatedRounded RoundFloat 0 1 (5368709 / 536870912) 750 { wn := 1 } 0
      = some (8384285 / 8388608,
          (stallState (8384285 / 8388608) (4367 / 8388608))) := by
    rw [show (750 : Nat) = 700 + 50 from rfl, ApplyRepeatedRounded_add, h14]
    exact c15
  have h16 : ApplyRepeatedRounded RoundFloat 0 1 (5368709 / 536870912) 800 { wn := 1 } 0
      = some (16771999 / 16777216,
          (stallState (16771999 / 16777216) (2635 / 8388608))) := by
    rw [show (800 : Nat) = 750 + 50 from rfl, ApplyRepeatedRounded_add, h15]
    exact c16
  have h17 : ApplyRepeatedRounded RoundFloat 0 1 (5368709 / 536870912) 850 { wn := 1 } 0
      = some (16774067 / 16777216,
          (stallState (16774067 / 16777216) (3181 / 16777216))) := by
    rw [show (850 : Nat) = 800 + 50 from rfl, ApplyRepeatedRounded_add, h16]
    exact c17
  have h18 : ApplyRepeatedRounded RoundFloat 0 1 (5368709 / 536870912) 900 { wn := 1 } 0
      = some (16775315 / 16777216,
          (stallState (16775315 / 16777216) (15 / 131072))) := by
    rw [show (900 : Nat) = 850 + 50 from rfl, ApplyRepeatedRounded_add, h17]
    exact c18
  have h19 : ApplyRepeatedRounded RoundFloat 0 1 (5368709 / 536870912) 950 { wn := 1 } 0
      = some (16776069 / 16777216,
          (stallState (16776069 / 16777216) (1159 / 16777216))) := by
    rw [show (950 : Nat) = 900 + 50 from rfl, ApplyRepeatedRounded_add, h18]
    exact c19
  have h20 : ApplyRepeatedRounded RoundFloat 0 1 (5368709 / 536870912) 1000 { wn := 1 } 0
      = some (4194131 / 4194304,
          (stallState (4194131 / 4194304) (699 / 16777216))) := by
    rw [show (1000 : Nat) = 950 + 50 from rfl, ApplyRepeatedRounded_add, h19]
    exact c20
  have h21 : ApplyRepeatedRounded RoundFloat 0 1 (5368709 / 536870912) 1050 { wn := 1 } 0
      = some (16776797 / 16777216,
          (stallState (16776797 / 16777216) (423 / 16777216))) := by
    rw [show (1050 : Nat) = 1000 + 50 from rfl, ApplyRepeatedRounded_add, h20]
    exact c21
  have h22 : ApplyRepeatedRounded RoundFloat 0 1 (5368709 / 536870912) 1100 { wn := 1 } 0
      = some (16776965 / 16777216,
          (stallState (16776965 / 16777216) (127 / 8388608))) := by
    rw [show (1100 : Nat) = 1050 + 50 from rfl, ApplyRepeatedRounded_add, h21]
    exact c22
  have h23 : ApplyRepeatedRounded RoundFloat 0 1 (5368709 / 536870912) 1150 { wn := 1 } 0
      = some (8388533 / 8388608,
          (stallState (8388533 / 8388608) (19 / 2097152))) := by
    rw [show (1150 : Nat) = 1100 + 50 from rfl, ApplyRepeatedRounded_add, h22]
    exact c23
  have h24 : ApplyRepeatedRounded RoundFloat 0 1 (5368709 / 536870912) 1200 { wn := 1 } 0
      = some (16777117 / 16777216,
          (stallState (16777117 / 16777216) (25 / 4194304))) := by
    rw [show (1200 : Nat) = 1150 + 50 from rfl, ApplyRepeatedRounded_add, h23]
    exact c24
  have h25 : ApplyRepeatedRounded RoundFloat 0 1 (5368709 / 536870912) 1250 { wn := 1 } 0
      = some (16777167 / 16777216,
          (stallState (16777167 / 16777216) (25 / 8388608))) := by
    rw [show (1250 : Nat) = 1200 + 50 from rfl, ApplyRepeatedRounded_add, h24]
    exact c25
  have h26 : ApplyRepeatedRounded RoundFloat 0 1 (5368709 / 536870912) 1251 { wn := 1 } 0
      = some (16777167 / 16777216,
          (stallState (16777167 / 16777216) (49 / 16777216))) := by
    rw [show (1251 : Nat) = 1250 + 1 from rfl, ApplyRepeatedRounded_add, h25]
    exact c26
  have hfix : ApplyActuatorCommandRounded RoundFloat 0
      (stallState (16777167 / 16777216) (49 / 16777216)) 1 (5368709 / 536870912)
      = some (16777167 / 16777216, stallState (16777167 / 16777216) (49 / 16777216)) := by
    decide!
  refine ⟨h26, hfix, ?_, by decide!⟩
  intro n
  rw [ApplyRepeatedRounded_add, h26]
  simp only [Option.some_bind]
  rw [ApplyRepeatedRounded_fixed RoundFloat 0 1 _ _ _ hfix n]
  simp only [Option.map_some']
  norm_num

end UFirstOrderActuator

end SkyPhys
